import Mathlib

/-!
# RV1103B suspend/resume and HPTimer v2: a shallow embedding

Sources embedded here:
* `arch/arm/mach-rockchip/rockchip_hptimer_v2.c`
* `arch/arm/mach-rockchip/rockchip_hptimer.h`
* `arch/arm/mach-rockchip/rv1103b_pm.c`

Memory-mapped I/O is modelled by explicit state passing.  A register address is
a pair of a register block (one of the `static void __iomem *..._base`
variables) and a byte offset.  The hardware is a `Board`: it decides what a
read returns, as a function of the address, of the number of bus accesses made
so far and of the current contents of the register, and what a write leaves in
the register.  Every access is appended to a log, so that statements about
"which registers are written, in which order" are statements about the log.

Machine integers are natural numbers reduced modulo `2^32` or `2^64` at every
place where the C code can wrap.
-/

namespace Rv1103b

/-! ## Register blocks and bus accesses -/

/-- The register blocks of `rv1103b_pm.c` (its `..._base` pointers; the arrays
`gpio_base[3]`, `nstimer_base[6]` and `stimer_base[2]` are spelled out). -/
inductive Block
  | pericru | venccru | npucru | vicru | corecru | ddrcru | cru | pmu0cru | pmu1cru
  | vencgrf | npugrf | vigrf | coregrf | ddrc | ddrgrf | perigrf | pmugrf
  | ioc3 | ioc47 | ioc6 | ioc0 | ioc1
  | gpio0 | gpio1 | gpio2
  | perisgrf | pmusgrf
  | qos_cpu | qos_crypto | qos_dcf | qos_decom | qos_dma2ddr | qos_mac | qos_mcu
  | qos_rga2e_rd | qos_rga2e_wr | qos_rkdma | qos_sdmmc1 | qos_usb | qos_emmc
  | qos_fspi | qos_isp | qos_sdmmc0 | qos_vicap | qos_npu | qos_rkvdec
  | qos_fspi_pmu | qos_lpmcu | qos_spi2ahb
  | gicd | gicc
  | pvtpll_core | pvtpll_isp | pvtpll_vepu | pvtpll_npu
  | hptimer | pmu | i2c0 | uartdbg | pwm0 | lpmcu_mbox | wdt_ns | wdt_s
  | nstimer0 | nstimer1 | nstimer2 | nstimer3 | nstimer4 | nstimer5 | stimer0 | stimer1
  | fw_ddr | syssram | pmusram
  deriving DecidableEq, Repr

/-- A register address: `base + off`. -/
structure Addr where
  base : Block
  off : Nat
  deriving DecidableEq, Repr

/-- One entry of the access log: a register read with the value it returned, a
register write with the value written, or a piece of console output produced
by one of the `rkpm_print*` helpers. -/
inductive Ev
  | rd (a : Addr) (v : Nat)
  | wr (a : Addr) (v : Nat)
  | printstr (s : String)
  | printdec (n : Nat)
  | printhex (n : Nat)
  | printch (c : Char)
  deriving DecidableEq, Repr

/-- The hardware behind the bus.  `rdv a t m` is what a read of `a` returns
when `t` accesses have been made so far and the register holds `m`;
`wrv a m v` is what the register holds after `v` is written over `m`. -/
structure Board where
  rdv : Addr → Nat → Nat → Nat
  wrv : Addr → Nat → Nat → Nat

/-- The machine state threaded through the driver code. -/
structure Hw where
  mem : Addr → Nat
  time : Nat
  log : List Ev

/-- Model of `readl_relaxed(a)`: a 32-bit read. -/
def readl (B : Board) (a : Addr) (s : Hw) : Nat × Hw :=
  let v := B.rdv a s.time (s.mem a) % 2 ^ 32
  (v, { s with time := s.time + 1, log := s.log ++ [Ev.rd a v] })

/-- Model of `writel_relaxed(v, a)`: a 32-bit write. -/
def writel (B : Board) (v : Nat) (a : Addr) (s : Hw) : Hw :=
  { mem := Function.update s.mem a (B.wrv a (s.mem a) (v % 2 ^ 32))
    time := s.time + 1
    log := s.log ++ [Ev.wr a (v % 2 ^ 32)] }

/-- Console output of the `rkpm_print*` helpers, recorded in the log as one event
per call.  The register accesses behind a call, the write of each byte to the
debug UART and the wait for its transmitter, are those of `rkpm_printch`; the
functions whose name ends in `_uart` carry them out. -/
def emit (e : Ev) (s : Hw) : Hw :=
  { s with log := s.log ++ [e] }

/-- The register writes of a log, in order. -/
def writesOf : List Ev → List (Addr × Nat)
  | [] => []
  | Ev.wr a v :: l => (a, v) :: writesOf l
  | _ :: l => writesOf l

/-- The register reads of a log, in order. -/
def readsOf : List Ev → List (Addr × Nat)
  | [] => []
  | Ev.rd a v :: l => (a, v) :: readsOf l
  | _ :: l => readsOf l

/-- Model of `BIT(n)`, that is `1UL << n`. -/
def BIT (n : Nat) : Nat := 1 <<< n

/-- Modelled from the spec: the macro `BITS_WITH_WMASK(bits, msk, shift)` of
`rkpm_helpers.h`, which is not part of the sources at hand.  The value is placed
at `shift` and its field mask at `shift + 16`, in the upper write-enable half. -/
def BITS_WITH_WMASK (bits msk shift : Nat) : Nat :=
  (bits <<< shift) ||| (msk <<< (shift + 16))

/-- Modelled from the spec: the macro `WITH_16BITS_WMSK(bits)` of
`rkpm_helpers.h`, which is not part of the sources at hand.  The value is
combined with all sixteen upper write-enable bits. -/
def WITH_16BITS_WMSK (bits : Nat) : Nat :=
  0xffff0000 ||| bits

/-- The upper-half write-enable convention: bit `i + 16` of the written word
says whether bit `i` of the register is replaced by bit `i` of the written
word.  The upper half of the register itself is not storage and stays as it
is. -/
def hiword_write (old v : Nat) : Nat :=
  let m := (v / 2 ^ 16) % 2 ^ 16
  (old / 2 ^ 16) * 2 ^ 16 + (((old % 2 ^ 16) &&& (0xffff ^^^ m)) ||| ((v % 2 ^ 16) &&& m))

/-! ## `rockchip_hptimer_v2.c` -/

def TIMER_HP_REVISION : Nat := 0x0
def TIMER_HP_CTRL : Nat := 0x4
def TIMER_HP_INT_EN : Nat := 0x8
def TIMER_HP_T24_GCD : Nat := 0xc
def TIMER_HP_T32_GCD : Nat := 0x10
def TIMER_HP_LOAD_COUNT0 : Nat := 0x14
def TIMER_HP_LOAD_COUNT1 : Nat := 0x18
def TIMER_HP_T24_DELAT_COUNT0 : Nat := 0x1c
def TIMER_HP_T24_DELAT_COUNT1 : Nat := 0x20
def TIMER_HP_CURR_32K_VALUE0 : Nat := 0x24
def TIMER_HP_CURR_32K_VALUE1 : Nat := 0x28
def TIMER_HP_CURR_TIMER_VALUE0 : Nat := 0x2c
def TIMER_HP_CURR_TIMER_VALUE1 : Nat := 0x30
def TIMER_HP_T24_32BEGIN0 : Nat := 0x34
def TIMER_HP_T24_32BEGIN1 : Nat := 0x38
def TIMER_HP_T32_24END0 : Nat := 0x3c
def TIMER_HP_T32_24END1 : Nat := 0x40
def TIMER_HP_BEGIN_END_VALID : Nat := 0x44
def TIMER_HP_SYNC_REQ : Nat := 0x48
def TIMER_HP_INTR_STATUS : Nat := 0x4c
def TIMER_HP_LOAD_32K_COUNT0 : Nat := 0x5c
def TIMER_HP_LOAD_32K_COUNT1 : Nat := 0x60

/-- Bit positions of `enum rk_hptimer_ctlr_reg`. -/
def rk_hptimer_ctrl_en : Nat := 0
def rk_hptimer_ctrl_mode : Nat := 1
def rk_hptimer_ctrl_cnt_mode : Nat := 3
def rk_hptimer_attk_cnt_ctlr : Nat := 4
def rk_hptimer_extra_cnt_ctlr : Nat := 5
def rk_hptimer_init_mode : Nat := 6

/-- Bit positions of `enum rk_hptimer_valid_t`. -/
def rk_hptimer_valid_t24_32_begin : Nat := 0
def rk_hptimer_valid_t32_24_end : Nat := 1

/-- Bit positions of `enum rk_hptimer_req_t`. -/
def rk_hptimer_req_sw_sync : Nat := 0
def rk_hptimer_req_hw_sync : Nat := 1

/-- Values of `enum rk_hptimer_mode_t` (`rockchip_hptimer.h`). -/
def RK_HPTIMER_NORM_MODE : Nat := 0
def RK_HPTIMER_HARD_ADJUST_MODE : Nat := 1
def RK_HPTIMER_SOFT_ADJUST_MODE : Nat := 2

/-- Values of `enum rk_hptimer_v2_int_id_t` (`rockchip_hptimer.h`). -/
def RK_HPTIMER_V2_INT_REACH : Nat := 0
def RK_HPTIMER_V2_INT_SYNC : Nat := 2
def RK_HPTIMER_V2_INT_32K_REACH : Nat := 3
def RK_HPTIMER_V2_INT_EXTRA_REACH : Nat := 4

def T24M_GCD : Nat := 0xb71b
def T32K_GCD : Nat := 0x40

def HPTIMER_WAIT_MAX_US : Nat := 1000000

/-- `get_gcd(u32 a, u32 b)`: `while (b != 0) { t = a % b; a = b; b = t; } return a;`. -/
def get_gcd : Nat → Nat → Nat
  | a, 0 => a
  | a, b + 1 => get_gcd (b + 1) (a % (b + 1))
termination_by _ b => b
decreasing_by exact Nat.mod_lt _ (Nat.succ_pos _)

/-- The `u64` pre-decrement `--wait_us`. -/
def dec_u64 (wait_us : Nat) : Nat := (wait_us + 2 ^ 64 - 1) % 2 ^ 64

/-- The number of polls a `u64` budget still allows: a budget of `0` wraps. -/
def pollBudget (wait_us : Nat) : Nat :=
  if wait_us % 2 ^ 64 = 0 then 2 ^ 64 else wait_us % 2 ^ 64

/-- The busy-wait loop shared by the two bounded waits of the file:
`while (pending(readl_relaxed(a)) && --wait_us > 0) rkpm_raw_udelay(1);`
with `u64 wait_us`.  It returns the final value of `wait_us`. -/
def poll_while (B : Board) (a : Addr) (pending : Nat → Bool) (wait_us : Nat) (s : Hw) :
    Nat × Hw :=
  if pending (readl B a s).1 then
    if _h : 0 < dec_u64 wait_us then
      poll_while B a pending (dec_u64 wait_us) (readl B a s).2
    else (dec_u64 wait_us, (readl B a s).2)
  else (wait_us, (readl B a s).2)
termination_by pollBudget wait_us
decreasing_by
  unfold pollBudget dec_u64 at *
  simp only [Nat.reducePow] at *
  split_ifs <;> omega

/-- `rk_hptimer_wait_int_st(base, id, wait_us)`, with the diagnostic of the
timeout recorded as console events; `rk_hptimer_wait_int_st_uart` sends it
through the debug UART. -/
def rk_hptimer_wait_int_st (B : Board) (base : Block) (id : Nat) (wait_us : Nat) (s : Hw) :
    Int × Hw :=
  let r := poll_while B ⟨base, TIMER_HP_INTR_STATUS⟩ (fun v => v &&& BIT id == 0) wait_us s
  if r.1 = 0 then
    let s1 := emit (Ev.printstr "can't wait hptimer int:") r.2
    let s2 := emit (Ev.printdec id) s1
    let s3 := emit (Ev.printch '-') s2
    let v := readl B ⟨base, TIMER_HP_INTR_STATUS⟩ s3
    let s5 := emit (Ev.printhex v.1) v.2
    let s6 := emit (Ev.printch (Char.ofNat 10)) s5
    (-1, s6)
  else (0, r.2)

/-- `rk_hptimer_wait_record_valid(base, wait_us, msk)`, with the diagnostic of
the timeout recorded as console events; `rk_hptimer_wait_record_valid_uart`
sends it through the debug UART. -/
def rk_hptimer_wait_record_valid (B : Board) (base : Block) (wait_us : Nat) (msk : Nat)
    (s : Hw) : Int × Hw :=
  let r := poll_while B ⟨base, TIMER_HP_BEGIN_END_VALID⟩ (fun v => v &&& msk != msk) wait_us s
  if r.1 = 0 then
    let s1 := emit (Ev.printstr "can't wait hptimer begin_end valid:") r.2
    let v := readl B ⟨base, TIMER_HP_BEGIN_END_VALID⟩ s1
    let s3 := emit (Ev.printhex v.1) v.2
    let s4 := emit (Ev.printch (Char.ofNat 10)) s3
    (-1, s4)
  else (0, r.2)

/-- `rk_hptimer_wait_begin_end_valid(base, wait_us)`. -/
def rk_hptimer_wait_begin_end_valid (B : Board) (base : Block) (wait_us : Nat) (s : Hw) :
    Int × Hw :=
  rk_hptimer_wait_record_valid B base wait_us
    (BIT rk_hptimer_valid_t24_32_begin ||| BIT rk_hptimer_valid_t32_24_end) s

/-- The arithmetic of `rk_hptimer_get_soft_adjust_delt_cnt` on the two 64-bit
timestamps: `u64` product and sums, `u32` difference `hf - lf` and `u32` term
`2 * hf + hf / 2`, truncating divisions. -/
def soft_adjust_delta (hf lf begin_ end_ : Nat) : Nat :=
  let delta := (((end_ + 2 ^ 64 - begin_) % 2 ^ 64 + 2) % 2 ^ 64
    * ((hf % 2 ^ 32 + 2 ^ 32 - lf % 2 ^ 32) % 2 ^ 32)) % 2 ^ 64
  let delta := delta / (lf % 2 ^ 32)
  let tmp := ((2 * (hf % 2 ^ 32)) % 2 ^ 32 + (hf % 2 ^ 32) / 2) % 2 ^ 32 / (lf % 2 ^ 32)
  (delta + tmp + 2) % 2 ^ 64

/-- `rk_hptimer_get_soft_adjust_delt_cnt(base, hf, lf)`. -/
def rk_hptimer_get_soft_adjust_delt_cnt (B : Board) (base : Block) (hf lf : Nat) (s : Hw) :
    Nat × Hw :=
  let w := rk_hptimer_wait_begin_end_valid B base HPTIMER_WAIT_MAX_US s
  if w.1 ≠ 0 then (0, w.2)
  else
    let b0 := readl B ⟨base, TIMER_HP_T24_32BEGIN0⟩ w.2
    let b1 := readl B ⟨base, TIMER_HP_T24_32BEGIN1⟩ b0.2
    let e0 := readl B ⟨base, TIMER_HP_T32_24END0⟩ b1.2
    let e1 := readl B ⟨base, TIMER_HP_T32_24END1⟩ e0.2
    let begin_ := b0.1 ||| (b1.1 <<< 32)
    let end_ := e0.1 ||| (e1.1 <<< 32)
    let delta := soft_adjust_delta hf lf begin_ end_
    let s6 := writel B 0x3 ⟨base, TIMER_HP_BEGIN_END_VALID⟩ e1.2
    (delta, s6)

/-- `rk_hptimer_soft_adjust_req(base, delta)`. -/
def rk_hptimer_soft_adjust_req (B : Board) (base : Block) (delta : Nat) (s : Hw) : Hw :=
  if delta = 0 then s
  else
    let s1 := writel B (delta &&& 0xffffffff) ⟨base, TIMER_HP_T24_DELAT_COUNT0⟩ s
    let s2 := writel B ((delta >>> 32) &&& 0xffffffff) ⟨base, TIMER_HP_T24_DELAT_COUNT1⟩ s1
    writel B (BITS_WITH_WMASK 1 0x1 rk_hptimer_req_sw_sync) ⟨base, TIMER_HP_SYNC_REQ⟩ s2

/-- `rk_hptimer_hard_adjust_req(base)`. -/
def rk_hptimer_hard_adjust_req (B : Board) (base : Block) (s : Hw) : Hw :=
  writel B (BITS_WITH_WMASK 1 0x1 rk_hptimer_req_hw_sync) ⟨base, TIMER_HP_SYNC_REQ⟩ s

/-- `rk_hptimer_is_enabled(base)`. -/
def rk_hptimer_is_enabled (B : Board) (base : Block) (s : Hw) : Nat × Hw :=
  let r := readl B ⟨base, TIMER_HP_CTRL⟩ s
  (if r.1 &&& BIT rk_hptimer_ctrl_en ≠ 0 then 1 else 0, r.2)

/-- `rk_hptimer_get_mode(base)`. -/
def rk_hptimer_get_mode (B : Board) (base : Block) (s : Hw) : Nat × Hw :=
  let r := readl B ⟨base, TIMER_HP_CTRL⟩ s
  ((r.1 >>> rk_hptimer_ctrl_mode) &&& 0x3, r.2)

/-- `rk_hptimer_get_count(base)`: one read of the low word and one read of the
high word, in the order in which the source writes the two operands of `|`. -/
def rk_hptimer_get_count (B : Board) (base : Block) (s : Hw) : Nat × Hw :=
  let lo := readl B ⟨base, TIMER_HP_CURR_TIMER_VALUE0⟩ s
  let hi := readl B ⟨base, TIMER_HP_CURR_TIMER_VALUE1⟩ lo.2
  (lo.1 ||| (hi.1 <<< 32), hi.2)

/-- `rk_hptimer_v2_clear_int_st(base, id)`. -/
def rk_hptimer_v2_clear_int_st (B : Board) (base : Block) (id : Nat) (s : Hw) : Hw :=
  writel B (BIT id) ⟨base, TIMER_HP_INTR_STATUS⟩ s

/-- `rk_hptimer_v2_enable_int(base, id)`. -/
def rk_hptimer_v2_enable_int (B : Board) (base : Block) (id : Nat) (s : Hw) : Hw :=
  let int_en := readl B ⟨base, TIMER_HP_INT_EN⟩ s
  writel B (int_en.1 ||| BIT id) ⟨base, TIMER_HP_INT_EN⟩ int_en.2

/-- `rk_hptimer_v2_disable_int(base, id)`; `~BIT(id)` is a 32-bit complement. -/
def rk_hptimer_v2_disable_int (B : Board) (base : Block) (id : Nat) (s : Hw) : Hw :=
  let int_en := readl B ⟨base, TIMER_HP_INT_EN⟩ s
  writel B (int_en.1 &&& (0xffffffff ^^^ (BIT id % 2 ^ 32))) ⟨base, TIMER_HP_INT_EN⟩ int_en.2

/-- `rk_hptimer_v2_wait_sync(base)`. -/
def rk_hptimer_v2_wait_sync (B : Board) (base : Block) (s : Hw) : Int × Hw :=
  let w := rk_hptimer_wait_int_st B base RK_HPTIMER_V2_INT_SYNC HPTIMER_WAIT_MAX_US s
  if w.1 ≠ 0 then (-1, w.2)
  else (0, rk_hptimer_v2_clear_int_st B base RK_HPTIMER_V2_INT_SYNC w.2)

/-- `rk_hptimer_v2_do_soft_adjust(base, hf, lf)`. -/
def rk_hptimer_v2_do_soft_adjust (B : Board) (base : Block) (hf lf : Nat) (s : Hw) : Hw :=
  let d := rk_hptimer_get_soft_adjust_delt_cnt B base hf lf s
  let s1 := rk_hptimer_soft_adjust_req B base d.1 d.2
  (rk_hptimer_v2_wait_sync B base s1).2

/-- `rk_hptimer_v2_do_soft_adjust_no_wait(base, hf, lf)`. -/
def rk_hptimer_v2_do_soft_adjust_no_wait (B : Board) (base : Block) (hf lf : Nat) (s : Hw) :
    Hw :=
  let d := rk_hptimer_get_soft_adjust_delt_cnt B base hf lf s
  rk_hptimer_soft_adjust_req B base d.1 d.2

/-- `rk_hptimer_v2_do_hard_adjust(base)`. -/
def rk_hptimer_v2_do_hard_adjust (B : Board) (base : Block) (s : Hw) : Hw :=
  (rk_hptimer_v2_wait_sync B base (rk_hptimer_hard_adjust_req B base s)).2

/-- `rk_hptimer_v2_do_hard_adjust_no_wait(base)`. -/
def rk_hptimer_v2_do_hard_adjust_no_wait (B : Board) (base : Block) (s : Hw) : Hw :=
  rk_hptimer_hard_adjust_req B base s

/-- The retry loop written out in both `rk_hptimer_v2_config_one_shot_timeout_int`
and `rk_hptimer_v2_config_sleep_timeout_int`:
`do { high = readl(VALUE1); low = readl(VALUE0); temp = readl(VALUE1); } while (high != temp);`
The loop has no bound in the source; `fuel` bounds the number of iterations of
the model, and `none` means that the fuel ran out.  The result is `(high, low)`. -/
def read_count_retry (B : Board) (base : Block) : Nat → Hw → Option ((Nat × Nat) × Hw)
  | 0, _ => none
  | fuel + 1, s =>
    let high := readl B ⟨base, TIMER_HP_CURR_TIMER_VALUE1⟩ s
    let low := readl B ⟨base, TIMER_HP_CURR_TIMER_VALUE0⟩ high.2
    let temp := readl B ⟨base, TIMER_HP_CURR_TIMER_VALUE1⟩ low.2
    if high.1 ≠ temp.1 then read_count_retry B base fuel temp.2
    else some ((high.1, low.1), temp.2)

/-- `rk_hptimer_v2_config_one_shot_timeout_int(base, delta_cnt)`. -/
def rk_hptimer_v2_config_one_shot_timeout_int (B : Board) (base : Block) (fuel : Nat)
    (delta_cnt : Nat) (s : Hw) : Option Hw :=
  match read_count_retry B base fuel s with
  | none => none
  | some (hl, s1) =>
    let cnt := (hl.1 <<< 32) ||| hl.2
    let cnt := (cnt + delta_cnt % 2 ^ 64) % 2 ^ 64
    let s2 := writel B (cnt &&& 0xffffffff) ⟨base, TIMER_HP_LOAD_COUNT0⟩ s1
    let s3 := writel B ((cnt >>> 32) &&& 0xffffffff) ⟨base, TIMER_HP_LOAD_COUNT1⟩ s2
    some (rk_hptimer_v2_enable_int B base RK_HPTIMER_V2_INT_REACH s3)

/-- `rk_hptimer_v2_config_free_timeout_int(base, delta_cnt)` with `u32 delta_cnt`. -/
def rk_hptimer_v2_config_free_timeout_int (B : Board) (base : Block) (delta_cnt : Nat)
    (s : Hw) : Hw :=
  let s1 := writel B (BITS_WITH_WMASK 0 0x1 rk_hptimer_extra_cnt_ctlr) ⟨base, TIMER_HP_CTRL⟩ s
  let s2 := writel B delta_cnt ⟨base, TIMER_HP_LOAD_COUNT0⟩ s1
  let s3 := writel B 0 ⟨base, TIMER_HP_LOAD_COUNT1⟩ s2
  let s4 := rk_hptimer_v2_enable_int B base RK_HPTIMER_V2_INT_EXTRA_REACH s3
  writel B (BITS_WITH_WMASK 1 0x1 rk_hptimer_extra_cnt_ctlr) ⟨base, TIMER_HP_CTRL⟩ s4

/-- `rk_hptimer_v2_config_sleep_timeout_int(base, delta_cnt)`. -/
def rk_hptimer_v2_config_sleep_timeout_int (B : Board) (base : Block) (fuel : Nat)
    (delta_cnt : Nat) (s : Hw) : Option Hw :=
  match read_count_retry B base fuel s with
  | none => none
  | some (hl, s1) =>
    let cnt := (hl.1 <<< 32) ||| hl.2
    let cnt := (cnt + delta_cnt % 2 ^ 64) % 2 ^ 64
    let s2 := writel B (cnt &&& 0xffffffff) ⟨base, TIMER_HP_LOAD_32K_COUNT0⟩ s1
    let s3 := writel B ((cnt >>> 32) &&& 0xffffffff) ⟨base, TIMER_HP_LOAD_32K_COUNT1⟩ s2
    some (rk_hptimer_v2_enable_int B base RK_HPTIMER_V2_INT_32K_REACH s3)

/-- `rk_hptimer_v2_mode_init(base, mode, hf)`. -/
def rk_hptimer_v2_mode_init (B : Board) (base : Block) (mode : Nat) (hf : Nat) (s : Hw) : Hw :=
  let old_cnt := rk_hptimer_get_count B base s
  let s := writel B 0xffff0000 ⟨base, TIMER_HP_CTRL⟩ old_cnt.2
  let s := writel B 0x0 ⟨base, TIMER_HP_INT_EN⟩ s
  let s := writel B 0x7 ⟨base, TIMER_HP_INTR_STATUS⟩ s
  let s := writel B 0x3 ⟨base, TIMER_HP_BEGIN_END_VALID⟩ s
  let s := writel B 0xffffffff ⟨base, TIMER_HP_LOAD_COUNT0⟩ s
  let s := writel B 0xffffffff ⟨base, TIMER_HP_LOAD_COUNT1⟩ s
  let s :=
    if mode = RK_HPTIMER_HARD_ADJUST_MODE then
      let gcd := get_gcd (hf % 2 ^ 32) 32768 % 2 ^ 32
      let s := writel B ((hf % 2 ^ 32) / gcd) ⟨base, TIMER_HP_T24_GCD⟩ s
      writel B (32768 / gcd) ⟨base, TIMER_HP_T32_GCD⟩ s
    else s
  let s := if mode ≠ RK_HPTIMER_NORM_MODE then writel B 0x4 ⟨base, TIMER_HP_INT_EN⟩ s else s
  let s := writel B (BITS_WITH_WMASK mode 0x3 rk_hptimer_ctrl_mode ||| BITS_WITH_WMASK 1 0x1 6)
    ⟨base, TIMER_HP_CTRL⟩ s
  let s := writel B (BITS_WITH_WMASK 1 0x1 rk_hptimer_ctrl_en) ⟨base, TIMER_HP_CTRL⟩ s
  if mode = RK_HPTIMER_HARD_ADJUST_MODE then rk_hptimer_v2_do_hard_adjust B base s
  else if mode = RK_HPTIMER_SOFT_ADJUST_MODE then rk_hptimer_soft_adjust_req B base old_cnt.1 s
  else s

/-! ## `rv1103b_pm.c` -/

/-- Constants that `rv1103b_pm.c` takes from headers which are not part of the
sources at hand (`rv1103b_pm.h`, `dt-bindings/suspend/rockchip-rv1103b.h`):
the `RKPM_SLP_*` mode flags, the PMU register offsets and wake-source bit
numbers, and for each of the eight clock blocks the number of its gate-control
registers and the offset of the `i`-th one.  They are parameters of the
model. -/
structure Defs where
  RKPM_SLP_ARMPD : Nat
  RKPM_SLP_ARMOFF : Nat
  RKPM_SLP_ARMOFF_LOGOFF : Nat
  RKPM_SLP_ARMOFF_PMUOFF : Nat
  RKPM_SLP_PMU_PMUALIVE_32K : Nat
  RV1103B_PMU1_WAKEUP_INT_CON : Nat
  RV1103B_PMU1_WAKEUP_TIMEOUT : Nat
  RV1103B_PMU_WAKEUP_TIMEOUT : Nat
  RV1103B_PMU_WAKEUP_HPTIMER : Nat
  RV1103B_CRU_GATE_CON_NUM : Nat
  RV1103B_PMU0CRU_GATE_CON_NUM : Nat
  RV1103B_PMU1CRU_GATE_CON_NUM : Nat
  RV1103B_PERICRU_GATE_CON_NUM : Nat
  RV1103B_NPUCRU_GATE_CON_NUM : Nat
  RV1103B_VENCCRU_GATE_CON_NUM : Nat
  RV1103B_VICRU_GATE_CON_NUM : Nat
  RV1103B_CORECRU_GATE_CON_NUM : Nat
  RV1103B_CRU_GATE_CON : Nat → Nat
  RV1103B_PMU0CRU_GATE_CON : Nat → Nat
  RV1103B_PMU1CRU_GATE_CON : Nat → Nat
  RV1103B_PERICRU_GATE_CON : Nat → Nat
  RV1103B_NPUCRU_GATE_CON : Nat → Nat
  RV1103B_VENCCRU_GATE_CON : Nat → Nat
  RV1103B_VICRU_GATE_CON : Nat → Nat
  RV1103B_CORECRU_GATE_CON : Nat → Nat

/-- The fields of `struct rk_sleep_config` that `rv1103b_pm.c` uses. -/
structure rk_sleep_config where
  mode_config : Nat
  wakeup_config : Nat
  sleep_debug_en : Nat
  sleep_io_config : List Nat

/-- `struct rv1103b_sleep_ddr_data`; the arrays are functions of the index. -/
structure rv1103b_sleep_ddr_data where
  entered_pmu_fsm : Nat
  cru_gate_con : Nat → Nat
  pmu0cru_gate_con : Nat → Nat
  pmu1cru_gate_con : Nat → Nat
  pericru_gate_con : Nat → Nat
  npucru_gate_con : Nat → Nat
  venccru_gate_con : Nat → Nat
  vicru_gate_con : Nat → Nat
  corecru_gate_con : Nat → Nat
  ddrgrf_con1 : Nat
  ddrgrf_con5 : Nat
  ddrgrf_con8 : Nat
  pmugrf_soc_con0 : Nat
  pmugrf_soc_con4 : Nat
  pmugrf_soc_con5 : Nat
  pmugrf_soc_con6 : Nat
  gpio0a_iomux_l : Nat
  gpio0a_iomux_h : Nat
  gpio0b_iomux_l : Nat
  gpio0b_iomux_h : Nat
  gpio0a_pull : Nat
  gpio0b_pull : Nat
  gpio0_ddr_l : Nat
  gpio0_ddr_h : Nat
  gpio0_dr_l : Nat
  gpio0_dr_h : Nat
  pmu_wkup_int_st : Nat
  gpio0_int_st : Nat

/-- The wake-source bitmap that `suspend_workaround_timeout_wkup` writes back:
`(wkup & ~BIT(RV1103B_PMU_WAKEUP_TIMEOUT)) | BIT(RV1103B_PMU_WAKEUP_HPTIMER)`,
with a 32-bit complement. -/
def wkup_swap (D : Defs) (wkup : Nat) : Nat :=
  (wkup &&& (0xffffffff ^^^ BIT D.RV1103B_PMU_WAKEUP_TIMEOUT))
    ||| BIT D.RV1103B_PMU_WAKEUP_HPTIMER

/-- The `u32 delta_cnt` that `suspend_workaround_timeout_wkup` hands to the
HPTimer: `delta_cnt / 32 * 24000` in 32-bit arithmetic when
`RKPM_SLP_PMU_PMUALIVE_32K` is set in `mode_config`, the count itself
otherwise. -/
def wkup_delta_cnt (D : Defs) (slp_cfg : rk_sleep_config) (delta_cnt : Nat) : Nat :=
  if slp_cfg.mode_config &&& D.RKPM_SLP_PMU_PMUALIVE_32K ≠ 0 then
    (delta_cnt / 32 * 24000) % 2 ^ 32
  else delta_cnt

/-- `suspend_workaround_timeout_wkup()`.  The globals `slp_cfg` and `ddr_data`
are read only; `fuel` bounds the retry loop of the HPTimer call. -/
def suspend_workaround_timeout_wkup (B : Board) (D : Defs) (fuel : Nat)
    (slp_cfg : rk_sleep_config) (ddr_data : rv1103b_sleep_ddr_data) (s : Hw) : Option Hw :=
  if ddr_data.entered_pmu_fsm ≠ 0 then some s
  else
    let wkup := readl B ⟨Block.pmu, D.RV1103B_PMU1_WAKEUP_INT_CON⟩ s
    if wkup.1 &&& BIT D.RV1103B_PMU_WAKEUP_TIMEOUT = 0 then some wkup.2
    else
      let s1 := writel B (wkup_swap D wkup.1) ⟨Block.pmu, D.RV1103B_PMU1_WAKEUP_INT_CON⟩ wkup.2
      let delta_cnt := readl B ⟨Block.pmu, D.RV1103B_PMU1_WAKEUP_TIMEOUT⟩ s1
      rk_hptimer_v2_config_sleep_timeout_int B Block.hptimer fuel
        (wkup_delta_cnt D slp_cfg delta_cnt.1) delta_cnt.2

/-- `resume_workaround_timeout_wkup()`; it returns the new `ddr_data`. -/
def resume_workaround_timeout_wkup (B : Board) (ddr_data : rv1103b_sleep_ddr_data) (s : Hw) :
    rv1103b_sleep_ddr_data × Hw :=
  if ddr_data.entered_pmu_fsm ≠ 0 then (ddr_data, s)
  else
    let ddr_data :=
      if ddr_data.pmu_wkup_int_st ≠ 0 then { ddr_data with entered_pmu_fsm := 1 } else ddr_data
    let s1 := rk_hptimer_v2_disable_int B Block.hptimer RK_HPTIMER_V2_INT_32K_REACH s
    (ddr_data, rk_hptimer_v2_clear_int_st B Block.hptimer RK_HPTIMER_V2_INT_32K_REACH s1)

/-- The state in which `suspend_workaround_timeout_wkup` calls the HPTimer:
after the read of the wake-source bitmap, its write-back and the read of the
timeout count. -/
def afterWkupSwap (B : Board) (D : Defs) (s : Hw) : Hw :=
  (readl B ⟨Block.pmu, D.RV1103B_PMU1_WAKEUP_TIMEOUT⟩
    (writel B (wkup_swap D (readl B ⟨Block.pmu, D.RV1103B_PMU1_WAKEUP_INT_CON⟩ s).1)
      ⟨Block.pmu, D.RV1103B_PMU1_WAKEUP_INT_CON⟩
      (readl B ⟨Block.pmu, D.RV1103B_PMU1_WAKEUP_INT_CON⟩ s).2)).2

/-- The functions that `rv1103b_suspend_enter` calls, as entries of its call
trace. -/
inductive Call
  | rv1103b_dbg_sleep_enter_info
  | local_fiq_disable
  | rv1103b_dbg_irq_prepare
  | rkpm_printch (c : Char)
  | rkpm_printstr (s : String)
  | clock_suspend
  | soc_sleep_config
  | plls_suspend
  | gpio_config
  | vd_core_regs_save
  | vd_log_regs_save
  | pd_pmu1_regs_save
  | hptimer_suspend
  | rkpm_regs_rgn_dump
  | cpu_suspend
  | hptimer_resume
  | pd_pmu1_regs_restore
  | vd_log_regs_restore
  | vd_core_regs_restore
  | gpio_restore
  | plls_resume
  | soc_sleep_restore
  | rk_hptimer_get_mode
  | rk_hptimer_v2_wait_sync
  | clock_resume
  | fiq_glue_resume
  | rv1103b_dbg_irq_finish
  | local_fiq_enable
  deriving DecidableEq, Repr

/-- What `rv1103b_suspend_enter` leaves behind: its return value, the global
`slp_cfg` and the sequence of calls it made. -/
structure SuspendRun where
  ret : Int
  slp_cfg : rk_sleep_config
  calls : List Call

/-- `rv1103b_suspend_enter(state)` as the sequence of calls it makes.  `config`
is what `rockchip_get_cur_sleep_config()` returns (`none` for `NULL`),
`slp_cfg` is the global before the call and `hpmode` is the value that
`rk_hptimer_get_mode(hptimer_base)` returns on the resume path. -/
def rv1103b_suspend_enter (D : Defs) (config : Option rk_sleep_config)
    (slp_cfg : rk_sleep_config) (hpmode : Nat) : SuspendRun :=
  let slp_cfg := match config with
    | some c => c
    | none => slp_cfg
  let mode_cfg := slp_cfg.mode_config
  let t := [Call.rv1103b_dbg_sleep_enter_info, Call.local_fiq_disable,
    Call.rv1103b_dbg_irq_prepare, Call.rkpm_printch '-']
  let t := t ++ [Call.clock_suspend, Call.rkpm_printch '0']
  let t := t ++ [Call.soc_sleep_config, Call.rkpm_printch '1']
  let t := t ++ [Call.plls_suspend, Call.rkpm_printch '2']
  let t := t ++ [Call.gpio_config, Call.rkpm_printch '3']
  let t := t ++ [Call.vd_core_regs_save, Call.rkpm_printch '4']
  let t :=
    if mode_cfg &&& (D.RKPM_SLP_ARMOFF_LOGOFF ||| D.RKPM_SLP_ARMOFF_PMUOFF) ≠ 0 then
      t ++ [Call.vd_log_regs_save]
    else t
  let t := t ++ [Call.rkpm_printch '5']
  let t := if mode_cfg &&& D.RKPM_SLP_ARMOFF_PMUOFF ≠ 0 then t ++ [Call.pd_pmu1_regs_save] else t
  let t := t ++ [Call.rkpm_printch '6']
  let t := t ++ [Call.hptimer_suspend]
  let t := t ++ [Call.rkpm_regs_rgn_dump]
  let t := t ++ [Call.rkpm_printstr "-WFI-"]
  let t := t ++ [Call.cpu_suspend]
  let t := t ++ [Call.hptimer_resume, Call.rkpm_printch '6']
  let t :=
    if mode_cfg &&& D.RKPM_SLP_ARMOFF_PMUOFF ≠ 0 then t ++ [Call.pd_pmu1_regs_restore] else t
  let t := t ++ [Call.rkpm_printch '5']
  let t :=
    if mode_cfg &&& (D.RKPM_SLP_ARMOFF_LOGOFF ||| D.RKPM_SLP_ARMOFF_PMUOFF) ≠ 0 then
      t ++ [Call.vd_log_regs_restore]
    else t
  let t := t ++ [Call.rkpm_printch '4']
  let t := t ++ [Call.vd_core_regs_restore, Call.rkpm_printch '3', Call.rkpm_regs_rgn_dump]
  let t := t ++ [Call.gpio_restore, Call.rkpm_printch '2']
  let t := t ++ [Call.plls_resume, Call.rkpm_printch '1']
  let t := t ++ [Call.soc_sleep_restore, Call.rkpm_printch '0']
  let t := t ++ [Call.rk_hptimer_get_mode]
  let t :=
    if hpmode ≠ RK_HPTIMER_NORM_MODE ∧ slp_cfg.mode_config &&& D.RKPM_SLP_PMU_PMUALIVE_32K ≠ 0
    then t ++ [Call.rk_hptimer_v2_wait_sync]
    else t
  let t := t ++ [Call.clock_resume, Call.rkpm_printch '-']
  let t := t ++ [Call.fiq_glue_resume, Call.rv1103b_dbg_irq_finish, Call.local_fiq_enable,
    Call.rkpm_printstr "exit sleep\n"]
  { ret := 0, slp_cfg := slp_cfg, calls := t }

/-- The suspend and resume phases among the calls of `rv1103b_suspend_enter`. -/
def isPhase : Call → Bool
  | Call.clock_suspend | Call.soc_sleep_config | Call.plls_suspend | Call.gpio_config
  | Call.vd_core_regs_save | Call.vd_log_regs_save | Call.pd_pmu1_regs_save
  | Call.pd_pmu1_regs_restore | Call.vd_log_regs_restore | Call.vd_core_regs_restore
  | Call.gpio_restore | Call.plls_resume | Call.soc_sleep_restore | Call.clock_resume => true
  | _ => false

/-- The restore phase that undoes a suspend phase. -/
def restoreOf : Call → Call
  | Call.clock_suspend => Call.clock_resume
  | Call.soc_sleep_config => Call.soc_sleep_restore
  | Call.plls_suspend => Call.plls_resume
  | Call.gpio_config => Call.gpio_restore
  | Call.vd_core_regs_save => Call.vd_core_regs_restore
  | Call.vd_log_regs_save => Call.vd_log_regs_restore
  | Call.pd_pmu1_regs_save => Call.pd_pmu1_regs_restore
  | c => c

/-- The phases called before the CPU-retirement call `cpu_suspend`. -/
def phasesBeforeWfi (calls : List Call) : List Call :=
  (calls.takeWhile (fun c => c != Call.cpu_suspend)).filter isPhase

/-- The phases called after the CPU-retirement call `cpu_suspend` returned. -/
def phasesAfterWfi (calls : List Call) : List Call :=
  ((calls.dropWhile (fun c => c != Call.cpu_suspend)).drop 1).filter isPhase

/-- An instance of the header constants, used to exercise the statements on
concrete inputs; the values are illustrative. -/
def exampleDefs : Defs :=
  { RKPM_SLP_ARMPD := 0x1
    RKPM_SLP_ARMOFF := 0x2
    RKPM_SLP_ARMOFF_LOGOFF := 0x4
    RKPM_SLP_ARMOFF_PMUOFF := 0x8
    RKPM_SLP_PMU_PMUALIVE_32K := 0x200
    RV1103B_PMU1_WAKEUP_INT_CON := 0x100
    RV1103B_PMU1_WAKEUP_TIMEOUT := 0x104
    RV1103B_PMU_WAKEUP_TIMEOUT := 10
    RV1103B_PMU_WAKEUP_HPTIMER := 7
    RV1103B_CRU_GATE_CON_NUM := 3
    RV1103B_PMU0CRU_GATE_CON_NUM := 1
    RV1103B_PMU1CRU_GATE_CON_NUM := 2
    RV1103B_PERICRU_GATE_CON_NUM := 2
    RV1103B_NPUCRU_GATE_CON_NUM := 1
    RV1103B_VENCCRU_GATE_CON_NUM := 1
    RV1103B_VICRU_GATE_CON_NUM := 1
    RV1103B_CORECRU_GATE_CON_NUM := 1
    RV1103B_CRU_GATE_CON := fun i => 0x800 + 4 * i
    RV1103B_PMU0CRU_GATE_CON := fun i => 0x800 + 4 * i
    RV1103B_PMU1CRU_GATE_CON := fun i => 0x800 + 4 * i
    RV1103B_PERICRU_GATE_CON := fun i => 0x800 + 4 * i
    RV1103B_NPUCRU_GATE_CON := fun i => 0x800 + 4 * i
    RV1103B_VENCCRU_GATE_CON := fun i => 0x800 + 4 * i
    RV1103B_VICRU_GATE_CON := fun i => 0x800 + 4 * i
    RV1103B_CORECRU_GATE_CON := fun i => 0x800 + 4 * i }

/-- A sleep configuration with the given mode flags and nothing else. -/
def exampleCfg (mode_config : Nat) : rk_sleep_config :=
  { mode_config := mode_config, wakeup_config := 0, sleep_debug_en := 0, sleep_io_config := [] }

/-- The `ddr_data` of a fresh boot: every field is 0. -/
def bootDdrData : rv1103b_sleep_ddr_data :=
  { entered_pmu_fsm := 0
    cru_gate_con := fun _ => 0
    pmu0cru_gate_con := fun _ => 0
    pmu1cru_gate_con := fun _ => 0
    pericru_gate_con := fun _ => 0
    npucru_gate_con := fun _ => 0
    venccru_gate_con := fun _ => 0
    vicru_gate_con := fun _ => 0
    corecru_gate_con := fun _ => 0
    ddrgrf_con1 := 0
    ddrgrf_con5 := 0
    ddrgrf_con8 := 0
    pmugrf_soc_con0 := 0
    pmugrf_soc_con4 := 0
    pmugrf_soc_con5 := 0
    pmugrf_soc_con6 := 0
    gpio0a_iomux_l := 0
    gpio0a_iomux_h := 0
    gpio0b_iomux_l := 0
    gpio0b_iomux_h := 0
    gpio0a_pull := 0
    gpio0b_pull := 0
    gpio0_ddr_l := 0
    gpio0_ddr_h := 0
    gpio0_dr_l := 0
    gpio0_dr_h := 0
    pmu_wkup_int_st := 0
    gpio0_int_st := 0 }

/-- The scripted register space of the worked example of the timeout-wakeup
workaround: the wake-source bitmap reads `0x401` (generic timeout, bit 10, and
bit 0) and the timeout count reads 64; every other register reads 0. -/
def wkupScript (off : Nat) : Nat :=
  if off = 0x100 then 0x401
  else if off = 0x104 then 64
  else 0

/-- One loop of `clock_suspend` over the gate-control registers of a block:
`for (i ...) { ddr_data.x_gate_con[i] = readl_relaxed(base + X_GATE_CON(i));
writel_relaxed(0xffff0000, base + X_GATE_CON(i)); }`, the indices given as a
list.  It returns the new array. -/
def gate_con_save (B : Board) (base : Block) (con : Nat → Nat) :
    List Nat → (Nat → Nat) → Hw → (Nat → Nat) × Hw
  | [], arr, s => (arr, s)
  | i :: rest, arr, s =>
    let v := readl B ⟨base, con i⟩ s
    let s1 := writel B 0xffff0000 ⟨base, con i⟩ v.2
    gate_con_save B base con rest (Function.update arr i v.1) s1

/-- One loop of `clock_resume` over the gate-control registers of a block:
`for (i ...) writel_relaxed(WITH_16BITS_WMSK(ddr_data.x_gate_con[i]), base + X_GATE_CON(i));`. -/
def gate_con_restore (B : Board) (base : Block) (con : Nat → Nat) (arr : Nat → Nat) :
    List Nat → Hw → Hw
  | [], s => s
  | i :: rest, s =>
    gate_con_restore B base con arr rest (writel B (WITH_16BITS_WMSK (arr i)) ⟨base, con i⟩ s)

/-- `clock_suspend()`; it returns the new `ddr_data`. -/
def clock_suspend (B : Board) (D : Defs) (ddr_data : rv1103b_sleep_ddr_data) (s : Hw) :
    rv1103b_sleep_ddr_data × Hw :=
  let r := gate_con_save B Block.cru D.RV1103B_CRU_GATE_CON
    (List.range D.RV1103B_CRU_GATE_CON_NUM) ddr_data.cru_gate_con s
  let ddr_data := { ddr_data with cru_gate_con := r.1 }
  let r := gate_con_save B Block.pmu0cru D.RV1103B_PMU0CRU_GATE_CON
    (List.range D.RV1103B_PMU0CRU_GATE_CON_NUM) ddr_data.pmu0cru_gate_con r.2
  let ddr_data := { ddr_data with pmu0cru_gate_con := r.1 }
  let r := gate_con_save B Block.pmu1cru D.RV1103B_PMU1CRU_GATE_CON
    (List.range D.RV1103B_PMU1CRU_GATE_CON_NUM) ddr_data.pmu1cru_gate_con r.2
  let ddr_data := { ddr_data with pmu1cru_gate_con := r.1 }
  let r := gate_con_save B Block.pericru D.RV1103B_PERICRU_GATE_CON
    (List.range D.RV1103B_PERICRU_GATE_CON_NUM) ddr_data.pericru_gate_con r.2
  let ddr_data := { ddr_data with pericru_gate_con := r.1 }
  let r := gate_con_save B Block.npucru D.RV1103B_NPUCRU_GATE_CON
    (List.range D.RV1103B_NPUCRU_GATE_CON_NUM) ddr_data.npucru_gate_con r.2
  let ddr_data := { ddr_data with npucru_gate_con := r.1 }
  let r := gate_con_save B Block.venccru D.RV1103B_VENCCRU_GATE_CON
    (List.range D.RV1103B_VENCCRU_GATE_CON_NUM) ddr_data.venccru_gate_con r.2
  let ddr_data := { ddr_data with venccru_gate_con := r.1 }
  let r := gate_con_save B Block.vicru D.RV1103B_VICRU_GATE_CON
    (List.range D.RV1103B_VICRU_GATE_CON_NUM) ddr_data.vicru_gate_con r.2
  let ddr_data := { ddr_data with vicru_gate_con := r.1 }
  let r := gate_con_save B Block.corecru D.RV1103B_CORECRU_GATE_CON
    (List.range D.RV1103B_CORECRU_GATE_CON_NUM) ddr_data.corecru_gate_con r.2
  let ddr_data := { ddr_data with corecru_gate_con := r.1 }
  (ddr_data, r.2)

/-- `clock_resume()`. -/
def clock_resume (B : Board) (D : Defs) (ddr_data : rv1103b_sleep_ddr_data) (s : Hw) : Hw :=
  let s := gate_con_restore B Block.cru D.RV1103B_CRU_GATE_CON ddr_data.cru_gate_con
    (List.range D.RV1103B_CRU_GATE_CON_NUM) s
  let s := gate_con_restore B Block.pmu0cru D.RV1103B_PMU0CRU_GATE_CON ddr_data.pmu0cru_gate_con
    (List.range D.RV1103B_PMU0CRU_GATE_CON_NUM) s
  let s := gate_con_restore B Block.pmu1cru D.RV1103B_PMU1CRU_GATE_CON ddr_data.pmu1cru_gate_con
    (List.range D.RV1103B_PMU1CRU_GATE_CON_NUM) s
  let s := gate_con_restore B Block.pericru D.RV1103B_PERICRU_GATE_CON ddr_data.pericru_gate_con
    (List.range D.RV1103B_PERICRU_GATE_CON_NUM) s
  let s := gate_con_restore B Block.npucru D.RV1103B_NPUCRU_GATE_CON ddr_data.npucru_gate_con
    (List.range D.RV1103B_NPUCRU_GATE_CON_NUM) s
  let s := gate_con_restore B Block.venccru D.RV1103B_VENCCRU_GATE_CON ddr_data.venccru_gate_con
    (List.range D.RV1103B_VENCCRU_GATE_CON_NUM) s
  let s := gate_con_restore B Block.vicru D.RV1103B_VICRU_GATE_CON ddr_data.vicru_gate_con
    (List.range D.RV1103B_VICRU_GATE_CON_NUM) s
  gate_con_restore B Block.corecru D.RV1103B_CORECRU_GATE_CON ddr_data.corecru_gate_con
    (List.range D.RV1103B_CORECRU_GATE_CON_NUM) s

/-- The eight clock blocks with the number and the offsets of their
gate-control registers, in the order in which `clock_suspend` and
`clock_resume` go through them. -/
def gateBlocks (D : Defs) : List (Block × Nat × (Nat → Nat)) :=
  [(Block.cru, D.RV1103B_CRU_GATE_CON_NUM, D.RV1103B_CRU_GATE_CON),
   (Block.pmu0cru, D.RV1103B_PMU0CRU_GATE_CON_NUM, D.RV1103B_PMU0CRU_GATE_CON),
   (Block.pmu1cru, D.RV1103B_PMU1CRU_GATE_CON_NUM, D.RV1103B_PMU1CRU_GATE_CON),
   (Block.pericru, D.RV1103B_PERICRU_GATE_CON_NUM, D.RV1103B_PERICRU_GATE_CON),
   (Block.npucru, D.RV1103B_NPUCRU_GATE_CON_NUM, D.RV1103B_NPUCRU_GATE_CON),
   (Block.venccru, D.RV1103B_VENCCRU_GATE_CON_NUM, D.RV1103B_VENCCRU_GATE_CON),
   (Block.vicru, D.RV1103B_VICRU_GATE_CON_NUM, D.RV1103B_VICRU_GATE_CON),
   (Block.corecru, D.RV1103B_CORECRU_GATE_CON_NUM, D.RV1103B_CORECRU_GATE_CON)]

/-- The array of `ddr_data` that holds the gate-control words of a clock block. -/
def gateSaved (ddr_data : rv1103b_sleep_ddr_data) : Block → Nat → Nat
  | Block.cru => ddr_data.cru_gate_con
  | Block.pmu0cru => ddr_data.pmu0cru_gate_con
  | Block.pmu1cru => ddr_data.pmu1cru_gate_con
  | Block.pericru => ddr_data.pericru_gate_con
  | Block.npucru => ddr_data.npucru_gate_con
  | Block.venccru => ddr_data.venccru_gate_con
  | Block.vicru => ddr_data.vicru_gate_con
  | Block.corecru => ddr_data.corecru_gate_con
  | _ => fun _ => 0

/-- The accesses of `clock_suspend`, given the `ddr_data` it leaves: for every
gate-control register a read, whose value is the one stored, and then a write
of `0xffff0000`. -/
def clockSuspendLog (D : Defs) (ddr_data : rv1103b_sleep_ddr_data) : List Ev :=
  (gateBlocks D).flatMap (fun g =>
    (List.range g.2.1).flatMap (fun i =>
      [Ev.rd ⟨g.1, g.2.2 i⟩ (gateSaved ddr_data g.1 i), Ev.wr ⟨g.1, g.2.2 i⟩ 0xffff0000]))

/-- The accesses of `clock_resume`: for every gate-control register a write of
the stored word with all sixteen upper write-enable bits set. -/
def clockResumeLog (D : Defs) (ddr_data : rv1103b_sleep_ddr_data) : List Ev :=
  (gateBlocks D).flatMap (fun g =>
    (List.range g.2.1).map (fun i =>
      Ev.wr ⟨g.1, g.2.2 i⟩ ((0xffff0000 ||| gateSaved ddr_data g.1 i) % 2 ^ 32)))

/-- The gate-control registers of the eight clock blocks. -/
def isGateReg (D : Defs) (a : Addr) : Prop :=
  ∃ g, g ∈ gateBlocks D ∧ ∃ i, i < g.2.1 ∧ a = ⟨g.1, g.2.2 i⟩

/-- No two gate-control registers of a block share an offset. -/
def gateOffsetsDistinct (D : Defs) : Prop :=
  ∀ g, g ∈ gateBlocks D → ∀ i j, i < g.2.1 → j < g.2.1 → g.2.2 i = g.2.2 j → i = j

/-- Stores an array of gate-control words in the field of `ddr_data` that
belongs to a clock block. -/
def setGateSaved (ddr_data : rv1103b_sleep_ddr_data) (b : Block) (arr : Nat → Nat) :
    rv1103b_sleep_ddr_data :=
  match b with
  | Block.cru => { ddr_data with cru_gate_con := arr }
  | Block.pmu0cru => { ddr_data with pmu0cru_gate_con := arr }
  | Block.pmu1cru => { ddr_data with pmu1cru_gate_con := arr }
  | Block.pericru => { ddr_data with pericru_gate_con := arr }
  | Block.npucru => { ddr_data with npucru_gate_con := arr }
  | Block.venccru => { ddr_data with venccru_gate_con := arr }
  | Block.vicru => { ddr_data with vicru_gate_con := arr }
  | Block.corecru => { ddr_data with corecru_gate_con := arr }
  | _ => ddr_data

/-- The loops of `clock_suspend`, one per listed clock block. -/
def gate_save_all (B : Board) :
    List (Block × Nat × (Nat → Nat)) → rv1103b_sleep_ddr_data × Hw →
      rv1103b_sleep_ddr_data × Hw
  | [], x => x
  | g :: gs, x =>
    gate_save_all B gs
      (setGateSaved x.1 g.1
          (gate_con_save B g.1 g.2.2 (List.range g.2.1) (gateSaved x.1 g.1) x.2).1,
        (gate_con_save B g.1 g.2.2 (List.range g.2.1) (gateSaved x.1 g.1) x.2).2)

/-- The loops of `clock_resume`, one per listed clock block. -/
def gate_restore_all (B : Board) (ddr_data : rv1103b_sleep_ddr_data) :
    List (Block × Nat × (Nat → Nat)) → Hw → Hw
  | [], s => s
  | g :: gs, s =>
    gate_restore_all B ddr_data gs
      (gate_con_restore B g.1 g.2.2 (gateSaved ddr_data g.1) (List.range g.2.1) s)

/-- The eight clock blocks. -/
def isClockBlock : Block → Bool
  | Block.cru | Block.pmu0cru | Block.pmu1cru | Block.pericru | Block.npucru
  | Block.venccru | Block.vicru | Block.corecru => true
  | _ => false

/-! ## The register region store -/

def WMSK_VAL : Nat := 0xffff0000

/-- Modelled from the spec: `struct reg_region` and the macro
`REG_REGION(start, end, stride, &base, wmsk)` of `rkpm_helpers.h`, which are
not part of the sources at hand.  The fields are those of the specification's
`RegisterRegion`: the register block, the first and the last offset, the
stride and the write-enable mask (0 when there is none). -/
structure reg_region where
  start : Nat
  end_ : Nat
  stride : Nat
  base : Block
  wmsk : Nat
  deriving DecidableEq, Repr

/-- Modelled from the spec: the offsets a region enumerates, `start`,
`start + stride`, ... up to `end`: `(end - start) / stride + 1` of them. -/
def rgn_offsets (r : reg_region) : List Nat :=
  (List.range ((r.end_ - r.start) / r.stride + 1)).map (fun j => r.start + j * r.stride)

/-- Reads the registers of one block at the given offsets, in order. -/
def read_regs (B : Board) (base : Block) : List Nat → Hw → List Nat × Hw
  | [], s => ([], s)
  | off :: rest, s =>
    let v := readl B ⟨base, off⟩ s
    let r := read_regs B base rest v.2
    (v.1 :: r.1, r.2)

/-- Modelled from the spec: what `restore` writes for a captured value: the
value itself, or for a region with a write-enable mask the lower 16 bits of
the value combined with the fixed upper-16-bit enable pattern. -/
def restore_word (wmsk v : Nat) : Nat :=
  if wmsk ≠ 0 then (v &&& 0xffff) ||| WMSK_VAL else v

/-- Writes the captured values back to the registers of one block at the given
offsets, in order, one write per register. -/
def write_regs (B : Board) (base : Block) (wmsk : Nat) : List Nat → List Nat → Hw → Hw
  | off :: rest, v :: vs, s =>
    write_regs B base wmsk rest vs (writel B (restore_word wmsk v) ⟨base, off⟩ s)
  | _, _, s => s

/-- Modelled from the spec: `rkpm_reg_rgn_save(rgns, rgn_num)` of
`rkpm_helpers.c`, which is not part of the sources at hand.  It reads every
register address covered by the regions, in list order, into the snapshot (one
list of captured values per region). -/
def rkpm_reg_rgn_save (B : Board) : List reg_region → Hw → List (List Nat) × Hw
  | [], s => ([], s)
  | r :: rest, s =>
    let v := read_regs B r.base (rgn_offsets r) s
    let t := rkpm_reg_rgn_save B rest v.2
    (v.1 :: t.1, t.2)

/-- Modelled from the spec: `rkpm_reg_rgn_restore(rgns, rgn_num)` of
`rkpm_helpers.c`, which is not part of the sources at hand.  It writes each
captured value back in the same order. -/
def rkpm_reg_rgn_restore (B : Board) : List reg_region → List (List Nat) → Hw → Hw
  | r :: rest, vs :: snap, s =>
    rkpm_reg_rgn_restore B rest snap (write_regs B r.base r.wmsk (rgn_offsets r) vs s)
  | _, _, s => s

/-- The table `vd_core_reg_rgns` of `rv1103b_pm.c`. -/
def vd_core_reg_rgns : List reg_region :=
  [ ⟨0x300, 0x308, 4, Block.corecru, WMSK_VAL⟩,
    ⟨0x800, 0x804, 4, Block.corecru, WMSK_VAL⟩,
    ⟨0xa00, 0xa04, 4, Block.corecru, WMSK_VAL⟩,
    ⟨0xd00, 0xd00, 4, Block.corecru, 0⟩,
    ⟨0xd04, 0xd04, 4, Block.corecru, WMSK_VAL⟩,
    ⟨0x300, 0x308, 4, Block.npucru, WMSK_VAL⟩,
    ⟨0x800, 0x800, 4, Block.npucru, WMSK_VAL⟩,
    ⟨0xa00, 0xa00, 4, Block.npucru, WMSK_VAL⟩,
    ⟨0x000, 0x000, 4, Block.coregrf, WMSK_VAL⟩,
    ⟨0x004, 0x004, 4, Block.coregrf, 0⟩,
    ⟨0x000, 0x000, 4, Block.npugrf, 0⟩,
    ⟨0x08, 0x18, 4, Block.qos_cpu, 0⟩,
    ⟨0x08, 0x18, 4, Block.qos_npu, 0⟩ ]

/-- Modelled from the spec: the macro `REG_REGION(start, end, stride, &base, wmsk)`
of `rkpm_helpers.h`, which is not part of the sources at hand; it fills the
fields of a `struct reg_region` in the order of its arguments. -/
@[reducible] def REG_REGION (start end_ stride : Nat) (base : Block) (wmsk : Nat) : reg_region :=
  { start := start, end_ := end_, stride := stride, base := base, wmsk := wmsk }

/-- The table `vd_log_reg_rgns` of `rv1103b_pm.c`. -/
def vd_log_reg_rgns : List reg_region :=
  [REG_REGION 0x000 0x01c 4 Block.fw_ddr 0,
   REG_REGION 0x040 0x060 4 Block.fw_ddr 0,
   REG_REGION 0x0f0 0x0f0 4 Block.fw_ddr 0,
   REG_REGION 0x040 0x044 4 Block.cru WMSK_VAL,
   REG_REGION 0x048 0x048 4 Block.cru 0,
   REG_REGION 0x04c 0x050 4 Block.cru WMSK_VAL,
   REG_REGION 0x060 0x064 4 Block.cru WMSK_VAL,
   REG_REGION 0x068 0x068 4 Block.cru 0,
   REG_REGION 0x06c 0x070 4 Block.cru WMSK_VAL,
   REG_REGION 0x140 0x1bc 4 Block.cru 0,
   REG_REGION 0x300 0x308 4 Block.cru WMSK_VAL,
   REG_REGION 0x314 0x314 4 Block.cru WMSK_VAL,
   REG_REGION 0x328 0x330 4 Block.cru 0,
   REG_REGION 0x350 0x350 4 Block.cru WMSK_VAL,
   REG_REGION 0x354 0x354 4 Block.cru 0,
   REG_REGION 0x378 0x3a4 4 Block.cru WMSK_VAL,
   REG_REGION 0x800 0x818 4 Block.cru WMSK_VAL,
   REG_REGION 0xa00 0xa00 4 Block.cru WMSK_VAL,
   REG_REGION 0xd00 0xd10 8 Block.cru 0,
   REG_REGION 0xd04 0xd14 8 Block.cru WMSK_VAL,
   REG_REGION 0xd18 0xd20 4 Block.cru WMSK_VAL,
   REG_REGION 0xc00 0xc00 4 Block.cru 0,
   REG_REGION 0xc10 0xc10 4 Block.cru 0,
   REG_REGION 0xcc0 0xcc0 4 Block.cru 0,
   REG_REGION 0x300 0x30c 4 Block.pericru WMSK_VAL,
   REG_REGION 0x800 0x82c 4 Block.pericru WMSK_VAL,
   REG_REGION 0xa00 0xa2c 4 Block.pericru WMSK_VAL,
   REG_REGION 0xc08 0xc08 4 Block.pericru WMSK_VAL,
   REG_REGION 0x000 0x00c 4 Block.perigrf WMSK_VAL,
   REG_REGION 0x020 0x034 4 Block.perigrf WMSK_VAL,
   REG_REGION 0x050 0x05c 4 Block.perigrf WMSK_VAL,
   REG_REGION 0x070 0x078 4 Block.perigrf WMSK_VAL,
   REG_REGION 0x080 0x090 4 Block.perigrf 0,
   REG_REGION 0x0a0 0x0a4 4 Block.perigrf WMSK_VAL,
   REG_REGION 0x0b0 0x0b4 4 Block.perigrf WMSK_VAL,
   REG_REGION 0x100 0x108 4 Block.perigrf WMSK_VAL,
   REG_REGION 0x110 0x11c 4 Block.perigrf 0,
   REG_REGION 0x200 0x210 4 Block.perigrf 0,
   REG_REGION 0x214 0x214 4 Block.perigrf WMSK_VAL,
   REG_REGION 0x008 0x00c 4 Block.perisgrf WMSK_VAL,
   REG_REGION 0x018 0x018 4 Block.perisgrf WMSK_VAL,
   REG_REGION 0x020 0x03c 4 Block.perisgrf WMSK_VAL,
   REG_REGION 0x080 0x080 4 Block.perisgrf 0,
   REG_REGION 0x300 0x300 4 Block.vicru WMSK_VAL,
   REG_REGION 0x800 0x808 4 Block.vicru WMSK_VAL,
   REG_REGION 0xa00 0xa04 4 Block.vicru WMSK_VAL,
   REG_REGION 0xc08 0xc08 4 Block.vicru WMSK_VAL,
   REG_REGION 0x300 0x308 4 Block.venccru WMSK_VAL,
   REG_REGION 0x800 0x800 4 Block.venccru WMSK_VAL,
   REG_REGION 0xa00 0xa00 4 Block.venccru WMSK_VAL,
   REG_REGION 0x000 0x00c 4 Block.gpio1 WMSK_VAL,
   REG_REGION 0x018 0x044 4 Block.gpio1 WMSK_VAL,
   REG_REGION 0x048 0x048 4 Block.gpio1 0,
   REG_REGION 0x060 0x064 4 Block.gpio1 WMSK_VAL,
   REG_REGION 0x100 0x108 4 Block.gpio1 WMSK_VAL,
   REG_REGION 0x000 0x00c 4 Block.gpio2 WMSK_VAL,
   REG_REGION 0x018 0x044 4 Block.gpio2 WMSK_VAL,
   REG_REGION 0x048 0x048 4 Block.gpio2 0,
   REG_REGION 0x060 0x064 4 Block.gpio2 WMSK_VAL,
   REG_REGION 0x100 0x108 4 Block.gpio2 WMSK_VAL,
   REG_REGION 0x020 0x024 4 Block.ioc3 WMSK_VAL,
   REG_REGION 0x140 0x148 4 Block.ioc3 WMSK_VAL,
   REG_REGION 0x210 0x210 4 Block.ioc3 WMSK_VAL,
   REG_REGION 0x310 0x310 4 Block.ioc3 WMSK_VAL,
   REG_REGION 0x410 0x410 4 Block.ioc3 WMSK_VAL,
   REG_REGION 0x510 0x510 4 Block.ioc3 WMSK_VAL,
   REG_REGION 0x610 0x610 4 Block.ioc3 WMSK_VAL,
   REG_REGION 0x710 0x710 4 Block.ioc3 WMSK_VAL,
   REG_REGION 0x800 0x800 4 Block.ioc3 WMSK_VAL,
   REG_REGION 0x024 0x03c 4 Block.ioc47 WMSK_VAL,
   REG_REGION 0x14c 0x160 4 Block.ioc47 WMSK_VAL,
   REG_REGION 0x210 0x218 4 Block.ioc47 WMSK_VAL,
   REG_REGION 0x310 0x318 4 Block.ioc47 WMSK_VAL,
   REG_REGION 0x410 0x418 4 Block.ioc47 WMSK_VAL,
   REG_REGION 0x510 0x518 4 Block.ioc47 WMSK_VAL,
   REG_REGION 0x610 0x618 4 Block.ioc47 WMSK_VAL,
   REG_REGION 0x710 0x718 4 Block.ioc47 WMSK_VAL,
   REG_REGION 0x800 0x808 4 Block.ioc47 WMSK_VAL,
   REG_REGION 0x80c 0x80c 4 Block.ioc47 0,
   REG_REGION 0x810 0x810 4 Block.ioc47 WMSK_VAL,
   REG_REGION 0x040 0x048 4 Block.ioc6 WMSK_VAL,
   REG_REGION 0x180 0x194 4 Block.ioc6 WMSK_VAL,
   REG_REGION 0x220 0x224 4 Block.ioc6 WMSK_VAL,
   REG_REGION 0x320 0x324 4 Block.ioc6 WMSK_VAL,
   REG_REGION 0x420 0x424 4 Block.ioc6 WMSK_VAL,
   REG_REGION 0x520 0x524 4 Block.ioc6 WMSK_VAL,
   REG_REGION 0x620 0x624 4 Block.ioc6 WMSK_VAL,
   REG_REGION 0x720 0x724 4 Block.ioc6 WMSK_VAL,
   REG_REGION 0x800 0x804 4 Block.ioc6 WMSK_VAL,
   REG_REGION 0x80c 0x810 4 Block.ioc6 WMSK_VAL,
   REG_REGION 0x010 0x014 4 Block.gpio1 WMSK_VAL,
   REG_REGION 0x010 0x014 4 Block.gpio2 WMSK_VAL,
   REG_REGION 0x00 0x04 4 Block.nstimer0 0,
   REG_REGION 0x10 0x10 4 Block.nstimer0 0,
   REG_REGION 0x20 0x24 4 Block.nstimer1 0,
   REG_REGION 0x30 0x30 4 Block.nstimer1 0,
   REG_REGION 0x40 0x44 4 Block.nstimer2 0,
   REG_REGION 0x50 0x50 4 Block.nstimer2 0,
   REG_REGION 0x60 0x64 4 Block.nstimer3 0,
   REG_REGION 0x70 0x70 4 Block.nstimer3 0,
   REG_REGION 0x80 0x84 4 Block.nstimer4 0,
   REG_REGION 0x90 0x90 4 Block.nstimer4 0,
   REG_REGION 0xa0 0xa4 4 Block.nstimer5 0,
   REG_REGION 0xb0 0xb0 4 Block.nstimer5 0,
   REG_REGION 0x00 0x04 4 Block.stimer0 0,
   REG_REGION 0x10 0x10 4 Block.stimer0 0,
   REG_REGION 0x20 0x24 4 Block.stimer1 0,
   REG_REGION 0x30 0x30 4 Block.stimer1 0,
   REG_REGION 0x04 0x04 4 Block.wdt_ns 0,
   REG_REGION 0x00 0x00 4 Block.wdt_ns 0,
   REG_REGION 0x04 0x04 4 Block.wdt_s 0,
   REG_REGION 0x00 0x00 4 Block.wdt_s 0,
   REG_REGION 0x08 0x18 4 Block.qos_crypto 0,
   REG_REGION 0x08 0x18 4 Block.qos_dcf 0,
   REG_REGION 0x08 0x18 4 Block.qos_decom 0,
   REG_REGION 0x08 0x18 4 Block.qos_dma2ddr 0,
   REG_REGION 0x08 0x18 4 Block.qos_mac 0,
   REG_REGION 0x08 0x18 4 Block.qos_mcu 0,
   REG_REGION 0x08 0x18 4 Block.qos_rga2e_rd 0,
   REG_REGION 0x08 0x18 4 Block.qos_rga2e_wr 0,
   REG_REGION 0x08 0x18 4 Block.qos_rkdma 0,
   REG_REGION 0x08 0x18 4 Block.qos_sdmmc1 0,
   REG_REGION 0x08 0x18 4 Block.qos_usb 0,
   REG_REGION 0x08 0x18 4 Block.qos_emmc 0,
   REG_REGION 0x08 0x18 4 Block.qos_fspi 0,
   REG_REGION 0x08 0x18 4 Block.qos_isp 0,
   REG_REGION 0x08 0x18 4 Block.qos_sdmmc0 0,
   REG_REGION 0x08 0x18 4 Block.qos_vicap 0,
   REG_REGION 0x08 0x18 4 Block.qos_rkvdec 0 ]

/-- The table `pd_pmu1_reg_rgns` of `rv1103b_pm.c`. -/
def pd_pmu1_reg_rgns : List reg_region :=
  [REG_REGION 0x300 0x300 4 Block.pmu1cru WMSK_VAL,
   REG_REGION 0x800 0x804 4 Block.pmu1cru WMSK_VAL,
   REG_REGION 0xa00 0xa04 4 Block.pmu1cru WMSK_VAL,
   REG_REGION 0xc08 0xc08 4 Block.pmu1cru WMSK_VAL,
   REG_REGION 0x008 0x00c 4 Block.ioc1 WMSK_VAL,
   REG_REGION 0x110 0x118 4 Block.ioc1 WMSK_VAL,
   REG_REGION 0x204 0x204 4 Block.ioc1 WMSK_VAL,
   REG_REGION 0x304 0x304 4 Block.ioc1 WMSK_VAL,
   REG_REGION 0x404 0x404 4 Block.ioc1 WMSK_VAL,
   REG_REGION 0x504 0x504 4 Block.ioc1 WMSK_VAL,
   REG_REGION 0x604 0x604 4 Block.ioc1 WMSK_VAL,
   REG_REGION 0x704 0x704 4 Block.ioc1 WMSK_VAL,
   REG_REGION 0x800 0x804 4 Block.ioc1 WMSK_VAL,
   REG_REGION 0x808 0x808 4 Block.ioc1 0,
   REG_REGION 0x08 0x18 4 Block.qos_fspi_pmu 0,
   REG_REGION 0x08 0x18 4 Block.qos_lpmcu 0,
   REG_REGION 0x08 0x18 4 Block.qos_spi2ahb 0 ]

/-- The table `pvtpll_core_reg_rgns` of `rv1103b_pm.c`. -/
def pvtpll_core_reg_rgns : List reg_region :=
  [REG_REGION 0x020 0x024 4 Block.pvtpll_core WMSK_VAL,
   REG_REGION 0x020 0x024 4 Block.pvtpll_npu WMSK_VAL ]

/-- The table `pvtpll_logic_reg_rgns` of `rv1103b_pm.c`. -/
def pvtpll_logic_reg_rgns : List reg_region :=
  [REG_REGION 0x020 0x024 4 Block.pvtpll_vepu WMSK_VAL,
   REG_REGION 0x020 0x024 4 Block.pvtpll_isp WMSK_VAL ]

/-- The five region tables that `rv1103b_pm.c` declares. -/
def allRegionTables : List (List reg_region) :=
  [vd_core_reg_rgns, vd_log_reg_rgns, pd_pmu1_reg_rgns, pvtpll_core_reg_rgns,
    pvtpll_logic_reg_rgns]

/-- The invariant of a region: `start <= end` and the stride divides the span. -/
def rgn_wf (r : reg_region) : Bool :=
  decide (r.start ≤ r.end_) && decide ((r.end_ - r.start) % r.stride = 0)

/-- A register file: a read returns the contents of the register, whatever the
time; a write to a register for which `hi` holds follows the upper-half
write-enable convention, and a write to any other register stores the written
word. -/
def regfileBoard (hi : Addr → Bool) : Board :=
  { rdv := fun _ _ m => m
    wrv := fun a m v => if hi a then hiword_write m v else v }

/-- The registers that a region list declares with a write-enable mask. -/
def declaredWmsk (rgns : List reg_region) (a : Addr) : Bool :=
  rgns.any (fun r => r.wmsk != 0 && r.base == a.base && (rgn_offsets r).contains a.off)

/-- A register file in which every register holds 32 bits. -/
def exampleRegfile : Hw :=
  { mem := fun a => (0xabcd1234 + 0x10001 * a.off) % 2 ^ 32, time := 0, log := [] }

/-- Further constants that `rv1103b_pm.c` takes from headers which are not part
of the sources at hand: the PMU, GPIO, PMU-GRF and watchdog register offsets
used on the resume path, and the PLL control register offset, status bits and
PLL identifier used by `pm_pll_wait_lock`.  They are parameters of the model. -/
structure RegDefs where
  RV1103B_PMU1_WAKEUP_INT_ST : Nat
  RV1103B_GPIO_INT_STATUS : Nat
  RV1103B_PMU0_PWR_CON : Nat
  RV1103B_PMU0_INFO_TX_CON : Nat
  RV1103B_PMU1_INT_MASK_CON : Nat
  RV1103B_PMU2_SCU_PWR_CON : Nat
  RV1103B_PMU2_CLUSTER_IDLE_CON : Nat
  RV1103B_PMU2_CPU_AUTO_PWR_CON : Nat
  RV1103B_PMU2_SCU_AUTO_PWR_CON : Nat
  RV1103B_PMU1_CRU_PWR_CON : Nat → Nat
  RV1103B_PMU2_BUS_IDLE_CON : Nat
  RV1103B_PMU1_DDR_PWR_CON : Nat
  RV1103B_PMU1_PLLPD_CON : Nat
  RV1103B_PMU1_PWR_CON : Nat
  RV1103B_PMUGRF_SOC_CON : Nat → Nat
  RV1103B_WDT_CR : Nat
  RV1103B_WDT_CRR : Nat
  RV1103B_CRU_PLL_CON : Nat → Nat → Nat
  CRU_PLLCON1_PWRDOWN : Nat
  CRU_PLLCON1_LOCK_STATUS : Nat
  RV1103B_GPLL_ID : Nat

/-- `pmu_sleep_restore()`; it returns the new `ddr_data`. -/
def pmu_sleep_restore (B : Board) (D : Defs) (R : RegDefs) (ddr_data : rv1103b_sleep_ddr_data)
    (s : Hw) : rv1103b_sleep_ddr_data × Hw :=
  let st := readl B ⟨Block.pmu, R.RV1103B_PMU1_WAKEUP_INT_ST⟩ s
  let ddr_data := { ddr_data with pmu_wkup_int_st := st.1 }
  let g := readl B ⟨Block.gpio0, R.RV1103B_GPIO_INT_STATUS⟩ st.2
  let ddr_data := { ddr_data with gpio0_int_st := g.1 }
  let r := resume_workaround_timeout_wkup B ddr_data g.2
  let ddr_data := r.1
  let s := writel B 0xffff0000 ⟨Block.pmu, R.RV1103B_PMU0_PWR_CON⟩ r.2
  let s := writel B 0xffff0000 ⟨Block.pmu, R.RV1103B_PMU0_INFO_TX_CON⟩ s
  let s := writel B 0xffff0000 ⟨Block.pmu, R.RV1103B_PMU1_INT_MASK_CON⟩ s
  let s := writel B 0xffff0000 ⟨Block.pmu, R.RV1103B_PMU2_SCU_PWR_CON⟩ s
  let s := writel B 0xffff0000 ⟨Block.pmu, R.RV1103B_PMU2_CLUSTER_IDLE_CON⟩ s
  let s := writel B 0xffff0000 ⟨Block.pmu, R.RV1103B_PMU2_CPU_AUTO_PWR_CON⟩ s
  let s := writel B 0xffff0000 ⟨Block.pmu, R.RV1103B_PMU2_SCU_AUTO_PWR_CON⟩ s
  let s := writel B 0xffff0000 ⟨Block.pmu, R.RV1103B_PMU1_CRU_PWR_CON 0⟩ s
  let s := writel B 0xffff0000 ⟨Block.pmu, R.RV1103B_PMU1_CRU_PWR_CON 1⟩ s
  let s := writel B 0xffff0000 ⟨Block.pmu, R.RV1103B_PMU2_BUS_IDLE_CON⟩ s
  let s := writel B 0xffff0000 ⟨Block.pmu, R.RV1103B_PMU1_DDR_PWR_CON⟩ s
  let s := writel B 0xffff0000 ⟨Block.pmu, R.RV1103B_PMU1_PLLPD_CON⟩ s
  let s := writel B 0xffff0000 ⟨Block.pmu, D.RV1103B_PMU1_WAKEUP_INT_CON⟩ s
  let s := writel B 0xffff0000 ⟨Block.pmu, R.RV1103B_PMU1_PWR_CON⟩ s
  let s := writel B (WITH_16BITS_WMSK ddr_data.pmugrf_soc_con4)
    ⟨Block.pmugrf, R.RV1103B_PMUGRF_SOC_CON 4⟩ s
  let s := writel B (WITH_16BITS_WMSK ddr_data.pmugrf_soc_con5)
    ⟨Block.pmugrf, R.RV1103B_PMUGRF_SOC_CON 5⟩ s
  let s := writel B (WITH_16BITS_WMSK ddr_data.pmugrf_soc_con6)
    ⟨Block.pmugrf, R.RV1103B_PMUGRF_SOC_CON 6⟩ s
  (ddr_data, s)

def PLL_LOCKED_TIMEOUT : Nat := 600000

/-- The wait loop of `pm_pll_wait_lock`:
`while (delay-- >= 0) { if (readl_relaxed(a) & lock) break; rkpm_raw_udelay(1); }`
with `int delay`, which stays between -2 and 600000.  It returns the final value
of `delay`. -/
def pll_wait_loop (B : Board) (a : Addr) (lock : Nat) (delay : Int) (s : Hw) : Int × Hw :=
  if 0 ≤ delay then
    if (readl B a s).1 &&& lock ≠ 0 then (delay - 1, (readl B a s).2)
    else pll_wait_loop B a lock (delay - 1) (readl B a s).2
  else (delay - 1, s)
termination_by (delay + 1).toNat
decreasing_by omega

/-- `pm_pll_wait_lock(pll_id)`, with the diagnostic of the timeout recorded as
console events; `pm_pll_wait_lock_uart` sends it through the debug UART. -/
def pm_pll_wait_lock (B : Board) (R : RegDefs) (pll_id : Nat) (s : Hw) : Hw :=
  let r := readl B ⟨Block.cru, R.RV1103B_CRU_PLL_CON pll_id 1⟩ s
  if r.1 &&& R.CRU_PLLCON1_PWRDOWN ≠ 0 then r.2
  else
    let w := pll_wait_loop B ⟨Block.cru, R.RV1103B_CRU_PLL_CON pll_id 1⟩
      R.CRU_PLLCON1_LOCK_STATUS PLL_LOCKED_TIMEOUT r.2
    if w.1 ≤ 0 then
      let s1 := emit (Ev.printstr "Can't wait pll lock: ") w.2
      let s2 := emit (Ev.printhex pll_id) s1
      emit (Ev.printch '\n') s2
    else w.2

/-- An instance of the further header constants, used to exercise the
statements on concrete inputs; the values are illustrative. -/
def exampleRegDefs : RegDefs :=
  { RV1103B_PMU1_WAKEUP_INT_ST := 0x108
    RV1103B_GPIO_INT_STATUS := 0x50
    RV1103B_PMU0_PWR_CON := 0x0
    RV1103B_PMU0_INFO_TX_CON := 0x4
    RV1103B_PMU1_INT_MASK_CON := 0x10c
    RV1103B_PMU2_SCU_PWR_CON := 0x200
    RV1103B_PMU2_CLUSTER_IDLE_CON := 0x204
    RV1103B_PMU2_CPU_AUTO_PWR_CON := 0x208
    RV1103B_PMU2_SCU_AUTO_PWR_CON := 0x20c
    RV1103B_PMU1_CRU_PWR_CON := fun i => 0x110 + 4 * i
    RV1103B_PMU2_BUS_IDLE_CON := 0x210
    RV1103B_PMU1_DDR_PWR_CON := 0x118
    RV1103B_PMU1_PLLPD_CON := 0x11c
    RV1103B_PMU1_PWR_CON := 0x120
    RV1103B_PMUGRF_SOC_CON := fun i => 4 * i
    RV1103B_WDT_CR := 0x0
    RV1103B_WDT_CRR := 0xc
    RV1103B_CRU_PLL_CON := fun p i => 0x20 * p + 4 * i
    CRU_PLLCON1_PWRDOWN := 0x2000
    CRU_PLLCON1_LOCK_STATUS := 0x400
    RV1103B_GPLL_ID := 0 }

/-! ## Vocabulary of the statements -/

/-- The value returned by the `j`-th of a run of consecutive reads of `a` that
starts in state `s` (no write in between). -/
def pollVal (B : Board) (a : Addr) (s : Hw) (j : Nat) : Nat :=
  B.rdv a (s.time + j) (s.mem a) % 2 ^ 32

/-- The state reached from `s` by `n` consecutive reads of `a`. -/
def afterReads (B : Board) (a : Addr) (n : Nat) (s : Hw) : Hw :=
  { mem := s.mem
    time := s.time + n
    log := s.log ++ (List.range n).map (fun j => Ev.rd a (pollVal B a s j)) }

/-- A board on which every read returns `c` and a write stores what is written. -/
def constBoard (c : Nat) : Board :=
  { rdv := fun _ _ _ => c, wrv := fun _ _ v => v }

/-- A board whose reads are scripted per register offset, whatever the time. -/
def scriptBoard (f : Nat → Nat) : Board :=
  { rdv := fun a _ _ => f a.off, wrv := fun _ _ v => v }

/-- The state before any access: all registers hold 0 and the log is empty. -/
def bootHw : Hw :=
  { mem := fun _ => 0, time := 0, log := [] }

/-- The scripted register space of the worked example of the soft-adjust delta:
the valid latch reads 3, the begin timestamp 1000 and the end timestamp 1500. -/
def softAdjustScript (off : Nat) : Nat :=
  if off = TIMER_HP_BEGIN_END_VALID then 3
  else if off = TIMER_HP_T24_32BEGIN0 then 1000
  else if off = TIMER_HP_T32_24END0 then 1500
  else 0

/-- A board whose 64-bit counter register pair shows, at the time of each read,
the matching half of a hardware counter `c` that is a function of time. -/
def counterBoard (c : Nat → Nat) : Board :=
  { rdv := fun a t _ =>
      if a.off = TIMER_HP_CURR_TIMER_VALUE0 then c t % 2 ^ 32
      else if a.off = TIMER_HP_CURR_TIMER_VALUE1 then c t / 2 ^ 32
      else 0
    wrv := fun _ _ v => v }

/-- A hardware counter that stands at `0x0000_0000_ffff_ffff` at the first bus
access and at `0x0000_0001_0000_0000` from the next one on: the low word
carries into the high word between the first two accesses. -/
def carryCounter (t : Nat) : Nat :=
  if t = 0 then 0xffffffff else 0x100000000

/-- The three reads of iteration `i` of the counter retry loop started in `s`. -/
def retryReads (B : Board) (base : Block) (s : Hw) (i : Nat) : List Ev :=
  [Ev.rd ⟨base, TIMER_HP_CURR_TIMER_VALUE1⟩
      (pollVal B ⟨base, TIMER_HP_CURR_TIMER_VALUE1⟩ s (3 * i)),
   Ev.rd ⟨base, TIMER_HP_CURR_TIMER_VALUE0⟩
      (pollVal B ⟨base, TIMER_HP_CURR_TIMER_VALUE0⟩ s (3 * i + 1)),
   Ev.rd ⟨base, TIMER_HP_CURR_TIMER_VALUE1⟩
      (pollVal B ⟨base, TIMER_HP_CURR_TIMER_VALUE1⟩ s (3 * i + 2))]

/-- The state reached from `s` by `n` iterations of the counter retry loop. -/
def afterRetries (B : Board) (base : Block) (n : Nat) (s : Hw) : Hw :=
  { mem := s.mem
    time := s.time + 3 * n
    log := s.log ++ (List.range n).flatMap (retryReads B base s) }

/-- The calls made before the `"-WFI-"` marker is printed. -/
def callsBeforeMarker (calls : List Call) : List Call :=
  calls.takeWhile (fun c => c != Call.rkpm_printstr "-WFI-")

/-- The calls made after the CPU-retirement call `cpu_suspend` returned. -/
def callsAfterWake (calls : List Call) : List Call :=
  (calls.dropWhile (fun c => c != Call.cpu_suspend)).drop 1

/-- The characters of the `rkpm_printch` calls of a trace, in order. -/
def checkpointChars : List Call → List Char
  | [] => []
  | Call.rkpm_printch c :: rest => c :: checkpointChars rest
  | _ :: rest => checkpointChars rest

/-- The phases and the `rkpm_printch` calls of a trace, in order. -/
def phasesAndChars (calls : List Call) : List Call :=
  calls.filter (fun c => isPhase c || (checkpointChars [c]).length == 1)

/-- What has been added to the log between two states. -/
def logSince (s s' : Hw) : List Ev :=
  s'.log.drop s.log.length

/-- The scripted register space of the worked example of a long timeout: the
wake-source bitmap reads `0x400` (generic timeout, bit 10) and the timeout count
reads 5726624; every other register reads 0. -/
def longTimeoutScript (off : Nat) : Nat :=
  if off = 0x100 then 0x400
  else if off = 0x104 then 5726624
  else 0

/-- A register file in which the wake-source bitmap holds `0x401`, the timeout
count 64 and every other register 0. -/
def wkupRegs : Hw :=
  { mem := fun a => wkupScript a.off, time := 0, log := [] }

/-- The state that one application of the timeout-wakeup workaround leaves on
the register file `wkupRegs`. -/
def wkupOnce : Hw :=
  (suspend_workaround_timeout_wkup (regfileBoard (fun _ => false)) exampleDefs 1
    (exampleCfg 0x200) bootDdrData wkupRegs).getD bootHw

/-- The scripted register space of the worked example of the resume path: the
PMU wake-interrupt status reads `0x80`, the GPIO0 interrupt status `0x10` and
the HPTimer interrupt enable `0xc`; every other register reads 0. -/
def resumeScript (off : Nat) : Nat :=
  if off = 0x108 then 0x80
  else if off = 0x50 then 0x10
  else if off = 0x8 then 0xc
  else 0

/-- A `ddr_data` in which `entered_pmu_fsm` is already set, as an earlier cycle
that went through the PMU state machine leaves it. -/
def enteredDdrData : rv1103b_sleep_ddr_data :=
  { bootDdrData with entered_pmu_fsm := 1 }

/-- Modelled from the spec: `SZ_4K` of `linux/sizes.h`, which is not part of the
sources at hand: the 4 KiB of the arena. -/
def SZ_4K : Nat := 0x1000

def RV1103B_PM_REG_REGION_MEM_SIZE : Nat := SZ_4K

/-- The number of 32-bit registers that a region enumerates:
`(end - start) / stride + 1`. -/
def regionWords (r : reg_region) : Nat :=
  (r.end_ - r.start) / r.stride + 1

/-- The number of 32-bit registers that a list of regions enumerates. -/
def tableWords (rgns : List reg_region) : Nat :=
  (rgns.map regionWords).sum

/-- The regions handed to `rkpm_alloc_region_mem` by `rkpm_reg_rgns_init`, in
the order of its five calls. -/
def allocatedRegions : List reg_region :=
  vd_core_reg_rgns ++ vd_log_reg_rgns ++ pd_pmu1_reg_rgns ++ pvtpll_core_reg_rgns
    ++ pvtpll_logic_reg_rgns

/-- The wait of `uart_wrtie_byte`: `while (!(readl_relaxed(uartdbg_base + 0x14) & 0x40)) ;`.
The loop has no bound in the source; `fuel` bounds the number of polls of the
model, and `none` means that the fuel ran out. -/
def uart_wait (B : Board) : Nat → Hw → Option Hw
  | 0, _ => none
  | fuel + 1, s =>
    if (readl B ⟨Block.uartdbg, 0x14⟩ s).1 &&& 0x40 = 0 then
      uart_wait B fuel (readl B ⟨Block.uartdbg, 0x14⟩ s).2
    else some (readl B ⟨Block.uartdbg, 0x14⟩ s).2

/-- `uart_wrtie_byte(byte)`, with `uint8_t byte`: the argument is reduced modulo
256 when it is passed. -/
def uart_wrtie_byte (B : Board) (fuel : Nat) (byte : Int) (s : Hw) : Option Hw :=
  uart_wait B fuel (writel B (byte % 256).toNat ⟨Block.uartdbg, 0x0⟩ s)

/-- `rkpm_printch(c)`, with `int c`. -/
def rkpm_printch (B : Board) (fuel : Nat) (c : Int) (s : Hw) : Option Hw :=
  if c = 10 then
    match uart_wrtie_byte B fuel 13 s with
    | none => none
    | some s1 => uart_wrtie_byte B fuel c s1
  else uart_wrtie_byte B fuel c s

/-- A board on which every register reads 0 during the first `n` accesses and
`0x400` from then on: a PLL whose lock bit (bit 10) comes up late. -/
def lateLockBoard (n : Nat) : Board :=
  { rdv := fun _ t _ => if n ≤ t then 0x400 else 0, wrv := fun _ _ v => v }

/-- More constants that `rv1103b_pm.c` takes from headers which are not part of
the sources at hand (`rv1103b_pm.h`, `dt-bindings/suspend/rockchip-rv1103b.h`):
the remaining `RKPM_SLP_*` flags, the bit numbers of the PMU power-control
words, the offsets of the PMU counters and of the PMU-GRF, PMU-SGRF and DDR-GRF
registers, the value of the macro `RV1103B_WAKEUP_TO_SYSTEM_RESET` and the
physical address `__pa_symbol(cpu_resume)`.  They are parameters of the
model. -/
structure CfgDefs where
  RKPM_SLP_PMU_DIS_OSC : Nat
  RKPM_SLP_TIME_OUT_WKUP : Nat
  RKPM_SLP_LP_PR : Nat
  RV1103B_PMU_PWRMODE1_EN : Nat
  RV1103B_PMU_PDPMU1_BYPASS : Nat
  RV1103B_PMU_SLP_CNT_EN : Nat
  RV1103B_PMU_DDR_BYPASS : Nat
  RV1103B_PMU_SCU_L2_FLUSH : Nat
  RV1103B_PMU_SCU_L2_IDLE : Nat
  RV1103B_PMU_SCU_PWRDN : Nat
  RV1103B_PMU_SCU_PWROFF : Nat
  RV1103B_PMU_CLST_CPU_PD : Nat
  RV1103B_PMU_SCU_VOL_GT : Nat
  RV1103B_PMU_CLST_CLK_SRC_GT : Nat
  RV1103B_PMU_IDLE_REQ_MSCH : Nat
  RV1103B_PMU_IDLE_REQ_DDRC : Nat
  RV1103B_PMU_IDLE_REQ_PERI : Nat
  RV1103B_PMU_IDLE_REQ_VEPU : Nat
  RV1103B_PMU_IDLE_REQ_VI : Nat
  RV1103B_PMU_IDLE_REQ_CRU : Nat
  RV1103B_PMU_WAKEUP_RST : Nat
  RV1103B_PMU_INPUT_CLAMP : Nat
  RV1103B_PMU_ALIVE_OSC_EN : Nat
  RV1103B_PMU_POWER_OFF : Nat
  RV1103B_PMU_OFF_IO : Nat
  RV1103B_PMU_ALIVE_32K : Nat
  RV1103B_PMU_OSC_DIS : Nat
  RV1103B_PMU_DDR_SREF_C : Nat
  RV1103B_PMU_DDR_SREF_A : Nat
  RV1103B_PMU_DDRIO_RETON_ENTER : Nat
  RV1103B_PMU_DDRIO_RSTIOV_ENTER : Nat
  RV1103B_PMU_DDRCTL_A_AUTO_GATING : Nat
  RV1103B_PMU_DDRCTL_C_AUTO_GATING : Nat
  RV1103B_PMU_DDRPHY_AUTO_GATING : Nat
  RV1103B_PMU_DDRIO_HZ_ENTER : Nat
  RV1103B_PMU_DPLL_PD : Nat
  RV1103B_PMU_GPLL_PD : Nat
  RV1103B_PMU_PWRMODE0_EN : Nat
  RV1103B_PMU1_BUS_BYPASS : Nat
  RV1103B_PMU1_PWRGT_EN : Nat
  RV1103B_PMU1_BUS_IDLE_EN : Nat
  RV1103B_PMU1_BUS_AUTO : Nat
  RV1103B_CPU_AUTO_INT_MSK : Nat
  RV1103B_SCU_AUTO_INT_MSK : Nat
  RV1103B_PMU1_OSC_STABLE_CNT : Nat
  RV1103B_PMU1_PMIC_STABLE_CNT : Nat
  RV1103B_PMU1_SLEEP_CNT : Nat
  RV1103B_PMU1_WAKEUP_RST_CLR_CNT : Nat
  RV1103B_PMU1_PLL_LOCK_CNT : Nat
  RV1103B_PMU1_PWM_SWITCH_CNT : Nat
  RV1103B_PMU2_SCU_STABLE_CNT : Nat
  RV1103B_PMU2_SCU_PWRUP_CNT : Nat
  RV1103B_PMU2_SCU_PWRDN_CNT : Nat
  RV1103B_PMU2_SCU_VOLUP_CNT : Nat
  RV1103B_PMU2_SCU_VOLDN_CNT : Nat
  RV1103B_PMUSGRF_SOC_CON : Nat → Nat
  RV1103B_PMUGRF_OS_REG : Nat → Nat
  RV1103B_DDRGRF_CON : Nat → Nat
  RV1103B_WAKEUP_TO_SYSTEM_RESET : Nat
  pa_cpu_resume : Nat

/-- `hptimer_suspend()`. -/
def hptimer_suspend (B : Board) (D : Defs) (P : CfgDefs) (slp_cfg : rk_sleep_config) (s : Hw) :
    Hw :=
  let mode := rk_hptimer_get_mode B Block.hptimer s
  if slp_cfg.mode_config &&& D.RKPM_SLP_PMU_PMUALIVE_32K ≠ 0
      ∧ mode.1 = RK_HPTIMER_SOFT_ADJUST_MODE then
    writel B (BITS_WITH_WMASK 0x1 0x1 8) ⟨Block.pmusgrf, P.RV1103B_PMUSGRF_SOC_CON 0⟩ mode.2
  else mode.2

/-- `hptimer_resume()`. -/
def hptimer_resume (B : Board) (D : Defs) (P : CfgDefs) (slp_cfg : rk_sleep_config) (s : Hw) :
    Hw :=
  let mode := rk_hptimer_get_mode B Block.hptimer s
  let s := writel B (BITS_WITH_WMASK 0x0 0x1 8) ⟨Block.pmusgrf, P.RV1103B_PMUSGRF_SOC_CON 0⟩
    mode.2
  if slp_cfg.mode_config &&& D.RKPM_SLP_PMU_PMUALIVE_32K ≠ 0 then
    if mode.1 = RK_HPTIMER_HARD_ADJUST_MODE then
      rk_hptimer_v2_do_hard_adjust_no_wait B Block.hptimer s
    else if mode.1 = RK_HPTIMER_SOFT_ADJUST_MODE then
      rk_hptimer_v2_do_soft_adjust_no_wait B Block.hptimer 24000000 32768 s
    else s
  else s

/-- An instance of the further header constants, used to exercise the
statements on concrete inputs; the values are illustrative. -/
def exampleCfgDefs : CfgDefs :=
  { RKPM_SLP_PMU_DIS_OSC := 0x400
    RKPM_SLP_TIME_OUT_WKUP := 0x1000
    RKPM_SLP_LP_PR := 0x4000
    RV1103B_PMU_PWRMODE1_EN := 0
    RV1103B_PMU_PDPMU1_BYPASS := 7
    RV1103B_PMU_SLP_CNT_EN := 10
    RV1103B_PMU_DDR_BYPASS := 3
    RV1103B_PMU_SCU_L2_FLUSH := 0
    RV1103B_PMU_SCU_L2_IDLE := 1
    RV1103B_PMU_SCU_PWRDN := 2
    RV1103B_PMU_SCU_PWROFF := 3
    RV1103B_PMU_CLST_CPU_PD := 4
    RV1103B_PMU_SCU_VOL_GT := 5
    RV1103B_PMU_CLST_CLK_SRC_GT := 6
    RV1103B_PMU_IDLE_REQ_MSCH := 0
    RV1103B_PMU_IDLE_REQ_DDRC := 1
    RV1103B_PMU_IDLE_REQ_PERI := 2
    RV1103B_PMU_IDLE_REQ_VEPU := 3
    RV1103B_PMU_IDLE_REQ_VI := 4
    RV1103B_PMU_IDLE_REQ_CRU := 5
    RV1103B_PMU_WAKEUP_RST := 0
    RV1103B_PMU_INPUT_CLAMP := 1
    RV1103B_PMU_ALIVE_OSC_EN := 2
    RV1103B_PMU_POWER_OFF := 3
    RV1103B_PMU_OFF_IO := 7
    RV1103B_PMU_ALIVE_32K := 8
    RV1103B_PMU_OSC_DIS := 9
    RV1103B_PMU_DDR_SREF_C := 0
    RV1103B_PMU_DDR_SREF_A := 1
    RV1103B_PMU_DDRIO_RETON_ENTER := 2
    RV1103B_PMU_DDRIO_RSTIOV_ENTER := 4
    RV1103B_PMU_DDRCTL_A_AUTO_GATING := 6
    RV1103B_PMU_DDRCTL_C_AUTO_GATING := 7
    RV1103B_PMU_DDRPHY_AUTO_GATING := 8
    RV1103B_PMU_DDRIO_HZ_ENTER := 9
    RV1103B_PMU_DPLL_PD := 0
    RV1103B_PMU_GPLL_PD := 1
    RV1103B_PMU_PWRMODE0_EN := 0
    RV1103B_PMU1_BUS_BYPASS := 2
    RV1103B_PMU1_PWRGT_EN := 3
    RV1103B_PMU1_BUS_IDLE_EN := 4
    RV1103B_PMU1_BUS_AUTO := 5
    RV1103B_CPU_AUTO_INT_MSK := 0
    RV1103B_SCU_AUTO_INT_MSK := 0
    RV1103B_PMU1_OSC_STABLE_CNT := 0x130
    RV1103B_PMU1_PMIC_STABLE_CNT := 0x134
    RV1103B_PMU1_SLEEP_CNT := 0x138
    RV1103B_PMU1_WAKEUP_RST_CLR_CNT := 0x13c
    RV1103B_PMU1_PLL_LOCK_CNT := 0x140
    RV1103B_PMU1_PWM_SWITCH_CNT := 0x144
    RV1103B_PMU2_SCU_STABLE_CNT := 0x220
    RV1103B_PMU2_SCU_PWRUP_CNT := 0x224
    RV1103B_PMU2_SCU_PWRDN_CNT := 0x228
    RV1103B_PMU2_SCU_VOLUP_CNT := 0x22c
    RV1103B_PMU2_SCU_VOLDN_CNT := 0x230
    RV1103B_PMUSGRF_SOC_CON := fun i => 4 * i
    RV1103B_PMUGRF_OS_REG := fun i => 0x200 + 4 * i
    RV1103B_DDRGRF_CON := fun i => 4 * i
    RV1103B_WAKEUP_TO_SYSTEM_RESET := 0
    pa_cpu_resume := 0x100000 }

/-- The adjust requests that `hptimer_resume` can make. -/
inductive Adjust
  | hard
  | soft
  deriving DecidableEq, Repr

/-- Which no-wait adjust `hptimer_resume` invokes when the HPTimer mode field
reads `mode`: the hard or the soft one, or none. -/
def resumeAdjust (D : Defs) (slp_cfg : rk_sleep_config) (mode : Nat) : Option Adjust :=
  if slp_cfg.mode_config &&& D.RKPM_SLP_PMU_PMUALIVE_32K ≠ 0 then
    if mode = RK_HPTIMER_HARD_ADJUST_MODE then some Adjust.hard
    else if mode = RK_HPTIMER_SOFT_ADJUST_MODE then some Adjust.soft
    else none
  else none

/-- The calls made before the CPU-retirement call `cpu_suspend`. -/
def callsBeforeWfi (calls : List Call) : List Call :=
  calls.takeWhile (fun c => c != Call.cpu_suspend)

/-- The wait of `ddr_sleep_config`:
`while ((readl_relaxed(ddrc_base + 0x4) & 0x7) != 0x1) continue;`.
The loop has no bound in the source; `fuel` bounds the number of polls of the
model, and `none` means that the fuel ran out. -/
def ddr_stat_wait (B : Board) : Nat → Hw → Option Hw
  | 0, _ => none
  | fuel + 1, s =>
    if (readl B ⟨Block.ddrc, 0x4⟩ s).1 &&& 0x7 ≠ 0x1 then
      ddr_stat_wait B fuel (readl B ⟨Block.ddrc, 0x4⟩ s).2
    else some (readl B ⟨Block.ddrc, 0x4⟩ s).2

/-- `ddr_sleep_config()`; it returns the new `ddr_data`.  `~(BIT(0) | BIT(1))`
is a 32-bit complement. -/
def ddr_sleep_config (B : Board) (R : RegDefs) (P : CfgDefs) (fuel : Nat)
    (ddr_data : rv1103b_sleep_ddr_data) (s : Hw) : Option (rv1103b_sleep_ddr_data × Hw) :=
  let c1 := readl B ⟨Block.ddrgrf, P.RV1103B_DDRGRF_CON 1⟩ s
  let ddr_data := { ddr_data with ddrgrf_con1 := c1.1 }
  let c5 := readl B ⟨Block.ddrgrf, P.RV1103B_DDRGRF_CON 5⟩ c1.2
  let ddr_data := { ddr_data with ddrgrf_con5 := c5.1 }
  let c8 := readl B ⟨Block.ddrgrf, P.RV1103B_DDRGRF_CON 8⟩ c5.2
  let ddr_data := { ddr_data with ddrgrf_con8 := c8.1 }
  let g0 := readl B ⟨Block.pmugrf, R.RV1103B_PMUGRF_SOC_CON 0⟩ c8.2
  let ddr_data := { ddr_data with pmugrf_soc_con0 := g0.1 }
  let val := readl B ⟨Block.ddrc, 0x30⟩ g0.2
  let s := writel B (val.1 &&& (0xffffffff ^^^ (BIT 0 ||| BIT 1))) ⟨Block.ddrc, 0x30⟩ val.2
  let s := writel B (BITS_WITH_WMASK 0x0 0x3 9) ⟨Block.ddrgrf, P.RV1103B_DDRGRF_CON 1⟩ s
  let s := writel B (BITS_WITH_WMASK 0x0 0x1ff 0) ⟨Block.ddrgrf, P.RV1103B_DDRGRF_CON 1⟩ s
  let s := writel B (BITS_WITH_WMASK 0x1 0x1 3) ⟨Block.ddrgrf, P.RV1103B_DDRGRF_CON 5⟩ s
  let s := writel B (BITS_WITH_WMASK 0x7 0x7 4) ⟨Block.ddrgrf, P.RV1103B_DDRGRF_CON 8⟩ s
  match ddr_stat_wait B fuel s with
  | none => none
  | some s =>
    some (ddr_data,
      writel B (BITS_WITH_WMASK 0x0 0xf 9) ⟨Block.pmugrf, R.RV1103B_PMUGRF_SOC_CON 0⟩ s)

/-- `ddr_sleep_config_restore()`. -/
def ddr_sleep_config_restore (B : Board) (R : RegDefs) (P : CfgDefs)
    (ddr_data : rv1103b_sleep_ddr_data) (s : Hw) : Hw :=
  let s := writel B (WITH_16BITS_WMSK ddr_data.pmugrf_soc_con0)
    ⟨Block.pmugrf, R.RV1103B_PMUGRF_SOC_CON 0⟩ s
  let s := writel B (WITH_16BITS_WMSK ddr_data.ddrgrf_con1)
    ⟨Block.ddrgrf, P.RV1103B_DDRGRF_CON 1⟩ s
  let s := writel B (WITH_16BITS_WMSK ddr_data.ddrgrf_con8)
    ⟨Block.ddrgrf, P.RV1103B_DDRGRF_CON 8⟩ s
  writel B (WITH_16BITS_WMSK ddr_data.ddrgrf_con5) ⟨Block.ddrgrf, P.RV1103B_DDRGRF_CON 5⟩ s

/-- What `ddr_sleep_config` leaves on a board on which every register reads 1
(the DDR controller reports the normal operating mode at once), from a fresh
boot. -/
def ddrConfigured : rv1103b_sleep_ddr_data × Hw :=
  (ddr_sleep_config (constBoard 1) exampleRegDefs exampleCfgDefs 1 bootDdrData bootHw).getD
    (bootDdrData, bootHw)

/-- The local variables of `pmu_sleep_config()` together with the machine
state. -/
structure PmuVars where
  clk_freq_khz : Nat
  pmu0_pwr_con : Nat
  pmu1_wkup_con : Nat
  pmu1_pwr_con : Nat
  pmu1_scu_con : Nat
  pmu1_ddr_con : Nat
  pmu2_bus_idle_con : Nat
  pmu1_cru_con0 : Nat
  pmu1_cru_con1 : Nat
  pmu1_pll_con : Nat
  hw : Hw

/-- The first part of `pmu_sleep_config()`: the three PMU-GRF words are saved
in `ddr_data`, the local variables get their initial values, and the flags
`RKPM_SLP_PMU_PMUALIVE_32K`, `RKPM_SLP_PMU_DIS_OSC` and `RKPM_SLP_TIME_OUT_WKUP`
are acted upon.  It returns the new `ddr_data` and the variables. -/
def pmu_sleep_config_init (B : Board) (D : Defs) (R : RegDefs) (P : CfgDefs)
    (slp_cfg : rk_sleep_config) (ddr_data : rv1103b_sleep_ddr_data) (s : Hw) :
    rv1103b_sleep_ddr_data × PmuVars :=
  let cfg := slp_cfg.mode_config
  let g4 := readl B ⟨Block.pmugrf, R.RV1103B_PMUGRF_SOC_CON 4⟩ s
  let ddr_data := { ddr_data with pmugrf_soc_con4 := g4.1 }
  let g5 := readl B ⟨Block.pmugrf, R.RV1103B_PMUGRF_SOC_CON 5⟩ g4.2
  let ddr_data := { ddr_data with pmugrf_soc_con5 := g5.1 }
  let g6 := readl B ⟨Block.pmugrf, R.RV1103B_PMUGRF_SOC_CON 6⟩ g5.2
  let ddr_data := { ddr_data with pmugrf_soc_con6 := g6.1 }
  let pmu0_pwr_con := 0
  let pmu1_wkup_con := slp_cfg.wakeup_config
  let tmo := readl B ⟨Block.pmu, D.RV1103B_PMU1_WAKEUP_TIMEOUT⟩ g6.2
  let pmu1_wkup_con :=
    if tmo.1 ≠ 0 then pmu1_wkup_con ||| BIT D.RV1103B_PMU_WAKEUP_TIMEOUT else pmu1_wkup_con
  let pmu1_pwr_con :=
    BIT P.RV1103B_PMU_PWRMODE1_EN ||| BIT P.RV1103B_PMU_PDPMU1_BYPASS
      ||| BIT P.RV1103B_PMU_SLP_CNT_EN ||| 0
  let pmu1_scu_con :=
    BIT P.RV1103B_PMU_SCU_L2_FLUSH ||| BIT P.RV1103B_PMU_SCU_L2_IDLE
      ||| BIT P.RV1103B_PMU_SCU_PWRDN ||| BIT P.RV1103B_PMU_SCU_PWROFF
      ||| BIT P.RV1103B_PMU_CLST_CPU_PD ||| BIT P.RV1103B_PMU_SCU_VOL_GT
      ||| BIT P.RV1103B_PMU_CLST_CLK_SRC_GT ||| 0
  let pmu2_bus_idle_con :=
    BIT P.RV1103B_PMU_IDLE_REQ_MSCH ||| BIT P.RV1103B_PMU_IDLE_REQ_DDRC
      ||| BIT P.RV1103B_PMU_IDLE_REQ_PERI ||| BIT P.RV1103B_PMU_IDLE_REQ_VEPU
      ||| BIT P.RV1103B_PMU_IDLE_REQ_VI ||| BIT P.RV1103B_PMU_IDLE_REQ_CRU ||| 0
  let pmu1_cru_con0 :=
    BIT P.RV1103B_PMU_WAKEUP_RST ||| BIT P.RV1103B_PMU_INPUT_CLAMP
      ||| BIT P.RV1103B_PMU_ALIVE_OSC_EN ||| BIT P.RV1103B_PMU_POWER_OFF
      ||| BIT P.RV1103B_PMU_OFF_IO ||| 0
  let pmu1_cru_con1 := 0
  let pmu1_ddr_con :=
    BIT P.RV1103B_PMU_DDR_SREF_C ||| BIT P.RV1103B_PMU_DDR_SREF_A
      ||| BIT P.RV1103B_PMU_DDRIO_RETON_ENTER ||| BIT P.RV1103B_PMU_DDRIO_RSTIOV_ENTER
      ||| BIT P.RV1103B_PMU_DDRCTL_A_AUTO_GATING ||| BIT P.RV1103B_PMU_DDRCTL_C_AUTO_GATING
      ||| BIT P.RV1103B_PMU_DDRPHY_AUTO_GATING ||| BIT P.RV1103B_PMU_DDRIO_HZ_ENTER ||| 0
  let pmu1_pll_con := BIT P.RV1103B_PMU_DPLL_PD ||| BIT P.RV1103B_PMU_GPLL_PD ||| 0
  let pmu1_cru_con0 :=
    if cfg &&& D.RKPM_SLP_PMU_PMUALIVE_32K ≠ 0 then
      pmu1_cru_con0 ||| (BIT P.RV1103B_PMU_ALIVE_32K ||| 0)
    else pmu1_cru_con0
  let clk_freq_khz := if cfg &&& D.RKPM_SLP_PMU_PMUALIVE_32K ≠ 0 then 32 else 24000
  let pmu1_cru_con0 :=
    if cfg &&& P.RKPM_SLP_PMU_DIS_OSC ≠ 0 then pmu1_cru_con0 ||| (BIT P.RV1103B_PMU_OSC_DIS ||| 0)
    else pmu1_cru_con0
  let hw :=
    if cfg &&& P.RKPM_SLP_TIME_OUT_WKUP ≠ 0 then
      writel B (clk_freq_khz * 1000) ⟨Block.pmu, D.RV1103B_PMU1_WAKEUP_TIMEOUT⟩ tmo.2
    else tmo.2
  let pmu1_wkup_con :=
    if cfg &&& P.RKPM_SLP_TIME_OUT_WKUP ≠ 0 then
      pmu1_wkup_con ||| BIT D.RV1103B_PMU_WAKEUP_TIMEOUT
    else pmu1_wkup_con
  (ddr_data,
    { clk_freq_khz := clk_freq_khz
      pmu0_pwr_con := pmu0_pwr_con
      pmu1_wkup_con := pmu1_wkup_con
      pmu1_pwr_con := pmu1_pwr_con
      pmu1_scu_con := pmu1_scu_con
      pmu1_ddr_con := pmu1_ddr_con
      pmu2_bus_idle_con := pmu2_bus_idle_con
      pmu1_cru_con0 := pmu1_cru_con0
      pmu1_cru_con1 := pmu1_cru_con1
      pmu1_pll_con := pmu1_pll_con
      hw := hw })

/-- The body of the branch `if (cfg & RKPM_SLP_ARMPD)` of `pmu_sleep_config()`;
the complements are 32-bit. -/
def pmu_cfg_armpd (B : Board) (P : CfgDefs) (v : PmuVars) : PmuVars :=
  { v with
    pmu1_pwr_con := v.pmu1_pwr_con &&& (0xffffffff ^^^ (BIT P.RV1103B_PMU_SLP_CNT_EN ||| 0))
    pmu1_cru_con0 := v.pmu1_cru_con0 &&&
      (0xffffffff ^^^ (BIT P.RV1103B_PMU_WAKEUP_RST ||| BIT P.RV1103B_PMU_INPUT_CLAMP
        ||| BIT P.RV1103B_PMU_POWER_OFF ||| 0))
    pmu1_ddr_con := BIT P.RV1103B_PMU_DDR_SREF_C ||| BIT P.RV1103B_PMU_DDR_SREF_A ||| 0
    hw := writel B (BITS_WITH_WMASK 2 0x3 10) ⟨Block.pmusgrf, P.RV1103B_PMUSGRF_SOC_CON 1⟩ v.hw }

/-- The body of the branch `else if (cfg & RKPM_SLP_ARMOFF)`. -/
def pmu_cfg_armoff (B : Board) (P : CfgDefs) (v : PmuVars) : PmuVars :=
  { v with
    pmu1_cru_con0 := v.pmu1_cru_con0 &&&
      (0xffffffff ^^^ (BIT P.RV1103B_PMU_WAKEUP_RST ||| BIT P.RV1103B_PMU_INPUT_CLAMP ||| 0))
    hw := writel B (BITS_WITH_WMASK 2 0x3 10) ⟨Block.pmusgrf, P.RV1103B_PMUSGRF_SOC_CON 1⟩ v.hw }

/-- The body of the branch `else if (cfg & RKPM_SLP_ARMOFF_LOGOFF)`. -/
def pmu_cfg_armoff_logoff (B : Board) (R : RegDefs) (P : CfgDefs) (v : PmuVars) : PmuVars :=
  let s := writel B 0xffff3fff ⟨Block.pmugrf, R.RV1103B_PMUGRF_SOC_CON 4⟩ v.hw
  let s := writel B 0x007f007e ⟨Block.pmugrf, R.RV1103B_PMUGRF_SOC_CON 5⟩ s
  let s := writel B 0xffffffff ⟨Block.pmugrf, R.RV1103B_PMUGRF_SOC_CON 6⟩ s
  { v with
    hw := writel B (BITS_WITH_WMASK 0 0x3 10) ⟨Block.pmusgrf, P.RV1103B_PMUSGRF_SOC_CON 1⟩ s }

/-- The body of the branch `else if (cfg & RKPM_SLP_ARMOFF_PMUOFF)`. -/
def pmu_cfg_armoff_pmuoff (B : Board) (R : RegDefs) (P : CfgDefs) (v : PmuVars) : PmuVars :=
  let pmu1_pwr_con :=
    v.pmu1_pwr_con &&& (0xffffffff ^^^ (BIT P.RV1103B_PMU_PDPMU1_BYPASS ||| 0))
  let pmu0_pwr_con :=
    v.pmu0_pwr_con ||| (BIT P.RV1103B_PMU_PWRMODE0_EN ||| BIT P.RV1103B_PMU1_BUS_BYPASS
      ||| BIT P.RV1103B_PMU1_PWRGT_EN ||| BIT P.RV1103B_PMU1_BUS_IDLE_EN
      ||| BIT P.RV1103B_PMU1_BUS_AUTO ||| 0)
  let s := writel B 0xffff3fff ⟨Block.pmugrf, R.RV1103B_PMUGRF_SOC_CON 4⟩ v.hw
  let s := writel B 0x007f007e ⟨Block.pmugrf, R.RV1103B_PMUGRF_SOC_CON 5⟩ s
  let s := writel B 0xffff0000 ⟨Block.pmugrf, R.RV1103B_PMUGRF_SOC_CON 6⟩ s
  { v with
    pmu1_pwr_con := pmu1_pwr_con
    pmu0_pwr_con := pmu0_pwr_con
    hw := writel B (BITS_WITH_WMASK 0 0x3 10) ⟨Block.pmusgrf, P.RV1103B_PMUSGRF_SOC_CON 1⟩ s }

/-- The `if ... else if ...` chain of `pmu_sleep_config()` over the four power
modes. -/
def pmu_mode_config (B : Board) (D : Defs) (R : RegDefs) (P : CfgDefs) (cfg : Nat)
    (v : PmuVars) : PmuVars :=
  if cfg &&& D.RKPM_SLP_ARMPD ≠ 0 then pmu_cfg_armpd B P v
  else if cfg &&& D.RKPM_SLP_ARMOFF ≠ 0 then pmu_cfg_armoff B P v
  else if cfg &&& D.RKPM_SLP_ARMOFF_LOGOFF ≠ 0 then pmu_cfg_armoff_logoff B R P v
  else if cfg &&& D.RKPM_SLP_ARMOFF_PMUOFF ≠ 0 then pmu_cfg_armoff_pmuoff B R P v
  else v

/-- The block `if (cfg & RKPM_SLP_LP_PR)` of `pmu_sleep_config()`. -/
def pmu_lp_pr_config (B : Board) (R : RegDefs) (P : CfgDefs) (cfg : Nat) (v : PmuVars) :
    PmuVars :=
  if cfg &&& P.RKPM_SLP_LP_PR ≠ 0 then
    let s := writel B 0 ⟨Block.pmugrf, P.RV1103B_PMUGRF_OS_REG 2⟩ v.hw
    let s := writel B 0 ⟨Block.pmugrf, P.RV1103B_PMUGRF_OS_REG 3⟩ s
    let s := writel B 0xffffffff ⟨Block.pmugrf, R.RV1103B_PMUGRF_SOC_CON 4⟩ s
    let s := writel B 0x00ff00ff ⟨Block.pmugrf, R.RV1103B_PMUGRF_SOC_CON 5⟩ s
    let s := writel B 0xffffffff ⟨Block.pmugrf, R.RV1103B_PMUGRF_SOC_CON 6⟩ s
    { v with
      pmu1_pwr_con := v.pmu1_pwr_con &&& (0xffffffff ^^^ (BIT P.RV1103B_PMU_DDR_BYPASS ||| 0))
      hw := s }
  else v

/-- The writes of `pmu_sleep_config()` to the PMU, from the comment
`pmu count` to the write of `PMU0_PWR_CON`; the products are 32-bit. -/
def pmu_sleep_config_write (B : Board) (D : Defs) (R : RegDefs) (P : CfgDefs) (v : PmuVars) :
    Hw :=
  let s := writel B (v.clk_freq_khz * 4) ⟨Block.pmu, P.RV1103B_PMU1_OSC_STABLE_CNT⟩ v.hw
  let s := writel B (v.clk_freq_khz * 6) ⟨Block.pmu, P.RV1103B_PMU1_PMIC_STABLE_CNT⟩ s
  let s := writel B (v.clk_freq_khz * 15) ⟨Block.pmu, P.RV1103B_PMU1_SLEEP_CNT⟩ s
  let s := writel B 0 ⟨Block.pmu, P.RV1103B_PMU1_WAKEUP_RST_CLR_CNT⟩ s
  let s := writel B 1200 ⟨Block.pmu, P.RV1103B_PMU1_PLL_LOCK_CNT⟩ s
  let s := writel B (24000 * 2) ⟨Block.pmu, P.RV1103B_PMU1_PWM_SWITCH_CNT⟩ s
  let s := writel B 0 ⟨Block.pmu, P.RV1103B_PMU2_SCU_STABLE_CNT⟩ s
  let s := writel B 0 ⟨Block.pmu, P.RV1103B_PMU2_SCU_PWRUP_CNT⟩ s
  let s := writel B 0 ⟨Block.pmu, P.RV1103B_PMU2_SCU_PWRDN_CNT⟩ s
  let s := writel B 0 ⟨Block.pmu, P.RV1103B_PMU2_SCU_VOLUP_CNT⟩ s
  let s := writel B 0 ⟨Block.pmu, P.RV1103B_PMU2_SCU_VOLDN_CNT⟩ s
  let s := writel B 0x00010001 ⟨Block.pmu, R.RV1103B_PMU1_INT_MASK_CON⟩ s
  let s := writel B (WITH_16BITS_WMSK v.pmu1_scu_con) ⟨Block.pmu, R.RV1103B_PMU2_SCU_PWR_CON⟩ s
  let s := writel B 0x003f003f ⟨Block.pmu, R.RV1103B_PMU2_CLUSTER_IDLE_CON⟩ s
  let s := writel B (0xffff0000 ||| BIT P.RV1103B_CPU_AUTO_INT_MSK)
    ⟨Block.pmu, R.RV1103B_PMU2_CPU_AUTO_PWR_CON⟩ s
  let s := writel B (0xffff0000 ||| BIT P.RV1103B_SCU_AUTO_INT_MSK)
    ⟨Block.pmu, R.RV1103B_PMU2_SCU_AUTO_PWR_CON⟩ s
  let s := writel B (WITH_16BITS_WMSK v.pmu1_cru_con0)
    ⟨Block.pmu, R.RV1103B_PMU1_CRU_PWR_CON 0⟩ s
  let s := writel B (WITH_16BITS_WMSK v.pmu1_cru_con1)
    ⟨Block.pmu, R.RV1103B_PMU1_CRU_PWR_CON 1⟩ s
  let s := writel B (WITH_16BITS_WMSK v.pmu2_bus_idle_con)
    ⟨Block.pmu, R.RV1103B_PMU2_BUS_IDLE_CON⟩ s
  let s := writel B (WITH_16BITS_WMSK v.pmu1_ddr_con) ⟨Block.pmu, R.RV1103B_PMU1_DDR_PWR_CON⟩ s
  let s := writel B (WITH_16BITS_WMSK v.pmu1_pll_con) ⟨Block.pmu, R.RV1103B_PMU1_PLLPD_CON⟩ s
  let s := writel B v.pmu1_wkup_con ⟨Block.pmu, D.RV1103B_PMU1_WAKEUP_INT_CON⟩ s
  let s := writel B (WITH_16BITS_WMSK v.pmu1_pwr_con) ⟨Block.pmu, R.RV1103B_PMU1_PWR_CON⟩ s
  writel B (WITH_16BITS_WMSK v.pmu0_pwr_con) ⟨Block.pmu, R.RV1103B_PMU0_PWR_CON⟩ s

/-- The writes of `pmu_sleep_config()` to the PMU-GRF OS registers, under
`#if RV1103B_WAKEUP_TO_SYSTEM_RESET ... #else ... #endif`. -/
def pmu_os_reg_config (B : Board) (P : CfgDefs) (s : Hw) : Hw :=
  if P.RV1103B_WAKEUP_TO_SYSTEM_RESET ≠ 0 then
    let s := writel B 0 ⟨Block.pmugrf, P.RV1103B_PMUGRF_OS_REG 9⟩ s
    writel B 0 ⟨Block.pmugrf, P.RV1103B_PMUGRF_OS_REG 10⟩ s
  else writel B P.pa_cpu_resume ⟨Block.pmugrf, P.RV1103B_PMUGRF_OS_REG 9⟩ s

/-- `pmu_sleep_config()` up to its last statement, the call of
`suspend_workaround_timeout_wkup()`: the parts above in the order of the
source.  It returns the new `ddr_data` and the machine state. -/
def pmu_sleep_config_regs (B : Board) (D : Defs) (R : RegDefs) (P : CfgDefs)
    (slp_cfg : rk_sleep_config) (ddr_data : rv1103b_sleep_ddr_data) (s : Hw) :
    rv1103b_sleep_ddr_data × Hw :=
  let i := pmu_sleep_config_init B D R P slp_cfg ddr_data s
  let v := pmu_mode_config B D R P slp_cfg.mode_config i.2
  let v := pmu_lp_pr_config B R P slp_cfg.mode_config v
  ((i.1), pmu_os_reg_config B P (pmu_sleep_config_write B D R P v))

/-- `pmu_sleep_config()`; it returns the new `ddr_data`.  `fuel` bounds the
retry loop of the HPTimer call made by the workaround. -/
def pmu_sleep_config (B : Board) (D : Defs) (R : RegDefs) (P : CfgDefs) (fuel : Nat)
    (slp_cfg : rk_sleep_config) (ddr_data : rv1103b_sleep_ddr_data) (s : Hw) :
    Option (rv1103b_sleep_ddr_data × Hw) :=
  let r := pmu_sleep_config_regs B D R P slp_cfg ddr_data s
  match suspend_workaround_timeout_wkup B D fuel slp_cfg r.1 r.2 with
  | none => none
  | some s1 => some (r.1, s1)

/-- The offsets in the PMU block that `pmu_sleep_config()` writes after the
flag blocks, in the order of the source. -/
def pmuWriteOffsets (D : Defs) (R : RegDefs) (P : CfgDefs) : List Nat :=
  [P.RV1103B_PMU1_OSC_STABLE_CNT, P.RV1103B_PMU1_PMIC_STABLE_CNT, P.RV1103B_PMU1_SLEEP_CNT,
   P.RV1103B_PMU1_WAKEUP_RST_CLR_CNT, P.RV1103B_PMU1_PLL_LOCK_CNT,
   P.RV1103B_PMU1_PWM_SWITCH_CNT, P.RV1103B_PMU2_SCU_STABLE_CNT, P.RV1103B_PMU2_SCU_PWRUP_CNT,
   P.RV1103B_PMU2_SCU_PWRDN_CNT, P.RV1103B_PMU2_SCU_VOLUP_CNT, P.RV1103B_PMU2_SCU_VOLDN_CNT,
   R.RV1103B_PMU1_INT_MASK_CON, R.RV1103B_PMU2_SCU_PWR_CON, R.RV1103B_PMU2_CLUSTER_IDLE_CON,
   R.RV1103B_PMU2_CPU_AUTO_PWR_CON, R.RV1103B_PMU2_SCU_AUTO_PWR_CON,
   R.RV1103B_PMU1_CRU_PWR_CON 0, R.RV1103B_PMU1_CRU_PWR_CON 1, R.RV1103B_PMU2_BUS_IDLE_CON,
   R.RV1103B_PMU1_DDR_PWR_CON, R.RV1103B_PMU1_PLLPD_CON, D.RV1103B_PMU1_WAKEUP_INT_CON,
   R.RV1103B_PMU1_PWR_CON, R.RV1103B_PMU0_PWR_CON]

/-- The four power modes that `pmu_sleep_config()` distinguishes. -/
inductive PowerMode
  | armpd
  | armoff
  | armoff_logoff
  | armoff_pmuoff
  deriving DecidableEq, Repr

/-- The flag of `mode_config` that selects a power mode. -/
def PowerMode.flag (D : Defs) : PowerMode → Nat
  | PowerMode.armpd => D.RKPM_SLP_ARMPD
  | PowerMode.armoff => D.RKPM_SLP_ARMOFF
  | PowerMode.armoff_logoff => D.RKPM_SLP_ARMOFF_LOGOFF
  | PowerMode.armoff_pmuoff => D.RKPM_SLP_ARMOFF_PMUOFF

/-- The first power mode, in the priority order `ARMPD`, `ARMOFF`,
`ARMOFF_LOGOFF`, `ARMOFF_PMUOFF`, whose flag is set in `cfg`; `none` when no
such flag is set. -/
def firstPowerMode (D : Defs) (cfg : Nat) : Option PowerMode :=
  [PowerMode.armpd, PowerMode.armoff, PowerMode.armoff_logoff, PowerMode.armoff_pmuoff].find?
    (fun m => decide (cfg &&& m.flag D ≠ 0))

/-- The local variables of `pmu_sleep_config()` when it reaches the comment
`pmu count`, after the power-mode chain and the `RKPM_SLP_LP_PR` block. -/
def pmu_sleep_config_vars (B : Board) (D : Defs) (R : RegDefs) (P : CfgDefs)
    (slp_cfg : rk_sleep_config) (ddr_data : rv1103b_sleep_ddr_data) (s : Hw) : PmuVars :=
  pmu_lp_pr_config B R P slp_cfg.mode_config
    (pmu_mode_config B D R P slp_cfg.mode_config
      (pmu_sleep_config_init B D R P slp_cfg ddr_data s).2)

/-! ## Diagnostics sent through the debug UART -/

/-- The formats of `rkpm_printhex` and `rkpm_printdec` of `rkpm_helpers.c`, which
is not part of the sources at hand: the characters that each of them sends for a
value.  They are parameters of the model. -/
structure PrintFmt where
  hex : Nat → List Int
  dec : Nat → List Int

/-- The value of a character constant of the C source, which has type `int`. -/
def charCode (c : Char) : Int := c.toNat

/-- A run of `rkpm_printch` calls, one per character, in order. -/
def rkpm_printchs (B : Board) (fuel : Nat) : List Int → Hw → Option Hw
  | [], s => some s
  | c :: cs, s => (rkpm_printch B fuel c s).bind (rkpm_printchs B fuel cs)

/-- Modelled from the spec: `rkpm_printstr(s)` of `rkpm_helpers.c`, which is not
part of the sources at hand.  Debug output is raw single-byte output through
`rkpm_printch`: the characters of the string are sent one after the other. -/
def rkpm_printstr (B : Board) (fuel : Nat) (str : String) (s : Hw) : Option Hw :=
  rkpm_printchs B fuel (str.toList.map charCode) s

/-- Modelled from the spec: `rkpm_printhex(hex)` of `rkpm_helpers.c`, which is
not part of the sources at hand.  The characters of the value are sent one after
the other through `rkpm_printch`. -/
def rkpm_printhex (B : Board) (F : PrintFmt) (fuel : Nat) (hex : Nat) (s : Hw) : Option Hw :=
  rkpm_printchs B fuel (F.hex hex) s

/-- Modelled from the spec: `rkpm_printdec(dec)` of `rkpm_helpers.c`, which is
not part of the sources at hand.  The characters of the value are sent one after
the other through `rkpm_printch`. -/
def rkpm_printdec (B : Board) (F : PrintFmt) (fuel : Nat) (dec : Nat) (s : Hw) : Option Hw :=
  rkpm_printchs B fuel (F.dec dec) s

/-- The bytes that a run of `rkpm_printch` calls hands to `uart_wrtie_byte`:
every character as a byte, with a carriage return before each line feed. -/
def uartBytes (cs : List Int) : List Nat :=
  cs.flatMap (fun c => if c = 10 then [13, 10] else [(c % 256).toNat])

/-- The register writes that send the characters `cs`: one write of each byte to
the transmit register of the debug UART. -/
def uartWrites (cs : List Int) : List (Addr × Nat) :=
  (uartBytes cs).map (fun b => (⟨Block.uartdbg, 0x0⟩, b))

/-- `rk_hptimer_wait_int_st(base, id, wait_us)` with its diagnostic sent through
the debug UART: `rkpm_printch` is the function of `rv1103b_pm.c`, whose wait for
the transmitter has no bound, so the result is `none` when the fuel runs out. -/
def rk_hptimer_wait_int_st_uart (B : Board) (F : PrintFmt) (fuel : Nat) (base : Block)
    (id : Nat) (wait_us : Nat) (s : Hw) : Option (Int × Hw) :=
  let r := poll_while B ⟨base, TIMER_HP_INTR_STATUS⟩ (fun v => v &&& BIT id == 0) wait_us s
  if r.1 = 0 then
    (rkpm_printstr B fuel "can't wait hptimer int:" r.2).bind fun s1 =>
    (rkpm_printdec B F fuel id s1).bind fun s2 =>
    (rkpm_printch B fuel (charCode '-') s2).bind fun s3 =>
    let v := readl B ⟨base, TIMER_HP_INTR_STATUS⟩ s3
    (rkpm_printhex B F fuel v.1 v.2).bind fun s5 =>
    (rkpm_printch B fuel (charCode '\n') s5).bind fun s6 =>
    some (-1, s6)
  else some (0, r.2)

/-- `rk_hptimer_v2_wait_sync(base)` with the diagnostic of the wait sent through
the debug UART. -/
def rk_hptimer_v2_wait_sync_uart (B : Board) (F : PrintFmt) (fuel : Nat) (base : Block)
    (s : Hw) : Option (Int × Hw) :=
  (rk_hptimer_wait_int_st_uart B F fuel base RK_HPTIMER_V2_INT_SYNC HPTIMER_WAIT_MAX_US s).bind
    fun w =>
      if w.1 ≠ 0 then some (-1, w.2)
      else some (0, rk_hptimer_v2_clear_int_st B base RK_HPTIMER_V2_INT_SYNC w.2)

/-- `rk_hptimer_wait_record_valid(base, wait_us, msk)` with its diagnostic sent
through the debug UART. -/
def rk_hptimer_wait_record_valid_uart (B : Board) (F : PrintFmt) (fuel : Nat) (base : Block)
    (wait_us : Nat) (msk : Nat) (s : Hw) : Option (Int × Hw) :=
  let r := poll_while B ⟨base, TIMER_HP_BEGIN_END_VALID⟩ (fun v => v &&& msk != msk) wait_us s
  if r.1 = 0 then
    (rkpm_printstr B fuel "can't wait hptimer begin_end valid:" r.2).bind fun s1 =>
    let v := readl B ⟨base, TIMER_HP_BEGIN_END_VALID⟩ s1
    (rkpm_printhex B F fuel v.1 v.2).bind fun s3 =>
    (rkpm_printch B fuel (charCode '\n') s3).bind fun s4 =>
    some (-1, s4)
  else some (0, r.2)

/-- `rk_hptimer_wait_begin_end_valid(base, wait_us)` with the diagnostic sent
through the debug UART. -/
def rk_hptimer_wait_begin_end_valid_uart (B : Board) (F : PrintFmt) (fuel : Nat)
    (base : Block) (wait_us : Nat) (s : Hw) : Option (Int × Hw) :=
  rk_hptimer_wait_record_valid_uart B F fuel base wait_us
    (BIT rk_hptimer_valid_t24_32_begin ||| BIT rk_hptimer_valid_t32_24_end) s

/-- `rk_hptimer_get_soft_adjust_delt_cnt(base, hf, lf)` with the diagnostic of
the wait sent through the debug UART. -/
def rk_hptimer_get_soft_adjust_delt_cnt_uart (B : Board) (F : PrintFmt) (fuel : Nat)
    (base : Block) (hf lf : Nat) (s : Hw) : Option (Nat × Hw) :=
  (rk_hptimer_wait_begin_end_valid_uart B F fuel base HPTIMER_WAIT_MAX_US s).bind fun w =>
    if w.1 ≠ 0 then some (0, w.2)
    else
      let b0 := readl B ⟨base, TIMER_HP_T24_32BEGIN0⟩ w.2
      let b1 := readl B ⟨base, TIMER_HP_T24_32BEGIN1⟩ b0.2
      let e0 := readl B ⟨base, TIMER_HP_T32_24END0⟩ b1.2
      let e1 := readl B ⟨base, TIMER_HP_T32_24END1⟩ e0.2
      let begin_ := b0.1 ||| (b1.1 <<< 32)
      let end_ := e0.1 ||| (e1.1 <<< 32)
      let delta := soft_adjust_delta hf lf begin_ end_
      let s6 := writel B 0x3 ⟨base, TIMER_HP_BEGIN_END_VALID⟩ e1.2
      some (delta, s6)

/-- `rk_hptimer_v2_do_soft_adjust_no_wait(base, hf, lf)` with the diagnostic of
the wait sent through the debug UART. -/
def rk_hptimer_v2_do_soft_adjust_no_wait_uart (B : Board) (F : PrintFmt) (fuel : Nat)
    (base : Block) (hf lf : Nat) (s : Hw) : Option Hw :=
  (rk_hptimer_get_soft_adjust_delt_cnt_uart B F fuel base hf lf s).bind fun d =>
    some (rk_hptimer_soft_adjust_req B base d.1 d.2)

/-- An instance of the print formats, used to exercise the statements on
concrete inputs: `0x` and the hexadecimal digits, and the decimal digits. -/
def exampleFmt : PrintFmt :=
  { hex := fun v => [charCode '0', charCode 'x'] ++ (Nat.toDigits 16 v).map charCode
    dec := fun v => (Nat.toDigits 10 v).map charCode }

/-- The words that the programming of a power mode writes to the PMU-GRF
reset-hold registers and to the resume-source field of `PMUSGRF_SOC_CON1`, in
order; none without a mode. -/
def modeGrfWrites (R : RegDefs) (P : CfgDefs) : Option PowerMode → List (Addr × Nat)
  | none => []
  | some PowerMode.armpd => [(⟨Block.pmusgrf, P.RV1103B_PMUSGRF_SOC_CON 1⟩, 0x0c000800)]
  | some PowerMode.armoff => [(⟨Block.pmusgrf, P.RV1103B_PMUSGRF_SOC_CON 1⟩, 0x0c000800)]
  | some PowerMode.armoff_logoff =>
    [(⟨Block.pmugrf, R.RV1103B_PMUGRF_SOC_CON 4⟩, 0xffff3fff),
     (⟨Block.pmugrf, R.RV1103B_PMUGRF_SOC_CON 5⟩, 0x007f007e),
     (⟨Block.pmugrf, R.RV1103B_PMUGRF_SOC_CON 6⟩, 0xffffffff),
     (⟨Block.pmusgrf, P.RV1103B_PMUSGRF_SOC_CON 1⟩, 0x0c000000)]
  | some PowerMode.armoff_pmuoff =>
    [(⟨Block.pmugrf, R.RV1103B_PMUGRF_SOC_CON 4⟩, 0xffff3fff),
     (⟨Block.pmugrf, R.RV1103B_PMUGRF_SOC_CON 5⟩, 0x007f007e),
     (⟨Block.pmugrf, R.RV1103B_PMUGRF_SOC_CON 6⟩, 0xffff0000),
     (⟨Block.pmusgrf, P.RV1103B_PMUSGRF_SOC_CON 1⟩, 0x0c000000)]

/-- What the programming of a power mode makes of the word for `PMU1_PWR_CON`:
`ARMPD` clears `SLP_CNT_EN`, `ARMOFF_PMUOFF` clears `PDPMU1_BYPASS`. -/
def modePwrCon (P : CfgDefs) : Option PowerMode → Nat → Nat
  | some PowerMode.armpd, w => w &&& (0xffffffff ^^^ BIT P.RV1103B_PMU_SLP_CNT_EN)
  | some PowerMode.armoff_pmuoff, w => w &&& (0xffffffff ^^^ BIT P.RV1103B_PMU_PDPMU1_BYPASS)
  | _, w => w

/-- What the programming of a power mode makes of the word for `PMU0_PWR_CON`:
only `ARMOFF_PMUOFF` sets bits in it. -/
def modePmu0PwrCon (P : CfgDefs) : Option PowerMode → Nat → Nat
  | some PowerMode.armoff_pmuoff, w =>
    w ||| (BIT P.RV1103B_PMU_PWRMODE0_EN ||| BIT P.RV1103B_PMU1_BUS_BYPASS
      ||| BIT P.RV1103B_PMU1_PWRGT_EN ||| BIT P.RV1103B_PMU1_BUS_IDLE_EN
      ||| BIT P.RV1103B_PMU1_BUS_AUTO)
  | _, w => w

/-- What the programming of a power mode makes of the word for
`PMU1_CRU_PWR_CON(0)`. -/
def modeCruCon0 (P : CfgDefs) : Option PowerMode → Nat → Nat
  | some PowerMode.armpd, w =>
    w &&& (0xffffffff ^^^ (BIT P.RV1103B_PMU_WAKEUP_RST ||| BIT P.RV1103B_PMU_INPUT_CLAMP
      ||| BIT P.RV1103B_PMU_POWER_OFF))
  | some PowerMode.armoff, w =>
    w &&& (0xffffffff ^^^ (BIT P.RV1103B_PMU_WAKEUP_RST ||| BIT P.RV1103B_PMU_INPUT_CLAMP))
  | _, w => w

/-- What the programming of a power mode makes of the word for
`PMU1_DDR_PWR_CON`: `ARMPD` replaces it. -/
def modeDdrCon (P : CfgDefs) : Option PowerMode → Nat → Nat
  | some PowerMode.armpd, _ => BIT P.RV1103B_PMU_DDR_SREF_C ||| BIT P.RV1103B_PMU_DDR_SREF_A
  | _, w => w

/-! ## The resume path with its output on the debug UART -/

/-- Further constants that `rv1103b_pm.c` takes from headers which are not part
of the sources at hand: the flag `RKPM_SLP_32K_EXT`, the clock-select register
of the PMU0 CRU, the GPIO port registers written by `gpio_restore` and the bit
numbers of the wake sources reported by `rv1103b_dbg_pmu_wkup_src`.  They are
parameters of the model. -/
structure ResumeDefs where
  RKPM_SLP_32K_EXT : Nat
  RV1103B_PMU0CRU_CLKSEL_CON : Nat → Nat
  RV1103B_GPIO_SWPORT_DDR_L : Nat
  RV1103B_GPIO_SWPORT_DDR_H : Nat
  RV1103B_GPIO_SWPORT_DR_L : Nat
  RV1103B_GPIO_SWPORT_DR_H : Nat
  RV1103B_PMU_WAKEUP_GPIO_INT : Nat
  RV1103B_PMU_WAKEUP_SDMMC0 : Nat
  RV1103B_PMU_WAKEUP_SDIO : Nat
  RV1103B_PMU_WAKEUP_USBDEV : Nat
  RV1103B_PMU_WAKEUP_UART0 : Nat
  RV1103B_PMU_WAKEUP_PWM0 : Nat
  RV1103B_PMU_WAKEUP_TIMER : Nat
  RV1103B_PMU_WAKEUP_SYS_INT : Nat
  RV1103B_PMU_WAKEUP_AOV : Nat

/-- The functions called on the resume path whose bodies are not part of the
sources at hand: the restore of the debug UART (`rkpm_uart.h`), of the interrupt
controller (`rkpm_gicv2.h`), `fiq_glue_resume()` and `local_fiq_enable()`.  Each
is a parameter of the model, a function of the machine state that returns. -/
structure Externs where
  rkpm_uart_debug_restore : Hw → Hw
  rkpm_gicv2_dist_restore : Hw → Hw
  rkpm_gicv2_cpu_restore : Hw → Hw
  fiq_glue_resume : Hw → Hw
  local_fiq_enable : Hw → Hw

/-- The memory of the register region store: what `rkpm_reg_rgn_save` captured
on the suspend path for each of the tables restored on the resume path. -/
structure RegionMem where
  vd_core : List (List Nat)
  vd_log : List (List Nat)
  pvtpll_core : List (List Nat)
  pvtpll_logic : List (List Nat)
  pd_pmu1 : List (List Nat)

/-- Sequencing of two steps of which the first may run out of fuel: the second
is run on the result of the first.  It is `Option.bind`, as a function of this
file, used for the functions with many steps. -/
def andThen {α β : Type} (o : Option α) (k : α → Option β) : Option β :=
  o.bind k

/-- `pm_pll_wait_lock(pll_id)` with its diagnostic sent through the debug UART:
`rkpm_printch` is the function of this file, whose wait for the transmitter has
no bound, so the result is `none` when the fuel runs out. -/
def pm_pll_wait_lock_uart (B : Board) (R : RegDefs) (F : PrintFmt) (fuel : Nat) (pll_id : Nat)
    (s : Hw) : Option Hw :=
  let r := readl B ⟨Block.cru, R.RV1103B_CRU_PLL_CON pll_id 1⟩ s
  if r.1 &&& R.CRU_PLLCON1_PWRDOWN ≠ 0 then some r.2
  else
    let w := pll_wait_loop B ⟨Block.cru, R.RV1103B_CRU_PLL_CON pll_id 1⟩
      R.CRU_PLLCON1_LOCK_STATUS PLL_LOCKED_TIMEOUT r.2
    if w.1 ≤ 0 then
      (rkpm_printstr B fuel "Can't wait pll lock: " w.2).bind fun s1 =>
      (rkpm_printhex B F fuel pll_id s1).bind fun s2 =>
      rkpm_printch B fuel (charCode '\n') s2
    else some w.2

/-- `gic400_restore()`. -/
def gic400_restore (X : Externs) (s : Hw) : Hw :=
  X.rkpm_gicv2_cpu_restore (X.rkpm_gicv2_dist_restore s)

/-- `pvtpll_core_resume()`; the delay `rkpm_raw_udelay(1)` makes no access. -/
def pvtpll_core_resume (B : Board) (M : RegionMem) (s : Hw) : Hw :=
  rkpm_reg_rgn_restore B pvtpll_core_reg_rgns M.pvtpll_core s

/-- `pvtpll_logic_resume()`; the delay `rkpm_raw_udelay(1)` makes no access. -/
def pvtpll_logic_resume (B : Board) (M : RegionMem) (s : Hw) : Hw :=
  rkpm_reg_rgn_restore B pvtpll_logic_reg_rgns M.pvtpll_logic s

/-- The first part of `vd_log_regs_restore()`, up to the checkpoint `e` that
precedes the wait for the PLL lock. -/
def vd_log_regs_restore_head (B : Board) (X : Externs) (fuel : Nat) (M : RegionMem) (s : Hw) :
    Option Hw :=
  (rkpm_printch B fuel (charCode 'a') s).bind fun s =>
  (rkpm_printch B fuel (charCode 'b') (X.rkpm_uart_debug_restore s)).bind fun s =>
  (rkpm_printch B fuel (charCode 'c') (writel B 0x00030000 ⟨Block.cru, 0x280⟩ s)).bind fun s =>
  (rkpm_printch B fuel (charCode 'd') (pvtpll_logic_resume B M s)).bind fun s =>
  rkpm_printch B fuel (charCode 'e') (rkpm_reg_rgn_restore B vd_log_reg_rgns M.vd_log s)

/-- The last part of `vd_log_regs_restore()`, after the wait for the PLL lock:
the clock mode word `cru_mode` is written back, checkpoint `f`, the PMU-GRF
reset-hold registers are released and a running watchdog is restarted. -/
def vd_log_regs_restore_tail (B : Board) (R : RegDefs) (fuel : Nat) (cru_mode : Nat)
    (s : Hw) : Option Hw :=
  (rkpm_printch B fuel (charCode 'f')
    (writel B (WITH_16BITS_WMSK cru_mode) ⟨Block.cru, 0x280⟩ s)).bind fun s =>
  let s := writel B 0xffff0000 ⟨Block.pmugrf, R.RV1103B_PMUGRF_SOC_CON 4⟩ s
  let s := writel B 0xffff0000 ⟨Block.pmugrf, R.RV1103B_PMUGRF_SOC_CON 5⟩ s
  let s := writel B 0xffff0000 ⟨Block.pmugrf, R.RV1103B_PMUGRF_SOC_CON 6⟩ s
  let ns := readl B ⟨Block.wdt_ns, R.RV1103B_WDT_CR⟩ s
  let s := if ns.1 &&& 0x1 ≠ 0 then writel B 0x76 ⟨Block.wdt_ns, R.RV1103B_WDT_CRR⟩ ns.2 else ns.2
  let se := readl B ⟨Block.wdt_s, R.RV1103B_WDT_CR⟩ s
  some (if se.1 &&& 0x1 ≠ 0 then writel B 0x76 ⟨Block.wdt_s, R.RV1103B_WDT_CRR⟩ se.2 else se.2)

/-- `vd_log_regs_restore()`: the first part, `pm_pll_wait_lock(RV1103B_GPLL_ID)`
and the last part. -/
def vd_log_regs_restore (B : Board) (R : RegDefs) (X : Externs) (F : PrintFmt) (fuel : Nat)
    (M : RegionMem) (cru_mode : Nat) (s : Hw) : Option Hw :=
  (vd_log_regs_restore_head B X fuel M s).bind fun s =>
  (pm_pll_wait_lock_uart B R F fuel R.RV1103B_GPLL_ID s).bind fun s =>
  vd_log_regs_restore_tail B R fuel cru_mode s

/-- `vd_core_regs_restore()`. -/
def vd_core_regs_restore (B : Board) (X : Externs) (fuel : Nat) (M : RegionMem) (s : Hw) :
    Option Hw :=
  let mode := readl B ⟨Block.cru, 0x280⟩ s
  (rkpm_printch B fuel (charCode 'a') mode.2).bind fun s =>
  (rkpm_printch B fuel (charCode 'b') (gic400_restore X s)).bind fun s =>
  (rkpm_printch B fuel (charCode 'c') (writel B 0x00030000 ⟨Block.cru, 0x280⟩ s)).bind fun s =>
  (rkpm_printch B fuel (charCode 'd') (pvtpll_core_resume B M s)).bind fun s =>
  (rkpm_printch B fuel (charCode 'e')
    (rkpm_reg_rgn_restore B vd_core_reg_rgns M.vd_core s)).bind fun s =>
  rkpm_printch B fuel (charCode 'f') (writel B (WITH_16BITS_WMSK mode.1) ⟨Block.cru, 0x280⟩ s)

/-- `rkpm_regs_rgn_dump()`: its first statement is `return;`. -/
def rkpm_regs_rgn_dump (s : Hw) : Hw := s

/-- `gpio_restore()`. -/
def gpio_restore (B : Board) (Q : ResumeDefs) (ddr_data : rv1103b_sleep_ddr_data) (s : Hw) :
    Hw :=
  let s := writel B (WITH_16BITS_WMSK ddr_data.gpio0_ddr_l)
    ⟨Block.gpio0, Q.RV1103B_GPIO_SWPORT_DDR_L⟩ s
  let s := writel B (WITH_16BITS_WMSK ddr_data.gpio0_ddr_h)
    ⟨Block.gpio0, Q.RV1103B_GPIO_SWPORT_DDR_H⟩ s
  let s := writel B (WITH_16BITS_WMSK ddr_data.gpio0_dr_l)
    ⟨Block.gpio0, Q.RV1103B_GPIO_SWPORT_DR_L⟩ s
  let s := writel B (WITH_16BITS_WMSK ddr_data.gpio0_dr_h)
    ⟨Block.gpio0, Q.RV1103B_GPIO_SWPORT_DR_H⟩ s
  let s := writel B (WITH_16BITS_WMSK ddr_data.gpio0a_iomux_l) ⟨Block.ioc0, 0⟩ s
  let s := writel B (WITH_16BITS_WMSK ddr_data.gpio0a_iomux_h) ⟨Block.ioc0, 0x4⟩ s
  let s := writel B (WITH_16BITS_WMSK ddr_data.gpio0b_iomux_l) ⟨Block.ioc1, 0x8⟩ s
  let s := writel B (WITH_16BITS_WMSK ddr_data.gpio0b_iomux_h) ⟨Block.ioc1, 0xc⟩ s
  let s := writel B (WITH_16BITS_WMSK ddr_data.gpio0a_pull) ⟨Block.ioc0, 0x200⟩ s
  writel B (WITH_16BITS_WMSK ddr_data.gpio0b_pull) ⟨Block.ioc1, 0x204⟩ s

/-- `plls_resume()`: its body is empty. -/
def plls_resume (s : Hw) : Hw := s

/-- `sleep_32k_config_restore()`. -/
def sleep_32k_config_restore (B : Board) (Q : ResumeDefs) (slp_cfg : rk_sleep_config)
    (s : Hw) : Hw :=
  if slp_cfg.mode_config &&& Q.RKPM_SLP_32K_EXT = 0 then
    let s := writel B (BITS_WITH_WMASK 0x0 0x1 2)
      ⟨Block.pmu0cru, Q.RV1103B_PMU0CRU_CLKSEL_CON 0⟩ s
    writel B (BITS_WITH_WMASK 0x0 0x3 0) ⟨Block.pmu0cru, Q.RV1103B_PMU0CRU_CLKSEL_CON 0⟩ s
  else s

/-- `soc_sleep_restore()`; it returns the new `ddr_data`. -/
def soc_sleep_restore (B : Board) (D : Defs) (R : RegDefs) (P : CfgDefs) (Q : ResumeDefs)
    (fuel : Nat) (slp_cfg : rk_sleep_config) (ddr_data : rv1103b_sleep_ddr_data) (s : Hw) :
    Option (rv1103b_sleep_ddr_data × Hw) :=
  (rkpm_printch B fuel (charCode 'd') s).bind fun s =>
  let r := pmu_sleep_restore B D R ddr_data s
  (rkpm_printch B fuel (charCode 'c') r.2).bind fun s =>
  (rkpm_printch B fuel (charCode 'b') (ddr_sleep_config_restore B R P r.1 s)).bind fun s =>
  (rkpm_printch B fuel (charCode 'a')
    (if slp_cfg.mode_config &&& D.RKPM_SLP_PMU_PMUALIVE_32K ≠ 0 then
      sleep_32k_config_restore B Q slp_cfg s
    else s)).bind fun s =>
  some (r.1, s)

/-- `rv1103b_dbg_pmu_wkup_src()`. -/
def rv1103b_dbg_pmu_wkup_src (B : Board) (D : Defs) (Q : ResumeDefs) (F : PrintFmt) (fuel : Nat)
    (ddr_data : rv1103b_sleep_ddr_data) (s : Hw) : Option Hw :=
  let pmu_int_st := ddr_data.pmu_wkup_int_st
  andThen (rkpm_printstr B fuel "wake up status:" s) fun s =>
  andThen (rkpm_printhex B F fuel pmu_int_st s) fun s =>
  andThen (rkpm_printch B fuel (charCode '\n') s) fun s =>
  andThen (if pmu_int_st ≠ 0 then
    rkpm_printstr B fuel "wake up information:\n" s else some s) fun s =>
  andThen (if pmu_int_st &&& BIT Q.RV1103B_PMU_WAKEUP_GPIO_INT ≠ 0 then
    (rkpm_printstr B fuel "GPIO0 wakeup:" s).bind fun s =>
    (rkpm_printhex B F fuel ddr_data.gpio0_int_st s).bind fun s =>
    rkpm_printch B fuel (charCode '\n') s
   else some s) fun s =>
  andThen (if pmu_int_st &&& BIT Q.RV1103B_PMU_WAKEUP_SDMMC0 ≠ 0 then
    rkpm_printstr B fuel "SDMMC wakeup\n" s else some s) fun s =>
  andThen (if pmu_int_st &&& BIT Q.RV1103B_PMU_WAKEUP_SDIO ≠ 0 then
    rkpm_printstr B fuel "SDIO wakeup\n" s else some s) fun s =>
  andThen (if pmu_int_st &&& BIT Q.RV1103B_PMU_WAKEUP_USBDEV ≠ 0 then
    rkpm_printstr B fuel "USBDEV wakeup\n" s else some s) fun s =>
  andThen (if pmu_int_st &&& BIT Q.RV1103B_PMU_WAKEUP_UART0 ≠ 0 then
    rkpm_printstr B fuel "UART0 wakeup\n" s else some s) fun s =>
  andThen (if pmu_int_st &&& BIT Q.RV1103B_PMU_WAKEUP_PWM0 ≠ 0 then
    rkpm_printstr B fuel "PWM0 wakeup\n" s else some s) fun s =>
  andThen (if pmu_int_st &&& BIT Q.RV1103B_PMU_WAKEUP_TIMER ≠ 0 then
    rkpm_printstr B fuel "TIMER wakeup\n" s else some s) fun s =>
  andThen (if pmu_int_st &&& BIT D.RV1103B_PMU_WAKEUP_HPTIMER ≠ 0 then
    rkpm_printstr B fuel "HPTIMER wakeup\n" s else some s) fun s =>
  andThen (if pmu_int_st &&& BIT Q.RV1103B_PMU_WAKEUP_SYS_INT ≠ 0 then
    rkpm_printstr B fuel "SYS_INT wakeup\n" s else some s) fun s =>
  andThen (if pmu_int_st &&& BIT Q.RV1103B_PMU_WAKEUP_AOV ≠ 0 then
    rkpm_printstr B fuel "AOV wakeup\n" s else some s) fun s =>
  andThen (if pmu_int_st &&& BIT D.RV1103B_PMU_WAKEUP_TIMEOUT ≠ 0 then
    rkpm_printstr B fuel "TIMEOUT wakeup\n" s else some s) fun s =>
  rkpm_printch B fuel (charCode '\n') s

/-- `rv1103b_dbg_irq_finish()`. -/
def rv1103b_dbg_irq_finish (B : Board) (D : Defs) (Q : ResumeDefs) (F : PrintFmt) (fuel : Nat)
    (ddr_data : rv1103b_sleep_ddr_data) (s : Hw) : Option Hw :=
  rv1103b_dbg_pmu_wkup_src B D Q F fuel ddr_data s

/-- `pd_pmu1_regs_restore()`. -/
def pd_pmu1_regs_restore (B : Board) (fuel : Nat) (M : RegionMem) (s : Hw) : Option Hw :=
  (rkpm_printch B fuel (charCode 'a') s).bind fun s =>
  rkpm_printch B fuel (charCode 'b') (rkpm_reg_rgn_restore B pd_pmu1_reg_rgns M.pd_pmu1 s)

/-- `hptimer_resume()` with the diagnostic of the soft adjust sent through the
debug UART. -/
def hptimer_resume_uart (B : Board) (D : Defs) (P : CfgDefs) (F : PrintFmt) (fuel : Nat)
    (slp_cfg : rk_sleep_config) (s : Hw) : Option Hw :=
  let mode := rk_hptimer_get_mode B Block.hptimer s
  let s := writel B (BITS_WITH_WMASK 0x0 0x1 8) ⟨Block.pmusgrf, P.RV1103B_PMUSGRF_SOC_CON 0⟩
    mode.2
  if slp_cfg.mode_config &&& D.RKPM_SLP_PMU_PMUALIVE_32K ≠ 0 then
    if mode.1 = RK_HPTIMER_HARD_ADJUST_MODE then
      some (rk_hptimer_v2_do_hard_adjust_no_wait B Block.hptimer s)
    else if mode.1 = RK_HPTIMER_SOFT_ADJUST_MODE then
      rk_hptimer_v2_do_soft_adjust_no_wait_uart B F fuel Block.hptimer 24000000 32768 s
    else some s
  else some s

/-- The resume path of `rv1103b_suspend_enter`: the statements that follow the
return of `cpu_suspend(0, rockchip_lpmode_enter)`, from `hptimer_resume();` to
`return 0;`, as a function of the machine state.  `M` is the memory of the
region store, `cru_mode` the global saved by `vd_log_regs_save`, `slp_cfg` and
`ddr_data` the globals at that point (`mode_cfg` is `slp_cfg.mode_config`).  The
result is the return value, the new `ddr_data` and the machine state; it is
`none` when the fuel of a wait for the UART transmitter runs out. -/
def rv1103b_suspend_enter_resume (B : Board) (D : Defs) (R : RegDefs) (P : CfgDefs)
    (Q : ResumeDefs) (X : Externs) (F : PrintFmt) (fuel : Nat) (M : RegionMem) (cru_mode : Nat)
    (slp_cfg : rk_sleep_config) (ddr_data : rv1103b_sleep_ddr_data) (s : Hw) :
    Option (Int × rv1103b_sleep_ddr_data × Hw) :=
  andThen (hptimer_resume_uart B D P F fuel slp_cfg s) fun s =>
  andThen (rkpm_printch B fuel (charCode '6') s) fun s =>
  andThen (if slp_cfg.mode_config &&& D.RKPM_SLP_ARMOFF_PMUOFF ≠ 0 then
    pd_pmu1_regs_restore B fuel M s
   else some s) fun s =>
  andThen (rkpm_printch B fuel (charCode '5') s) fun s =>
  andThen (if slp_cfg.mode_config
      &&& (D.RKPM_SLP_ARMOFF_LOGOFF ||| D.RKPM_SLP_ARMOFF_PMUOFF) ≠ 0 then
    vd_log_regs_restore B R X F fuel M cru_mode s
   else some s) fun s =>
  andThen (rkpm_printch B fuel (charCode '4') s) fun s =>
  andThen (vd_core_regs_restore B X fuel M s) fun s =>
  andThen (rkpm_printch B fuel (charCode '3') s) fun s =>
  andThen (rkpm_printch B fuel (charCode '2')
    (gpio_restore B Q ddr_data (rkpm_regs_rgn_dump s))) fun s =>
  andThen (rkpm_printch B fuel (charCode '1') (plls_resume s)) fun s =>
  andThen (soc_sleep_restore B D R P Q fuel slp_cfg ddr_data s) fun r =>
  andThen (rkpm_printch B fuel (charCode '0') r.2) fun s =>
  let mode := rk_hptimer_get_mode B Block.hptimer s
  andThen (if mode.1 ≠ RK_HPTIMER_NORM_MODE
      ∧ slp_cfg.mode_config &&& D.RKPM_SLP_PMU_PMUALIVE_32K ≠ 0 then
    (rk_hptimer_v2_wait_sync_uart B F fuel Block.hptimer mode.2).bind fun w => some w.2
   else some mode.2) fun s =>
  andThen (rkpm_printch B fuel (charCode '-') (clock_resume B D r.1 s)) fun s =>
  andThen (rv1103b_dbg_irq_finish B D Q F fuel r.1 (X.fiq_glue_resume s)) fun s =>
  andThen (rkpm_printstr B fuel "exit sleep\n" (X.local_fiq_enable s)) fun s =>
  some (0, r.1, s)

/-- An instance of the further resume constants, used to exercise the statements
on concrete inputs; the values are illustrative. -/
def exampleResumeDefs : ResumeDefs :=
  { RKPM_SLP_32K_EXT := 0x100
    RV1103B_PMU0CRU_CLKSEL_CON := fun i => 0x300 + 4 * i
    RV1103B_GPIO_SWPORT_DDR_L := 0x8
    RV1103B_GPIO_SWPORT_DDR_H := 0xc
    RV1103B_GPIO_SWPORT_DR_L := 0x0
    RV1103B_GPIO_SWPORT_DR_H := 0x4
    RV1103B_PMU_WAKEUP_GPIO_INT := 0
    RV1103B_PMU_WAKEUP_SDMMC0 := 1
    RV1103B_PMU_WAKEUP_SDIO := 2
    RV1103B_PMU_WAKEUP_USBDEV := 3
    RV1103B_PMU_WAKEUP_UART0 := 4
    RV1103B_PMU_WAKEUP_PWM0 := 5
    RV1103B_PMU_WAKEUP_TIMER := 6
    RV1103B_PMU_WAKEUP_SYS_INT := 8
    RV1103B_PMU_WAKEUP_AOV := 9 }

/-- External functions that leave the machine state alone, used to exercise the
statements on concrete inputs. -/
def exampleExterns : Externs :=
  { rkpm_uart_debug_restore := id
    rkpm_gicv2_dist_restore := id
    rkpm_gicv2_cpu_restore := id
    fiq_glue_resume := id
    local_fiq_enable := id }

/-- An empty region store. -/
def emptyRegionMem : RegionMem :=
  { vd_core := [], vd_log := [], pvtpll_core := [], pvtpll_logic := [], pd_pmu1 := [] }

/-! ## Theorems -/

/-- Euclid's loop computes the greatest common divisor. -/
theorem get_gcd_eq_gcd (a b : Nat) : get_gcd a b = Nat.gcd a b := by
  induction b using Nat.strong_induction_on generalizing a with
  | _ b ih =>
    cases b with
    | zero => simp [get_gcd]
    | succ n =>
      rw [get_gcd, ih _ (Nat.mod_lt _ (Nat.succ_pos _))]
      rw [Nat.gcd_comm a (n + 1), Nat.gcd_rec (n + 1) a, Nat.gcd_comm]

/-! ### The access log -/

theorem writesOf_append (l1 l2 : List Ev) :
    writesOf (l1 ++ l2) = writesOf l1 ++ writesOf l2 := by
  induction l1 with
  | nil => rfl
  | cons e l ih => cases e <;> simp [writesOf, ih]

theorem readsOf_append (l1 l2 : List Ev) :
    readsOf (l1 ++ l2) = readsOf l1 ++ readsOf l2 := by
  induction l1 with
  | nil => rfl
  | cons e l ih => cases e <;> simp [readsOf, ih]

theorem writesOf_map_rd {α : Type} (l : List α) (a : α → Addr) (v : α → Nat) :
    writesOf (l.map (fun j => Ev.rd (a j) (v j))) = [] := by
  induction l with
  | nil => rfl
  | cons x l ih => simpa [writesOf] using ih

/-! ### Words and halves -/

theorem lo_or_hi (lo hi : Nat) (h : lo < 2 ^ 32) : lo ||| (hi <<< 32) = lo + hi * 2 ^ 32 := by
  rw [Nat.or_comm, Nat.shiftLeft_eq, Nat.mul_comm hi, ← Nat.mul_add_lt_is_or h, Nat.add_comm]

theorem hi_or_lo (lo hi : Nat) (h : lo < 2 ^ 32) : (hi <<< 32) ||| lo = hi * 2 ^ 32 + lo := by
  rw [Nat.shiftLeft_eq, Nat.mul_comm hi, ← Nat.mul_add_lt_is_or h]

theorem and_ffffffff (x : Nat) : x &&& 0xffffffff = x % 2 ^ 32 :=
  Nat.and_pow_two_sub_one_eq_mod x 32

theorem pollVal_lt (B : Board) (a : Addr) (s : Hw) (j : Nat) : pollVal B a s j < 2 ^ 32 :=
  Nat.mod_lt _ (by norm_num)

theorem readl_afterReads_other (B : Board) (a b : Addr) (n : Nat) (s : Hw) :
    (readl B b (afterReads B a n s)).1 = pollVal B b s n := by
  simp [readl, afterReads, pollVal]

theorem load_halves (cnt : Nat) (h : cnt < 2 ^ 64) :
    (cnt &&& 0xffffffff) % 2 ^ 32 = cnt % 2 ^ 32 ∧
    ((cnt >>> 32) &&& 0xffffffff) % 2 ^ 32 = cnt / 2 ^ 32 := by
  rw [and_ffffffff, and_ffffffff, Nat.shiftRight_eq_div_pow, Nat.mod_mod]
  refine ⟨rfl, ?_⟩
  simp only [Nat.reducePow] at h ⊢
  omega

theorem or_bit_lt (v id : Nat) (hv : v < 2 ^ 32) (hid : id < 32) :
    (v ||| BIT id) % 2 ^ 32 = v ||| BIT id := by
  apply Nat.mod_eq_of_lt
  apply Nat.or_lt_two_pow hv
  unfold BIT
  rw [Nat.shiftLeft_eq, Nat.one_mul]
  exact Nat.pow_lt_pow_right (by norm_num) hid

/-! ### Single accesses -/

@[simp] theorem writel_log (B : Board) (v : Nat) (a : Addr) (s : Hw) :
    (writel B v a s).log = s.log ++ [Ev.wr a (v % 2 ^ 32)] := rfl

@[simp] theorem writel_time (B : Board) (v : Nat) (a : Addr) (s : Hw) :
    (writel B v a s).time = s.time + 1 := rfl

theorem writel_mem_other (B : Board) (v : Nat) (a b : Addr) (s : Hw) (h : b ≠ a) :
    (writel B v a s).mem b = s.mem b := by
  simp [writel, Function.update_noteq h]

@[simp] theorem writel_mem_same (B : Board) (v : Nat) (a : Addr) (s : Hw) :
    (writel B v a s).mem a = B.wrv a (s.mem a) (v % 2 ^ 32) := by
  simp [writel]

@[simp] theorem readl_log (B : Board) (a : Addr) (s : Hw) :
    (readl B a s).2.log = s.log ++ [Ev.rd a (readl B a s).1] := rfl

@[simp] theorem readl_time (B : Board) (a : Addr) (s : Hw) :
    (readl B a s).2.time = s.time + 1 := rfl

@[simp] theorem readl_mem (B : Board) (a : Addr) (s : Hw) :
    (readl B a s).2.mem = s.mem := rfl

theorem readl_val (B : Board) (a : Addr) (s : Hw) :
    (readl B a s).1 = B.rdv a s.time (s.mem a) % 2 ^ 32 := rfl

theorem readl_lt (B : Board) (a : Addr) (s : Hw) : (readl B a s).1 < 2 ^ 32 :=
  Nat.mod_lt _ (by norm_num)

/-- A read made `j` accesses after `s`, the register untouched since. -/
theorem readl_eq_pollVal (B : Board) (a : Addr) (s t : Hw) (j : Nat)
    (htime : t.time = s.time + j) (hmem : t.mem a = s.mem a) :
    (readl B a t).1 = pollVal B a s j := by
  rw [readl_val, htime, hmem, pollVal]

@[simp] theorem emit_log (e : Ev) (s : Hw) : (emit e s).log = s.log ++ [e] := rfl

@[simp] theorem emit_time (e : Ev) (s : Hw) : (emit e s).time = s.time := rfl

@[simp] theorem emit_mem (e : Ev) (s : Hw) : (emit e s).mem = s.mem := rfl

theorem enable_int_log (B : Board) (base : Block) (id : Nat) (s : Hw) (hid : id < 32) :
    (rk_hptimer_v2_enable_int B base id s).log
      = s.log ++ [Ev.rd ⟨base, TIMER_HP_INT_EN⟩ (readl B ⟨base, TIMER_HP_INT_EN⟩ s).1,
                  Ev.wr ⟨base, TIMER_HP_INT_EN⟩
                    ((readl B ⟨base, TIMER_HP_INT_EN⟩ s).1 ||| BIT id)] := by
  unfold rk_hptimer_v2_enable_int
  rw [writel_log, readl_log, or_bit_lt _ _ (readl_lt _ _ _) hid, List.append_assoc]
  rfl

/-! ### Bounded waits -/

theorem afterReads_zero (B : Board) (a : Addr) (s : Hw) : afterReads B a 0 s = s := by
  simp [afterReads]

theorem readl_afterReads (B : Board) (a : Addr) (n : Nat) (s : Hw) :
    readl B a (afterReads B a n s) = (pollVal B a s n, afterReads B a (n + 1) s) := by
  simp [readl, afterReads, pollVal, List.range_succ, Nat.add_assoc]

theorem dec_u64_of_pos (w : Nat) (h1 : 1 ≤ w) (hw : w < 2 ^ 64) : dec_u64 w = w - 1 := by
  unfold dec_u64
  simp only [Nat.reducePow] at hw ⊢
  omega

/-- The loop leaves with `wait_us` not yet exhausted at the first poll on which
the condition no longer holds. -/
theorem poll_while_hit (B : Board) (a : Addr) (pending : Nat → Bool) (s : Hw) (k : Nat) :
    ∀ i w, w < 2 ^ 64 → k < w →
      (∀ j, j < k → pending (pollVal B a s (i + j)) = true) →
      pending (pollVal B a s (i + k)) = false →
      poll_while B a pending w (afterReads B a i s) = (w - k, afterReads B a (i + k + 1) s) := by
  induction k with
  | zero =>
    intro i w _ _ _ hhit
    rw [poll_while, readl_afterReads]
    simp only [Nat.add_zero] at hhit
    simp [hhit]
  | succ k ih =>
    intro i w hw hk hmiss hhit
    have h0 : pending (pollVal B a s i) = true := by simpa using hmiss 0 (Nat.succ_pos k)
    have hw1 : dec_u64 w = w - 1 := dec_u64_of_pos w (Nat.one_le_of_lt hk) hw
    simp only [Nat.reducePow] at hw
    rw [poll_while, readl_afterReads]
    simp only [h0, if_true, hw1]
    have hpos : 0 < w - 1 := by omega
    rw [dif_pos hpos]
    have e1 : i + (k + 1) = i + 1 + k := by omega
    rw [e1] at hhit
    have hmiss1 : ∀ j, j < k → pending (pollVal B a s (i + 1 + j)) = true := by
      intro j hj
      have e2 : i + 1 + j = i + (j + 1) := by omega
      rw [e2]
      exact hmiss (j + 1) (by omega)
    have hw2 : w - 1 < 2 ^ 64 := by
      simp only [Nat.reducePow]
      omega
    have hstep := ih (i + 1) (w - 1) hw2 (by omega) hmiss1 hhit
    rw [hstep, show w - 1 - k = w - (k + 1) by omega,
      show i + 1 + k + 1 = i + (k + 1) + 1 by omega]

/-- The loop leaves with `wait_us = 0` after exactly `w` polls when the
condition holds on each of them. -/
theorem poll_while_timeout (B : Board) (a : Addr) (pending : Nat → Bool) (s : Hw) (n : Nat) :
    ∀ i, n + 1 < 2 ^ 64 →
      (∀ j, j < n + 1 → pending (pollVal B a s (i + j)) = true) →
      poll_while B a pending (n + 1) (afterReads B a i s) = (0, afterReads B a (i + (n + 1)) s) := by
  induction n with
  | zero =>
    intro i hw hmiss
    have h0 : pending (pollVal B a s i) = true := by simpa using hmiss 0 (Nat.succ_pos _)
    have hw1 : dec_u64 (0 + 1) = 0 := dec_u64_of_pos _ (Nat.le_refl _) hw
    clear hw
    rw [poll_while, readl_afterReads]
    simp [h0, hw1]
  | succ n ih =>
    intro i hw hmiss
    have hw1 : dec_u64 (n + 1 + 1) = n + 1 := dec_u64_of_pos _ (Nat.succ_pos _) hw
    have hstep := ih (i + 1) (Nat.lt_of_succ_lt hw)
    clear hw
    have h0 : pending (pollVal B a s i) = true := by simpa using hmiss 0 (by omega)
    rw [poll_while, readl_afterReads]
    simp only [h0, if_true, hw1]
    rw [dif_pos (Nat.succ_pos n)]
    rw [hstep (fun j hj => by
        have := hmiss (j + 1) (by omega)
        rwa [show i + (j + 1) = i + 1 + j by omega] at this)]
    rw [show i + 1 + (n + 1) = i + (n + 1 + 1) by omega]

theorem wait_int_st_hit (B : Board) (base : Block) (id w : Nat) (s : Hw) (k : Nat)
    (hw : w < 2 ^ 64) (hk : k < w)
    (hmiss : ∀ j, j < k → pollVal B ⟨base, TIMER_HP_INTR_STATUS⟩ s j &&& BIT id = 0)
    (hhit : pollVal B ⟨base, TIMER_HP_INTR_STATUS⟩ s k &&& BIT id ≠ 0) :
    rk_hptimer_wait_int_st B base id w s
      = (0, afterReads B ⟨base, TIMER_HP_INTR_STATUS⟩ (k + 1) s) := by
  have h := poll_while_hit B ⟨base, TIMER_HP_INTR_STATUS⟩ (fun v => v &&& BIT id == 0) s k 0 w
    hw hk (fun j hj => by simpa using hmiss j hj) (by simpa using hhit)
  rw [afterReads_zero, Nat.zero_add] at h
  have hne : w - k ≠ 0 := by
    clear hw
    omega
  simp [rk_hptimer_wait_int_st, h, hne]

theorem wait_int_st_timeout (B : Board) (base : Block) (id n : Nat) (s : Hw)
    (hw : n + 1 < 2 ^ 64)
    (hmiss : ∀ j, j < n + 1 → pollVal B ⟨base, TIMER_HP_INTR_STATUS⟩ s j &&& BIT id = 0) :
    rk_hptimer_wait_int_st B base id (n + 1) s
      = (-1, { mem := s.mem
               time := s.time + (n + 1) + 1
               log := s.log
                 ++ (List.range (n + 1)).map
                      (fun j => Ev.rd ⟨base, TIMER_HP_INTR_STATUS⟩
                        (pollVal B ⟨base, TIMER_HP_INTR_STATUS⟩ s j))
                 ++ [Ev.printstr "can't wait hptimer int:", Ev.printdec id, Ev.printch '-',
                     Ev.rd ⟨base, TIMER_HP_INTR_STATUS⟩
                       (pollVal B ⟨base, TIMER_HP_INTR_STATUS⟩ s (n + 1)),
                     Ev.printhex (pollVal B ⟨base, TIMER_HP_INTR_STATUS⟩ s (n + 1)),
                     Ev.printch (Char.ofNat 10)] }) := by
  have h := poll_while_timeout B ⟨base, TIMER_HP_INTR_STATUS⟩ (fun v => v &&& BIT id == 0) s n 0
    hw (fun j hj => by simpa using hmiss j hj)
  rw [afterReads_zero, Nat.zero_add] at h
  simp [rk_hptimer_wait_int_st, h, emit, readl, afterReads, pollVal]

theorem wait_sync_hit (B : Board) (base : Block) (s : Hw) (k : Nat) (hk : k < 1000000)
    (hmiss : ∀ j, j < k → pollVal B ⟨base, TIMER_HP_INTR_STATUS⟩ s j &&& 4 = 0)
    (hhit : pollVal B ⟨base, TIMER_HP_INTR_STATUS⟩ s k &&& 4 ≠ 0) :
    rk_hptimer_v2_wait_sync B base s
      = (0, writel B 4 ⟨base, TIMER_HP_INTR_STATUS⟩
              (afterReads B ⟨base, TIMER_HP_INTR_STATUS⟩ (k + 1) s)) := by
  have h := wait_int_st_hit B base RK_HPTIMER_V2_INT_SYNC HPTIMER_WAIT_MAX_US s k
    (by norm_num [HPTIMER_WAIT_MAX_US]) (by simpa [HPTIMER_WAIT_MAX_US] using hk)
    (by simpa [BIT, RK_HPTIMER_V2_INT_SYNC] using hmiss)
    (by simpa [BIT, RK_HPTIMER_V2_INT_SYNC] using hhit)
  rw [rk_hptimer_v2_wait_sync, h]
  simp [rk_hptimer_v2_clear_int_st, BIT, RK_HPTIMER_V2_INT_SYNC]

theorem wait_sync_timeout (B : Board) (base : Block) (s : Hw)
    (hmiss : ∀ j, j < 1000000 → pollVal B ⟨base, TIMER_HP_INTR_STATUS⟩ s j &&& 4 = 0) :
    rk_hptimer_v2_wait_sync B base s
      = (-1, { mem := s.mem
               time := s.time + 1000000 + 1
               log := s.log
                 ++ (List.range 1000000).map
                      (fun j => Ev.rd ⟨base, TIMER_HP_INTR_STATUS⟩
                        (pollVal B ⟨base, TIMER_HP_INTR_STATUS⟩ s j))
                 ++ [Ev.printstr "can't wait hptimer int:", Ev.printdec 2, Ev.printch '-',
                     Ev.rd ⟨base, TIMER_HP_INTR_STATUS⟩
                       (pollVal B ⟨base, TIMER_HP_INTR_STATUS⟩ s 1000000),
                     Ev.printhex (pollVal B ⟨base, TIMER_HP_INTR_STATUS⟩ s 1000000),
                     Ev.printch (Char.ofNat 10)] }) := by
  have h := wait_int_st_timeout B base RK_HPTIMER_V2_INT_SYNC 999999 s (by norm_num)
    (by simpa [BIT, RK_HPTIMER_V2_INT_SYNC] using hmiss)
  have e : HPTIMER_WAIT_MAX_US = 999999 + 1 := rfl
  rw [rk_hptimer_v2_wait_sync, e, h]
  simp [RK_HPTIMER_V2_INT_SYNC]

/-! ### C5: `get_gcd` -/

/-- C5: for every 32-bit `fast_clock_hz`, `g = get_gcd(fast_clock_hz, 32768)`
divides `fast_clock_hz` and `32768`, and `fast_clock_hz / g` and `32768 / g`
are coprime. -/
theorem get_gcd_divides_coprime (fast_clock_hz : Nat) (_h32 : fast_clock_hz < 2 ^ 32) :
    get_gcd fast_clock_hz 32768 ∣ fast_clock_hz ∧
    get_gcd fast_clock_hz 32768 ∣ 32768 ∧
    Nat.Coprime (fast_clock_hz / get_gcd fast_clock_hz 32768)
      (32768 / get_gcd fast_clock_hz 32768) := by
  rw [get_gcd_eq_gcd]
  refine ⟨Nat.gcd_dvd_left _ _, Nat.gcd_dvd_right _ _, ?_⟩
  exact Nat.coprime_div_gcd_div_gcd (Nat.gcd_pos_of_pos_right _ (by norm_num))

/-- C5 at the two clock rates named by the specification, 24 MHz and 27 MHz. -/
theorem get_gcd_divides_coprime_witness :
    ((24000000 : Nat) < 2 ^ 32 ∧
      get_gcd 24000000 32768 ∣ 24000000 ∧ get_gcd 24000000 32768 ∣ 32768 ∧
      Nat.Coprime (24000000 / get_gcd 24000000 32768) (32768 / get_gcd 24000000 32768)) ∧
    ((27000000 : Nat) < 2 ^ 32 ∧
      get_gcd 27000000 32768 ∣ 27000000 ∧ get_gcd 27000000 32768 ∣ 32768 ∧
      Nat.Coprime (27000000 / get_gcd 27000000 32768) (32768 / get_gcd 27000000 32768)) :=
  ⟨⟨by norm_num, get_gcd_divides_coprime 24000000 (by norm_num)⟩,
   ⟨by norm_num, get_gcd_divides_coprime 27000000 (by norm_num)⟩⟩

/-! ### C4: the soft-adjust delta -/

theorem wait_record_valid_hit (B : Board) (base : Block) (msk w : Nat) (s : Hw) (k : Nat)
    (hw : w < 2 ^ 64) (hk : k < w)
    (hmiss : ∀ j, j < k → pollVal B ⟨base, TIMER_HP_BEGIN_END_VALID⟩ s j &&& msk ≠ msk)
    (hhit : pollVal B ⟨base, TIMER_HP_BEGIN_END_VALID⟩ s k &&& msk = msk) :
    rk_hptimer_wait_record_valid B base w msk s
      = (0, afterReads B ⟨base, TIMER_HP_BEGIN_END_VALID⟩ (k + 1) s) := by
  have h := poll_while_hit B ⟨base, TIMER_HP_BEGIN_END_VALID⟩ (fun v => v &&& msk != msk) s k 0 w
    hw hk (fun j hj => by simpa using hmiss j hj) (by simpa using hhit)
  rw [afterReads_zero, Nat.zero_add] at h
  have hne : w - k ≠ 0 := by
    clear hw
    omega
  simp [rk_hptimer_wait_record_valid, h, hne]

theorem wait_record_valid_timeout (B : Board) (base : Block) (msk n : Nat) (s : Hw)
    (hw : n + 1 < 2 ^ 64)
    (hmiss : ∀ j, j < n + 1 → pollVal B ⟨base, TIMER_HP_BEGIN_END_VALID⟩ s j &&& msk ≠ msk) :
    rk_hptimer_wait_record_valid B base (n + 1) msk s
      = (-1, { mem := s.mem
               time := s.time + (n + 1) + 1
               log := s.log
                 ++ (List.range (n + 1)).map
                      (fun j => Ev.rd ⟨base, TIMER_HP_BEGIN_END_VALID⟩
                        (pollVal B ⟨base, TIMER_HP_BEGIN_END_VALID⟩ s j))
                 ++ [Ev.printstr "can't wait hptimer begin_end valid:",
                     Ev.rd ⟨base, TIMER_HP_BEGIN_END_VALID⟩
                       (pollVal B ⟨base, TIMER_HP_BEGIN_END_VALID⟩ s (n + 1)),
                     Ev.printhex (pollVal B ⟨base, TIMER_HP_BEGIN_END_VALID⟩ s (n + 1)),
                     Ev.printch (Char.ofNat 10)] }) := by
  have h := poll_while_timeout B ⟨base, TIMER_HP_BEGIN_END_VALID⟩ (fun v => v &&& msk != msk) s n 0
    hw (fun j hj => by simpa using hmiss j hj)
  rw [afterReads_zero, Nat.zero_add] at h
  simp [rk_hptimer_wait_record_valid, h, emit, readl, afterReads, pollVal]

/-- The arithmetic of the delta, with every wrap written out. -/
theorem soft_adjust_delta_eq (hf lf begin_ end_ : Nat) (hhf : hf < 2 ^ 32) (hlf : lf < 2 ^ 32)
    (hb : begin_ < 2 ^ 64) :
    soft_adjust_delta hf lf begin_ end_
      = (((end_ + 2 + 2 ^ 64 - begin_) % 2 ^ 64 * ((hf + 2 ^ 32 - lf) % 2 ^ 32)) % 2 ^ 64 / lf
          + (2 * hf + hf / 2) % 2 ^ 32 / lf + 2) % 2 ^ 64 := by
  unfold soft_adjust_delta
  rw [Nat.mod_eq_of_lt hhf, Nat.mod_eq_of_lt hlf]
  have e1 : ((end_ + 2 ^ 64 - begin_) % 2 ^ 64 + 2) % 2 ^ 64
      = (end_ + 2 + 2 ^ 64 - begin_) % 2 ^ 64 := by
    simp only [Nat.reducePow] at hb ⊢
    omega
  have e2 : (2 * hf % 2 ^ 32 + hf / 2) % 2 ^ 32 = (2 * hf + hf / 2) % 2 ^ 32 := by
    simp only [Nat.reducePow]
    omega
  simp only [e1, e2]

theorem word64_lt (lo hi : Nat) (hlo : lo < 2 ^ 32) (hhi : hi < 2 ^ 32) :
    lo + hi * 2 ^ 32 < 2 ^ 64 := by
  simp only [Nat.reducePow] at *
  omega

/-- C4: whenever the begin/end valid latch is observed set (on poll `k` of at
most 1,000,000), `rk_hptimer_get_soft_adjust_delt_cnt(hf, lf)` with `lf != 0`
returns `div((end - begin + 2) * (hf - lf), lf) + (2*hf + hf/2)/lf + 2`, with a
64-bit unsigned product and sum, 32-bit unsigned `hf - lf` and `2*hf + hf/2`,
and truncating divisions; `begin` and `end` are the two 64-bit timestamps read
after the latch was seen.  For `hf = 24000000`, `lf = 32768`, `begin = 1000`,
`end = 1500` the value is 369006. -/
theorem rk_hptimer_get_soft_adjust_delt_cnt_spec (B : Board) (base : Block) (hf lf : Nat)
    (s : Hw) (k begin_ end_ : Nat)
    (hhf : hf < 2 ^ 32) (hlf : lf < 2 ^ 32) (_hlf0 : lf ≠ 0) (hk : k < 1000000)
    (hmiss : ∀ j, j < k → pollVal B ⟨base, TIMER_HP_BEGIN_END_VALID⟩ s j &&& 3 ≠ 3)
    (hhit : pollVal B ⟨base, TIMER_HP_BEGIN_END_VALID⟩ s k &&& 3 = 3)
    (hbegin : begin_ = pollVal B ⟨base, TIMER_HP_T24_32BEGIN0⟩ s (k + 1)
      + pollVal B ⟨base, TIMER_HP_T24_32BEGIN1⟩ s (k + 2) * 2 ^ 32)
    (hend : end_ = pollVal B ⟨base, TIMER_HP_T32_24END0⟩ s (k + 3)
      + pollVal B ⟨base, TIMER_HP_T32_24END1⟩ s (k + 4) * 2 ^ 32) :
    (rk_hptimer_get_soft_adjust_delt_cnt B base hf lf s).1
      = (((end_ + 2 + 2 ^ 64 - begin_) % 2 ^ 64 * ((hf + 2 ^ 32 - lf) % 2 ^ 32)) % 2 ^ 64 / lf
          + (2 * hf + hf / 2) % 2 ^ 32 / lf + 2) % 2 ^ 64 ∧
    ((hf = 24000000 ∧ lf = 32768 ∧ begin_ = 1000 ∧ end_ = 1500) →
      (rk_hptimer_get_soft_adjust_delt_cnt B base hf lf s).1 = 369006) := by
  have hw := wait_record_valid_hit B base 3 HPTIMER_WAIT_MAX_US s k
    (by norm_num [HPTIMER_WAIT_MAX_US]) (by simpa [HPTIMER_WAIT_MAX_US] using hk) hmiss hhit
  have hval : (rk_hptimer_get_soft_adjust_delt_cnt B base hf lf s).1
      = soft_adjust_delta hf lf begin_ end_ := by
    have hb0 := pollVal_lt B ⟨base, TIMER_HP_T24_32BEGIN0⟩ s (k + 1)
    have he0 := pollVal_lt B ⟨base, TIMER_HP_T32_24END0⟩ s (k + 3)
    rw [hbegin, hend, ← lo_or_hi _ _ hb0, ← lo_or_hi _ _ he0]
    have hmsk : BIT rk_hptimer_valid_t24_32_begin ||| BIT rk_hptimer_valid_t32_24_end = 3 := by
      decide
    simp [rk_hptimer_get_soft_adjust_delt_cnt, rk_hptimer_wait_begin_end_valid, hmsk, hw,
      readl, afterReads, pollVal, Nat.add_assoc]
  have hb : begin_ < 2 ^ 64 := by
    rw [hbegin]
    exact word64_lt _ _ (pollVal_lt _ _ _ _) (pollVal_lt _ _ _ _)
  refine ⟨by rw [hval, soft_adjust_delta_eq hf lf begin_ end_ hhf hlf hb], ?_⟩
  rintro ⟨rfl, rfl, rfl, rfl⟩
  rw [hval]
  decide

/-- C4 on the worked example of the specification: `hf = 24000000`,
`lf = 32768`, `begin = 1000`, `end = 1500` give 369006. -/
theorem rk_hptimer_get_soft_adjust_delt_cnt_witness :
    (rk_hptimer_get_soft_adjust_delt_cnt (scriptBoard softAdjustScript) Block.hptimer
      24000000 32768 bootHw).1 = 369006 :=
  (rk_hptimer_get_soft_adjust_delt_cnt_spec (scriptBoard softAdjustScript) Block.hptimer
    24000000 32768 bootHw 0 1000 1500 (by norm_num) (by norm_num) (by norm_num) (by norm_num)
    (fun j hj => absurd hj (Nat.not_lt_zero j)) (by decide) (by decide) (by decide)).2
    ⟨rfl, rfl, rfl, rfl⟩

/-! ### C3: `rk_hptimer_get_count` -/

/-- C3: `rk_hptimer_get_count` is specified to read the high word, the low
word and the high word again, retrying until the two high words agree, so that
its values never decrease on a non-decreasing counter.  The code does not do
so: it makes exactly two reads, one of each word, and never retries.  On a
non-decreasing hardware counter that carries from the low into the high word
between the two reads, the first call returns `0x1_ffff_ffff`, a value the
counter never held, and the next call returns `0x1_0000_0000`, which is
smaller. -/
theorem rk_hptimer_get_count_torn_read :
    (∀ t u, t ≤ u → carryCounter t ≤ carryCounter u) ∧
    (rk_hptimer_get_count (counterBoard carryCounter) Block.hptimer bootHw).2.log
      = [Ev.rd ⟨Block.hptimer, TIMER_HP_CURR_TIMER_VALUE0⟩ 0xffffffff,
         Ev.rd ⟨Block.hptimer, TIMER_HP_CURR_TIMER_VALUE1⟩ 1] ∧
    (rk_hptimer_get_count (counterBoard carryCounter) Block.hptimer bootHw).1 = 0x1ffffffff ∧
    (rk_hptimer_get_count (counterBoard carryCounter) Block.hptimer
      (rk_hptimer_get_count (counterBoard carryCounter) Block.hptimer bootHw).2).1
        = 0x100000000 ∧
    (rk_hptimer_get_count (counterBoard carryCounter) Block.hptimer
      (rk_hptimer_get_count (counterBoard carryCounter) Block.hptimer bootHw).2).1
        < (rk_hptimer_get_count (counterBoard carryCounter) Block.hptimer bootHw).1 := by
  refine ⟨?_, by decide, by decide, by decide, by decide⟩
  intro t u h
  unfold carryCounter
  split_ifs <;> omega

/-! ### C8: the one-shot and sleep timeout interrupts -/

theorem retry_step (B : Board) (base : Block) (fuel i : Nat) (s : Hw) :
    read_count_retry B base (fuel + 1) (afterRetries B base i s)
      = if pollVal B ⟨base, TIMER_HP_CURR_TIMER_VALUE1⟩ s (3 * i)
            ≠ pollVal B ⟨base, TIMER_HP_CURR_TIMER_VALUE1⟩ s (3 * i + 2)
        then read_count_retry B base fuel (afterRetries B base (i + 1) s)
        else some ((pollVal B ⟨base, TIMER_HP_CURR_TIMER_VALUE1⟩ s (3 * i),
                    pollVal B ⟨base, TIMER_HP_CURR_TIMER_VALUE0⟩ s (3 * i + 1)),
                   afterRetries B base (i + 1) s) := by
  have hs : (readl B ⟨base, TIMER_HP_CURR_TIMER_VALUE1⟩
      (readl B ⟨base, TIMER_HP_CURR_TIMER_VALUE0⟩
        (readl B ⟨base, TIMER_HP_CURR_TIMER_VALUE1⟩ (afterRetries B base i s)).2).2).2
      = afterRetries B base (i + 1) s := by
    simp [readl, afterRetries, pollVal, List.range_succ, retryReads, Nat.add_assoc, Nat.mul_succ]
  rw [read_count_retry]
  simp only [hs]
  simp [readl, afterRetries, pollVal, Nat.add_assoc]

theorem afterRetries_zero (B : Board) (base : Block) (s : Hw) : afterRetries B base 0 s = s := by
  simp [afterRetries]

/-- With enough fuel the retry loop returns the words of the first iteration on
which the two reads of the high word agree. -/
theorem read_count_retry_converges (B : Board) (base : Block) (s : Hw) (n : Nat) :
    ∀ i fuel, n < fuel →
      (∀ j, j < n → pollVal B ⟨base, TIMER_HP_CURR_TIMER_VALUE1⟩ s (3 * (i + j))
        ≠ pollVal B ⟨base, TIMER_HP_CURR_TIMER_VALUE1⟩ s (3 * (i + j) + 2)) →
      pollVal B ⟨base, TIMER_HP_CURR_TIMER_VALUE1⟩ s (3 * (i + n))
        = pollVal B ⟨base, TIMER_HP_CURR_TIMER_VALUE1⟩ s (3 * (i + n) + 2) →
      read_count_retry B base fuel (afterRetries B base i s)
        = some ((pollVal B ⟨base, TIMER_HP_CURR_TIMER_VALUE1⟩ s (3 * (i + n)),
                 pollVal B ⟨base, TIMER_HP_CURR_TIMER_VALUE0⟩ s (3 * (i + n) + 1)),
                afterRetries B base (i + n + 1) s) := by
  induction n with
  | zero =>
    intro i fuel hf _ hag
    obtain ⟨f, rfl⟩ : ∃ f, fuel = f + 1 := ⟨fuel - 1, by omega⟩
    rw [retry_step]
    simp only [Nat.add_zero] at hag ⊢
    rw [if_neg (by simpa using hag)]
  | succ n ih =>
    intro i fuel hf hne hag
    obtain ⟨f, rfl⟩ : ∃ f, fuel = f + 1 := ⟨fuel - 1, by omega⟩
    rw [retry_step, if_pos (by simpa using hne 0 (Nat.succ_pos n))]
    have e : ∀ j, i + 1 + j = i + (j + 1) := fun j => by omega
    have h := ih (i + 1) f (by omega)
      (fun j hj => by
        rw [e j]
        exact hne (j + 1) (by omega))
      (by rw [e n]; exact hag)
    rw [h, e n]

theorem config_sleep_timeout_int_log (B : Board) (base : Block) (delta_cnt : Nat) (s : Hw)
    (n fuel : Nat) (hd : delta_cnt < 2 ^ 64) (hfuel : n < fuel)
    (hretry : ∀ i, i < n → pollVal B ⟨base, TIMER_HP_CURR_TIMER_VALUE1⟩ s (3 * i)
      ≠ pollVal B ⟨base, TIMER_HP_CURR_TIMER_VALUE1⟩ s (3 * i + 2))
    (hagree : pollVal B ⟨base, TIMER_HP_CURR_TIMER_VALUE1⟩ s (3 * n)
      = pollVal B ⟨base, TIMER_HP_CURR_TIMER_VALUE1⟩ s (3 * n + 2)) :
    (rk_hptimer_v2_config_sleep_timeout_int B base fuel delta_cnt s).map Hw.log
      = some (s.log ++ (List.range (n + 1)).flatMap (retryReads B base s)
          ++ [Ev.wr ⟨base, TIMER_HP_LOAD_32K_COUNT0⟩
                ((pollVal B ⟨base, TIMER_HP_CURR_TIMER_VALUE1⟩ s (3 * n) * 2 ^ 32
                  + pollVal B ⟨base, TIMER_HP_CURR_TIMER_VALUE0⟩ s (3 * n + 1)
                  + delta_cnt) % 2 ^ 64 % 2 ^ 32),
              Ev.wr ⟨base, TIMER_HP_LOAD_32K_COUNT1⟩
                ((pollVal B ⟨base, TIMER_HP_CURR_TIMER_VALUE1⟩ s (3 * n) * 2 ^ 32
                  + pollVal B ⟨base, TIMER_HP_CURR_TIMER_VALUE0⟩ s (3 * n + 1)
                  + delta_cnt) % 2 ^ 64 / 2 ^ 32),
              Ev.rd ⟨base, TIMER_HP_INT_EN⟩ (pollVal B ⟨base, TIMER_HP_INT_EN⟩ s (3 * n + 5)),
              Ev.wr ⟨base, TIMER_HP_INT_EN⟩
                (pollVal B ⟨base, TIMER_HP_INT_EN⟩ s (3 * n + 5) ||| 8)]) := by
  have h := read_count_retry_converges B base s n 0 fuel hfuel
    (by simpa using hretry) (by simpa using hagree)
  rw [afterRetries_zero] at h
  simp only [Nat.zero_add] at h
  have hlo := pollVal_lt B ⟨base, TIMER_HP_CURR_TIMER_VALUE0⟩ s (3 * n + 1)
  have hcnt := Nat.mod_lt
    (pollVal B ⟨base, TIMER_HP_CURR_TIMER_VALUE1⟩ s (3 * n) * 2 ^ 32
      + pollVal B ⟨base, TIMER_HP_CURR_TIMER_VALUE0⟩ s (3 * n + 1) + delta_cnt)
    (show 0 < 2 ^ 64 by norm_num)
  have hh := load_halves _ hcnt
  have hbit : BIT RK_HPTIMER_V2_INT_32K_REACH = 8 := by decide
  have haddr0 : (⟨base, TIMER_HP_INT_EN⟩ : Addr) ≠ ⟨base, TIMER_HP_LOAD_32K_COUNT0⟩ := by
    simp [TIMER_HP_INT_EN, TIMER_HP_LOAD_32K_COUNT0]
  have haddr1 : (⟨base, TIMER_HP_INT_EN⟩ : Addr) ≠ ⟨base, TIMER_HP_LOAD_32K_COUNT1⟩ := by
    simp [TIMER_HP_INT_EN, TIMER_HP_LOAD_32K_COUNT1]
  unfold rk_hptimer_v2_config_sleep_timeout_int
  rw [h]
  simp only [hi_or_lo _ _ hlo, Nat.mod_eq_of_lt hd, Option.map_some']
  generalize (pollVal B ⟨base, TIMER_HP_CURR_TIMER_VALUE1⟩ s (3 * n) * 2 ^ 32
      + pollVal B ⟨base, TIMER_HP_CURR_TIMER_VALUE0⟩ s (3 * n + 1) + delta_cnt) % 2 ^ 64 = cnt
      at hh ⊢
  rw [enable_int_log _ _ _ _ (by decide), hbit, writel_log, writel_log, hh.1, hh.2]
  rw [readl_eq_pollVal B ⟨base, TIMER_HP_INT_EN⟩ s _ (3 * n + 5)
    (by simp only [writel_time, afterRetries]; omega)
    (by rw [writel_mem_other _ _ _ _ _ haddr1, writel_mem_other _ _ _ _ _ haddr0]; rfl)]
  simp [afterRetries]

/-- C8: for every 64-bit `delta_cnt` and every sequence of counter-register
reads on which the retry loop ends (on iteration `n`, the first on which the
two reads of the high word agree), `rk_hptimer_v2_config_one_shot_timeout_int`
writes the low and the high 32-bit half of `(cnt + delta_cnt) mod 2^64` to
`LOAD_COUNT0` and `LOAD_COUNT1`, where `cnt = (high << 32) | low` comes from
that last iteration, then reads `INT_EN` and writes it back with bit 0 set;
`rk_hptimer_v2_config_sleep_timeout_int` does the same with
`LOAD_32K_COUNT0/1` and bit 3.  Any fuel above `n` is enough for the model of
the loop to return. -/
theorem rk_hptimer_v2_config_timeout_int_spec (B : Board) (base : Block) (delta_cnt : Nat)
    (s : Hw) (n fuel high low cnt int_en : Nat) (hd : delta_cnt < 2 ^ 64) (hfuel : n < fuel)
    (hretry : ∀ i, i < n → pollVal B ⟨base, TIMER_HP_CURR_TIMER_VALUE1⟩ s (3 * i)
      ≠ pollVal B ⟨base, TIMER_HP_CURR_TIMER_VALUE1⟩ s (3 * i + 2))
    (hagree : pollVal B ⟨base, TIMER_HP_CURR_TIMER_VALUE1⟩ s (3 * n)
      = pollVal B ⟨base, TIMER_HP_CURR_TIMER_VALUE1⟩ s (3 * n + 2))
    (hhigh : high = pollVal B ⟨base, TIMER_HP_CURR_TIMER_VALUE1⟩ s (3 * n))
    (hlow : low = pollVal B ⟨base, TIMER_HP_CURR_TIMER_VALUE0⟩ s (3 * n + 1))
    (hcnt : cnt = (high <<< 32) ||| low)
    (hen : int_en = pollVal B ⟨base, TIMER_HP_INT_EN⟩ s (3 * n + 5)) :
    (rk_hptimer_v2_config_one_shot_timeout_int B base fuel delta_cnt s).map Hw.log
      = some (s.log ++ (List.range (n + 1)).flatMap (retryReads B base s)
          ++ [Ev.wr ⟨base, TIMER_HP_LOAD_COUNT0⟩ ((cnt + delta_cnt) % 2 ^ 64 % 2 ^ 32),
              Ev.wr ⟨base, TIMER_HP_LOAD_COUNT1⟩ ((cnt + delta_cnt) % 2 ^ 64 / 2 ^ 32),
              Ev.rd ⟨base, TIMER_HP_INT_EN⟩ int_en,
              Ev.wr ⟨base, TIMER_HP_INT_EN⟩ (int_en ||| 1)]) ∧
    (rk_hptimer_v2_config_sleep_timeout_int B base fuel delta_cnt s).map Hw.log
      = some (s.log ++ (List.range (n + 1)).flatMap (retryReads B base s)
          ++ [Ev.wr ⟨base, TIMER_HP_LOAD_32K_COUNT0⟩ ((cnt + delta_cnt) % 2 ^ 64 % 2 ^ 32),
              Ev.wr ⟨base, TIMER_HP_LOAD_32K_COUNT1⟩ ((cnt + delta_cnt) % 2 ^ 64 / 2 ^ 32),
              Ev.rd ⟨base, TIMER_HP_INT_EN⟩ int_en,
              Ev.wr ⟨base, TIMER_HP_INT_EN⟩ (int_en ||| 8)]) := by
  have hlo := pollVal_lt B ⟨base, TIMER_HP_CURR_TIMER_VALUE0⟩ s (3 * n + 1)
  rw [hcnt, hhigh, hlow, hen, hi_or_lo _ _ hlo]
  refine ⟨?_, config_sleep_timeout_int_log B base delta_cnt s n fuel hd hfuel hretry hagree⟩
  have h := read_count_retry_converges B base s n 0 fuel hfuel
    (by simpa using hretry) (by simpa using hagree)
  rw [afterRetries_zero] at h
  simp only [Nat.zero_add] at h
  have hcnt := Nat.mod_lt
    (pollVal B ⟨base, TIMER_HP_CURR_TIMER_VALUE1⟩ s (3 * n) * 2 ^ 32
      + pollVal B ⟨base, TIMER_HP_CURR_TIMER_VALUE0⟩ s (3 * n + 1) + delta_cnt)
    (show 0 < 2 ^ 64 by norm_num)
  have hh := load_halves _ hcnt
  have hbit : BIT RK_HPTIMER_V2_INT_REACH = 1 := by decide
  have haddr0 : (⟨base, TIMER_HP_INT_EN⟩ : Addr) ≠ ⟨base, TIMER_HP_LOAD_COUNT0⟩ := by
    simp [TIMER_HP_INT_EN, TIMER_HP_LOAD_COUNT0]
  have haddr1 : (⟨base, TIMER_HP_INT_EN⟩ : Addr) ≠ ⟨base, TIMER_HP_LOAD_COUNT1⟩ := by
    simp [TIMER_HP_INT_EN, TIMER_HP_LOAD_COUNT1]
  unfold rk_hptimer_v2_config_one_shot_timeout_int
  rw [h]
  simp only [hi_or_lo _ _ hlo, Nat.mod_eq_of_lt hd, Option.map_some']
  generalize (pollVal B ⟨base, TIMER_HP_CURR_TIMER_VALUE1⟩ s (3 * n) * 2 ^ 32
      + pollVal B ⟨base, TIMER_HP_CURR_TIMER_VALUE0⟩ s (3 * n + 1) + delta_cnt) % 2 ^ 64 = c
      at hh ⊢
  rw [enable_int_log _ _ _ _ (by decide), hbit, writel_log, writel_log, hh.1, hh.2]
  rw [readl_eq_pollVal B ⟨base, TIMER_HP_INT_EN⟩ s _ (3 * n + 5)
    (by simp only [writel_time, afterRetries]; omega)
    (by rw [writel_mem_other _ _ _ _ _ haddr1, writel_mem_other _ _ _ _ _ haddr0]; rfl)]
  simp [afterRetries]

/-- C8 on a counter that carries between the first two reads: the first
iteration sees the high word change from 0 to 1 and is retried, the second one
reads `cnt = 0x1_0000_0000`, and `cnt + 10` is programmed. -/
theorem rk_hptimer_v2_config_timeout_int_witness :
    (rk_hptimer_v2_config_one_shot_timeout_int (counterBoard carryCounter) Block.hptimer 2 10
        bootHw).map Hw.log
      = some (bootHw.log
          ++ (List.range (1 + 1)).flatMap
              (retryReads (counterBoard carryCounter) Block.hptimer bootHw)
          ++ [Ev.wr ⟨Block.hptimer, TIMER_HP_LOAD_COUNT0⟩ ((0x100000000 + 10) % 2 ^ 64 % 2 ^ 32),
              Ev.wr ⟨Block.hptimer, TIMER_HP_LOAD_COUNT1⟩ ((0x100000000 + 10) % 2 ^ 64 / 2 ^ 32),
              Ev.rd ⟨Block.hptimer, TIMER_HP_INT_EN⟩ 0,
              Ev.wr ⟨Block.hptimer, TIMER_HP_INT_EN⟩ (0 ||| 1)]) ∧
    (rk_hptimer_v2_config_sleep_timeout_int (counterBoard carryCounter) Block.hptimer 2 10
        bootHw).map Hw.log
      = some (bootHw.log
          ++ (List.range (1 + 1)).flatMap
              (retryReads (counterBoard carryCounter) Block.hptimer bootHw)
          ++ [Ev.wr ⟨Block.hptimer, TIMER_HP_LOAD_32K_COUNT0⟩
                ((0x100000000 + 10) % 2 ^ 64 % 2 ^ 32),
              Ev.wr ⟨Block.hptimer, TIMER_HP_LOAD_32K_COUNT1⟩
                ((0x100000000 + 10) % 2 ^ 64 / 2 ^ 32),
              Ev.rd ⟨Block.hptimer, TIMER_HP_INT_EN⟩ 0,
              Ev.wr ⟨Block.hptimer, TIMER_HP_INT_EN⟩ (0 ||| 8)]) :=
  rk_hptimer_v2_config_timeout_int_spec (counterBoard carryCounter) Block.hptimer 10 bootHw
    1 2 1 0 0x100000000 0 (by norm_num) (by decide)
    (fun i hi => by
      have h0 : i = 0 := by omega
      subst h0
      decide)
    (by decide) (by decide) (by decide) (by decide) (by decide)

/-! ### C9: the free-running timeout interrupt -/

/-- C9 (as amended): `rk_hptimer_v2_config_free_timeout_int(delta_cnt)` does not
read the counter.  Its accesses are, in this order: a write to `CTRL` of the
extra-counter control bit (bit 5, enabled by bit 21) as 0; the write of the
32-bit `delta_cnt` itself to `LOAD_COUNT0` and of 0 to `LOAD_COUNT1`; the read
of `INT_EN` and its write-back with the extra-reach bit (bit 4) set; a write to
`CTRL` of the extra-counter control bit as 1. -/
theorem rk_hptimer_v2_config_free_timeout_int_spec (B : Board) (base : Block) (delta_cnt : Nat)
    (s : Hw) :
    (rk_hptimer_v2_config_free_timeout_int B base delta_cnt s).log
      = s.log
        ++ [Ev.wr ⟨base, TIMER_HP_CTRL⟩ 0x200000,
            Ev.wr ⟨base, TIMER_HP_LOAD_COUNT0⟩ (delta_cnt % 2 ^ 32),
            Ev.wr ⟨base, TIMER_HP_LOAD_COUNT1⟩ 0,
            Ev.rd ⟨base, TIMER_HP_INT_EN⟩ (pollVal B ⟨base, TIMER_HP_INT_EN⟩ s 3),
            Ev.wr ⟨base, TIMER_HP_INT_EN⟩ (pollVal B ⟨base, TIMER_HP_INT_EN⟩ s 3 ||| 0x10),
            Ev.wr ⟨base, TIMER_HP_CTRL⟩ 0x200020] := by
  have h0 : (⟨base, TIMER_HP_INT_EN⟩ : Addr) ≠ ⟨base, TIMER_HP_CTRL⟩ := by
    simp [TIMER_HP_INT_EN, TIMER_HP_CTRL]
  have h1 : (⟨base, TIMER_HP_INT_EN⟩ : Addr) ≠ ⟨base, TIMER_HP_LOAD_COUNT0⟩ := by
    simp [TIMER_HP_INT_EN, TIMER_HP_LOAD_COUNT0]
  have h2 : (⟨base, TIMER_HP_INT_EN⟩ : Addr) ≠ ⟨base, TIMER_HP_LOAD_COUNT1⟩ := by
    simp [TIMER_HP_INT_EN, TIMER_HP_LOAD_COUNT1]
  have hb0 : BITS_WITH_WMASK 0 0x1 rk_hptimer_extra_cnt_ctlr % 2 ^ 32 = 0x200000 := by decide
  have hb1 : BITS_WITH_WMASK 1 0x1 rk_hptimer_extra_cnt_ctlr % 2 ^ 32 = 0x200020 := by decide
  have hbit : BIT RK_HPTIMER_V2_INT_EXTRA_REACH = 0x10 := by decide
  unfold rk_hptimer_v2_config_free_timeout_int
  rw [writel_log, enable_int_log _ _ _ _ (by decide), writel_log, writel_log, writel_log,
    hb0, hb1, hbit]
  rw [readl_eq_pollVal B ⟨base, TIMER_HP_INT_EN⟩ s _ 3
    (by simp only [writel_time])
    (by rw [writel_mem_other _ _ _ _ _ h2, writel_mem_other _ _ _ _ _ h1,
      writel_mem_other _ _ _ _ _ h0])]
  simp

/-- C9 as stated fails: with both counter words reading 5 and `delta_cnt = 10`,
the function reads only `INT_EN`, never a counter register, and programs
`LOAD_COUNT0 = 10`, `LOAD_COUNT1 = 0` rather than the sum
`0x5_0000_0005 + 10`. -/
theorem rk_hptimer_v2_config_free_timeout_int_counterexample :
    readsOf (rk_hptimer_v2_config_free_timeout_int (constBoard 5) Block.hptimer 10 bootHw).log
      = [(⟨Block.hptimer, TIMER_HP_INT_EN⟩, 5)] ∧
    writesOf (rk_hptimer_v2_config_free_timeout_int (constBoard 5) Block.hptimer 10 bootHw).log
      = [(⟨Block.hptimer, TIMER_HP_CTRL⟩, 0x200000),
         (⟨Block.hptimer, TIMER_HP_LOAD_COUNT0⟩, 10),
         (⟨Block.hptimer, TIMER_HP_LOAD_COUNT1⟩, 0),
         (⟨Block.hptimer, TIMER_HP_INT_EN⟩, 0x15),
         (⟨Block.hptimer, TIMER_HP_CTRL⟩, 0x200020)] ∧
    ¬ ((⟨Block.hptimer, TIMER_HP_LOAD_COUNT0⟩, (((5 <<< 32) ||| 5) + 10) % 2 ^ 64 % 2 ^ 32)
        ∈ writesOf
          (rk_hptimer_v2_config_free_timeout_int (constBoard 5) Block.hptimer 10 bootHw).log ∧
       (⟨Block.hptimer, TIMER_HP_LOAD_COUNT1⟩, (((5 <<< 32) ||| 5) + 10) % 2 ^ 64 / 2 ^ 32)
        ∈ writesOf
          (rk_hptimer_v2_config_free_timeout_int (constBoard 5) Block.hptimer 10 bootHw).log) := by
  refine ⟨by decide, by decide, by decide⟩

/-! ### C2: the timeout-wakeup workaround on suspend -/

theorem BIT_lt (n : Nat) (h : n < 32) : BIT n < 2 ^ 32 := by
  unfold BIT
  rw [Nat.shiftLeft_eq, Nat.one_mul]
  exact Nat.pow_lt_pow_right (by norm_num) h

theorem testBit_BIT (n i : Nat) : (BIT n).testBit i = decide (n = i) := by
  unfold BIT
  rw [Nat.shiftLeft_eq, Nat.one_mul, Nat.testBit_two_pow]

theorem testBit_ffffffff (i : Nat) : (0xffffffff : Nat).testBit i = decide (i < 32) :=
  Nat.testBit_two_pow_sub_one 32 i

theorem testBit_of_lt_u32 (w i : Nat) (hw : w < 2 ^ 32) (hi : 32 ≤ i) : w.testBit i = false :=
  Nat.testBit_lt_two_pow (lt_of_lt_of_le hw (Nat.pow_le_pow_right (by norm_num) hi))

/-- The bitmap written back has the timeout bit clear, the HPTimer bit set and
every other bit as read. -/
theorem wkup_swap_bits (D : Defs) (w : Nat) (hw : w < 2 ^ 32)
    (hT : D.RV1103B_PMU_WAKEUP_TIMEOUT < 32) (hH : D.RV1103B_PMU_WAKEUP_HPTIMER < 32)
    (hne : D.RV1103B_PMU_WAKEUP_TIMEOUT ≠ D.RV1103B_PMU_WAKEUP_HPTIMER) :
    wkup_swap D w < 2 ^ 32 ∧
    (wkup_swap D w).testBit D.RV1103B_PMU_WAKEUP_TIMEOUT = false ∧
    (wkup_swap D w).testBit D.RV1103B_PMU_WAKEUP_HPTIMER = true ∧
    ∀ i, i ≠ D.RV1103B_PMU_WAKEUP_TIMEOUT → i ≠ D.RV1103B_PMU_WAKEUP_HPTIMER →
      (wkup_swap D w).testBit i = w.testBit i := by
  refine ⟨?_, ?_, ?_, ?_⟩
  · exact Nat.or_lt_two_pow (lt_of_le_of_lt Nat.and_le_left hw) (BIT_lt _ hH)
  · simp [wkup_swap, testBit_BIT, testBit_ffffffff, hT, Ne.symm hne]
  · simp [wkup_swap, testBit_BIT, testBit_ffffffff]
  · intro i hiT hiH
    by_cases hi : i < 32
    · simp [wkup_swap, testBit_BIT, testBit_ffffffff, hi, Ne.symm hiT, Ne.symm hiH]
    · simp [wkup_swap, testBit_BIT, testBit_ffffffff, hi, Ne.symm hiH,
        testBit_of_lt_u32 w i hw (by omega)]

theorem wkup_delta_cnt_lt (D : Defs) (slp_cfg : rk_sleep_config) (c : Nat) (hc : c < 2 ^ 32) :
    wkup_delta_cnt D slp_cfg c < 2 ^ 64 := by
  unfold wkup_delta_cnt
  split_ifs
  · exact lt_trans (Nat.mod_lt _ (by norm_num)) (by norm_num)
  · exact lt_trans hc (by norm_num)

theorem afterWkupSwap_log (B : Board) (D : Defs) (s : Hw)
    (hw : wkup_swap D (pollVal B ⟨Block.pmu, D.RV1103B_PMU1_WAKEUP_INT_CON⟩ s 0) < 2 ^ 32)
    (hoff : D.RV1103B_PMU1_WAKEUP_TIMEOUT ≠ D.RV1103B_PMU1_WAKEUP_INT_CON) :
    (afterWkupSwap B D s).log
      = s.log
        ++ [Ev.rd ⟨Block.pmu, D.RV1103B_PMU1_WAKEUP_INT_CON⟩
              (pollVal B ⟨Block.pmu, D.RV1103B_PMU1_WAKEUP_INT_CON⟩ s 0),
            Ev.wr ⟨Block.pmu, D.RV1103B_PMU1_WAKEUP_INT_CON⟩
              (wkup_swap D (pollVal B ⟨Block.pmu, D.RV1103B_PMU1_WAKEUP_INT_CON⟩ s 0)),
            Ev.rd ⟨Block.pmu, D.RV1103B_PMU1_WAKEUP_TIMEOUT⟩
              (pollVal B ⟨Block.pmu, D.RV1103B_PMU1_WAKEUP_TIMEOUT⟩ s 2)] := by
  have haddr : (⟨Block.pmu, D.RV1103B_PMU1_WAKEUP_TIMEOUT⟩ : Addr)
      ≠ ⟨Block.pmu, D.RV1103B_PMU1_WAKEUP_INT_CON⟩ := by
    simpa using hoff
  have h0 : (readl B ⟨Block.pmu, D.RV1103B_PMU1_WAKEUP_INT_CON⟩ s).1
      = pollVal B ⟨Block.pmu, D.RV1103B_PMU1_WAKEUP_INT_CON⟩ s 0 :=
    readl_eq_pollVal B _ s s 0 rfl rfl
  unfold afterWkupSwap
  rw [readl_log, writel_log, readl_log, h0, Nat.mod_eq_of_lt hw]
  rw [readl_eq_pollVal B ⟨Block.pmu, D.RV1103B_PMU1_WAKEUP_TIMEOUT⟩ s _ 2
    (by simp only [writel_time, readl_time])
    (by rw [writel_mem_other _ _ _ _ _ haddr, readl_mem])]
  simp

/-- C2: `suspend_workaround_timeout_wkup` makes no access at all when
`entered_pmu_fsm` is non-zero, and only reads `PMU1_WAKEUP_INT_CON` (no write)
when the generic-timeout bit of that bitmap is clear.  Otherwise it writes the
bitmap back with the generic-timeout bit cleared, the HPTimer-wakeup bit set
and every other bit unchanged, reads the timeout count, converts it
(`count / 32 * 24000` in 32 bits when `RKPM_SLP_PMU_PMUALIVE_32K` is set, the
count itself otherwise) and programs the HPTimer sleep-timeout interrupt with
it: `LOAD_32K_COUNT0/1` receive the counter plus the converted count and bit 3
of `INT_EN` is set. -/
theorem suspend_workaround_timeout_wkup_spec (B : Board) (D : Defs) (fuel : Nat)
    (slp_cfg : rk_sleep_config) (ddr_data : rv1103b_sleep_ddr_data) (s : Hw)
    (hT : D.RV1103B_PMU_WAKEUP_TIMEOUT < 32) (hH : D.RV1103B_PMU_WAKEUP_HPTIMER < 32)
    (hne : D.RV1103B_PMU_WAKEUP_TIMEOUT ≠ D.RV1103B_PMU_WAKEUP_HPTIMER)
    (hoff : D.RV1103B_PMU1_WAKEUP_TIMEOUT ≠ D.RV1103B_PMU1_WAKEUP_INT_CON) :
    (ddr_data.entered_pmu_fsm ≠ 0 →
      suspend_workaround_timeout_wkup B D fuel slp_cfg ddr_data s = some s) ∧
    (ddr_data.entered_pmu_fsm = 0 →
      pollVal B ⟨Block.pmu, D.RV1103B_PMU1_WAKEUP_INT_CON⟩ s 0
        &&& BIT D.RV1103B_PMU_WAKEUP_TIMEOUT = 0 →
      (suspend_workaround_timeout_wkup B D fuel slp_cfg ddr_data s).map Hw.log
        = some (s.log ++ [Ev.rd ⟨Block.pmu, D.RV1103B_PMU1_WAKEUP_INT_CON⟩
            (pollVal B ⟨Block.pmu, D.RV1103B_PMU1_WAKEUP_INT_CON⟩ s 0)])) ∧
    (ddr_data.entered_pmu_fsm = 0 →
      pollVal B ⟨Block.pmu, D.RV1103B_PMU1_WAKEUP_INT_CON⟩ s 0
        &&& BIT D.RV1103B_PMU_WAKEUP_TIMEOUT ≠ 0 →
      ∀ wkup count delta n high low int_en,
        wkup = pollVal B ⟨Block.pmu, D.RV1103B_PMU1_WAKEUP_INT_CON⟩ s 0 →
        count = pollVal B ⟨Block.pmu, D.RV1103B_PMU1_WAKEUP_TIMEOUT⟩ s 2 →
        delta = (if slp_cfg.mode_config &&& D.RKPM_SLP_PMU_PMUALIVE_32K ≠ 0
          then (count / 32 * 24000) % 2 ^ 32 else count) →
        n < fuel →
        (∀ i, i < n →
          pollVal B ⟨Block.hptimer, TIMER_HP_CURR_TIMER_VALUE1⟩ (afterWkupSwap B D s) (3 * i)
            ≠ pollVal B ⟨Block.hptimer, TIMER_HP_CURR_TIMER_VALUE1⟩ (afterWkupSwap B D s)
                (3 * i + 2)) →
        pollVal B ⟨Block.hptimer, TIMER_HP_CURR_TIMER_VALUE1⟩ (afterWkupSwap B D s) (3 * n)
          = pollVal B ⟨Block.hptimer, TIMER_HP_CURR_TIMER_VALUE1⟩ (afterWkupSwap B D s)
              (3 * n + 2) →
        high = pollVal B ⟨Block.hptimer, TIMER_HP_CURR_TIMER_VALUE1⟩ (afterWkupSwap B D s)
          (3 * n) →
        low = pollVal B ⟨Block.hptimer, TIMER_HP_CURR_TIMER_VALUE0⟩ (afterWkupSwap B D s)
          (3 * n + 1) →
        int_en = pollVal B ⟨Block.hptimer, TIMER_HP_INT_EN⟩ (afterWkupSwap B D s) (3 * n + 5) →
        ((wkup_swap D wkup).testBit D.RV1103B_PMU_WAKEUP_TIMEOUT = false ∧
          (wkup_swap D wkup).testBit D.RV1103B_PMU_WAKEUP_HPTIMER = true ∧
          ∀ i, i ≠ D.RV1103B_PMU_WAKEUP_TIMEOUT → i ≠ D.RV1103B_PMU_WAKEUP_HPTIMER →
            (wkup_swap D wkup).testBit i = wkup.testBit i) ∧
        (suspend_workaround_timeout_wkup B D fuel slp_cfg ddr_data s).map Hw.log
          = some (s.log
              ++ [Ev.rd ⟨Block.pmu, D.RV1103B_PMU1_WAKEUP_INT_CON⟩ wkup,
                  Ev.wr ⟨Block.pmu, D.RV1103B_PMU1_WAKEUP_INT_CON⟩ (wkup_swap D wkup),
                  Ev.rd ⟨Block.pmu, D.RV1103B_PMU1_WAKEUP_TIMEOUT⟩ count]
              ++ (List.range (n + 1)).flatMap
                  (retryReads B Block.hptimer (afterWkupSwap B D s))
              ++ [Ev.wr ⟨Block.hptimer, TIMER_HP_LOAD_32K_COUNT0⟩
                    ((high * 2 ^ 32 + low + delta) % 2 ^ 64 % 2 ^ 32),
                  Ev.wr ⟨Block.hptimer, TIMER_HP_LOAD_32K_COUNT1⟩
                    ((high * 2 ^ 32 + low + delta) % 2 ^ 64 / 2 ^ 32),
                  Ev.rd ⟨Block.hptimer, TIMER_HP_INT_EN⟩ int_en,
                  Ev.wr ⟨Block.hptimer, TIMER_HP_INT_EN⟩ (int_en ||| 8)])) := by
  have hrd : (readl B ⟨Block.pmu, D.RV1103B_PMU1_WAKEUP_INT_CON⟩ s).1
      = pollVal B ⟨Block.pmu, D.RV1103B_PMU1_WAKEUP_INT_CON⟩ s 0 :=
    readl_eq_pollVal B _ s s 0 rfl rfl
  refine ⟨?_, ?_, ?_⟩
  · intro hfsm
    simp [suspend_workaround_timeout_wkup, hfsm]
  · intro hfsm hclr
    unfold suspend_workaround_timeout_wkup
    rw [if_neg (by simpa using hfsm)]
    dsimp only
    rw [hrd, if_pos hclr, Option.map_some', readl_log, hrd]
  · intro hfsm hset wkup count delta n high low int_en hwk hcount hdelta hfuel hretry hagree
      hhigh hlow hen
    have hbits := wkup_swap_bits D wkup (by rw [hwk]; exact pollVal_lt _ _ _ _) hT hH hne
    refine ⟨hbits.2, ?_⟩
    have hcall : suspend_workaround_timeout_wkup B D fuel slp_cfg ddr_data s
        = rk_hptimer_v2_config_sleep_timeout_int B Block.hptimer fuel
            (wkup_delta_cnt D slp_cfg
              (readl B ⟨Block.pmu, D.RV1103B_PMU1_WAKEUP_TIMEOUT⟩
                (writel B (wkup_swap D (readl B ⟨Block.pmu, D.RV1103B_PMU1_WAKEUP_INT_CON⟩ s).1)
                  ⟨Block.pmu, D.RV1103B_PMU1_WAKEUP_INT_CON⟩
                  (readl B ⟨Block.pmu, D.RV1103B_PMU1_WAKEUP_INT_CON⟩ s).2)).1)
            (afterWkupSwap B D s) := by
      unfold suspend_workaround_timeout_wkup
      rw [if_neg (by simpa using hfsm)]
      dsimp only
      rw [hrd, if_neg hset]
      rfl
    have haddr : (⟨Block.pmu, D.RV1103B_PMU1_WAKEUP_TIMEOUT⟩ : Addr)
        ≠ ⟨Block.pmu, D.RV1103B_PMU1_WAKEUP_INT_CON⟩ := by
      simpa using hoff
    have hcnt : (readl B ⟨Block.pmu, D.RV1103B_PMU1_WAKEUP_TIMEOUT⟩
        (writel B (wkup_swap D (readl B ⟨Block.pmu, D.RV1103B_PMU1_WAKEUP_INT_CON⟩ s).1)
          ⟨Block.pmu, D.RV1103B_PMU1_WAKEUP_INT_CON⟩
          (readl B ⟨Block.pmu, D.RV1103B_PMU1_WAKEUP_INT_CON⟩ s).2)).1 = count := by
      rw [hcount]
      exact readl_eq_pollVal B _ s _ 2 (by simp only [writel_time, readl_time])
        (by rw [writel_mem_other _ _ _ _ _ haddr, readl_mem])
    have hdl : wkup_delta_cnt D slp_cfg count = delta := by
      rw [hdelta]
      rfl
    rw [hcall, hcnt, hdl]
    have hd64 : delta < 2 ^ 64 := by
      rw [← hdl]
      exact wkup_delta_cnt_lt D slp_cfg count (by rw [hcount]; exact pollVal_lt _ _ _ _)
    rw [config_sleep_timeout_int_log B Block.hptimer delta (afterWkupSwap B D s) n fuel hd64
      hfuel hretry hagree]
    rw [afterWkupSwap_log B D s (by rw [← hwk]; exact hbits.1) hoff, ← hwk, ← hcount, ← hhigh,
      ← hlow, ← hen]

/-- C2 on a scripted register space: the bitmap `0x401` is written back as
`0x81` (bit 10 cleared, bit 7 set, bit 0 kept), and with
`RKPM_SLP_PMU_PMUALIVE_32K` set the count 64 becomes `64 / 32 * 24000 = 48000`
in `LOAD_32K_COUNT0`. -/
theorem suspend_workaround_timeout_wkup_witness :
    (suspend_workaround_timeout_wkup (scriptBoard wkupScript) exampleDefs 1 (exampleCfg 0x200)
        bootDdrData bootHw).map Hw.log
      = some [Ev.rd ⟨Block.pmu, 0x100⟩ 0x401,
              Ev.wr ⟨Block.pmu, 0x100⟩ 0x81,
              Ev.rd ⟨Block.pmu, 0x104⟩ 64,
              Ev.rd ⟨Block.hptimer, TIMER_HP_CURR_TIMER_VALUE1⟩ 0,
              Ev.rd ⟨Block.hptimer, TIMER_HP_CURR_TIMER_VALUE0⟩ 0,
              Ev.rd ⟨Block.hptimer, TIMER_HP_CURR_TIMER_VALUE1⟩ 0,
              Ev.wr ⟨Block.hptimer, TIMER_HP_LOAD_32K_COUNT0⟩ 48000,
              Ev.wr ⟨Block.hptimer, TIMER_HP_LOAD_32K_COUNT1⟩ 0,
              Ev.rd ⟨Block.hptimer, TIMER_HP_INT_EN⟩ 0,
              Ev.wr ⟨Block.hptimer, TIMER_HP_INT_EN⟩ 8] :=
  ((suspend_workaround_timeout_wkup_spec (scriptBoard wkupScript) exampleDefs 1
      (exampleCfg 0x200) bootDdrData bootHw (by decide) (by decide) (by decide)
      (by decide)).2.2 rfl (by decide) 0x401 64 48000 0 0 0 0 (by decide) (by decide)
      (by decide) (by decide) (fun i hi => absurd hi (Nat.not_lt_zero i)) (by decide)
      (by decide) (by decide) (by decide)).2.trans (by decide)

/-! ### C1: the order of the suspend and resume phases -/

theorem and_or_ne_zero (m a b : Nat) : m &&& (a ||| b) ≠ 0 ↔ (m &&& a ≠ 0 ∨ m &&& b ≠ 0) := by
  rw [Nat.and_or_distrib_left]
  constructor
  · intro h
    by_contra hn
    push_neg at hn
    rw [hn.1, hn.2] at h
    exact h rfl
  · intro h hz
    have h1 : m &&& a = 0 := by
      apply Nat.eq_of_testBit_eq
      intro i
      have := congrArg (fun x => x.testBit i) hz
      simp only [Nat.testBit_or, Nat.zero_testBit, Bool.or_eq_false_iff] at this
      simpa using this.1
    have h2 : m &&& b = 0 := by
      apply Nat.eq_of_testBit_eq
      intro i
      have := congrArg (fun x => x.testBit i) hz
      simp only [Nat.testBit_or, Nat.zero_testBit, Bool.or_eq_false_iff] at this
      simpa using this.2
    rcases h with h | h
    · exact h h1
    · exact h h2

/-- C1: for every `mode_config`, `rv1103b_suspend_enter` calls, before the
CPU-retirement call `cpu_suspend`, the phases `clock_suspend`,
`soc_sleep_config`, `plls_suspend`, `gpio_config`, `vd_core_regs_save`,
`vd_log_regs_save` (if and only if `ARMOFF_LOGOFF` or `ARMOFF_PMUOFF` is set)
and `pd_pmu1_regs_save` (if and only if `ARMOFF_PMUOFF` is set), in that order;
`cpu_suspend` is called once; and after it the phases called are the matching
restore phases in exactly the reverse order. -/
theorem rv1103b_suspend_enter_phases (D : Defs) (config : Option rk_sleep_config)
    (slp_cfg : rk_sleep_config) (hpmode : Nat) (mode_config : Nat)
    (hmode : mode_config = (config.getD slp_cfg).mode_config) :
    phasesBeforeWfi (rv1103b_suspend_enter D config slp_cfg hpmode).calls
      = [Call.clock_suspend, Call.soc_sleep_config, Call.plls_suspend, Call.gpio_config,
          Call.vd_core_regs_save]
        ++ (if mode_config &&& D.RKPM_SLP_ARMOFF_LOGOFF ≠ 0
              ∨ mode_config &&& D.RKPM_SLP_ARMOFF_PMUOFF ≠ 0
            then [Call.vd_log_regs_save] else [])
        ++ (if mode_config &&& D.RKPM_SLP_ARMOFF_PMUOFF ≠ 0
            then [Call.pd_pmu1_regs_save] else []) ∧
    (rv1103b_suspend_enter D config slp_cfg hpmode).calls.count Call.cpu_suspend = 1 ∧
    phasesAfterWfi (rv1103b_suspend_enter D config slp_cfg hpmode).calls
      = ((phasesBeforeWfi (rv1103b_suspend_enter D config slp_cfg hpmode).calls).reverse).map
          restoreOf := by
  have hcfg : (match config with
      | some c => c
      | none => slp_cfg).mode_config = mode_config := by
    rw [hmode]
    cases config <;> rfl
  have hor := and_or_ne_zero mode_config D.RKPM_SLP_ARMOFF_LOGOFF D.RKPM_SLP_ARMOFF_PMUOFF
  unfold rv1103b_suspend_enter
  simp only [hcfg]
  split_ifs <;> first | decide | (exfalso; tauto)

/-- C1 on two of the four power modes: with `ARMOFF_PMUOFF` alone all seven
phases run and are undone in reverse order; with `ARMPD` alone neither
conditional phase runs. -/
theorem rv1103b_suspend_enter_phases_witness :
    (phasesBeforeWfi
        (rv1103b_suspend_enter exampleDefs (some (exampleCfg 0x8)) (exampleCfg 0) 0).calls
      = [Call.clock_suspend, Call.soc_sleep_config, Call.plls_suspend, Call.gpio_config,
          Call.vd_core_regs_save, Call.vd_log_regs_save, Call.pd_pmu1_regs_save] ∧
     phasesAfterWfi
        (rv1103b_suspend_enter exampleDefs (some (exampleCfg 0x8)) (exampleCfg 0) 0).calls
      = [Call.pd_pmu1_regs_restore, Call.vd_log_regs_restore, Call.vd_core_regs_restore,
          Call.gpio_restore, Call.plls_resume, Call.soc_sleep_restore, Call.clock_resume]) ∧
    (phasesBeforeWfi
        (rv1103b_suspend_enter exampleDefs (some (exampleCfg 0x1)) (exampleCfg 0) 0).calls
      = [Call.clock_suspend, Call.soc_sleep_config, Call.plls_suspend, Call.gpio_config,
          Call.vd_core_regs_save] ∧
     phasesAfterWfi
        (rv1103b_suspend_enter exampleDefs (some (exampleCfg 0x1)) (exampleCfg 0) 0).calls
      = [Call.vd_core_regs_restore, Call.gpio_restore, Call.plls_resume,
          Call.soc_sleep_restore, Call.clock_resume]) :=
  ⟨⟨(rv1103b_suspend_enter_phases exampleDefs (some (exampleCfg 0x8)) (exampleCfg 0) 0 0x8
        rfl).1.trans (by decide),
    (rv1103b_suspend_enter_phases exampleDefs (some (exampleCfg 0x8)) (exampleCfg 0) 0 0x8
        rfl).2.2.trans (by decide)⟩,
   ⟨(rv1103b_suspend_enter_phases exampleDefs (some (exampleCfg 0x1)) (exampleCfg 0) 0 0x1
        rfl).1.trans (by decide),
    (rv1103b_suspend_enter_phases exampleDefs (some (exampleCfg 0x1)) (exampleCfg 0) 0 0x1
        rfl).2.2.trans (by decide)⟩⟩

/-! ### C6: the round trip of the register region store -/

theorem or_wmsk (x : Nat) : (x &&& 0xffff) ||| WMSK_VAL = 0xffff0000 + x % 2 ^ 16 := by
  have h : x &&& 0xffff = x % 2 ^ 16 := Nat.and_pow_two_sub_one_eq_mod x 16
  have hlt : x % 2 ^ 16 < 2 ^ 16 := Nat.mod_lt _ (by norm_num)
  rw [h, WMSK_VAL, Nat.or_comm, show (0xffff0000 : Nat) = 2 ^ 16 * 0xffff by norm_num,
    ← Nat.mul_add_lt_is_or hlt]

/-- Under the write-enable convention a write selects, bit by bit, between the
old and the new lower half. -/
theorem mask_merge_self (a k : Nat) (ha : a < 2 ^ 16) :
    (a &&& (0xffff ^^^ k)) ||| (a &&& k) = a := by
  apply Nat.eq_of_testBit_eq
  intro i
  have h16 : (0xffff : Nat).testBit i = decide (i < 16) := Nat.testBit_two_pow_sub_one 16 i
  simp only [Nat.testBit_or, Nat.testBit_and, Nat.testBit_xor, h16]
  by_cases hi : i < 16
  · cases h1 : a.testBit i <;> cases h2 : k.testBit i <;> simp [hi]
  · have : a.testBit i = false :=
      Nat.testBit_lt_two_pow (lt_of_lt_of_le ha (Nat.pow_le_pow_right (by norm_num) (by omega)))
    simp [this]

/-- Writing back what a register holds leaves it as it is. -/
theorem hiword_write_self (m : Nat) : hiword_write m (m % 2 ^ 32) = m := by
  unfold hiword_write
  have h1 : m % 2 ^ 32 % 2 ^ 16 = m % 2 ^ 16 := by
    simp only [Nat.reducePow]
    omega
  dsimp only
  rw [h1, mask_merge_self _ _ (Nat.mod_lt _ (by norm_num))]
  simp only [Nat.reducePow]
  omega

/-- Writing back the lower half of what a register holds under the full
write-enable mask leaves it as it is. -/
theorem hiword_write_wmsk (m : Nat) :
    hiword_write m (restore_word WMSK_VAL (m % 2 ^ 32) % 2 ^ 32) = m := by
  have hr : restore_word WMSK_VAL (m % 2 ^ 32) = 0xffff0000 + m % 2 ^ 16 := by
    unfold restore_word
    rw [if_pos (by decide), or_wmsk]
    simp only [Nat.reducePow]
    omega
  rw [hr]
  unfold hiword_write
  dsimp only
  have hlt : m % 2 ^ 16 < 2 ^ 16 := Nat.mod_lt _ (by norm_num)
  have h1 : (0xffff0000 + m % 2 ^ 16) % 2 ^ 32 / 2 ^ 16 % 2 ^ 16 = 0xffff := by
    simp only [Nat.reducePow] at hlt ⊢
    omega
  have h2 : (0xffff0000 + m % 2 ^ 16) % 2 ^ 32 % 2 ^ 16 = m % 2 ^ 16 := by
    simp only [Nat.reducePow] at hlt ⊢
    omega
  simp only [h1, h2]
  have h3 : m % 2 ^ 16 &&& 0xffff = m % 2 ^ 16 := by
    have := Nat.and_pow_two_sub_one_eq_mod (m % 2 ^ 16) 16
    rw [Nat.mod_mod] at this
    exact this
  rw [show (0xffff : Nat) ^^^ 0xffff = 0 by decide, Nat.and_zero, Nat.zero_or, h3]
  simp only [Nat.reducePow]
  omega

theorem restore_word_of_ne (w v : Nat) (h : w ≠ 0) : restore_word w v = restore_word WMSK_VAL v := by
  unfold restore_word
  rw [if_pos h, if_pos (by decide)]

theorem read_regs_regfile (hi : Addr → Bool) (base : Block) (offs : List Nat) (s : Hw) :
    (read_regs (regfileBoard hi) base offs s).2.mem = s.mem ∧
    (read_regs (regfileBoard hi) base offs s).1
      = offs.map (fun off => s.mem ⟨base, off⟩ % 2 ^ 32) := by
  induction offs generalizing s with
  | nil => exact ⟨rfl, rfl⟩
  | cons off rest ih =>
    have h := ih (readl (regfileBoard hi) ⟨base, off⟩ s).2
    rw [readl_mem] at h
    exact ⟨h.1, by rw [read_regs, h.2]; rfl⟩

/-- A write of what the register holds, in the form `restore` gives it, leaves
the register file as it is. -/
theorem writel_restore_noop (hi : Addr → Bool) (a : Addr) (wmsk : Nat) (s : Hw)
    (h32 : s.mem a < 2 ^ 32) (hdecl : wmsk ≠ 0 → hi a = true) :
    (writel (regfileBoard hi) (restore_word wmsk (s.mem a % 2 ^ 32)) a s).mem = s.mem := by
  unfold writel
  apply Function.update_eq_self_iff.2
  show (if hi a then hiword_write (s.mem a) (restore_word wmsk (s.mem a % 2 ^ 32) % 2 ^ 32)
    else restore_word wmsk (s.mem a % 2 ^ 32) % 2 ^ 32) = s.mem a
  by_cases hw : wmsk ≠ 0
  · rw [if_pos (hdecl hw), restore_word_of_ne _ _ hw, hiword_write_wmsk]
  · have hw0 : restore_word wmsk (s.mem a % 2 ^ 32) = s.mem a % 2 ^ 32 := by
      unfold restore_word
      rw [if_neg hw]
    rw [hw0, Nat.mod_mod]
    by_cases hh : hi a = true
    · rw [if_pos hh, hiword_write_self]
    · rw [if_neg hh, Nat.mod_eq_of_lt h32]

theorem write_regs_noop (hi : Addr → Bool) (base : Block) (wmsk : Nat) (m : Addr → Nat)
    (h32 : ∀ a, m a < 2 ^ 32) (offs : List Nat)
    (hdecl : wmsk ≠ 0 → ∀ off, off ∈ offs → hi ⟨base, off⟩ = true) (s : Hw) (hs : s.mem = m) :
    (write_regs (regfileBoard hi) base wmsk offs
      (offs.map (fun off => m ⟨base, off⟩ % 2 ^ 32)) s).mem = m := by
  induction offs generalizing s with
  | nil => exact hs
  | cons off rest ih =>
    rw [List.map_cons, write_regs]
    apply ih (fun hw o ho => hdecl hw o (List.mem_cons_of_mem _ ho))
    rw [← hs]
    exact writel_restore_noop hi ⟨base, off⟩ wmsk s (by rw [hs]; exact h32 _)
      (fun hw => hdecl hw off (List.mem_cons_self _ _))

theorem rgn_save_regfile (hi : Addr → Bool) (rgns : List reg_region) (s : Hw) :
    (rkpm_reg_rgn_save (regfileBoard hi) rgns s).2.mem = s.mem ∧
    (rkpm_reg_rgn_save (regfileBoard hi) rgns s).1
      = rgns.map (fun r => (rgn_offsets r).map (fun off => s.mem ⟨r.base, off⟩ % 2 ^ 32)) := by
  induction rgns generalizing s with
  | nil => exact ⟨rfl, rfl⟩
  | cons r rest ih =>
    have hr := read_regs_regfile hi r.base (rgn_offsets r) s
    have h := ih (read_regs (regfileBoard hi) r.base (rgn_offsets r) s).2
    rw [hr.1] at h
    exact ⟨h.1, by rw [rkpm_reg_rgn_save, h.2, hr.2]; rfl⟩

theorem rgn_restore_noop (hi : Addr → Bool) (m : Addr → Nat) (h32 : ∀ a, m a < 2 ^ 32)
    (rgns : List reg_region)
    (hdecl : ∀ r, r ∈ rgns → r.wmsk ≠ 0 → ∀ off, off ∈ rgn_offsets r → hi ⟨r.base, off⟩ = true)
    (s : Hw) (hs : s.mem = m) :
    (rkpm_reg_rgn_restore (regfileBoard hi) rgns
      (rgns.map (fun r => (rgn_offsets r).map (fun off => m ⟨r.base, off⟩ % 2 ^ 32))) s).mem
      = m := by
  induction rgns generalizing s with
  | nil => exact hs
  | cons r rest ih =>
    rw [List.map_cons, rkpm_reg_rgn_restore]
    apply ih (fun r' hr' => hdecl r' (List.mem_cons_of_mem _ hr'))
    exact write_regs_noop hi r.base r.wmsk m h32 (rgn_offsets r)
      (hdecl r (List.mem_cons_self _ _)) s hs

theorem read_regs_log (hi : Addr → Bool) (base : Block) (offs : List Nat) (s : Hw) :
    (read_regs (regfileBoard hi) base offs s).2.log
      = s.log ++ offs.map (fun off => Ev.rd ⟨base, off⟩ (s.mem ⟨base, off⟩ % 2 ^ 32)) := by
  induction offs generalizing s with
  | nil => simp [read_regs]
  | cons off rest ih =>
    rw [read_regs]
    show (read_regs (regfileBoard hi) base rest (readl (regfileBoard hi) ⟨base, off⟩ s).2).2.log
      = _
    rw [ih, readl_log, readl_mem, List.map_cons, List.append_assoc]
    rfl

theorem rgn_save_log (hi : Addr → Bool) (rgns : List reg_region) (s : Hw) :
    (rkpm_reg_rgn_save (regfileBoard hi) rgns s).2.log
      = s.log ++ rgns.flatMap (fun r =>
          (rgn_offsets r).map (fun off => Ev.rd ⟨r.base, off⟩ (s.mem ⟨r.base, off⟩ % 2 ^ 32))) := by
  induction rgns generalizing s with
  | nil => simp [rkpm_reg_rgn_save]
  | cons r rest ih =>
    rw [rkpm_reg_rgn_save]
    show (rkpm_reg_rgn_save (regfileBoard hi) rest
      (read_regs (regfileBoard hi) r.base (rgn_offsets r) s).2).2.log = _
    rw [ih, read_regs_log, (read_regs_regfile hi r.base (rgn_offsets r) s).1,
      List.flatMap_cons, List.append_assoc]

theorem write_regs_log (B : Board) (base : Block) (wmsk : Nat) (m : Addr → Nat)
    (offs : List Nat) (s : Hw) :
    (write_regs B base wmsk offs (offs.map (fun off => m ⟨base, off⟩ % 2 ^ 32)) s).log
      = s.log ++ offs.map (fun off =>
          Ev.wr ⟨base, off⟩ (restore_word wmsk (m ⟨base, off⟩ % 2 ^ 32) % 2 ^ 32)) := by
  induction offs generalizing s with
  | nil => simp [write_regs]
  | cons off rest ih =>
    rw [List.map_cons, write_regs, ih, writel_log, List.map_cons, List.append_assoc]
    rfl

theorem rgn_restore_log (B : Board) (m : Addr → Nat) (rgns : List reg_region) (s : Hw) :
    (rkpm_reg_rgn_restore B rgns
      (rgns.map (fun r => (rgn_offsets r).map (fun off => m ⟨r.base, off⟩ % 2 ^ 32))) s).log
      = s.log ++ rgns.flatMap (fun r =>
          (rgn_offsets r).map (fun off =>
            Ev.wr ⟨r.base, off⟩ (restore_word r.wmsk (m ⟨r.base, off⟩ % 2 ^ 32) % 2 ^ 32))) := by
  induction rgns generalizing s with
  | nil => simp [rkpm_reg_rgn_restore]
  | cons r rest ih =>
    rw [List.map_cons, rkpm_reg_rgn_restore, ih, write_regs_log, List.flatMap_cons,
      List.append_assoc]

/-- C6: on a register file whose registers hold 32 bits, and in which the
registers that the region list declares with the write-enable mask follow the
upper-half write-enable convention, saving any region list with
`rkpm_reg_rgn_save` and restoring it at once with `rkpm_reg_rgn_restore` leaves
every register bit-identical.  The save reads every covered register once, in
list order, and the restore writes every covered register once, in the same
order, with the captured value (its lower half under the full enable pattern
for a region with a write-enable mask). -/
theorem rkpm_reg_rgn_roundtrip (hi : Addr → Bool) (rgns : List reg_region) (s : Hw)
    (h32 : ∀ a, s.mem a < 2 ^ 32)
    (hdecl : ∀ r, r ∈ rgns → r.wmsk ≠ 0 →
      ∀ off, off ∈ rgn_offsets r → hi ⟨r.base, off⟩ = true) :
    (∀ a, (rkpm_reg_rgn_restore (regfileBoard hi) rgns
        (rkpm_reg_rgn_save (regfileBoard hi) rgns s).1
        (rkpm_reg_rgn_save (regfileBoard hi) rgns s).2).mem a = s.mem a) ∧
    (rkpm_reg_rgn_save (regfileBoard hi) rgns s).2.log
      = s.log ++ rgns.flatMap (fun r =>
          (rgn_offsets r).map (fun off => Ev.rd ⟨r.base, off⟩ (s.mem ⟨r.base, off⟩))) ∧
    (rkpm_reg_rgn_restore (regfileBoard hi) rgns
        (rkpm_reg_rgn_save (regfileBoard hi) rgns s).1
        (rkpm_reg_rgn_save (regfileBoard hi) rgns s).2).log
      = (rkpm_reg_rgn_save (regfileBoard hi) rgns s).2.log ++ rgns.flatMap (fun r =>
          (rgn_offsets r).map (fun off =>
            Ev.wr ⟨r.base, off⟩ (restore_word r.wmsk (s.mem ⟨r.base, off⟩) % 2 ^ 32))) := by
  have hs := rgn_save_regfile hi rgns s
  have hmod : ∀ a, s.mem a % 2 ^ 32 = s.mem a := fun a => Nat.mod_eq_of_lt (h32 a)
  refine ⟨?_, ?_, ?_⟩
  · intro a
    rw [hs.2, rgn_restore_noop hi s.mem h32 rgns hdecl _ hs.1]
  · rw [rgn_save_log]
    simp only [hmod]
  · rw [hs.2, rgn_restore_log]
    simp only [hmod]

/-- C6 on the table `vd_core_reg_rgns`, which mixes regions with and without
the write-enable mask: a register declared with the mask and one declared
without it. -/
theorem rkpm_reg_rgn_roundtrip_witness :
    (rkpm_reg_rgn_restore (regfileBoard (declaredWmsk vd_core_reg_rgns)) vd_core_reg_rgns
        (rkpm_reg_rgn_save (regfileBoard (declaredWmsk vd_core_reg_rgns)) vd_core_reg_rgns
          exampleRegfile).1
        (rkpm_reg_rgn_save (regfileBoard (declaredWmsk vd_core_reg_rgns)) vd_core_reg_rgns
          exampleRegfile).2).mem ⟨Block.corecru, 0x304⟩
      = exampleRegfile.mem ⟨Block.corecru, 0x304⟩ ∧
    (rkpm_reg_rgn_restore (regfileBoard (declaredWmsk vd_core_reg_rgns)) vd_core_reg_rgns
        (rkpm_reg_rgn_save (regfileBoard (declaredWmsk vd_core_reg_rgns)) vd_core_reg_rgns
          exampleRegfile).1
        (rkpm_reg_rgn_save (regfileBoard (declaredWmsk vd_core_reg_rgns)) vd_core_reg_rgns
          exampleRegfile).2).mem ⟨Block.corecru, 0xd00⟩
      = exampleRegfile.mem ⟨Block.corecru, 0xd00⟩ :=
  ⟨(rkpm_reg_rgn_roundtrip (declaredWmsk vd_core_reg_rgns) vd_core_reg_rgns exampleRegfile
      (fun _ => Nat.mod_lt _ (by norm_num)) (by decide)).1 ⟨Block.corecru, 0x304⟩,
   (rkpm_reg_rgn_roundtrip (declaredWmsk vd_core_reg_rgns) vd_core_reg_rgns exampleRegfile
      (fun _ => Nat.mod_lt _ (by norm_num)) (by decide)).1 ⟨Block.corecru, 0xd00⟩⟩

/-! ### C7: clock gating on suspend and resume -/

theorem clock_suspend_eq (B : Board) (D : Defs) (ddr_data : rv1103b_sleep_ddr_data) (s : Hw) :
    clock_suspend B D ddr_data s = gate_save_all B (gateBlocks D) (ddr_data, s) := rfl

theorem clock_resume_eq (B : Board) (D : Defs) (ddr_data : rv1103b_sleep_ddr_data) (s : Hw) :
    clock_resume B D ddr_data s = gate_restore_all B ddr_data (gateBlocks D) s := rfl

theorem gateSaved_set_same (ddr_data : rv1103b_sleep_ddr_data) (b : Block) (arr : Nat → Nat)
    (hb : isClockBlock b = true) : gateSaved (setGateSaved ddr_data b arr) b = arr := by
  cases b <;> first | rfl | exact absurd hb (by decide)

theorem gateSaved_set_other (ddr_data : rv1103b_sleep_ddr_data) (b c : Block) (arr : Nat → Nat)
    (hbc : c ≠ b) : gateSaved (setGateSaved ddr_data b arr) c = gateSaved ddr_data c := by
  cases b <;> cases c <;> first | rfl | exact absurd rfl hbc

/-- One loop of `clock_suspend`: the log, and the array outside the indices. -/
theorem gate_con_save_log (B : Board) (base : Block) (con : Nat → Nat) (is : List Nat) :
    ∀ (arr : Nat → Nat) (s : Hw), is.Nodup →
      (gate_con_save B base con is arr s).2.log
        = s.log ++ is.flatMap (fun i =>
            [Ev.rd ⟨base, con i⟩ ((gate_con_save B base con is arr s).1 i),
             Ev.wr ⟨base, con i⟩ 0xffff0000]) ∧
      ∀ j, j ∉ is → (gate_con_save B base con is arr s).1 j = arr j := by
  induction is with
  | nil =>
    intro arr s _
    exact ⟨by simp [gate_con_save], fun _ _ => rfl⟩
  | cons i rest ih =>
    intro arr s hnd
    have hi : i ∉ rest := (List.nodup_cons.1 hnd).1
    have h := ih (Function.update arr i (readl B ⟨base, con i⟩ s).1)
      (writel B 0xffff0000 ⟨base, con i⟩ (readl B ⟨base, con i⟩ s).2) (List.nodup_cons.1 hnd).2
    rw [gate_con_save]
    refine ⟨?_, ?_⟩
    · rw [h.1, writel_log, readl_log, List.flatMap_cons, h.2 i hi, Function.update_same]
      simp
    · intro j hj
      rw [h.2 j (fun hm => hj (List.mem_cons_of_mem _ hm)),
        Function.update_noteq (fun e => hj (by rw [e]; exact List.mem_cons_self _ _))]

/-- One loop of `clock_resume`: the log. -/
theorem gate_con_restore_log (B : Board) (base : Block) (con : Nat → Nat) (arr : Nat → Nat)
    (is : List Nat) :
    ∀ s : Hw, (gate_con_restore B base con arr is s).log
      = s.log ++ is.map (fun i => Ev.wr ⟨base, con i⟩ ((0xffff0000 ||| arr i) % 2 ^ 32)) := by
  induction is with
  | nil =>
    intro s
    simp [gate_con_restore]
  | cons i rest ih =>
    intro s
    rw [gate_con_restore, ih, writel_log, WITH_16BITS_WMSK]
    simp

/-- A loop of `clock_suspend` leaves a register alone that is not among its
gate-control registers. -/
theorem gate_con_save_frame (B : Board) (base : Block) (con : Nat → Nat) (a : Addr)
    (is : List Nat) :
    ∀ (arr : Nat → Nat) (s : Hw), (∀ k, k ∈ is → (⟨base, con k⟩ : Addr) ≠ a) →
      (gate_con_save B base con is arr s).2.mem a = s.mem a := by
  induction is with
  | nil =>
    intro arr s _
    rfl
  | cons i rest ih =>
    intro arr s hne
    rw [gate_con_save, ih _ _ (fun k hk => hne k (List.mem_cons_of_mem _ hk)),
      writel_mem_other _ _ _ _ _ (Ne.symm (hne i (List.mem_cons_self _ _))), readl_mem]

theorem gate_con_restore_frame (B : Board) (base : Block) (con : Nat → Nat) (arr : Nat → Nat)
    (a : Addr) (is : List Nat) :
    ∀ s : Hw, (∀ k, k ∈ is → (⟨base, con k⟩ : Addr) ≠ a) →
      (gate_con_restore B base con arr is s).mem a = s.mem a := by
  induction is with
  | nil =>
    intro s _
    rfl
  | cons i rest ih =>
    intro s hne
    rw [gate_con_restore, ih _ (fun k hk => hne k (List.mem_cons_of_mem _ hk)),
      writel_mem_other _ _ _ _ _ (Ne.symm (hne i (List.mem_cons_self _ _)))]

theorem gate_save_all_saved_frame (B : Board) (b : Block)
    (gs : List (Block × Nat × (Nat → Nat))) :
    ∀ x : rv1103b_sleep_ddr_data × Hw, b ∉ gs.map Prod.fst →
      gateSaved (gate_save_all B gs x).1 b = gateSaved x.1 b := by
  induction gs with
  | nil =>
    intro x _
    rfl
  | cons g gs ih =>
    intro x hb
    rw [List.map_cons, List.mem_cons, not_or] at hb
    rw [gate_save_all, ih _ hb.2, gateSaved_set_other _ _ _ _ hb.1]

/-- The accesses of the loops of `clock_suspend`, in terms of the arrays they
leave in `ddr_data`. -/
theorem gate_save_all_log (B : Board) (gs : List (Block × Nat × (Nat → Nat))) :
    ∀ x : rv1103b_sleep_ddr_data × Hw, (gs.map Prod.fst).Nodup →
      (∀ g, g ∈ gs → isClockBlock g.1 = true) →
      (gate_save_all B gs x).2.log
        = x.2.log ++ gs.flatMap (fun g =>
            (List.range g.2.1).flatMap (fun i =>
              [Ev.rd ⟨g.1, g.2.2 i⟩ (gateSaved (gate_save_all B gs x).1 g.1 i),
               Ev.wr ⟨g.1, g.2.2 i⟩ 0xffff0000])) := by
  induction gs with
  | nil =>
    intro x _ _
    simp [gate_save_all]
  | cons g gs ih =>
    intro x hnd hclk
    rw [List.map_cons, List.nodup_cons] at hnd
    have hl := (gate_con_save_log B g.1 g.2.2 (List.range g.2.1) (gateSaved x.1 g.1) x.2
      (List.nodup_range _)).1
    have hsaved : gateSaved (gate_save_all B (g :: gs) x).1 g.1
        = (gate_con_save B g.1 g.2.2 (List.range g.2.1) (gateSaved x.1 g.1) x.2).1 := by
      rw [gate_save_all, gate_save_all_saved_frame B g.1 gs _ hnd.1,
        gateSaved_set_same _ _ _ (hclk g (List.mem_cons_self _ _))]
    rw [List.flatMap_cons, hsaved, ← List.append_assoc, ← hl]
    rw [gate_save_all]
    exact ih _ hnd.2 (fun g' hg' => hclk g' (List.mem_cons_of_mem _ hg'))

/-- The accesses of the loops of `clock_resume`. -/
theorem gate_restore_all_log (B : Board) (ddr_data : rv1103b_sleep_ddr_data)
    (gs : List (Block × Nat × (Nat → Nat))) :
    ∀ s : Hw, (gate_restore_all B ddr_data gs s).log
      = s.log ++ gs.flatMap (fun g =>
          (List.range g.2.1).map (fun i =>
            Ev.wr ⟨g.1, g.2.2 i⟩ ((0xffff0000 ||| gateSaved ddr_data g.1 i) % 2 ^ 32))) := by
  induction gs with
  | nil =>
    intro s
    simp [gate_restore_all]
  | cons g gs ih =>
    intro s
    rw [gate_restore_all, ih, gate_con_restore_log, List.flatMap_cons, List.append_assoc]

theorem gate_save_all_mem_frame (B : Board) (a : Addr) (gs : List (Block × Nat × (Nat → Nat))) :
    ∀ x : rv1103b_sleep_ddr_data × Hw,
      (∀ g, g ∈ gs → ∀ k, k < g.2.1 → (⟨g.1, g.2.2 k⟩ : Addr) ≠ a) →
      (gate_save_all B gs x).2.mem a = x.2.mem a := by
  induction gs with
  | nil =>
    intro x _
    rfl
  | cons g gs ih =>
    intro x hne
    rw [gate_save_all, ih _ (fun g' hg' => hne g' (List.mem_cons_of_mem _ hg'))]
    exact gate_con_save_frame B g.1 g.2.2 a _ _ _
      (fun k hk => hne g (List.mem_cons_self _ _) k (List.mem_range.1 hk))

theorem gate_restore_all_mem_frame (B : Board) (ddr_data : rv1103b_sleep_ddr_data) (a : Addr)
    (gs : List (Block × Nat × (Nat → Nat))) :
    ∀ s : Hw, (∀ g, g ∈ gs → ∀ k, k < g.2.1 → (⟨g.1, g.2.2 k⟩ : Addr) ≠ a) →
      (gate_restore_all B ddr_data gs s).mem a = s.mem a := by
  induction gs with
  | nil =>
    intro s _
    rfl
  | cons g gs ih =>
    intro s hne
    rw [gate_restore_all, ih _ (fun g' hg' => hne g' (List.mem_cons_of_mem _ hg'))]
    exact gate_con_restore_frame B g.1 g.2.2 _ a _ _
      (fun k hk => hne g (List.mem_cons_self _ _) k (List.mem_range.1 hk))

/-- One loop of `clock_suspend` on a register file: what it stores for a
register and what it leaves in it. -/
theorem gate_con_save_at (hi : Addr → Bool) (base : Block) (con : Nat → Nat) (i : Nat)
    (hhi : hi ⟨base, con i⟩ = true) (is : List Nat) :
    ∀ (arr : Nat → Nat) (s : Hw), is.Nodup → i ∈ is → (∀ k, k ∈ is → con k = con i → k = i) →
      (gate_con_save (regfileBoard hi) base con is arr s).2.mem ⟨base, con i⟩
        = hiword_write (s.mem ⟨base, con i⟩) 0xffff0000 ∧
      (gate_con_save (regfileBoard hi) base con is arr s).1 i = s.mem ⟨base, con i⟩ % 2 ^ 32 := by
  induction is with
  | nil =>
    intro arr s _ hmem _
    exact absurd hmem (List.not_mem_nil _)
  | cons j rest ih =>
    intro arr s hnd hmem hinj
    have hj : j ∉ rest := (List.nodup_cons.1 hnd).1
    rw [gate_con_save]
    by_cases hij : i = j
    · subst hij
      have hfr : ∀ k, k ∈ rest → (⟨base, con k⟩ : Addr) ≠ ⟨base, con i⟩ := by
        intro k hk e
        have hc : con k = con i := by simpa using e
        have hki := hinj k (List.mem_cons_of_mem _ hk) hc
        exact hj (hki ▸ hk)
      refine ⟨?_, ?_⟩
      · rw [gate_con_save_frame _ _ _ _ _ _ _ hfr, writel_mem_same, readl_mem]
        show (if hi ⟨base, con i⟩ then hiword_write (s.mem ⟨base, con i⟩) (0xffff0000 % 2 ^ 32)
          else 0xffff0000 % 2 ^ 32) = _
        rw [if_pos hhi]
        rfl
      · rw [(gate_con_save_log _ base con rest _ _ (List.nodup_cons.1 hnd).2).2 i hj,
          Function.update_same]
        rfl
    · have hir : i ∈ rest := (List.mem_cons.1 hmem).resolve_left hij
      have hne : (⟨base, con i⟩ : Addr) ≠ ⟨base, con j⟩ := by
        intro e
        have hc : con j = con i := by simpa using e.symm
        exact hij (hinj j (List.mem_cons_self _ _) hc).symm
      have h := ih (Function.update arr j (readl (regfileBoard hi) ⟨base, con j⟩ s).1)
        (writel (regfileBoard hi) 0xffff0000 ⟨base, con j⟩
          (readl (regfileBoard hi) ⟨base, con j⟩ s).2)
        (List.nodup_cons.1 hnd).2 hir (fun k hk => hinj k (List.mem_cons_of_mem _ hk))
      rw [writel_mem_other _ _ _ _ _ hne, readl_mem] at h
      exact h

/-- One loop of `clock_resume` on a register file: what it leaves in a
register. -/
theorem gate_con_restore_at (hi : Addr → Bool) (base : Block) (con : Nat → Nat)
    (arr : Nat → Nat) (i : Nat) (hhi : hi ⟨base, con i⟩ = true) (is : List Nat) :
    ∀ s : Hw, is.Nodup → i ∈ is → (∀ k, k ∈ is → con k = con i → k = i) →
      (gate_con_restore (regfileBoard hi) base con arr is s).mem ⟨base, con i⟩
        = hiword_write (s.mem ⟨base, con i⟩) ((0xffff0000 ||| arr i) % 2 ^ 32) := by
  induction is with
  | nil =>
    intro s _ hmem _
    exact absurd hmem (List.not_mem_nil _)
  | cons j rest ih =>
    intro s hnd hmem hinj
    have hj : j ∉ rest := (List.nodup_cons.1 hnd).1
    rw [gate_con_restore]
    by_cases hij : i = j
    · subst hij
      have hfr : ∀ k, k ∈ rest → (⟨base, con k⟩ : Addr) ≠ ⟨base, con i⟩ := by
        intro k hk e
        have hc : con k = con i := by simpa using e
        have hki := hinj k (List.mem_cons_of_mem _ hk) hc
        exact hj (hki ▸ hk)
      rw [gate_con_restore_frame _ _ _ _ _ _ _ hfr, writel_mem_same]
      show (if hi ⟨base, con i⟩ then
          hiword_write (s.mem ⟨base, con i⟩) (WITH_16BITS_WMSK (arr i) % 2 ^ 32)
        else WITH_16BITS_WMSK (arr i) % 2 ^ 32) = _
      rw [if_pos hhi]
      rfl
    · have hir : i ∈ rest := (List.mem_cons.1 hmem).resolve_left hij
      have hne : (⟨base, con i⟩ : Addr) ≠ ⟨base, con j⟩ := by
        intro e
        have hc : con j = con i := by simpa using e.symm
        exact hij (hinj j (List.mem_cons_self _ _) hc).symm
      have h := ih (writel (regfileBoard hi) (WITH_16BITS_WMSK (arr j)) ⟨base, con j⟩ s)
        (List.nodup_cons.1 hnd).2 hir (fun k hk => hinj k (List.mem_cons_of_mem _ hk))
      rw [writel_mem_other _ _ _ _ _ hne] at h
      exact h

theorem gate_save_all_at (hi : Addr → Bool) (gs : List (Block × Nat × (Nat → Nat))) :
    ∀ x : rv1103b_sleep_ddr_data × Hw, (gs.map Prod.fst).Nodup →
      (∀ g, g ∈ gs → isClockBlock g.1 = true) →
      ∀ g, g ∈ gs → ∀ i, i < g.2.1 → hi ⟨g.1, g.2.2 i⟩ = true →
      (∀ k, k < g.2.1 → g.2.2 k = g.2.2 i → k = i) →
      (gate_save_all (regfileBoard hi) gs x).2.mem ⟨g.1, g.2.2 i⟩
        = hiword_write (x.2.mem ⟨g.1, g.2.2 i⟩) 0xffff0000 ∧
      gateSaved (gate_save_all (regfileBoard hi) gs x).1 g.1 i
        = x.2.mem ⟨g.1, g.2.2 i⟩ % 2 ^ 32 := by
  induction gs with
  | nil =>
    intro x _ _ g hg
    exact absurd hg (List.not_mem_nil _)
  | cons g' gs ih =>
    intro x hnd hclk g hg i hi_lt hhi hinj
    rw [List.map_cons, List.nodup_cons] at hnd
    rw [gate_save_all]
    rcases List.mem_cons.1 hg with rfl | hg'
    · have hat := gate_con_save_at hi g.1 g.2.2 i hhi (List.range g.2.1) (gateSaved x.1 g.1) x.2
        (List.nodup_range _) (List.mem_range.2 hi_lt)
        (fun k hk => hinj k (List.mem_range.1 hk))
      have hfr : ∀ g'', g'' ∈ gs → ∀ k, k < g''.2.1 →
          (⟨g''.1, g''.2.2 k⟩ : Addr) ≠ ⟨g.1, g.2.2 i⟩ := by
        intro g'' hg'' k _ e
        have hb : g''.1 = g.1 := by
          have := congrArg Addr.base e
          exact this
        exact hnd.1 (hb ▸ List.mem_map_of_mem Prod.fst hg'')
      refine ⟨?_, ?_⟩
      · rw [gate_save_all_mem_frame _ _ _ _ hfr]
        exact hat.1
      · rw [gate_save_all_saved_frame _ _ _ _ hnd.1,
          gateSaved_set_same _ _ _ (hclk g (List.mem_cons_self _ _))]
        exact hat.2
    · have hb : g'.1 ≠ g.1 := fun e => hnd.1 (e ▸ List.mem_map_of_mem Prod.fst hg')
      have h := ih
        (setGateSaved x.1 g'.1
          (gate_con_save (regfileBoard hi) g'.1 g'.2.2 (List.range g'.2.1)
            (gateSaved x.1 g'.1) x.2).1,
         (gate_con_save (regfileBoard hi) g'.1 g'.2.2 (List.range g'.2.1)
            (gateSaved x.1 g'.1) x.2).2)
        hnd.2 (fun g'' hg'' => hclk g'' (List.mem_cons_of_mem _ hg'')) g hg' i hi_lt hhi hinj
      have hfr := gate_con_save_frame (regfileBoard hi) g'.1 g'.2.2 ⟨g.1, g.2.2 i⟩
        (List.range g'.2.1) (gateSaved x.1 g'.1) x.2
        (fun k _ e => hb (congrArg Addr.base e))
      simp only [hfr] at h
      exact h

theorem gate_restore_all_at (hi : Addr → Bool) (ddr_data : rv1103b_sleep_ddr_data)
    (gs : List (Block × Nat × (Nat → Nat))) :
    ∀ s : Hw, (gs.map Prod.fst).Nodup →
      ∀ g, g ∈ gs → ∀ i, i < g.2.1 → hi ⟨g.1, g.2.2 i⟩ = true →
      (∀ k, k < g.2.1 → g.2.2 k = g.2.2 i → k = i) →
      (gate_restore_all (regfileBoard hi) ddr_data gs s).mem ⟨g.1, g.2.2 i⟩
        = hiword_write (s.mem ⟨g.1, g.2.2 i⟩)
            ((0xffff0000 ||| gateSaved ddr_data g.1 i) % 2 ^ 32) := by
  induction gs with
  | nil =>
    intro s _ g hg
    exact absurd hg (List.not_mem_nil _)
  | cons g' gs ih =>
    intro s hnd g hg i hi_lt hhi hinj
    rw [List.map_cons, List.nodup_cons] at hnd
    rw [gate_restore_all]
    rcases List.mem_cons.1 hg with rfl | hg'
    · have hfr : ∀ g'', g'' ∈ gs → ∀ k, k < g''.2.1 →
          (⟨g''.1, g''.2.2 k⟩ : Addr) ≠ ⟨g.1, g.2.2 i⟩ := by
        intro g'' hg'' k _ e
        have hb : g''.1 = g.1 := congrArg Addr.base e
        exact hnd.1 (hb ▸ List.mem_map_of_mem Prod.fst hg'')
      rw [gate_restore_all_mem_frame _ _ _ _ _ hfr]
      exact gate_con_restore_at hi g.1 g.2.2 (gateSaved ddr_data g.1) i hhi (List.range g.2.1) s
        (List.nodup_range _) (List.mem_range.2 hi_lt)
        (fun k hk => hinj k (List.mem_range.1 hk))
    · have hb : g'.1 ≠ g.1 := fun e => hnd.1 (e ▸ List.mem_map_of_mem Prod.fst hg')
      rw [ih _ hnd.2 g hg' i hi_lt hhi hinj]
      rw [gate_con_restore_frame (regfileBoard hi) g'.1 g'.2.2 _ ⟨g.1, g.2.2 i⟩
        (List.range g'.2.1) s (fun k _ e => hb (congrArg Addr.base e))]

theorem or_ffff0000 (x : Nat) (hx : x < 2 ^ 32) : 0xffff0000 ||| x = 0xffff0000 + x % 2 ^ 16 := by
  have hlt : x % 2 ^ 16 < 2 ^ 16 := Nat.mod_lt _ (by norm_num)
  have h1 : (0xffff0000 : Nat) + x % 2 ^ 16 = 0xffff0000 ||| x % 2 ^ 16 := by
    rw [show (0xffff0000 : Nat) = 2 ^ 16 * 0xffff by norm_num, Nat.mul_add_lt_is_or hlt]
  rw [h1]
  apply Nat.eq_of_testBit_eq
  intro i
  have hF : (0xffff0000 : Nat).testBit i = (decide (16 ≤ i) && decide (i - 16 < 16)) := by
    rw [show (0xffff0000 : Nat) = 2 ^ 16 * (2 ^ 16 - 1) by norm_num, Nat.testBit_mul_pow_two,
      Nat.testBit_two_pow_sub_one]
  simp only [Nat.testBit_or, Nat.testBit_mod_two_pow, hF]
  by_cases h16 : i < 16
  · simp [h16]
  · by_cases h32 : i < 32
    · have : i - 16 < 16 := by omega
      simp [h16, this, Nat.le_of_not_lt h16]
    · have hxi : x.testBit i = false :=
        Nat.testBit_lt_two_pow (lt_of_lt_of_le hx (Nat.pow_le_pow_right (by norm_num)
          (Nat.le_of_not_lt h32)))
      simp [h16, hxi]

/-- Gating a register with `0xffff0000` and then writing the stored word back
under the full write-enable mask leaves the register as it was. -/
theorem hiword_write_gate_restore (m : Nat) :
    hiword_write (hiword_write m 0xffff0000) ((0xffff0000 ||| m % 2 ^ 32) % 2 ^ 32) = m := by
  rw [or_ffff0000 _ (Nat.mod_lt _ (by norm_num))]
  unfold hiword_write
  dsimp only
  have hlt : m % 2 ^ 16 < 2 ^ 16 := Nat.mod_lt _ (by norm_num)
  have h0 : (0xffff0000 : Nat) / 2 ^ 16 % 2 ^ 16 = 0xffff := by norm_num
  have h0' : (0xffff0000 : Nat) % 2 ^ 16 = 0 := by norm_num
  have h1 : (0xffff0000 + m % 2 ^ 32 % 2 ^ 16) % 2 ^ 32 / 2 ^ 16 % 2 ^ 16 = 0xffff := by
    simp only [Nat.reducePow] at hlt ⊢
    omega
  have h2 : (0xffff0000 + m % 2 ^ 32 % 2 ^ 16) % 2 ^ 32 % 2 ^ 16 = m % 2 ^ 16 := by
    simp only [Nat.reducePow] at hlt ⊢
    omega
  have h3 : m % 2 ^ 16 &&& 0xffff = m % 2 ^ 16 := by
    have := Nat.and_pow_two_sub_one_eq_mod (m % 2 ^ 16) 16
    rw [Nat.mod_mod] at this
    exact this
  simp only [h0, h0', h1, h2]
  rw [show (0xffff : Nat) ^^^ 0xffff = 0 by decide, Nat.and_zero, Nat.and_zero, Nat.zero_and,
    Nat.zero_or, Nat.zero_or, h3]
  simp only [Nat.reducePow]
  omega

theorem gateBlocks_fst (D : Defs) :
    (gateBlocks D).map Prod.fst
      = [Block.cru, Block.pmu0cru, Block.pmu1cru, Block.pericru, Block.npucru, Block.venccru,
          Block.vicru, Block.corecru] := rfl

theorem gateBlocks_nodup (D : Defs) : ((gateBlocks D).map Prod.fst).Nodup := by
  rw [gateBlocks_fst]
  decide

theorem gateBlocks_clock (D : Defs) : ∀ g, g ∈ gateBlocks D → isClockBlock g.1 = true := by
  intro g hg
  have h : g.1 ∈ (gateBlocks D).map Prod.fst := List.mem_map_of_mem Prod.fst hg
  rw [gateBlocks_fst] at h
  simp only [List.mem_cons, List.mem_singleton, List.not_mem_nil, or_false] at h
  rcases h with h | h | h | h | h | h | h | h <;> rw [h] <;> rfl

/-- C7: for every gate-control register of the eight clock blocks,
`clock_suspend` reads the register, stores the full 32-bit value read in
`ddr_data` and then writes `0xffff0000` to it; `clock_resume` writes the stored
value with all sixteen upper write-enable bits set to the same register; and
on a register file whose gate-control registers follow the upper-half
write-enable convention and have distinct offsets within a block, the low 16
bits of every gate-control register after `clock_suspend` followed by
`clock_resume` equal those before `clock_suspend`. -/
theorem clock_suspend_resume_spec (D : Defs) (ddr_data : rv1103b_sleep_ddr_data) (s : Hw) :
    (∀ B : Board, (clock_suspend B D ddr_data s).2.log
      = s.log ++ clockSuspendLog D (clock_suspend B D ddr_data s).1) ∧
    (∀ B : Board, (clock_resume B D ddr_data s).log = s.log ++ clockResumeLog D ddr_data) ∧
    (∀ hi : Addr → Bool, (∀ a, isGateReg D a → hi a = true) → gateOffsetsDistinct D →
      ∀ a, isGateReg D a →
        (clock_resume (regfileBoard hi) D (clock_suspend (regfileBoard hi) D ddr_data s).1
          (clock_suspend (regfileBoard hi) D ddr_data s).2).mem a % 2 ^ 16
          = s.mem a % 2 ^ 16) := by
  refine ⟨?_, ?_, ?_⟩
  · intro B
    rw [clock_suspend_eq]
    exact gate_save_all_log B (gateBlocks D) (ddr_data, s) (gateBlocks_nodup D)
      (gateBlocks_clock D)
  · intro B
    rw [clock_resume_eq]
    exact gate_restore_all_log B ddr_data (gateBlocks D) s
  · intro hi hhi hdist a ha
    obtain ⟨g, hg, i, hi_lt, rfl⟩ := ha
    have hinj : ∀ k, k < g.2.1 → g.2.2 k = g.2.2 i → k = i :=
      fun k hk e => hdist g hg k i hk hi_lt e
    have hha := hhi ⟨g.1, g.2.2 i⟩ ⟨g, hg, i, hi_lt, rfl⟩
    have hsave := gate_save_all_at hi (gateBlocks D) (ddr_data, s) (gateBlocks_nodup D)
      (gateBlocks_clock D) g hg i hi_lt hha hinj
    rw [clock_resume_eq, clock_suspend_eq,
      gate_restore_all_at hi _ (gateBlocks D) _ (gateBlocks_nodup D) g hg i hi_lt hha hinj,
      hsave.1, hsave.2, hiword_write_gate_restore]

theorem exampleDefs_gateOffsetsDistinct : gateOffsetsDistinct exampleDefs := by
  intro g hg i j _ _ h
  simp only [gateBlocks, exampleDefs, List.mem_cons, List.mem_singleton, List.not_mem_nil,
    or_false] at hg
  rcases hg with rfl | rfl | rfl | rfl | rfl | rfl | rfl | rfl <;>
  · simp only at h
    omega

/-- C7 on the second gate-control register of the `cru` block of a register
file in which every register follows the write-enable convention. -/
theorem clock_suspend_resume_witness :
    (clock_resume (regfileBoard (fun _ => true)) exampleDefs
        (clock_suspend (regfileBoard (fun _ => true)) exampleDefs bootDdrData exampleRegfile).1
        (clock_suspend (regfileBoard (fun _ => true)) exampleDefs bootDdrData
          exampleRegfile).2).mem ⟨Block.cru, 0x804⟩ % 2 ^ 16
      = exampleRegfile.mem ⟨Block.cru, 0x804⟩ % 2 ^ 16 :=
  (clock_suspend_resume_spec exampleDefs bootDdrData exampleRegfile).2.2 (fun _ => true)
    (fun _ _ => rfl) exampleDefs_gateOffsetsDistinct ⟨Block.cru, 0x804⟩
    ⟨(Block.cru, 3, fun i => 0x800 + 4 * i), by simp [gateBlocks, exampleDefs], 1, by decide, rfl⟩

/-! ### The declared region tables -/

/-- C19: every entry of the five region tables declared in `rv1103b_pm.c`
(`vd_core_reg_rgns`, `vd_log_reg_rgns`, `pd_pmu1_reg_rgns`,
`pvtpll_core_reg_rgns`, `pvtpll_logic_reg_rgns`, of 13, 129, 17, 2 and 2
entries) has `start <= end` and a span `end - start` that is a multiple of the
stride. -/
theorem region_tables_wf :
    (vd_core_reg_rgns.length = 13 ∧ vd_log_reg_rgns.length = 129 ∧
      pd_pmu1_reg_rgns.length = 17 ∧ pvtpll_core_reg_rgns.length = 2 ∧
      pvtpll_logic_reg_rgns.length = 2) ∧
    ∀ t ∈ allRegionTables, ∀ r ∈ t,
      r.start ≤ r.end_ ∧ (r.end_ - r.start) % r.stride = 0 := by
  refine ⟨?_, ?_⟩
  · set_option maxRecDepth 100000 in exact ⟨rfl, rfl, rfl, rfl, rfl⟩
  have h : allRegionTables.all (fun t => t.all rgn_wf) = true := by
    set_option maxRecDepth 100000 in decide
  intro t ht r hr
  have h1 := List.all_eq_true.mp h t ht
  have h2 := List.all_eq_true.mp h1 r hr
  simpa [rgn_wf] using h2

/-! ### C18 and C20: the checkpoint characters and the configuration copy -/

/-- C18: for every `mode_config` (and every configuration source and timer
mode) the `rkpm_printch` calls that `rv1103b_suspend_enter` makes before the
`"-WFI-"` marker print `-0123456` and those it makes after wake print
`6543210-`.  Before the marker `-` comes first and each suspend phase that
runs is directly followed by its character, `5` and `6` being printed whether
or not `vd_log_regs_save` and `pd_pmu1_regs_save` ran; after wake `6` comes
first and each resume phase that runs is directly followed by its character,
`5` and `4` being printed whether or not `pd_pmu1_regs_restore` and
`vd_log_regs_restore` ran. -/
theorem rv1103b_suspend_enter_checkpoints (D : Defs) (config : Option rk_sleep_config)
    (slp_cfg : rk_sleep_config) (hpmode : Nat) :
    checkpointChars (callsBeforeMarker (rv1103b_suspend_enter D config slp_cfg hpmode).calls)
      = ['-', '0', '1', '2', '3', '4', '5', '6'] ∧
    checkpointChars (callsAfterWake (rv1103b_suspend_enter D config slp_cfg hpmode).calls)
      = ['6', '5', '4', '3', '2', '1', '0', '-'] ∧
    phasesAndChars (callsBeforeMarker (rv1103b_suspend_enter D config slp_cfg hpmode).calls)
      = [Call.rkpm_printch '-', Call.clock_suspend, Call.rkpm_printch '0',
          Call.soc_sleep_config, Call.rkpm_printch '1', Call.plls_suspend,
          Call.rkpm_printch '2', Call.gpio_config, Call.rkpm_printch '3',
          Call.vd_core_regs_save, Call.rkpm_printch '4']
        ++ (if (config.getD slp_cfg).mode_config
                &&& (D.RKPM_SLP_ARMOFF_LOGOFF ||| D.RKPM_SLP_ARMOFF_PMUOFF) ≠ 0
            then [Call.vd_log_regs_save] else [])
        ++ [Call.rkpm_printch '5']
        ++ (if (config.getD slp_cfg).mode_config &&& D.RKPM_SLP_ARMOFF_PMUOFF ≠ 0
            then [Call.pd_pmu1_regs_save] else [])
        ++ [Call.rkpm_printch '6'] ∧
    phasesAndChars (callsAfterWake (rv1103b_suspend_enter D config slp_cfg hpmode).calls)
      = [Call.rkpm_printch '6']
        ++ (if (config.getD slp_cfg).mode_config &&& D.RKPM_SLP_ARMOFF_PMUOFF ≠ 0
            then [Call.pd_pmu1_regs_restore] else [])
        ++ [Call.rkpm_printch '5']
        ++ (if (config.getD slp_cfg).mode_config
                &&& (D.RKPM_SLP_ARMOFF_LOGOFF ||| D.RKPM_SLP_ARMOFF_PMUOFF) ≠ 0
            then [Call.vd_log_regs_restore] else [])
        ++ [Call.rkpm_printch '4', Call.vd_core_regs_restore, Call.rkpm_printch '3',
          Call.gpio_restore, Call.rkpm_printch '2', Call.plls_resume, Call.rkpm_printch '1',
          Call.soc_sleep_restore, Call.rkpm_printch '0', Call.clock_resume,
          Call.rkpm_printch '-'] := by
  have hcfg : (match config with
      | some c => c
      | none => slp_cfg) = config.getD slp_cfg := by
    cases config <;> rfl
  unfold rv1103b_suspend_enter
  simp only [hcfg]
  split_ifs <;> decide

theorem readsOf_map_rd_mem {α : Type} (l : List α) (a : Addr) (v : α → Nat) :
    ∀ r ∈ readsOf (l.map (fun j => Ev.rd a (v j))), r.1 = a := by
  induction l with
  | nil => intro r hr; simp [readsOf] at hr
  | cons x l ih =>
    intro r hr
    simp only [List.map_cons, readsOf, List.mem_cons] at hr
    rcases hr with h | h
    · rw [h]
    · exact ih r h

/-- What `rk_hptimer_v2_wait_sync` adds to the log: reads of the interrupt
status register, console output, and the write that clears the sync interrupt
exactly when the wait succeeded. -/
theorem wait_sync_log (B : Board) (base : Block) (s : Hw) :
    ∃ l, (rk_hptimer_v2_wait_sync B base s).2.log = s.log ++ l ∧
      writesOf l = (if (rk_hptimer_v2_wait_sync B base s).1 = 0
        then [(⟨base, TIMER_HP_INTR_STATUS⟩, 4)] else []) ∧
      ∀ r ∈ readsOf l, r.1 = ⟨base, TIMER_HP_INTR_STATUS⟩ := by
  by_cases h : ∃ k, k < 1000000 ∧ pollVal B ⟨base, TIMER_HP_INTR_STATUS⟩ s k &&& 4 ≠ 0
  · have hk := Nat.find_spec h
    have hmin : ∀ j, j < Nat.find h →
        pollVal B ⟨base, TIMER_HP_INTR_STATUS⟩ s j &&& 4 = 0 := by
      intro j hj
      by_contra hne
      exact Nat.find_min h hj ⟨Nat.lt_trans hj hk.1, hne⟩
    rw [wait_sync_hit B base s (Nat.find h) hk.1 hmin hk.2]
    refine ⟨(List.range (Nat.find h + 1)).map
      (fun j => Ev.rd ⟨base, TIMER_HP_INTR_STATUS⟩
        (pollVal B ⟨base, TIMER_HP_INTR_STATUS⟩ s j)) ++ [Ev.wr ⟨base, TIMER_HP_INTR_STATUS⟩ 4],
      ?_, ?_, ?_⟩
    · simp [afterReads]
    · rw [writesOf_append, writesOf_map_rd]
      simp [writesOf]
    · intro r hr
      rw [readsOf_append] at hr
      simp only [readsOf, List.append_nil] at hr
      exact readsOf_map_rd_mem _ _ _ r hr
  · have hmiss : ∀ j, j < 1000000 →
        pollVal B ⟨base, TIMER_HP_INTR_STATUS⟩ s j &&& 4 = 0 := by
      intro j hj
      by_contra hne
      exact h ⟨j, hj, hne⟩
    rw [wait_sync_timeout B base s hmiss]
    refine ⟨(List.range 1000000).map
      (fun j => Ev.rd ⟨base, TIMER_HP_INTR_STATUS⟩
        (pollVal B ⟨base, TIMER_HP_INTR_STATUS⟩ s j))
      ++ [Ev.printstr "can't wait hptimer int:", Ev.printdec 2, Ev.printch '-',
          Ev.rd ⟨base, TIMER_HP_INTR_STATUS⟩
            (pollVal B ⟨base, TIMER_HP_INTR_STATUS⟩ s 1000000),
          Ev.printhex (pollVal B ⟨base, TIMER_HP_INTR_STATUS⟩ s 1000000),
          Ev.printch (Char.ofNat 10)], ?_, ?_, ?_⟩
    · simp only [List.append_assoc]
    · rw [writesOf_append, writesOf_map_rd]
      dsimp only
      rw [if_neg (by decide)]
      rfl
    · intro r hr
      rw [readsOf_append, List.mem_append] at hr
      rcases hr with hr | hr
      · exact readsOf_map_rd_mem _ _ _ r hr
      · have hr2 : r ∈ [((⟨base, TIMER_HP_INTR_STATUS⟩ : Addr),
            pollVal B ⟨base, TIMER_HP_INTR_STATUS⟩ s 1000000)] := hr
        rw [List.mem_singleton] at hr2
        rw [hr2]



/-- The accesses of `rk_hptimer_v2_mode_init`: the two reads of the counter,
the writes that stop and reset the timer, the clock-ratio writes (hard-adjust
mode only), the sync-interrupt enable (not in normal mode), the mode and the
enable writes, and then what the branch on `mode` adds. -/
theorem mode_init_log (B : Board) (base : Block) (mode hf : Nat) (s : Hw) :
    ∃ tail, (rk_hptimer_v2_mode_init B base mode hf s).log
      = s.log
        ++ [Ev.rd ⟨base, TIMER_HP_CURR_TIMER_VALUE0⟩
              (pollVal B ⟨base, TIMER_HP_CURR_TIMER_VALUE0⟩ s 0),
            Ev.rd ⟨base, TIMER_HP_CURR_TIMER_VALUE1⟩
              (pollVal B ⟨base, TIMER_HP_CURR_TIMER_VALUE1⟩ s 1),
            Ev.wr ⟨base, TIMER_HP_CTRL⟩ 0xffff0000,
            Ev.wr ⟨base, TIMER_HP_INT_EN⟩ 0,
            Ev.wr ⟨base, TIMER_HP_INTR_STATUS⟩ 7,
            Ev.wr ⟨base, TIMER_HP_BEGIN_END_VALID⟩ 3,
            Ev.wr ⟨base, TIMER_HP_LOAD_COUNT0⟩ 0xffffffff,
            Ev.wr ⟨base, TIMER_HP_LOAD_COUNT1⟩ 0xffffffff]
        ++ (if mode = RK_HPTIMER_HARD_ADJUST_MODE then
              [Ev.wr ⟨base, TIMER_HP_T24_GCD⟩
                 ((hf % 2 ^ 32 / (get_gcd (hf % 2 ^ 32) 32768 % 2 ^ 32)) % 2 ^ 32),
               Ev.wr ⟨base, TIMER_HP_T32_GCD⟩
                 ((32768 / (get_gcd (hf % 2 ^ 32) 32768 % 2 ^ 32)) % 2 ^ 32)]
            else [])
        ++ (if mode ≠ RK_HPTIMER_NORM_MODE then [Ev.wr ⟨base, TIMER_HP_INT_EN⟩ 4] else [])
        ++ [Ev.wr ⟨base, TIMER_HP_CTRL⟩
              ((BITS_WITH_WMASK mode 0x3 rk_hptimer_ctrl_mode ||| BITS_WITH_WMASK 1 0x1 6)
                % 2 ^ 32),
            Ev.wr ⟨base, TIMER_HP_CTRL⟩ 0x10001]
        ++ tail ∧
      (mode = RK_HPTIMER_HARD_ADJUST_MODE →
        ∃ l, tail = Ev.wr ⟨base, TIMER_HP_SYNC_REQ⟩ 0x20002 :: l ∧
          (writesOf l = [] ∨ writesOf l = [(⟨base, TIMER_HP_INTR_STATUS⟩, 4)]) ∧
          ∀ r ∈ readsOf l, r.1 = ⟨base, TIMER_HP_INTR_STATUS⟩) ∧
      (mode ≠ RK_HPTIMER_HARD_ADJUST_MODE →
        tail = if mode = RK_HPTIMER_SOFT_ADJUST_MODE ∧
                (pollVal B ⟨base, TIMER_HP_CURR_TIMER_VALUE0⟩ s 0
                  ||| pollVal B ⟨base, TIMER_HP_CURR_TIMER_VALUE1⟩ s 1 <<< 32) ≠ 0
          then
            [Ev.wr ⟨base, TIMER_HP_T24_DELAT_COUNT0⟩
               (pollVal B ⟨base, TIMER_HP_CURR_TIMER_VALUE0⟩ s 0),
             Ev.wr ⟨base, TIMER_HP_T24_DELAT_COUNT1⟩
               (pollVal B ⟨base, TIMER_HP_CURR_TIMER_VALUE1⟩ s 1),
             Ev.wr ⟨base, TIMER_HP_SYNC_REQ⟩ 0x10001]
          else []) := by
  have hc0 : (readl B ⟨base, TIMER_HP_CURR_TIMER_VALUE0⟩ s).1
      = pollVal B ⟨base, TIMER_HP_CURR_TIMER_VALUE0⟩ s 0 := rfl
  have hc1 : (readl B ⟨base, TIMER_HP_CURR_TIMER_VALUE1⟩
      (readl B ⟨base, TIMER_HP_CURR_TIMER_VALUE0⟩ s).2).1
      = pollVal B ⟨base, TIMER_HP_CURR_TIMER_VALUE1⟩ s 1 := rfl
  have hen : BITS_WITH_WMASK 1 0x1 rk_hptimer_ctrl_en % 2 ^ 32 = 0x10001 := by decide
  have hhw : BITS_WITH_WMASK 1 0x1 rk_hptimer_req_hw_sync % 2 ^ 32 = 0x20002 := by decide
  have hsw : BITS_WITH_WMASK 1 0x1 rk_hptimer_req_sw_sync % 2 ^ 32 = 0x10001 := by decide
  generalize hv0 : pollVal B ⟨base, TIMER_HP_CURR_TIMER_VALUE0⟩ s 0 = v0 at hc0 ⊢
  generalize hv1 : pollVal B ⟨base, TIMER_HP_CURR_TIMER_VALUE1⟩ s 1 = v1 at hc1 ⊢
  have hv0lt : v0 < 2 ^ 32 := hv0 ▸ pollVal_lt _ _ _ _
  have hv1lt : v1 < 2 ^ 32 := hv1 ▸ pollVal_lt _ _ _ _
  have hcnt : v0 ||| v1 <<< 32 = v0 + v1 * 2 ^ 32 := lo_or_hi v0 v1 hv0lt
  have hlt := word64_lt v0 v1 hv0lt hv1lt
  have hh := load_halves (v0 + v1 * 2 ^ 32) hlt
  have hlo : (v0 + v1 * 2 ^ 32) % 2 ^ 32 = v0 := by
    simp only [Nat.reducePow] at hv0lt ⊢
    omega
  have hhi : (v0 + v1 * 2 ^ 32) / 2 ^ 32 = v1 := by
    simp only [Nat.reducePow] at hv0lt ⊢
    omega
  by_cases hH : mode = RK_HPTIMER_HARD_ADJUST_MODE
  · obtain ⟨l, hl, hw, hr⟩ := wait_sync_log B base (rk_hptimer_hard_adjust_req B base
      (writel B (BITS_WITH_WMASK 1 0x1 rk_hptimer_ctrl_en) ⟨base, TIMER_HP_CTRL⟩
      (writel B (BITS_WITH_WMASK mode 0x3 rk_hptimer_ctrl_mode ||| BITS_WITH_WMASK 1 0x1 6)
        ⟨base, TIMER_HP_CTRL⟩
      (writel B 0x4 ⟨base, TIMER_HP_INT_EN⟩
      (writel B (32768 / (get_gcd (hf % 2 ^ 32) 32768 % 2 ^ 32)) ⟨base, TIMER_HP_T32_GCD⟩
      (writel B ((hf % 2 ^ 32) / (get_gcd (hf % 2 ^ 32) 32768 % 2 ^ 32))
        ⟨base, TIMER_HP_T24_GCD⟩
      (writel B 0xffffffff ⟨base, TIMER_HP_LOAD_COUNT1⟩
      (writel B 0xffffffff ⟨base, TIMER_HP_LOAD_COUNT0⟩
      (writel B 0x3 ⟨base, TIMER_HP_BEGIN_END_VALID⟩
      (writel B 0x7 ⟨base, TIMER_HP_INTR_STATUS⟩
      (writel B 0x0 ⟨base, TIMER_HP_INT_EN⟩
      (writel B 0xffff0000 ⟨base, TIMER_HP_CTRL⟩
        (rk_hptimer_get_count B base s).2))))))))))))
    have hN : mode ≠ RK_HPTIMER_NORM_MODE := by rw [hH]; decide
    refine ⟨Ev.wr ⟨base, TIMER_HP_SYNC_REQ⟩ 0x20002 :: l, ?_, ?_, ?_⟩
    · unfold rk_hptimer_v2_mode_init rk_hptimer_v2_do_hard_adjust
      simp only [if_pos hH, if_pos hN]
      rw [hl]
      simp only [rk_hptimer_hard_adjust_req, rk_hptimer_get_count, writel_log, readl_log,
        hc0, hc1, hen, hhw, List.append_assoc, List.cons_append, List.nil_append]
      rfl
    · intro _
      refine ⟨l, rfl, ?_, hr⟩
      rw [hw]
      split_ifs
      · right; rfl
      · left; rfl
    · intro h
      exact absurd hH h
  · refine ⟨(if mode = RK_HPTIMER_SOFT_ADJUST_MODE ∧ (v0 ||| v1 <<< 32) ≠ 0 then
        [Ev.wr ⟨base, TIMER_HP_T24_DELAT_COUNT0⟩ v0,
         Ev.wr ⟨base, TIMER_HP_T24_DELAT_COUNT1⟩ v1,
         Ev.wr ⟨base, TIMER_HP_SYNC_REQ⟩ 0x10001]
      else []), ?_, ?_, ?_⟩
    rotate_left
    · intro h
      exact absurd h hH
    · intro _
      rfl
    · unfold rk_hptimer_v2_mode_init
      simp only [if_neg hH]
      by_cases hS : mode = RK_HPTIMER_SOFT_ADJUST_MODE
      · have hN : mode ≠ RK_HPTIMER_NORM_MODE := by rw [hS]; decide
        simp only [if_pos hS, if_pos hN, true_and]
        by_cases hz : v0 ||| v1 <<< 32 = 0
        · simp only [rk_hptimer_soft_adjust_req, rk_hptimer_get_count, hc0, hc1, hz, if_true,
            ne_eq, not_true, if_false]
          simp only [writel_log, readl_log, hc0, hc1, hen, List.append_assoc,
            List.cons_append, List.nil_append, List.append_nil]
          simp [hc0, hc1, hS]
        · simp only [rk_hptimer_soft_adjust_req, rk_hptimer_get_count, hc0, hc1, if_neg hz,
            ne_eq, hz, not_false_eq_true, if_true]
          simp only [if_false, writel_log, readl_log, hc0, hc1, hen, hsw,
            List.append_assoc, List.cons_append, List.nil_append, List.append_nil,
            hcnt, hh.1, hh.2, hlo, hhi]
          simp [hc0, hc1, hS]
      · simp only [if_neg hS, hS, false_and, if_false, rk_hptimer_get_count, writel_log,
          readl_log, hc0, hc1, hen, List.append_assoc, List.cons_append, List.nil_append,
          List.append_nil]
        split_ifs <;> simp [hc0, hc1]


theorem logSince_of_append (s s' : Hw) (l : List Ev) (h : s'.log = s.log ++ l) :
    logSince s s' = l := by
  rw [logSince, h, List.drop_left]

/-- The quotients that `rk_hptimer_v2_mode_init` writes to the clock-ratio
registers, for a 32-bit `hf`. -/
theorem gcd_words (hf : Nat) (hhf : hf < 2 ^ 32) :
    (hf % 2 ^ 32 / (get_gcd (hf % 2 ^ 32) 32768 % 2 ^ 32)) % 2 ^ 32 = hf / Nat.gcd hf 32768 ∧
    (32768 / (get_gcd (hf % 2 ^ 32) 32768 % 2 ^ 32)) % 2 ^ 32 = 32768 / Nat.gcd hf 32768 := by
  have hg : Nat.gcd hf 32768 ≤ 32768 := Nat.gcd_le_right 32768 (by norm_num)
  have h1 : hf / Nat.gcd hf 32768 ≤ hf := Nat.div_le_self _ _
  have h2 : 32768 / Nat.gcd hf 32768 ≤ 32768 := Nat.div_le_self _ _
  rw [Nat.mod_eq_of_lt hhf, get_gcd_eq_gcd,
    Nat.mod_eq_of_lt (lt_of_le_of_lt hg (by norm_num)),
    Nat.mod_eq_of_lt (lt_of_le_of_lt h1 hhf),
    Nat.mod_eq_of_lt (lt_of_le_of_lt h2 (by norm_num))]
  exact ⟨rfl, rfl⟩

/-! ### C16 and C17: `rk_hptimer_v2_mode_init` -/

/-- C16: for a 32-bit `hf`, the writes of `rk_hptimer_v2_mode_init` to the two
clock-ratio registers are, when `mode` is the hard-adjust mode, one write of
`hf / gcd(hf, 32768)` to `T24_GCD` followed by one write of
`32768 / gcd(hf, 32768)` to `T32_GCD`, and none at all for any other mode; for
`hf = 24000000` these quotients are 46875 and 64, the values of `T24M_GCD` and
`T32K_GCD`. -/
theorem rk_hptimer_v2_mode_init_gcd (B : Board) (base : Block) (mode hf : Nat) (s : Hw)
    (hhf : hf < 2 ^ 32) :
    (writesOf (logSince s (rk_hptimer_v2_mode_init B base mode hf s))).filter
        (fun w => w.1.off == TIMER_HP_T24_GCD || w.1.off == TIMER_HP_T32_GCD)
      = (if mode = RK_HPTIMER_HARD_ADJUST_MODE then
          [(⟨base, TIMER_HP_T24_GCD⟩, hf / Nat.gcd hf 32768),
           (⟨base, TIMER_HP_T32_GCD⟩, 32768 / Nat.gcd hf 32768)]
        else []) ∧
    24000000 / Nat.gcd 24000000 32768 = T24M_GCD ∧ T24M_GCD = 46875 ∧
    32768 / Nat.gcd 24000000 32768 = T32K_GCD ∧ T32K_GCD = 64 := by
  refine ⟨?_, by norm_num [T24M_GCD], rfl, by norm_num [T32K_GCD], rfl⟩
  obtain ⟨tail, hlog, hhard, hother⟩ := mode_init_log B base mode hf s
  simp only [List.append_assoc] at hlog
  rw [logSince_of_append _ _ _ hlog, (gcd_words hf hhf).1, (gcd_words hf hhf).2]
  by_cases hH : mode = RK_HPTIMER_HARD_ADJUST_MODE
  · obtain ⟨l, hl, hw, -⟩ := hhard hH
    have hN : mode ≠ RK_HPTIMER_NORM_MODE := by rw [hH]; decide
    rw [hl]
    simp only [if_pos hH, if_pos hN, writesOf_append, writesOf, List.filter_append]
    rcases hw with hw | hw <;> rw [hw] <;>
      simp [TIMER_HP_T24_GCD, TIMER_HP_T32_GCD, TIMER_HP_CTRL, TIMER_HP_INT_EN,
        TIMER_HP_INTR_STATUS, TIMER_HP_BEGIN_END_VALID, TIMER_HP_LOAD_COUNT0,
        TIMER_HP_LOAD_COUNT1, TIMER_HP_SYNC_REQ]
  · rw [hother hH]
    simp only [if_neg hH, writesOf_append, List.filter_append]
    split_ifs <;>
      simp [writesOf, TIMER_HP_T24_GCD, TIMER_HP_T32_GCD, TIMER_HP_CTRL, TIMER_HP_INT_EN,
        TIMER_HP_INTR_STATUS, TIMER_HP_BEGIN_END_VALID, TIMER_HP_LOAD_COUNT0,
        TIMER_HP_LOAD_COUNT1, TIMER_HP_SYNC_REQ, TIMER_HP_T24_DELAT_COUNT0,
        TIMER_HP_T24_DELAT_COUNT1]

/-- C16 on the 24 MHz clock: in hard-adjust mode 46875 goes to `T24_GCD` and
64 to `T32_GCD`; in soft-adjust mode neither register is written. -/
theorem rk_hptimer_v2_mode_init_gcd_witness :
    (24000000 < 2 ^ 32) ∧
    (writesOf (logSince bootHw (rk_hptimer_v2_mode_init (constBoard 4) Block.hptimer
        RK_HPTIMER_HARD_ADJUST_MODE 24000000 bootHw))).filter
        (fun w => w.1.off == TIMER_HP_T24_GCD || w.1.off == TIMER_HP_T32_GCD)
      = [(⟨Block.hptimer, 0xc⟩, 46875), (⟨Block.hptimer, 0x10⟩, 64)] ∧
    (writesOf (logSince bootHw (rk_hptimer_v2_mode_init (constBoard 4) Block.hptimer
        RK_HPTIMER_SOFT_ADJUST_MODE 24000000 bootHw))).filter
        (fun w => w.1.off == TIMER_HP_T24_GCD || w.1.off == TIMER_HP_T32_GCD)
      = [] :=
  ⟨by norm_num,
   (rk_hptimer_v2_mode_init_gcd (constBoard 4) Block.hptimer RK_HPTIMER_HARD_ADJUST_MODE
      24000000 bootHw (by norm_num)).1.trans
        (by norm_num [TIMER_HP_T24_GCD, TIMER_HP_T32_GCD]),
   (rk_hptimer_v2_mode_init_gcd (constBoard 4) Block.hptimer RK_HPTIMER_SOFT_ADJUST_MODE
      24000000 bootHw (by norm_num)).1.trans (by decide)⟩

theorem and_BIT_eq_zero (x n : Nat) (h : x.testBit n = false) : x &&& BIT n = 0 := by
  apply Nat.eq_of_testBit_eq
  intro i
  rw [Nat.testBit_and, testBit_BIT, Nat.zero_testBit]
  by_cases hi : n = i
  · rw [← hi, h]; rfl
  · simp [hi]

theorem logSince_self (s : Hw) : logSince s s = [] := by
  simp [logSince]

theorem read_count_retry_mem (B : Board) (base : Block) :
    ∀ fuel s r, read_count_retry B base fuel s = some r → r.2.mem = s.mem := by
  intro fuel
  induction fuel with
  | zero => intro s r h; simp [read_count_retry] at h
  | succ f ih =>
    intro s r h
    rw [read_count_retry] at h
    split_ifs at h
    · rw [ih _ r h]; rfl
    · cases h; rfl

/-- Programming the sleep timeout touches the registers of the timer only. -/
theorem config_sleep_timeout_int_mem_other (B : Board) (base : Block) (fuel delta_cnt : Nat)
    (s s1 : Hw) (h : rk_hptimer_v2_config_sleep_timeout_int B base fuel delta_cnt s = some s1)
    (a : Addr) (ha : a.base ≠ base) : s1.mem a = s.mem a := by
  unfold rk_hptimer_v2_config_sleep_timeout_int at h
  cases hr : read_count_retry B base fuel s with
  | none => rw [hr] at h; simp at h
  | some r =>
    rw [hr] at h
    have hm := read_count_retry_mem B base fuel s r hr
    have hne : ∀ off, a ≠ (⟨base, off⟩ : Addr) := by
      intro off e
      exact ha (by rw [e])
    simp only [Option.some.injEq] at h
    rw [← h]
    simp only [rk_hptimer_v2_enable_int]
    rw [writel_mem_other _ _ _ _ _ (hne _), readl_mem, writel_mem_other _ _ _ _ _ (hne _),
      writel_mem_other _ _ _ _ _ (hne _), hm]

/-- C14: on a board whose wake-source bitmap register `PMU1_WAKEUP_INT_CON`
stores what is written to it and reads back what it stores, once an
application of `suspend_workaround_timeout_wkup` has returned, a second one
(same `slp_cfg` and `ddr_data`, no resume in between) returns as well, having
made no access at all when `entered_pmu_fsm` is set and otherwise only the
read of the bitmap, in which the generic-timeout bit is clear: it performs no
register write and leaves every register as the first application left it. -/
theorem suspend_workaround_timeout_wkup_twice (B : Board) (D : Defs) (fuel fuel2 : Nat)
    (slp_cfg : rk_sleep_config) (ddr_data : rv1103b_sleep_ddr_data) (s s1 : Hw)
    (hT : D.RV1103B_PMU_WAKEUP_TIMEOUT < 32) (hH : D.RV1103B_PMU_WAKEUP_HPTIMER < 32)
    (hne : D.RV1103B_PMU_WAKEUP_TIMEOUT ≠ D.RV1103B_PMU_WAKEUP_HPTIMER)
    (hrd : ∀ t m, B.rdv ⟨Block.pmu, D.RV1103B_PMU1_WAKEUP_INT_CON⟩ t m = m)
    (hwr : ∀ m v, B.wrv ⟨Block.pmu, D.RV1103B_PMU1_WAKEUP_INT_CON⟩ m v = v)
    (h1 : suspend_workaround_timeout_wkup B D fuel slp_cfg ddr_data s = some s1) :
    suspend_workaround_timeout_wkup B D fuel2 slp_cfg ddr_data s1
      = some (if ddr_data.entered_pmu_fsm ≠ 0 then s1
          else (readl B ⟨Block.pmu, D.RV1103B_PMU1_WAKEUP_INT_CON⟩ s1).2) ∧
    (ddr_data.entered_pmu_fsm ≠ 0 ∨
      (readl B ⟨Block.pmu, D.RV1103B_PMU1_WAKEUP_INT_CON⟩ s1).1
        &&& BIT D.RV1103B_PMU_WAKEUP_TIMEOUT = 0) ∧
    writesOf (logSince s1 (if ddr_data.entered_pmu_fsm ≠ 0 then s1
          else (readl B ⟨Block.pmu, D.RV1103B_PMU1_WAKEUP_INT_CON⟩ s1).2)) = [] ∧
    (if ddr_data.entered_pmu_fsm ≠ 0 then s1
      else (readl B ⟨Block.pmu, D.RV1103B_PMU1_WAKEUP_INT_CON⟩ s1).2).mem = s1.mem := by
  by_cases he : ddr_data.entered_pmu_fsm ≠ 0
  · refine ⟨?_, Or.inl he, ?_, ?_⟩
    · simp only [suspend_workaround_timeout_wkup, if_pos he]
    · rw [if_pos he, logSince_self]
      rfl
    · rw [if_pos he]
  · have hbit : (readl B ⟨Block.pmu, D.RV1103B_PMU1_WAKEUP_INT_CON⟩ s1).1
        &&& BIT D.RV1103B_PMU_WAKEUP_TIMEOUT = 0 := by
      unfold suspend_workaround_timeout_wkup at h1
      rw [if_neg he] at h1
      dsimp only at h1
      rw [readl_val, hrd]
      split_ifs at h1 with hb
      · simp only [Option.some.injEq] at h1
        rw [← h1, readl_mem]
        rw [readl_val, hrd] at hb
        exact hb
      · have hm := config_sleep_timeout_int_mem_other B Block.hptimer fuel _ _ s1 h1
          ⟨Block.pmu, D.RV1103B_PMU1_WAKEUP_INT_CON⟩ (by simp)
        rw [hm, readl_mem, writel_mem_same, hwr, Nat.mod_mod]
        have hb2 := wkup_swap_bits D _
          (readl_lt B ⟨Block.pmu, D.RV1103B_PMU1_WAKEUP_INT_CON⟩ s) hT hH hne
        rw [Nat.mod_eq_of_lt hb2.1]
        exact and_BIT_eq_zero _ _ hb2.2.1
    refine ⟨?_, Or.inr hbit, ?_, ?_⟩
    · simp only [suspend_workaround_timeout_wkup, if_neg he, hbit, if_true]
    · rw [if_neg he, logSince_of_append _ _ _ (readl_log B _ s1)]
      rfl
    · rw [if_neg he, readl_mem]

/-- C14 on a register file in which the bitmap holds `0x401` and the timeout
count 64: the first application returns, and the second one only reads the
bitmap. -/
theorem suspend_workaround_timeout_wkup_twice_witness :
    suspend_workaround_timeout_wkup (regfileBoard (fun _ => false)) exampleDefs 1
        (exampleCfg 0x200) bootDdrData wkupRegs = some wkupOnce ∧
    writesOf (logSince wkupRegs wkupOnce)
      = [(⟨Block.pmu, 0x100⟩, 0x81), (⟨Block.hptimer, TIMER_HP_LOAD_32K_COUNT0⟩, 48000),
         (⟨Block.hptimer, TIMER_HP_LOAD_32K_COUNT1⟩, 0), (⟨Block.hptimer, TIMER_HP_INT_EN⟩, 8)] ∧
    suspend_workaround_timeout_wkup (regfileBoard (fun _ => false)) exampleDefs 0
        (exampleCfg 0x200) bootDdrData wkupOnce
      = some (readl (regfileBoard (fun _ => false)) ⟨Block.pmu, 0x100⟩ wkupOnce).2 ∧
    logSince wkupOnce (readl (regfileBoard (fun _ => false)) ⟨Block.pmu, 0x100⟩ wkupOnce).2
      = [Ev.rd ⟨Block.pmu, 0x100⟩ 0x81] :=
  ⟨rfl, by decide,
   (suspend_workaround_timeout_wkup_twice (regfileBoard (fun _ => false)) exampleDefs 1 0
      (exampleCfg 0x200) bootDdrData wkupRegs wkupOnce (by decide) (by decide) (by decide)
      (fun _ _ => rfl) (fun _ _ => rfl) rfl).1,
   by decide⟩

/-- With the 32 kHz reference selected, the 32-bit conversion agrees with
`count / 32 * 24000` exactly for the counts below 5726624. -/
theorem wkup_delta_cnt_selected (D : Defs) (slp_cfg : rk_sleep_config) (count : Nat)
    (hsel : slp_cfg.mode_config &&& D.RKPM_SLP_PMU_PMUALIVE_32K ≠ 0) :
    wkup_delta_cnt D slp_cfg count = count / 32 * 24000 ↔ count < 5726624 := by
  unfold wkup_delta_cnt
  rw [if_pos hsel]
  simp only [Nat.reducePow]
  omega

/-- Without the 32 kHz reference the count is handed over as it is. -/
theorem wkup_delta_cnt_not_selected (D : Defs) (slp_cfg : rk_sleep_config) (count : Nat)
    (hsel : slp_cfg.mode_config &&& D.RKPM_SLP_PMU_PMUALIVE_32K = 0) :
    wkup_delta_cnt D slp_cfg count = count := by
  unfold wkup_delta_cnt
  rw [if_neg (by simp [hsel])]

/-- C15 at the timeout count 5726624 with the 32 kHz reference selected:
`5726624 / 32 * 24000` is 4294968000, which does not fit in the `u32 delta_cnt`
in which `suspend_workaround_timeout_wkup` computes it, so the delta handed to
`rk_hptimer_v2_config_sleep_timeout_int` is 704 and the compare registers get
the counter (here 0) plus 704. -/
theorem suspend_workaround_timeout_wkup_delta_wraps :
    5726624 / 32 * 24000 = 4294968000 ∧
    wkup_delta_cnt exampleDefs (exampleCfg 0x200) 5726624 = 704 ∧
    (suspend_workaround_timeout_wkup (scriptBoard longTimeoutScript) exampleDefs 1
        (exampleCfg 0x200) bootDdrData bootHw).map (fun s => writesOf s.log)
      = some [(⟨Block.pmu, 0x100⟩, 0x80),
              (⟨Block.hptimer, TIMER_HP_LOAD_32K_COUNT0⟩, 704),
              (⟨Block.hptimer, TIMER_HP_LOAD_32K_COUNT1⟩, 0),
              (⟨Block.hptimer, TIMER_HP_INT_EN⟩, 8)] := by
  decide

/-! ### C12 and C13: `pmu_sleep_restore` and the `entered_pmu_fsm` latch -/

theorem and_mod_u32 (x y : Nat) (hx : x < 2 ^ 32) : (x &&& y) % 2 ^ 32 = x &&& y :=
  Nat.mod_eq_of_lt (lt_of_le_of_lt Nat.and_le_left hx)

/-- The accesses of `resume_workaround_timeout_wkup` when `entered_pmu_fsm` is
clear: bit 3 of `INT_EN` is cleared by a read and a write, then bit 3 of the
interrupt status is cleared by a write of 8. -/
theorem resume_workaround_log (B : Board) (ddr_data : rv1103b_sleep_ddr_data) (s : Hw)
    (h0 : ddr_data.entered_pmu_fsm = 0) :
    (resume_workaround_timeout_wkup B ddr_data s).2.log
      = s.log ++ [Ev.rd ⟨Block.hptimer, TIMER_HP_INT_EN⟩
                    (pollVal B ⟨Block.hptimer, TIMER_HP_INT_EN⟩ s 0),
                  Ev.wr ⟨Block.hptimer, TIMER_HP_INT_EN⟩
                    (pollVal B ⟨Block.hptimer, TIMER_HP_INT_EN⟩ s 0 &&& 0xfffffff7),
                  Ev.wr ⟨Block.hptimer, TIMER_HP_INTR_STATUS⟩ 8] ∧
    (resume_workaround_timeout_wkup B ddr_data s).1
      = (if ddr_data.pmu_wkup_int_st ≠ 0 then { ddr_data with entered_pmu_fsm := 1 }
          else ddr_data) := by
  have hv : (readl B ⟨Block.hptimer, TIMER_HP_INT_EN⟩ s).1
      = pollVal B ⟨Block.hptimer, TIMER_HP_INT_EN⟩ s 0 := rfl
  have hb : BIT RK_HPTIMER_V2_INT_32K_REACH % 2 ^ 32 = 8 := by decide
  unfold resume_workaround_timeout_wkup
  rw [if_neg (by simp [h0])]
  refine ⟨?_, rfl⟩
  simp only [rk_hptimer_v2_clear_int_st, rk_hptimer_v2_disable_int, writel_log, readl_log, hv,
    hb, and_mod_u32 _ _ (pollVal_lt _ _ _ _), List.append_assoc, List.cons_append,
    List.nil_append]
  rfl

/-- C12: with `entered_pmu_fsm` clear at entry, `pmu_sleep_restore` first reads
the PMU wake-interrupt status and the GPIO0 interrupt status, which it records
in `ddr_data`, before any write; it sets `entered_pmu_fsm` to 1 exactly when
the recorded PMU wake status is non-zero (it stays 0 otherwise); then it clears
bit 3 (the 32k-reach interrupt) of the HPTimer `INT_EN` by a read and a write,
and clears the same interrupt by writing 8 to the interrupt status; the writes
that undo the PMU configuration come after that. -/
theorem pmu_sleep_restore_spec (B : Board) (D : Defs) (R : RegDefs)
    (ddr_data : rv1103b_sleep_ddr_data) (s : Hw) (h0 : ddr_data.entered_pmu_fsm = 0) :
    (pmu_sleep_restore B D R ddr_data s).1.pmu_wkup_int_st
      = pollVal B ⟨Block.pmu, R.RV1103B_PMU1_WAKEUP_INT_ST⟩ s 0 ∧
    (pmu_sleep_restore B D R ddr_data s).1.gpio0_int_st
      = pollVal B ⟨Block.gpio0, R.RV1103B_GPIO_INT_STATUS⟩ s 1 ∧
    (pmu_sleep_restore B D R ddr_data s).1.entered_pmu_fsm
      = (if pollVal B ⟨Block.pmu, R.RV1103B_PMU1_WAKEUP_INT_ST⟩ s 0 ≠ 0 then 1 else 0) ∧
    (pmu_sleep_restore B D R ddr_data s).2.log
      = s.log
        ++ [Ev.rd ⟨Block.pmu, R.RV1103B_PMU1_WAKEUP_INT_ST⟩
              (pollVal B ⟨Block.pmu, R.RV1103B_PMU1_WAKEUP_INT_ST⟩ s 0),
            Ev.rd ⟨Block.gpio0, R.RV1103B_GPIO_INT_STATUS⟩
              (pollVal B ⟨Block.gpio0, R.RV1103B_GPIO_INT_STATUS⟩ s 1),
            Ev.rd ⟨Block.hptimer, TIMER_HP_INT_EN⟩
              (pollVal B ⟨Block.hptimer, TIMER_HP_INT_EN⟩ s 2),
            Ev.wr ⟨Block.hptimer, TIMER_HP_INT_EN⟩
              (pollVal B ⟨Block.hptimer, TIMER_HP_INT_EN⟩ s 2 &&& 0xfffffff7),
            Ev.wr ⟨Block.hptimer, TIMER_HP_INTR_STATUS⟩ 8]
        ++ [Ev.wr ⟨Block.pmu, R.RV1103B_PMU0_PWR_CON⟩ 0xffff0000,
            Ev.wr ⟨Block.pmu, R.RV1103B_PMU0_INFO_TX_CON⟩ 0xffff0000,
            Ev.wr ⟨Block.pmu, R.RV1103B_PMU1_INT_MASK_CON⟩ 0xffff0000,
            Ev.wr ⟨Block.pmu, R.RV1103B_PMU2_SCU_PWR_CON⟩ 0xffff0000,
            Ev.wr ⟨Block.pmu, R.RV1103B_PMU2_CLUSTER_IDLE_CON⟩ 0xffff0000,
            Ev.wr ⟨Block.pmu, R.RV1103B_PMU2_CPU_AUTO_PWR_CON⟩ 0xffff0000,
            Ev.wr ⟨Block.pmu, R.RV1103B_PMU2_SCU_AUTO_PWR_CON⟩ 0xffff0000,
            Ev.wr ⟨Block.pmu, R.RV1103B_PMU1_CRU_PWR_CON 0⟩ 0xffff0000,
            Ev.wr ⟨Block.pmu, R.RV1103B_PMU1_CRU_PWR_CON 1⟩ 0xffff0000,
            Ev.wr ⟨Block.pmu, R.RV1103B_PMU2_BUS_IDLE_CON⟩ 0xffff0000,
            Ev.wr ⟨Block.pmu, R.RV1103B_PMU1_DDR_PWR_CON⟩ 0xffff0000,
            Ev.wr ⟨Block.pmu, R.RV1103B_PMU1_PLLPD_CON⟩ 0xffff0000,
            Ev.wr ⟨Block.pmu, D.RV1103B_PMU1_WAKEUP_INT_CON⟩ 0xffff0000,
            Ev.wr ⟨Block.pmu, R.RV1103B_PMU1_PWR_CON⟩ 0xffff0000,
            Ev.wr ⟨Block.pmugrf, R.RV1103B_PMUGRF_SOC_CON 4⟩
              (WITH_16BITS_WMSK ddr_data.pmugrf_soc_con4 % 2 ^ 32),
            Ev.wr ⟨Block.pmugrf, R.RV1103B_PMUGRF_SOC_CON 5⟩
              (WITH_16BITS_WMSK ddr_data.pmugrf_soc_con5 % 2 ^ 32),
            Ev.wr ⟨Block.pmugrf, R.RV1103B_PMUGRF_SOC_CON 6⟩
              (WITH_16BITS_WMSK ddr_data.pmugrf_soc_con6 % 2 ^ 32)] := by
  have hst : (readl B ⟨Block.pmu, R.RV1103B_PMU1_WAKEUP_INT_ST⟩ s).1
      = pollVal B ⟨Block.pmu, R.RV1103B_PMU1_WAKEUP_INT_ST⟩ s 0 := rfl
  have hg : (readl B ⟨Block.gpio0, R.RV1103B_GPIO_INT_STATUS⟩
      (readl B ⟨Block.pmu, R.RV1103B_PMU1_WAKEUP_INT_ST⟩ s).2).1
      = pollVal B ⟨Block.gpio0, R.RV1103B_GPIO_INT_STATUS⟩ s 1 := rfl
  have he : pollVal B ⟨Block.hptimer, TIMER_HP_INT_EN⟩
      (readl B ⟨Block.gpio0, R.RV1103B_GPIO_INT_STATUS⟩
        (readl B ⟨Block.pmu, R.RV1103B_PMU1_WAKEUP_INT_ST⟩ s).2).2 0
      = pollVal B ⟨Block.hptimer, TIMER_HP_INT_EN⟩ s 2 := rfl
  have hw := resume_workaround_log B
    { ddr_data with
      pmu_wkup_int_st := pollVal B ⟨Block.pmu, R.RV1103B_PMU1_WAKEUP_INT_ST⟩ s 0
      gpio0_int_st := pollVal B ⟨Block.gpio0, R.RV1103B_GPIO_INT_STATUS⟩ s 1 }
    (readl B ⟨Block.gpio0, R.RV1103B_GPIO_INT_STATUS⟩
      (readl B ⟨Block.pmu, R.RV1103B_PMU1_WAKEUP_INT_ST⟩ s).2).2 h0
  rw [he] at hw
  unfold pmu_sleep_restore
  dsimp only
  simp only [hst, hg]
  rw [hw.2]
  refine ⟨?_, ?_, ?_, ?_⟩
  · split_ifs <;> rfl
  · split_ifs <;> rfl
  · split_ifs <;> first | rfl | exact h0
  · simp only [writel_log, hw.1, readl_log, hst, hg, List.append_assoc, List.cons_append,
      List.nil_append]
    split_ifs <;> rfl

/-- C12 on a scripted register space: the statuses `0x80` and `0x10` are
recorded, `entered_pmu_fsm` becomes 1, and the first five accesses are the two
status reads, the read of `INT_EN` (`0xc`), its write-back without bit 3 (`0x4`)
and the write of 8 to the interrupt status. -/
theorem pmu_sleep_restore_witness :
    bootDdrData.entered_pmu_fsm = 0 ∧
    (pmu_sleep_restore (scriptBoard resumeScript) exampleDefs exampleRegDefs bootDdrData
        bootHw).1.pmu_wkup_int_st = 0x80 ∧
    (pmu_sleep_restore (scriptBoard resumeScript) exampleDefs exampleRegDefs bootDdrData
        bootHw).1.gpio0_int_st = 0x10 ∧
    (pmu_sleep_restore (scriptBoard resumeScript) exampleDefs exampleRegDefs bootDdrData
        bootHw).1.entered_pmu_fsm = 1 ∧
    (pmu_sleep_restore (scriptBoard resumeScript) exampleDefs exampleRegDefs bootDdrData
        bootHw).2.log.take 5
      = [Ev.rd ⟨Block.pmu, 0x108⟩ 0x80, Ev.rd ⟨Block.gpio0, 0x50⟩ 0x10,
         Ev.rd ⟨Block.hptimer, TIMER_HP_INT_EN⟩ 0xc, Ev.wr ⟨Block.hptimer, TIMER_HP_INT_EN⟩ 0x4,
         Ev.wr ⟨Block.hptimer, TIMER_HP_INTR_STATUS⟩ 8] :=
  ⟨rfl,
   (pmu_sleep_restore_spec (scriptBoard resumeScript) exampleDefs exampleRegDefs bootDdrData
      bootHw rfl).1.trans (by decide),
   (pmu_sleep_restore_spec (scriptBoard resumeScript) exampleDefs exampleRegDefs bootDdrData
      bootHw rfl).2.1.trans (by decide),
   (pmu_sleep_restore_spec (scriptBoard resumeScript) exampleDefs exampleRegDefs bootDdrData
      bootHw rfl).2.2.1.trans (by decide),
   (congrArg (List.take 5) (pmu_sleep_restore_spec (scriptBoard resumeScript) exampleDefs
      exampleRegDefs bootDdrData bootHw rfl).2.2.2).trans (by decide)⟩

/-- C13, as stated, fails: `entered_pmu_fsm` is not recomputed in each cycle.
With the flag set by an earlier cycle and a PMU wake status that reads 0 in
this cycle, `pmu_sleep_restore` leaves the flag at 1 (and does not touch the
HPTimer: its first write is the one to `PMU0_PWR_CON`), and the following
`suspend_workaround_timeout_wkup` makes no access, although the bitmap has the
generic-timeout bit set. -/
theorem pmu_sleep_restore_entered_counterexample :
    (pmu_sleep_restore (constBoard 0) exampleDefs exampleRegDefs enteredDdrData
        bootHw).1.pmu_wkup_int_st = 0 ∧
    (pmu_sleep_restore (constBoard 0) exampleDefs exampleRegDefs enteredDdrData
        bootHw).1.entered_pmu_fsm = 1 ∧
    (pmu_sleep_restore (constBoard 0) exampleDefs exampleRegDefs enteredDdrData
        bootHw).2.log.take 3
      = [Ev.rd ⟨Block.pmu, 0x108⟩ 0, Ev.rd ⟨Block.gpio0, 0x50⟩ 0,
         Ev.wr ⟨Block.pmu, 0x0⟩ 0xffff0000] ∧
    (suspend_workaround_timeout_wkup (scriptBoard wkupScript) exampleDefs 1 (exampleCfg 0)
        (pmu_sleep_restore (constBoard 0) exampleDefs exampleRegDefs enteredDdrData bootHw).1
        bootHw).map Hw.log = some [] := by
  decide

/-- C13, amended: `entered_pmu_fsm` is a latch.  After `pmu_sleep_restore` it
keeps its value if it was set at entry, and otherwise it is 1 or 0 according
to whether the PMU wake status read in this cycle is non-zero; so it is set if
and only if it was set before or the status read is non-zero.  The next
`suspend_workaround_timeout_wkup` makes no access once it is set, and is
applied as on a fresh boot as long as it is clear. -/
theorem pmu_sleep_restore_entered_latch (B : Board) (D : Defs) (R : RegDefs)
    (ddr_data : rv1103b_sleep_ddr_data) (s : Hw) :
    (pmu_sleep_restore B D R ddr_data s).1.entered_pmu_fsm
      = (if ddr_data.entered_pmu_fsm ≠ 0 then ddr_data.entered_pmu_fsm
        else if pollVal B ⟨Block.pmu, R.RV1103B_PMU1_WAKEUP_INT_ST⟩ s 0 ≠ 0 then 1 else 0) ∧
    ((pmu_sleep_restore B D R ddr_data s).1.entered_pmu_fsm ≠ 0
      ↔ (ddr_data.entered_pmu_fsm ≠ 0
          ∨ pollVal B ⟨Block.pmu, R.RV1103B_PMU1_WAKEUP_INT_ST⟩ s 0 ≠ 0)) ∧
    ∀ (fuel : Nat) (slp_cfg : rk_sleep_config) (s' : Hw),
      suspend_workaround_timeout_wkup B D fuel slp_cfg (pmu_sleep_restore B D R ddr_data s).1 s'
        = (if ddr_data.entered_pmu_fsm ≠ 0
              ∨ pollVal B ⟨Block.pmu, R.RV1103B_PMU1_WAKEUP_INT_ST⟩ s 0 ≠ 0
          then some s'
          else suspend_workaround_timeout_wkup B D fuel slp_cfg bootDdrData s') := by
  have hst : (readl B ⟨Block.pmu, R.RV1103B_PMU1_WAKEUP_INT_ST⟩ s).1
      = pollVal B ⟨Block.pmu, R.RV1103B_PMU1_WAKEUP_INT_ST⟩ s 0 := rfl
  have hval : (pmu_sleep_restore B D R ddr_data s).1.entered_pmu_fsm
      = (if ddr_data.entered_pmu_fsm ≠ 0 then ddr_data.entered_pmu_fsm
        else if pollVal B ⟨Block.pmu, R.RV1103B_PMU1_WAKEUP_INT_ST⟩ s 0 ≠ 0 then 1 else 0) := by
    unfold pmu_sleep_restore resume_workaround_timeout_wkup
    dsimp only
    rw [hst]
    by_cases he : ddr_data.entered_pmu_fsm ≠ 0
    · rw [if_pos he, if_pos he]
    · rw [if_neg he, if_neg he]
      split_ifs
      · rfl
      · exact not_not.mp he
  have hiff : (pmu_sleep_restore B D R ddr_data s).1.entered_pmu_fsm ≠ 0
      ↔ (ddr_data.entered_pmu_fsm ≠ 0
          ∨ pollVal B ⟨Block.pmu, R.RV1103B_PMU1_WAKEUP_INT_ST⟩ s 0 ≠ 0) := by
    rw [hval]
    split_ifs with h1 h2
    · exact ⟨fun _ => Or.inl h1, fun _ => h1⟩
    · exact ⟨fun _ => Or.inr h2, fun _ => by decide⟩
    · exact ⟨fun h => absurd rfl h, fun h => h.elim (fun x => absurd x h1) (fun x => absurd x h2)⟩
  refine ⟨hval, hiff, ?_⟩
  intro fuel slp_cfg s'
  unfold suspend_workaround_timeout_wkup
  by_cases h : ddr_data.entered_pmu_fsm ≠ 0
      ∨ pollVal B ⟨Block.pmu, R.RV1103B_PMU1_WAKEUP_INT_ST⟩ s 0 ≠ 0
  · rw [if_pos (hiff.mpr h), if_pos h]
  · rw [if_neg (fun x => h (hiff.mp x)), if_neg h]
    rfl

/-! ### The wait loop for the PLL lock -/

/-- The wait loop gives up after `n + 1` polls without the lock bit, leaving
`delay` at -2. -/
theorem pll_wait_loop_exhaust (B : Board) (a : Addr) (lock : Nat) (s : Hw) (n : Nat) :
    ∀ i, (∀ j, j < n + 1 → pollVal B a s (i + j) &&& lock = 0) →
      pll_wait_loop B a lock (n : Int) (afterReads B a i s)
        = (-2, afterReads B a (i + n + 1) s) := by
  induction n with
  | zero =>
    intro i hmiss
    have h0 : pollVal B a s i &&& lock = 0 := by simpa using hmiss 0 (Nat.succ_pos _)
    rw [pll_wait_loop, readl_afterReads]
    simp only [Nat.cast_zero, le_refl, if_true, h0, ne_eq, not_true, if_false]
    rw [pll_wait_loop]
    simp
  | succ n ih =>
    intro i hmiss
    have h0 : pollVal B a s i &&& lock = 0 := by simpa using hmiss 0 (Nat.succ_pos _)
    have hstep := ih (i + 1) (fun j hj => by
      have e : i + 1 + j = i + (j + 1) := by omega
      rw [e]
      exact hmiss (j + 1) (by omega))
    rw [pll_wait_loop, readl_afterReads]
    have hpos : (0 : Int) ≤ ((n + 1 : Nat) : Int) := Int.natCast_nonneg _
    have hdec : ((n + 1 : Nat) : Int) - 1 = (n : Int) := by push_cast; ring
    simp only [hpos, if_true, h0, ne_eq, not_true, if_false, hdec]
    rw [hstep, show i + 1 + n + 1 = i + (n + 1) + 1 by omega]

/-! ### C30: the register count of the region tables and the arena -/

theorem tableWords_append (l1 l2 : List reg_region) :
    tableWords (l1 ++ l2) = tableWords l1 + tableWords l2 := by
  simp [tableWords]

theorem tableWords_take_le (l : List reg_region) (n : Nat) :
    tableWords (l.take n) ≤ tableWords l := by
  have h := tableWords_append (l.take n) (l.drop n)
  rw [List.take_append_drop] at h
  omega

/-- C30: the five region tables handed to `rkpm_alloc_region_mem` enumerate 27,
427, 35, 4 and 4 registers, 497 in all, which is no more than the 1024 words of
the `RV1103B_PM_REG_REGION_MEM_SIZE` = 4 KiB arena; so when the regions are
given their words one after the other, in the order of the five calls, every
region ends within the arena. -/
theorem region_tables_fit_arena :
    (tableWords vd_core_reg_rgns = 27 ∧ tableWords vd_log_reg_rgns = 427 ∧
      tableWords pd_pmu1_reg_rgns = 35 ∧ tableWords pvtpll_core_reg_rgns = 4 ∧
      tableWords pvtpll_logic_reg_rgns = 4) ∧
    tableWords allocatedRegions = 497 ∧
    RV1103B_PM_REG_REGION_MEM_SIZE / 4 = 1024 ∧
    tableWords allocatedRegions * 4 ≤ RV1103B_PM_REG_REGION_MEM_SIZE ∧
    ∀ n, tableWords (allocatedRegions.take n) * 4 ≤ RV1103B_PM_REG_REGION_MEM_SIZE := by
  have h1 : tableWords vd_core_reg_rgns = 27 := by decide
  have h2 : tableWords vd_log_reg_rgns = 427 := by
    set_option maxRecDepth 100000 in decide
  have h3 : tableWords pd_pmu1_reg_rgns = 35 := by decide
  have h4 : tableWords pvtpll_core_reg_rgns = 4 := by decide
  have h5 : tableWords pvtpll_logic_reg_rgns = 4 := by decide
  have ht : tableWords allocatedRegions = 497 := by
    rw [allocatedRegions, tableWords_append, tableWords_append, tableWords_append,
      tableWords_append, h1, h2, h3, h4, h5]
  have hs : RV1103B_PM_REG_REGION_MEM_SIZE = 4096 := rfl
  refine ⟨⟨h1, h2, h3, h4, h5⟩, ht, by rw [hs], by rw [ht, hs]; decide, ?_⟩
  intro n
  have := tableWords_take_le allocatedRegions n
  rw [ht] at this
  rw [hs]
  omega

/-! ### C21: `rkpm_printch` -/

/-- With enough fuel the wait of `uart_wrtie_byte` ends at the first poll that
shows the transmitter empty. -/
theorem uart_wait_hit (B : Board) (s : Hw) (k : Nat) :
    ∀ i fuel, k < fuel →
      (∀ j, j < k → pollVal B ⟨Block.uartdbg, 0x14⟩ s (i + j) &&& 0x40 = 0) →
      pollVal B ⟨Block.uartdbg, 0x14⟩ s (i + k) &&& 0x40 ≠ 0 →
      uart_wait B fuel (afterReads B ⟨Block.uartdbg, 0x14⟩ i s)
        = some (afterReads B ⟨Block.uartdbg, 0x14⟩ (i + k + 1) s) := by
  induction k with
  | zero =>
    intro i fuel hf _ hhit
    obtain ⟨f, rfl⟩ : ∃ f, fuel = f + 1 := ⟨fuel - 1, by omega⟩
    rw [uart_wait, readl_afterReads]
    simp only [Nat.add_zero] at hhit
    rw [if_neg hhit]
  | succ k ih =>
    intro i fuel hf hmiss hhit
    obtain ⟨f, rfl⟩ : ∃ f, fuel = f + 1 := ⟨fuel - 1, by omega⟩
    have h0 : pollVal B ⟨Block.uartdbg, 0x14⟩ s i &&& 0x40 = 0 := by
      simpa using hmiss 0 (Nat.succ_pos k)
    rw [uart_wait, readl_afterReads]
    dsimp only
    rw [if_pos h0]
    have e : ∀ j, i + 1 + j = i + (j + 1) := fun j => by omega
    rw [ih (i + 1) f (by omega) (fun j hj => by rw [e]; exact hmiss (j + 1) (by omega))
      (by rw [e]; exact hhit), e]

/-- On hardware whose transmitter is found empty after finitely many polls,
whatever the state, `uart_wrtie_byte` returns with enough fuel; what it adds to
the log is the write of the byte followed by reads of the status register. -/
theorem uart_wrtie_byte_returns (B : Board) (byte : Int) (s : Hw)
    (hhw : ∀ t : Hw, ∃ k, pollVal B ⟨Block.uartdbg, 0x14⟩ t k &&& 0x40 ≠ 0) :
    ∃ fuel0 s1 l, (∀ fuel, fuel0 ≤ fuel → uart_wrtie_byte B fuel byte s = some s1) ∧
      s1.log = s.log ++ l ∧
      writesOf l = [(⟨Block.uartdbg, 0x0⟩, (byte % 256).toNat % 2 ^ 32)] := by
  have hex := hhw (writel B (byte % 256).toNat ⟨Block.uartdbg, 0x0⟩ s)
  have hk := Nat.find_spec hex
  have hmin : ∀ j, j < Nat.find hex →
      pollVal B ⟨Block.uartdbg, 0x14⟩ (writel B (byte % 256).toNat ⟨Block.uartdbg, 0x0⟩ s)
        (0 + j) &&& 0x40 = 0 := by
    intro j hj
    by_contra hne
    rw [Nat.zero_add] at hne
    exact Nat.find_min hex hj hne
  refine ⟨Nat.find hex + 1,
    afterReads B ⟨Block.uartdbg, 0x14⟩ (0 + Nat.find hex + 1)
      (writel B (byte % 256).toNat ⟨Block.uartdbg, 0x0⟩ s),
    [Ev.wr ⟨Block.uartdbg, 0x0⟩ ((byte % 256).toNat % 2 ^ 32)]
        ++ (List.range (0 + Nat.find hex + 1)).map
          (fun j => Ev.rd ⟨Block.uartdbg, 0x14⟩
            (pollVal B ⟨Block.uartdbg, 0x14⟩
              (writel B (byte % 256).toNat ⟨Block.uartdbg, 0x0⟩ s) j)),
    fun fuel hfuel => ?_, ?_, ?_⟩
  · have h := uart_wait_hit B (writel B (byte % 256).toNat ⟨Block.uartdbg, 0x0⟩ s)
      (Nat.find hex) 0 fuel (by omega) hmin (by rw [Nat.zero_add]; exact hk)
    rw [afterReads_zero] at h
    exact h
  · simp [afterReads]
  · rw [writesOf_append, writesOf_map_rd]
    rfl

theorem logSince_trans (s s1 s2 : Hw) (l1 l2 : List Ev) (h1 : s1.log = s.log ++ l1)
    (h2 : s2.log = s1.log ++ l2) : logSince s s2 = l1 ++ l2 := by
  apply logSince_of_append
  rw [h2, h1, List.append_assoc]

/-- C21: on hardware whose transmitter is found empty after finitely many polls,
whatever the state, `rkpm_printch(c)` returns for every character `c` (a byte,
0 to 255), given enough fuel for its waits; the bytes it writes to the
transmit register are `c` alone when `c` is not a line feed, and a carriage
return (13) followed by the line feed (10) when it is. -/
theorem rkpm_printch_spec (B : Board) (c : Int) (s : Hw) (h0 : 0 ≤ c) (h256 : c < 256)
    (hhw : ∀ t : Hw, ∃ k, pollVal B ⟨Block.uartdbg, 0x14⟩ t k &&& 0x40 ≠ 0) :
    ∃ fuel0 s1, (∀ fuel, fuel0 ≤ fuel → rkpm_printch B fuel c s = some s1) ∧
      writesOf (logSince s s1)
        = (if c = 10 then [((⟨Block.uartdbg, 0x0⟩ : Addr), 13)] else [])
          ++ [(⟨Block.uartdbg, 0x0⟩, c.toNat)] := by
  have hbyte : (c % 256).toNat % 2 ^ 32 = c.toNat := by
    rw [Int.emod_eq_of_lt h0 h256]
    have : c.toNat < 256 := by omega
    exact Nat.mod_eq_of_lt (lt_trans this (by norm_num))
  by_cases hc : c = 10
  · obtain ⟨f1, s1, l1, hr1, hl1, hw1⟩ := uart_wrtie_byte_returns B 13 s hhw
    obtain ⟨f2, s2, l2, hr2, hl2, hw2⟩ := uart_wrtie_byte_returns B c s1 hhw
    refine ⟨max f1 f2, s2, fun fuel hfuel => ?_, ?_⟩
    · rw [rkpm_printch, if_pos hc, hr1 fuel (le_trans (le_max_left _ _) hfuel)]
      exact hr2 fuel (le_trans (le_max_right _ _) hfuel)
    · rw [logSince_trans s s1 s2 l1 l2 hl1 hl2, writesOf_append, hw1, hw2, hbyte, if_pos hc]
      rfl
  · obtain ⟨f1, s1, l1, hr1, hl1, hw1⟩ := uart_wrtie_byte_returns B c s hhw
    refine ⟨f1, s1, fun fuel hfuel => ?_, ?_⟩
    · rw [rkpm_printch, if_neg hc]
      exact hr1 fuel hfuel
    · rw [logSince_of_append s s1 l1 hl1, hw1, hbyte, if_neg hc]
      rfl

/-- C21 on a transmitter that is always empty: a line feed goes out as the
bytes 13 and 10, each followed by one read of the status register, and the
letter `a` (97) goes out alone. -/
theorem rkpm_printch_witness :
    ((0 : Int) ≤ 10 ∧ (10 : Int) < 256) ∧
    (∃ fuel0 s1, (∀ fuel, fuel0 ≤ fuel → rkpm_printch (constBoard 0x40) fuel 10 bootHw = some s1) ∧
      writesOf (logSince bootHw s1)
        = (if (10 : Int) = 10 then [((⟨Block.uartdbg, 0x0⟩ : Addr), 13)] else [])
          ++ [(⟨Block.uartdbg, 0x0⟩, (10 : Int).toNat)]) ∧
    (rkpm_printch (constBoard 0x40) 1 10 bootHw).map Hw.log
      = some [Ev.wr ⟨Block.uartdbg, 0x0⟩ 13, Ev.rd ⟨Block.uartdbg, 0x14⟩ 0x40,
              Ev.wr ⟨Block.uartdbg, 0x0⟩ 10, Ev.rd ⟨Block.uartdbg, 0x14⟩ 0x40] ∧
    (rkpm_printch (constBoard 0x40) 1 97 bootHw).map Hw.log
      = some [Ev.wr ⟨Block.uartdbg, 0x0⟩ 97, Ev.rd ⟨Block.uartdbg, 0x14⟩ 0x40] :=
  ⟨⟨by decide, by decide⟩,
   rkpm_printch_spec (constBoard 0x40) 10 bootHw (by decide) (by decide)
     (fun _ => ⟨0, by simp [pollVal, constBoard]⟩),
   by decide, by decide⟩

/-! ### C24: the diagnostic of `pm_pll_wait_lock` -/

/-- The wait loop leaves at the first poll that shows the lock bit, with
`delay` decremented once per poll made. -/
theorem pll_wait_loop_hit (B : Board) (a : Addr) (lock : Nat) (s : Hw) (k : Nat) :
    ∀ n i, k ≤ n → (∀ j, j < k → pollVal B a s (i + j) &&& lock = 0) →
      pollVal B a s (i + k) &&& lock ≠ 0 →
      pll_wait_loop B a lock (n : Int) (afterReads B a i s)
        = ((n : Int) - k - 1, afterReads B a (i + k + 1) s) := by
  induction k with
  | zero =>
    intro n i _ _ hhit
    rw [pll_wait_loop, readl_afterReads]
    simp only [Nat.add_zero] at hhit
    simp [hhit]
  | succ k ih =>
    intro n i hk hmiss hhit
    obtain ⟨m, rfl⟩ : ∃ m, n = m + 1 := ⟨n - 1, by omega⟩
    have h0 : pollVal B a s i &&& lock = 0 := by simpa using hmiss 0 (Nat.succ_pos k)
    have e : ∀ j, i + 1 + j = i + (j + 1) := fun j => by omega
    have hstep := ih m (i + 1) (by omega)
      (fun j hj => by rw [e]; exact hmiss (j + 1) (by omega)) (by rw [e]; exact hhit)
    rw [pll_wait_loop, readl_afterReads]
    have hpos : (0 : Int) ≤ ((m + 1 : Nat) : Int) := Int.natCast_nonneg _
    have hdec : ((m + 1 : Nat) : Int) - 1 = (m : Int) := by push_cast; ring
    simp only [hpos, if_true, h0, ne_eq, not_true, if_false, hdec]
    rw [hstep, e]
    congr 1
    push_cast
    ring

/-- When the PLL is not powered down and the lock bit is first seen on poll
`k + 1` of the 600001, `pm_pll_wait_lock` returns after that poll, and it prints
its diagnostic exactly when `k + 1` is 600000 or 600001. -/
theorem pm_pll_wait_lock_hit (B : Board) (R : RegDefs) (pll_id : Nat) (s : Hw) (k : Nat)
    (hk : k ≤ 600000)
    (hpd : pollVal B ⟨Block.cru, R.RV1103B_CRU_PLL_CON pll_id 1⟩ s 0
      &&& R.CRU_PLLCON1_PWRDOWN = 0)
    (hmiss : ∀ j, j < k →
      pollVal B ⟨Block.cru, R.RV1103B_CRU_PLL_CON pll_id 1⟩ s (j + 1)
        &&& R.CRU_PLLCON1_LOCK_STATUS = 0)
    (hhit : pollVal B ⟨Block.cru, R.RV1103B_CRU_PLL_CON pll_id 1⟩ s (k + 1)
        &&& R.CRU_PLLCON1_LOCK_STATUS ≠ 0) :
    pm_pll_wait_lock B R pll_id s
      = (if 599999 ≤ k then
          emit (Ev.printch '\n')
            (emit (Ev.printhex pll_id)
              (emit (Ev.printstr "Can't wait pll lock: ")
                (afterReads B ⟨Block.cru, R.RV1103B_CRU_PLL_CON pll_id 1⟩ (k + 2) s)))
        else afterReads B ⟨Block.cru, R.RV1103B_CRU_PLL_CON pll_id 1⟩ (k + 2) s) := by
  have hr : readl B ⟨Block.cru, R.RV1103B_CRU_PLL_CON pll_id 1⟩ s
      = (pollVal B ⟨Block.cru, R.RV1103B_CRU_PLL_CON pll_id 1⟩ s 0,
          afterReads B ⟨Block.cru, R.RV1103B_CRU_PLL_CON pll_id 1⟩ 1 s) := by
    have h := readl_afterReads B ⟨Block.cru, R.RV1103B_CRU_PLL_CON pll_id 1⟩ 0 s
    rwa [afterReads_zero] at h
  have hloop := pll_wait_loop_hit B ⟨Block.cru, R.RV1103B_CRU_PLL_CON pll_id 1⟩
    R.CRU_PLLCON1_LOCK_STATUS s k 600000 1 hk
    (fun j hj => by rw [Nat.add_comm]; exact hmiss j hj) (by rw [Nat.add_comm]; exact hhit)
  have hcast : ((PLL_LOCKED_TIMEOUT : Nat) : Int) = ((600000 : Nat) : Int) := rfl
  unfold pm_pll_wait_lock
  dsimp only
  rw [hr]
  dsimp only
  rw [if_neg (by simp [hpd]), hcast, hloop]
  dsimp only
  rw [show 1 + k + 1 = k + 2 by omega]
  by_cases h : 599999 ≤ k
  · rw [if_pos h, if_pos (by push_cast; omega)]
  · rw [if_neg h, if_neg (by push_cast; omega)]

/-- When the power-down bit is set on entry, `pm_pll_wait_lock` returns after
the one read that shows it. -/
theorem pm_pll_wait_lock_pwrdown (B : Board) (R : RegDefs) (pll_id : Nat) (s : Hw)
    (hpd : pollVal B ⟨Block.cru, R.RV1103B_CRU_PLL_CON pll_id 1⟩ s 0
      &&& R.CRU_PLLCON1_PWRDOWN ≠ 0) :
    pm_pll_wait_lock B R pll_id s
      = afterReads B ⟨Block.cru, R.RV1103B_CRU_PLL_CON pll_id 1⟩ 1 s := by
  have hr : readl B ⟨Block.cru, R.RV1103B_CRU_PLL_CON pll_id 1⟩ s
      = (pollVal B ⟨Block.cru, R.RV1103B_CRU_PLL_CON pll_id 1⟩ s 0,
          afterReads B ⟨Block.cru, R.RV1103B_CRU_PLL_CON pll_id 1⟩ 1 s) := by
    have h := readl_afterReads B ⟨Block.cru, R.RV1103B_CRU_PLL_CON pll_id 1⟩ 0 s
    rwa [afterReads_zero] at h
  unfold pm_pll_wait_lock
  dsimp only
  rw [hr]
  dsimp only
  rw [if_pos hpd]

/-- C24 at a PLL whose lock bit comes up in time for the 600000th poll: that
poll observes the lock bit and ends the wait, and `pm_pll_wait_lock` prints
"Can't wait pll lock: " all the same (`delay` is 0 then, and the test is
`delay <= 0`).  With the lock bit up one poll earlier nothing is printed. -/
theorem pm_pll_wait_lock_late_lock :
    pollVal (lateLockBoard 600000) ⟨Block.cru, 4⟩ bootHw 600000 &&& 0x400 ≠ 0 ∧
    pm_pll_wait_lock (lateLockBoard 600000) exampleRegDefs 0 bootHw
      = emit (Ev.printch '\n')
          (emit (Ev.printhex 0)
            (emit (Ev.printstr "Can't wait pll lock: ")
              (afterReads (lateLockBoard 600000) ⟨Block.cru, 4⟩ 600001 bootHw))) ∧
    pm_pll_wait_lock (lateLockBoard 599999) exampleRegDefs 0 bootHw
      = afterReads (lateLockBoard 599999) ⟨Block.cru, 4⟩ 600000 bootHw := by
  refine ⟨by decide, ?_, ?_⟩
  · have h := pm_pll_wait_lock_hit (lateLockBoard 600000) exampleRegDefs 0 bootHw 599999
      (by norm_num) (by decide)
      (fun j hj => by
        have : ¬ 600000 ≤ j + 1 := by omega
        simp [pollVal, lateLockBoard, bootHw, exampleRegDefs, this])
      (by decide)
    rw [if_pos (le_refl _)] at h
    exact h
  · have h := pm_pll_wait_lock_hit (lateLockBoard 599999) exampleRegDefs 0 bootHw 599998
      (by norm_num) (by decide)
      (fun j hj => by
        have : ¬ 599999 ≤ j + 1 := by omega
        simp [pollVal, lateLockBoard, bootHw, exampleRegDefs, this])
      (by decide)
    rw [if_neg (by norm_num)] at h
    exact h

/-! ### The soft-adjust delta when the latch is seen -/

/-- For `lf >= 2` the delta does not wrap and is at least 2. -/
theorem soft_adjust_delta_ge_two (hf lf begin_ end_ : Nat) (h2 : 2 ≤ lf) (hlf : lf < 2 ^ 32) :
    2 ≤ soft_adjust_delta hf lf begin_ end_ ∧ soft_adjust_delta hf lf begin_ end_ < 2 ^ 64 := by
  unfold soft_adjust_delta
  rw [Nat.mod_eq_of_lt hlf]
  dsimp only
  generalize (((end_ + 2 ^ 64 - begin_) % 2 ^ 64 + 2) % 2 ^ 64
    * ((hf % 2 ^ 32 + 2 ^ 32 - lf) % 2 ^ 32)) = x
  generalize ((2 * (hf % 2 ^ 32)) % 2 ^ 32 + (hf % 2 ^ 32) / 2) = y
  have hx : x % 2 ^ 64 / lf ≤ x % 2 ^ 64 / 2 := Nat.div_le_div_left h2 (by norm_num)
  have hy : y % 2 ^ 32 / lf ≤ y % 2 ^ 32 := Nat.div_le_self _ _
  have hx1 : x % 2 ^ 64 < 2 ^ 64 := Nat.mod_lt _ (by norm_num)
  have hy1 : y % 2 ^ 32 < 2 ^ 32 := Nat.mod_lt _ (by norm_num)
  generalize x % 2 ^ 64 / lf = a at hx ⊢
  generalize y % 2 ^ 32 / lf = b at hy ⊢
  generalize x % 2 ^ 64 = x1 at hx hx1
  generalize y % 2 ^ 32 = y1 at hy hy1
  simp only [Nat.reducePow] at *
  omega

/-- What `rk_hptimer_get_soft_adjust_delt_cnt` returns and logs when the latch
is seen on poll `k`. -/
theorem get_soft_adjust_delt_cnt_hit (B : Board) (base : Block) (hf lf : Nat) (s : Hw) (k : Nat)
    (hk : k < 1000000)
    (hmiss : ∀ j, j < k → pollVal B ⟨base, TIMER_HP_BEGIN_END_VALID⟩ s j &&& 3 ≠ 3)
    (hhit : pollVal B ⟨base, TIMER_HP_BEGIN_END_VALID⟩ s k &&& 3 = 3) :
    ∃ d l, (rk_hptimer_get_soft_adjust_delt_cnt B base hf lf s).1 = d ∧
      (∃ b e, d = soft_adjust_delta hf lf b e) ∧
      (rk_hptimer_get_soft_adjust_delt_cnt B base hf lf s).2.log = s.log ++ l ∧
      writesOf l = [(⟨base, TIMER_HP_BEGIN_END_VALID⟩, 3)] := by
  have hw := wait_record_valid_hit B base 3 HPTIMER_WAIT_MAX_US s k
    (by norm_num [HPTIMER_WAIT_MAX_US]) (by simpa [HPTIMER_WAIT_MAX_US] using hk) hmiss hhit
  have hmsk : BIT rk_hptimer_valid_t24_32_begin ||| BIT rk_hptimer_valid_t32_24_end = 3 := by
    decide
  refine ⟨_, (List.range (k + 1)).map
      (fun j => Ev.rd ⟨base, TIMER_HP_BEGIN_END_VALID⟩
        (pollVal B ⟨base, TIMER_HP_BEGIN_END_VALID⟩ s j))
      ++ [Ev.rd ⟨base, TIMER_HP_T24_32BEGIN0⟩ (pollVal B ⟨base, TIMER_HP_T24_32BEGIN0⟩ s (k + 1)),
          Ev.rd ⟨base, TIMER_HP_T24_32BEGIN1⟩ (pollVal B ⟨base, TIMER_HP_T24_32BEGIN1⟩ s (k + 2)),
          Ev.rd ⟨base, TIMER_HP_T32_24END0⟩ (pollVal B ⟨base, TIMER_HP_T32_24END0⟩ s (k + 3)),
          Ev.rd ⟨base, TIMER_HP_T32_24END1⟩ (pollVal B ⟨base, TIMER_HP_T32_24END1⟩ s (k + 4)),
          Ev.wr ⟨base, TIMER_HP_BEGIN_END_VALID⟩ 3], rfl, ?_, ?_, ?_⟩
  · simp only [rk_hptimer_get_soft_adjust_delt_cnt, rk_hptimer_wait_begin_end_valid, hmsk, hw]
    exact ⟨_, _, rfl⟩
  · simp [rk_hptimer_get_soft_adjust_delt_cnt, rk_hptimer_wait_begin_end_valid, hmsk, hw,
      readl, writel, afterReads, pollVal, Nat.add_assoc]
  · rw [writesOf_append, writesOf_map_rd]
    rfl

/-! ### C25: the control register after `rk_hptimer_v2_mode_init` -/

/-- The low half that a write leaves under the upper-half write-enable
convention depends on the old low half and the written word only. -/
theorem hiword_write_low (old v : Nat) :
    hiword_write old v % 2 ^ 16
      = ((old % 2 ^ 16) &&& (0xffff ^^^ (v / 2 ^ 16 % 2 ^ 16)))
          ||| ((v % 2 ^ 16) &&& (v / 2 ^ 16 % 2 ^ 16)) := by
  unfold hiword_write
  dsimp only
  have h1 : (old % 2 ^ 16) &&& (0xffff ^^^ (v / 2 ^ 16 % 2 ^ 16)) < 2 ^ 16 :=
    lt_of_le_of_lt Nat.and_le_left (Nat.mod_lt _ (by norm_num))
  have h2 : (v % 2 ^ 16) &&& (v / 2 ^ 16 % 2 ^ 16) < 2 ^ 16 :=
    lt_of_le_of_lt Nat.and_le_left (Nat.mod_lt _ (by norm_num))
  have h3 := Nat.or_lt_two_pow h1 h2
  rw [Nat.add_comm, Nat.add_mul_mod_self_right, Nat.mod_eq_of_lt h3]

theorem writel_mem (B : Board) (v : Nat) (a b : Addr) (s : Hw) :
    (writel B v a s).mem b = if b = a then B.wrv a (s.mem a) (v % 2 ^ 32) else s.mem b := by
  by_cases h : b = a
  · rw [if_pos h, h, writel_mem_same]
  · rw [if_neg h, writel_mem_other _ _ _ _ _ h]

/-- The wait for the sync interrupt changes no register other than the
interrupt status. -/
theorem wait_sync_mem_other (B : Board) (base : Block) (s : Hw) (a : Addr)
    (ha : a ≠ ⟨base, TIMER_HP_INTR_STATUS⟩) :
    (rk_hptimer_v2_wait_sync B base s).2.mem a = s.mem a := by
  by_cases h : ∃ k, k < 1000000 ∧ pollVal B ⟨base, TIMER_HP_INTR_STATUS⟩ s k &&& 4 ≠ 0
  · have hk := Nat.find_spec h
    have hmin : ∀ j, j < Nat.find h →
        pollVal B ⟨base, TIMER_HP_INTR_STATUS⟩ s j &&& 4 = 0 := by
      intro j hj
      by_contra hne
      exact Nat.find_min h hj ⟨Nat.lt_trans hj hk.1, hne⟩
    rw [wait_sync_hit B base s (Nat.find h) hk.1 hmin hk.2]
    dsimp only
    rw [writel_mem_other _ _ _ _ _ ha]
    rfl
  · have hmiss : ∀ j, j < 1000000 →
        pollVal B ⟨base, TIMER_HP_INTR_STATUS⟩ s j &&& 4 = 0 := by
      intro j hj
      by_contra hne
      exact h ⟨j, hj, hne⟩
    rw [wait_sync_timeout B base s hmiss]

/-- The control register after `rk_hptimer_v2_mode_init`: the three writes to
it, applied to what it held. -/
theorem mode_init_mem_ctrl (B : Board) (base : Block) (mode hf : Nat) (s : Hw) :
    (rk_hptimer_v2_mode_init B base mode hf s).mem ⟨base, TIMER_HP_CTRL⟩
      = B.wrv ⟨base, TIMER_HP_CTRL⟩
          (B.wrv ⟨base, TIMER_HP_CTRL⟩
            (B.wrv ⟨base, TIMER_HP_CTRL⟩ (s.mem ⟨base, TIMER_HP_CTRL⟩) 0xffff0000)
            ((BITS_WITH_WMASK mode 0x3 rk_hptimer_ctrl_mode ||| BITS_WITH_WMASK 1 0x1 6)
              % 2 ^ 32))
          0x10001 := by
  have hen : BITS_WITH_WMASK 1 0x1 rk_hptimer_ctrl_en % 2 ^ 32 = 0x10001 := by decide
  unfold rk_hptimer_v2_mode_init
  dsimp only
  have hframe : ∀ t : Hw,
      (if mode = RK_HPTIMER_HARD_ADJUST_MODE then rk_hptimer_v2_do_hard_adjust B base t
        else if mode = RK_HPTIMER_SOFT_ADJUST_MODE then
          rk_hptimer_soft_adjust_req B base (rk_hptimer_get_count B base s).1 t
        else t).mem ⟨base, TIMER_HP_CTRL⟩ = t.mem ⟨base, TIMER_HP_CTRL⟩ := by
    intro t
    split_ifs
    · rw [rk_hptimer_v2_do_hard_adjust, wait_sync_mem_other _ _ _ _
        (by simp [TIMER_HP_CTRL, TIMER_HP_INTR_STATUS]), rk_hptimer_hard_adjust_req,
        writel_mem_other _ _ _ _ _ (by simp [TIMER_HP_CTRL, TIMER_HP_SYNC_REQ])]
    · unfold rk_hptimer_soft_adjust_req
      split_ifs
      · rfl
      · dsimp only
        rw [writel_mem_other _ _ _ _ _ (by simp [TIMER_HP_CTRL, TIMER_HP_SYNC_REQ]),
          writel_mem_other _ _ _ _ _ (by simp [TIMER_HP_CTRL, TIMER_HP_T24_DELAT_COUNT1]),
          writel_mem_other _ _ _ _ _ (by simp [TIMER_HP_CTRL, TIMER_HP_T24_DELAT_COUNT0])]
    · rfl
  rw [hframe, writel_mem_same, writel_mem_same, hen]
  congr 2
  have h4 : ∀ t : Hw, (if mode ≠ RK_HPTIMER_NORM_MODE
      then writel B 0x4 ⟨base, TIMER_HP_INT_EN⟩ t else t).mem ⟨base, TIMER_HP_CTRL⟩
      = t.mem ⟨base, TIMER_HP_CTRL⟩ := by
    intro t
    split_ifs
    · rw [writel_mem_other _ _ _ _ _ (by simp [TIMER_HP_CTRL, TIMER_HP_INT_EN])]
    · rfl
  have hg : ∀ t : Hw, (if mode = RK_HPTIMER_HARD_ADJUST_MODE then
        writel B (32768 / (get_gcd (hf % 2 ^ 32) 32768 % 2 ^ 32)) ⟨base, TIMER_HP_T32_GCD⟩
          (writel B ((hf % 2 ^ 32) / (get_gcd (hf % 2 ^ 32) 32768 % 2 ^ 32))
            ⟨base, TIMER_HP_T24_GCD⟩ t)
      else t).mem ⟨base, TIMER_HP_CTRL⟩ = t.mem ⟨base, TIMER_HP_CTRL⟩ := by
    intro t
    split_ifs
    · rw [writel_mem_other _ _ _ _ _ (by simp [TIMER_HP_CTRL, TIMER_HP_T32_GCD]),
        writel_mem_other _ _ _ _ _ (by simp [TIMER_HP_CTRL, TIMER_HP_T24_GCD])]
    · rfl
  rw [h4, hg,
    writel_mem_other _ _ _ _ _ (by simp [TIMER_HP_CTRL, TIMER_HP_LOAD_COUNT1]),
    writel_mem_other _ _ _ _ _ (by simp [TIMER_HP_CTRL, TIMER_HP_LOAD_COUNT0]),
    writel_mem_other _ _ _ _ _ (by simp [TIMER_HP_CTRL, TIMER_HP_BEGIN_END_VALID]),
    writel_mem_other _ _ _ _ _ (by simp [TIMER_HP_CTRL, TIMER_HP_INTR_STATUS]),
    writel_mem_other _ _ _ _ _ (by simp [TIMER_HP_CTRL, TIMER_HP_INT_EN]),
    writel_mem_same]
  rfl

/-- C25: on a board whose HPTimer `CTRL` register reads back what it holds and
takes writes under the upper-half write-enable convention, after
`rk_hptimer_v2_mode_init(mode, hf)` with `mode` one of 0 (normal), 1 (hard
adjust) and 2 (soft adjust) the low half of `CTRL` is `0x41 + 2 * mode`: enable
(bit 0) set, `mode` in bits 1..2, init-mode (bit 6) set and nothing else; so
`rk_hptimer_get_mode` returns `mode` and `rk_hptimer_is_enabled` returns 1. -/
theorem rk_hptimer_v2_mode_init_ctrl (B : Board) (base : Block) (mode hf : Nat) (s : Hw)
    (hmode : mode ≤ 2)
    (hrd : ∀ t m, B.rdv ⟨base, TIMER_HP_CTRL⟩ t m = m)
    (hwr : ∀ m v, B.wrv ⟨base, TIMER_HP_CTRL⟩ m v = hiword_write m v) :
    (rk_hptimer_v2_mode_init B base mode hf s).mem ⟨base, TIMER_HP_CTRL⟩ % 2 ^ 16
      = 0x41 + 2 * mode ∧
    (rk_hptimer_get_mode B base (rk_hptimer_v2_mode_init B base mode hf s)).1 = mode ∧
    (rk_hptimer_is_enabled B base (rk_hptimer_v2_mode_init B base mode hf s)).1 = 1 := by
  have hlow : (rk_hptimer_v2_mode_init B base mode hf s).mem ⟨base, TIMER_HP_CTRL⟩ % 2 ^ 16
      = 0x41 + 2 * mode := by
    rw [mode_init_mem_ctrl, hwr, hwr, hwr, hiword_write_low, hiword_write_low, hiword_write_low]
    have hz : ∀ x : Nat, x &&& (0xffff ^^^ (0xffff0000 / 2 ^ 16 % 2 ^ 16)) = 0 := by
      intro x
      have : (0xffff : Nat) ^^^ (0xffff0000 / 2 ^ 16 % 2 ^ 16) = 0 := by decide
      rw [this, Nat.and_zero]
    rw [hz]
    obtain rfl | rfl | rfl : mode = 0 ∨ mode = 1 ∨ mode = 2 := by omega
    all_goals decide
  generalize (rk_hptimer_v2_mode_init B base mode hf s) = s1 at hlow ⊢
  refine ⟨hlow, ?_, ?_⟩
  · simp only [rk_hptimer_get_mode, readl_val, hrd, rk_hptimer_ctrl_mode]
    rw [Nat.shiftRight_eq_div_pow, show (0x3 : Nat) = 2 ^ 2 - 1 by norm_num,
      Nat.and_pow_two_sub_one_eq_mod]
    simp only [Nat.reducePow] at hlow ⊢
    omega
  · have h1 : (readl B ⟨base, TIMER_HP_CTRL⟩ s1).1 &&& BIT rk_hptimer_ctrl_en = 1 := by
      rw [readl_val, hrd, show BIT rk_hptimer_ctrl_en = 2 ^ 1 - 1 by decide,
        Nat.and_pow_two_sub_one_eq_mod]
      simp only [Nat.reducePow] at hlow ⊢
      omega
    simp only [rk_hptimer_is_enabled, h1]
    rfl

/-- C25 on a register file that follows the write-enable convention, for the
soft-adjust mode: whatever `CTRL` held (here `0xabcd1278`), its low half is
`0x45` afterwards. -/
theorem rk_hptimer_v2_mode_init_ctrl_witness :
    RK_HPTIMER_SOFT_ADJUST_MODE ≤ 2 ∧
    (rk_hptimer_v2_mode_init (regfileBoard (fun _ => true)) Block.hptimer
        RK_HPTIMER_SOFT_ADJUST_MODE 24000000 exampleRegfile).mem ⟨Block.hptimer, TIMER_HP_CTRL⟩
        % 2 ^ 16 = 0x45 ∧
    (rk_hptimer_get_mode (regfileBoard (fun _ => true)) Block.hptimer
      (rk_hptimer_v2_mode_init (regfileBoard (fun _ => true)) Block.hptimer
        RK_HPTIMER_SOFT_ADJUST_MODE 24000000 exampleRegfile)).1 = 2 ∧
    (rk_hptimer_is_enabled (regfileBoard (fun _ => true)) Block.hptimer
      (rk_hptimer_v2_mode_init (regfileBoard (fun _ => true)) Block.hptimer
        RK_HPTIMER_SOFT_ADJUST_MODE 24000000 exampleRegfile)).1 = 1 :=
  ⟨by decide,
   rk_hptimer_v2_mode_init_ctrl (regfileBoard (fun _ => true)) Block.hptimer
    RK_HPTIMER_SOFT_ADJUST_MODE 24000000 exampleRegfile (by decide) (fun _ _ => rfl)
    (fun _ _ => rfl)⟩

/-! ### C22 and C23: the HPTimer around the CPU retirement -/

/-- C22, as stated, fails: with the 32 kHz reference selected and the HPTimer
in hard-adjust mode (its control register reads 2), `hptimer_suspend`, the only
HPTimer call before `cpu_suspend`, writes nothing; the sync request is written
by `hptimer_resume`, which `rv1103b_suspend_enter` calls after `cpu_suspend`
has returned. -/
theorem hptimer_adjust_before_wfi_counterexample :
    (rk_hptimer_get_mode (constBoard 2) Block.hptimer bootHw).1 = RK_HPTIMER_HARD_ADJUST_MODE ∧
    (exampleCfg 0x200).mode_config &&& exampleDefs.RKPM_SLP_PMU_PMUALIVE_32K ≠ 0 ∧
    writesOf (hptimer_suspend (constBoard 2) exampleDefs exampleCfgDefs (exampleCfg 0x200)
      bootHw).log = [] ∧
    writesOf (hptimer_resume (constBoard 2) exampleDefs exampleCfgDefs (exampleCfg 0x200)
      bootHw).log
      = [(⟨Block.pmusgrf, 0⟩, 0x1000000), (⟨Block.hptimer, TIMER_HP_SYNC_REQ⟩, 0x20002)] ∧
    (callsBeforeWfi
        (rv1103b_suspend_enter exampleDefs (some (exampleCfg 0x200)) (exampleCfg 0) 1).calls).filter
        (fun c => c == Call.hptimer_suspend || c == Call.hptimer_resume)
      = [Call.hptimer_suspend] ∧
    (callsAfterWake
        (rv1103b_suspend_enter exampleDefs (some (exampleCfg 0x200)) (exampleCfg 0) 1).calls).filter
        (fun c => c == Call.hptimer_suspend || c == Call.hptimer_resume)
      = [Call.hptimer_resume] := by
  decide

/-- C22, amended: before the CPU retirement `rv1103b_suspend_enter` calls
`hptimer_suspend`, which reads the timer mode and writes no HPTimer register
(its only write, made when the 32 kHz reference is selected and the mode is
soft adjust, sets bit 8 of `PMUSGRF_SOC_CON0`).  The no-wait adjust is invoked
by `hptimer_resume`, the first call after `cpu_suspend` has returned: after
reading the mode and clearing that bit it calls, when the 32 kHz reference is
selected, `rk_hptimer_v2_do_hard_adjust_no_wait` in hard-adjust mode and
`rk_hptimer_v2_do_soft_adjust_no_wait(24000000, 32768)` in soft-adjust mode. -/
theorem hptimer_adjust_after_wfi (B : Board) (D : Defs) (P : CfgDefs)
    (config : Option rk_sleep_config) (slp_cfg : rk_sleep_config) (hpmode : Nat) (s : Hw) :
    writesOf (logSince s (hptimer_suspend B D P slp_cfg s))
      = (if slp_cfg.mode_config &&& D.RKPM_SLP_PMU_PMUALIVE_32K ≠ 0
            ∧ (rk_hptimer_get_mode B Block.hptimer s).1 = RK_HPTIMER_SOFT_ADJUST_MODE
          then [(⟨Block.pmusgrf, P.RV1103B_PMUSGRF_SOC_CON 0⟩, 0x1000100)] else []) ∧
    hptimer_resume B D P slp_cfg s
      = (match resumeAdjust D slp_cfg (rk_hptimer_get_mode B Block.hptimer s).1 with
          | some Adjust.hard =>
            rk_hptimer_v2_do_hard_adjust_no_wait B Block.hptimer
              (writel B 0x1000000 ⟨Block.pmusgrf, P.RV1103B_PMUSGRF_SOC_CON 0⟩
                (rk_hptimer_get_mode B Block.hptimer s).2)
          | some Adjust.soft =>
            rk_hptimer_v2_do_soft_adjust_no_wait B Block.hptimer 24000000 32768
              (writel B 0x1000000 ⟨Block.pmusgrf, P.RV1103B_PMUSGRF_SOC_CON 0⟩
                (rk_hptimer_get_mode B Block.hptimer s).2)
          | none =>
            writel B 0x1000000 ⟨Block.pmusgrf, P.RV1103B_PMUSGRF_SOC_CON 0⟩
              (rk_hptimer_get_mode B Block.hptimer s).2) ∧
    (callsBeforeWfi (rv1103b_suspend_enter D config slp_cfg hpmode).calls).filter
        (fun c => c == Call.hptimer_suspend || c == Call.hptimer_resume)
      = [Call.hptimer_suspend] ∧
    (callsAfterWake (rv1103b_suspend_enter D config slp_cfg hpmode).calls).head?
      = some Call.hptimer_resume := by
  have h1 : BITS_WITH_WMASK 0x1 0x1 8 % 2 ^ 32 = 0x1000100 := by decide
  have h0 : BITS_WITH_WMASK 0x0 0x1 8 = 0x1000000 := by decide
  refine ⟨?_, ?_, ?_, ?_⟩
  · unfold hptimer_suspend
    dsimp only
    split_ifs
    · rw [logSince_of_append _ _ [Ev.rd ⟨Block.hptimer, TIMER_HP_CTRL⟩
          (readl B ⟨Block.hptimer, TIMER_HP_CTRL⟩ s).1,
          Ev.wr ⟨Block.pmusgrf, P.RV1103B_PMUSGRF_SOC_CON 0⟩ 0x1000100]
        (by simp only [rk_hptimer_get_mode, writel_log, readl_log, h1, List.append_assoc,
          List.cons_append, List.nil_append])]
      rfl
    · rw [logSince_of_append _ _ [Ev.rd ⟨Block.hptimer, TIMER_HP_CTRL⟩
          (readl B ⟨Block.hptimer, TIMER_HP_CTRL⟩ s).1]
        (by simp [rk_hptimer_get_mode])]
      rfl
  · unfold hptimer_resume resumeAdjust
    dsimp only
    rw [h0]
    split_ifs <;> rfl
  · unfold rv1103b_suspend_enter
    dsimp only
    split_ifs <;> decide
  · unfold rv1103b_suspend_enter
    dsimp only
    split_ifs <;> decide

/-- With enough fuel the wait of `ddr_sleep_config` ends at the first poll that
shows the normal operating mode. -/
theorem ddr_stat_wait_hit (B : Board) (s : Hw) (k : Nat) :
    ∀ i fuel, k < fuel →
      (∀ j, j < k → pollVal B ⟨Block.ddrc, 0x4⟩ s (i + j) &&& 0x7 ≠ 0x1) →
      pollVal B ⟨Block.ddrc, 0x4⟩ s (i + k) &&& 0x7 = 0x1 →
      ddr_stat_wait B fuel (afterReads B ⟨Block.ddrc, 0x4⟩ i s)
        = some (afterReads B ⟨Block.ddrc, 0x4⟩ (i + k + 1) s) := by
  induction k with
  | zero =>
    intro i fuel hf _ hhit
    obtain ⟨f, rfl⟩ : ∃ f, fuel = f + 1 := ⟨fuel - 1, by omega⟩
    rw [ddr_stat_wait, readl_afterReads]
    simp only [Nat.add_zero] at hhit
    dsimp only
    rw [if_neg (by simp [hhit])]
  | succ k ih =>
    intro i fuel hf hmiss hhit
    obtain ⟨f, rfl⟩ : ∃ f, fuel = f + 1 := ⟨fuel - 1, by omega⟩
    have h0 : pollVal B ⟨Block.ddrc, 0x4⟩ s i &&& 0x7 ≠ 0x1 := by
      simpa using hmiss 0 (Nat.succ_pos k)
    rw [ddr_stat_wait, readl_afterReads]
    dsimp only
    rw [if_pos h0]
    have e : ∀ j, i + 1 + j = i + (j + 1) := fun j => by omega
    rw [ih (i + 1) f (by omega) (fun j hj => by rw [e]; exact hmiss (j + 1) (by omega))
      (by rw [e]; exact hhit), e]

/-- What `ddr_sleep_config` stores in `ddr_data`, whenever it returns. -/
theorem ddr_sleep_config_saved (B : Board) (R : RegDefs) (P : CfgDefs) (fuel : Nat)
    (ddr_data ddr1 : rv1103b_sleep_ddr_data) (s s1 : Hw)
    (h : ddr_sleep_config B R P fuel ddr_data s = some (ddr1, s1)) :
    ddr1.ddrgrf_con1 = pollVal B ⟨Block.ddrgrf, P.RV1103B_DDRGRF_CON 1⟩ s 0 ∧
    ddr1.ddrgrf_con5 = pollVal B ⟨Block.ddrgrf, P.RV1103B_DDRGRF_CON 5⟩ s 1 ∧
    ddr1.ddrgrf_con8 = pollVal B ⟨Block.ddrgrf, P.RV1103B_DDRGRF_CON 8⟩ s 2 ∧
    ddr1.pmugrf_soc_con0 = pollVal B ⟨Block.pmugrf, R.RV1103B_PMUGRF_SOC_CON 0⟩ s 3 := by
  unfold ddr_sleep_config at h
  dsimp only at h
  split at h
  · exact absurd h (by simp)
  · simp only [Option.some.injEq, Prod.mk.injEq] at h
    rw [← h.1]
    exact ⟨rfl, rfl, rfl, rfl⟩

theorem ddr_stat_wait_log (B : Board) :
    ∀ fuel s s1, ddr_stat_wait B fuel s = some s1 →
      ∃ l, s1.log = s.log ++ l ∧ writesOf l = [] := by
  intro fuel
  induction fuel with
  | zero => intro s s1 h; simp [ddr_stat_wait] at h
  | succ f ih =>
    intro s s1 h
    rw [ddr_stat_wait] at h
    split_ifs at h
    · obtain ⟨l, hl, hw⟩ := ih _ s1 h
      refine ⟨Ev.rd ⟨Block.ddrc, 0x4⟩ (readl B ⟨Block.ddrc, 0x4⟩ s).1 :: l, ?_, ?_⟩
      · rw [hl, readl_log, List.append_assoc]
        rfl
      · simpa [writesOf] using hw
    · simp only [Option.some.injEq] at h
      refine ⟨[Ev.rd ⟨Block.ddrc, 0x4⟩ (readl B ⟨Block.ddrc, 0x4⟩ s).1], ?_, rfl⟩
      rw [← h, readl_log]

theorem wmsk_word (x : Nat) (hx : x < 2 ^ 32) :
    WITH_16BITS_WMSK x % 2 ^ 32 = 0xffff0000 ||| x :=
  Nat.mod_eq_of_lt (Nat.or_lt_two_pow (by norm_num) hx)

/-- The register writes of `ddr_sleep_config`, whenever it returns. -/
theorem ddr_sleep_config_writes (B : Board) (R : RegDefs) (P : CfgDefs) (fuel : Nat)
    (ddr_data ddr1 : rv1103b_sleep_ddr_data) (s s1 : Hw)
    (h : ddr_sleep_config B R P fuel ddr_data s = some (ddr1, s1)) :
    writesOf (logSince s s1)
      = [(⟨Block.ddrc, 0x30⟩, pollVal B ⟨Block.ddrc, 0x30⟩ s 4 &&& 0xfffffffc),
         (⟨Block.ddrgrf, P.RV1103B_DDRGRF_CON 1⟩, 0x6000000),
         (⟨Block.ddrgrf, P.RV1103B_DDRGRF_CON 1⟩, 0x1ff0000),
         (⟨Block.ddrgrf, P.RV1103B_DDRGRF_CON 5⟩, 0x80008),
         (⟨Block.ddrgrf, P.RV1103B_DDRGRF_CON 8⟩, 0x700070),
         (⟨Block.pmugrf, R.RV1103B_PMUGRF_SOC_CON 0⟩, 0x1e000000)] := by
  have hv : (readl B ⟨Block.ddrc, 0x30⟩
      (readl B ⟨Block.pmugrf, R.RV1103B_PMUGRF_SOC_CON 0⟩
        (readl B ⟨Block.ddrgrf, P.RV1103B_DDRGRF_CON 8⟩
          (readl B ⟨Block.ddrgrf, P.RV1103B_DDRGRF_CON 5⟩
            (readl B ⟨Block.ddrgrf, P.RV1103B_DDRGRF_CON 1⟩ s).2).2).2).2).1
      = pollVal B ⟨Block.ddrc, 0x30⟩ s 4 := rfl
  have hm : (0xffffffff : Nat) ^^^ (BIT 0 ||| BIT 1) = 0xfffffffc := by decide
  have e1 : BITS_WITH_WMASK 0x0 0x3 9 % 2 ^ 32 = 0x6000000 := by decide
  have e2 : BITS_WITH_WMASK 0x0 0x1ff 0 % 2 ^ 32 = 0x1ff0000 := by decide
  have e3 : BITS_WITH_WMASK 0x1 0x1 3 % 2 ^ 32 = 0x80008 := by decide
  have e4 : BITS_WITH_WMASK 0x7 0x7 4 % 2 ^ 32 = 0x700070 := by decide
  have e5 : BITS_WITH_WMASK 0x0 0xf 9 % 2 ^ 32 = 0x1e000000 := by decide
  unfold ddr_sleep_config at h
  dsimp only at h
  split at h
  · exact absurd h (by simp)
  · rename_i sw hwait
    obtain ⟨l, hl, hw⟩ := ddr_stat_wait_log B fuel _ sw hwait
    simp only [Option.some.injEq, Prod.mk.injEq] at h
    have hlog : s1.log = s.log ++
        ([Ev.rd ⟨Block.ddrgrf, P.RV1103B_DDRGRF_CON 1⟩
            (pollVal B ⟨Block.ddrgrf, P.RV1103B_DDRGRF_CON 1⟩ s 0),
          Ev.rd ⟨Block.ddrgrf, P.RV1103B_DDRGRF_CON 5⟩
            (pollVal B ⟨Block.ddrgrf, P.RV1103B_DDRGRF_CON 5⟩ s 1),
          Ev.rd ⟨Block.ddrgrf, P.RV1103B_DDRGRF_CON 8⟩
            (pollVal B ⟨Block.ddrgrf, P.RV1103B_DDRGRF_CON 8⟩ s 2),
          Ev.rd ⟨Block.pmugrf, R.RV1103B_PMUGRF_SOC_CON 0⟩
            (pollVal B ⟨Block.pmugrf, R.RV1103B_PMUGRF_SOC_CON 0⟩ s 3),
          Ev.rd ⟨Block.ddrc, 0x30⟩ (pollVal B ⟨Block.ddrc, 0x30⟩ s 4),
          Ev.wr ⟨Block.ddrc, 0x30⟩ (pollVal B ⟨Block.ddrc, 0x30⟩ s 4 &&& 0xfffffffc),
          Ev.wr ⟨Block.ddrgrf, P.RV1103B_DDRGRF_CON 1⟩ 0x6000000,
          Ev.wr ⟨Block.ddrgrf, P.RV1103B_DDRGRF_CON 1⟩ 0x1ff0000,
          Ev.wr ⟨Block.ddrgrf, P.RV1103B_DDRGRF_CON 5⟩ 0x80008,
          Ev.wr ⟨Block.ddrgrf, P.RV1103B_DDRGRF_CON 8⟩ 0x700070]
          ++ l ++ [Ev.wr ⟨Block.pmugrf, R.RV1103B_PMUGRF_SOC_CON 0⟩ 0x1e000000]) := by
      rw [← h.2, writel_log, hl]
      simp only [writel_log, readl_log, hv, hm, e1, e2, e3, e4, e5,
        and_mod_u32 _ _ (pollVal_lt _ _ _ _), List.append_assoc, List.cons_append,
        List.nil_append]
      rfl
    rw [logSince_of_append _ _ _ hlog, writesOf_append, writesOf_append, hw]
    rfl

/-- C29: after a `ddr_sleep_config` that returned, `ddr_sleep_config_restore`
makes exactly four accesses, all writes: to `PMUGRF_SOC_CON0`, `DDRGRF_CON1`,
`DDRGRF_CON8` and `DDRGRF_CON5`, in this order, each of the value that
`ddr_sleep_config` read from that register at its start, with the sixteen
upper write-enable bits set.  Every register other than these four is left as
it was; in particular the DDR controller register at offset `0x30`, which
`ddr_sleep_config` wrote with bits 0 and 1 cleared, is not written back. -/
theorem ddr_sleep_config_restore_spec (B : Board) (R : RegDefs) (P : CfgDefs) (fuel : Nat)
    (ddr_data ddr1 : rv1103b_sleep_ddr_data) (s s1 : Hw)
    (h : ddr_sleep_config B R P fuel ddr_data s = some (ddr1, s1)) :
    logSince s1 (ddr_sleep_config_restore B R P ddr1 s1)
      = [Ev.wr ⟨Block.pmugrf, R.RV1103B_PMUGRF_SOC_CON 0⟩
           (0xffff0000 ||| pollVal B ⟨Block.pmugrf, R.RV1103B_PMUGRF_SOC_CON 0⟩ s 3),
         Ev.wr ⟨Block.ddrgrf, P.RV1103B_DDRGRF_CON 1⟩
           (0xffff0000 ||| pollVal B ⟨Block.ddrgrf, P.RV1103B_DDRGRF_CON 1⟩ s 0),
         Ev.wr ⟨Block.ddrgrf, P.RV1103B_DDRGRF_CON 8⟩
           (0xffff0000 ||| pollVal B ⟨Block.ddrgrf, P.RV1103B_DDRGRF_CON 8⟩ s 2),
         Ev.wr ⟨Block.ddrgrf, P.RV1103B_DDRGRF_CON 5⟩
           (0xffff0000 ||| pollVal B ⟨Block.ddrgrf, P.RV1103B_DDRGRF_CON 5⟩ s 1)] ∧
    (∀ a : Addr, a ≠ ⟨Block.pmugrf, R.RV1103B_PMUGRF_SOC_CON 0⟩ →
      a ≠ ⟨Block.ddrgrf, P.RV1103B_DDRGRF_CON 1⟩ →
      a ≠ ⟨Block.ddrgrf, P.RV1103B_DDRGRF_CON 8⟩ →
      a ≠ ⟨Block.ddrgrf, P.RV1103B_DDRGRF_CON 5⟩ →
      (ddr_sleep_config_restore B R P ddr1 s1).mem a = s1.mem a) ∧
    (ddr_sleep_config_restore B R P ddr1 s1).mem ⟨Block.ddrc, 0x30⟩
      = s1.mem ⟨Block.ddrc, 0x30⟩ ∧
    (⟨Block.ddrc, 0x30⟩, pollVal B ⟨Block.ddrc, 0x30⟩ s 4 &&& 0xfffffffc)
      ∈ writesOf (logSince s s1) := by
  obtain ⟨h1, h5, h8, h0⟩ := ddr_sleep_config_saved B R P fuel ddr_data ddr1 s s1 h
  have hframe : ∀ a : Addr, a ≠ ⟨Block.pmugrf, R.RV1103B_PMUGRF_SOC_CON 0⟩ →
      a ≠ ⟨Block.ddrgrf, P.RV1103B_DDRGRF_CON 1⟩ →
      a ≠ ⟨Block.ddrgrf, P.RV1103B_DDRGRF_CON 8⟩ →
      a ≠ ⟨Block.ddrgrf, P.RV1103B_DDRGRF_CON 5⟩ →
      (ddr_sleep_config_restore B R P ddr1 s1).mem a = s1.mem a := by
    intro a ha0 ha1 ha8 ha5
    unfold ddr_sleep_config_restore
    dsimp only
    rw [writel_mem_other _ _ _ _ _ ha5, writel_mem_other _ _ _ _ _ ha8,
      writel_mem_other _ _ _ _ _ ha1, writel_mem_other _ _ _ _ _ ha0]
  refine ⟨?_, hframe, hframe _ (by simp) (by simp) (by simp) (by simp), ?_⟩
  · apply logSince_of_append
    unfold ddr_sleep_config_restore
    dsimp only
    rw [h1, h5, h8, h0]
    simp only [writel_log, wmsk_word _ (pollVal_lt _ _ _ _), List.append_assoc,
      List.cons_append, List.nil_append]
  · rw [ddr_sleep_config_writes B R P fuel ddr_data ddr1 s s1 h]
    exact List.mem_cons_self _ _

/-- C29 on a board on which every register reads 1: `ddr_sleep_config` returns
with the four saved words equal to 1, and the restore writes `0xffff0001` to
the four registers and nothing else. -/
theorem ddr_sleep_config_restore_witness :
    ddr_sleep_config (constBoard 1) exampleRegDefs exampleCfgDefs 1 bootDdrData bootHw
      = some (ddrConfigured.1, ddrConfigured.2) ∧
    logSince ddrConfigured.2
        (ddr_sleep_config_restore (constBoard 1) exampleRegDefs exampleCfgDefs ddrConfigured.1
          ddrConfigured.2)
      = [Ev.wr ⟨Block.pmugrf, 0⟩ 0xffff0001, Ev.wr ⟨Block.ddrgrf, 4⟩ 0xffff0001,
         Ev.wr ⟨Block.ddrgrf, 32⟩ 0xffff0001, Ev.wr ⟨Block.ddrgrf, 20⟩ 0xffff0001] :=
  ⟨rfl,
   (ddr_sleep_config_restore_spec (constBoard 1) exampleRegDefs exampleCfgDefs 1 bootDdrData
      ddrConfigured.1 bootHw ddrConfigured.2 rfl).1.trans (by decide)⟩

/-! ### C27: the sleep timeout programmed by `pmu_sleep_config` -/

theorem and_BIT_ne_zero (x n : Nat) (h : x.testBit n = true) : x &&& BIT n ≠ 0 := by
  intro h0
  have := congrArg (fun y => y.testBit n) h0
  simp [BIT, Nat.testBit_and, Nat.one_shiftLeft, Nat.testBit_two_pow_self, h] at this

theorem pmu_mode_config_mem_pmu (B : Board) (D : Defs) (R : RegDefs) (P : CfgDefs) (cfg : Nat)
    (v : PmuVars) (x : Nat) :
    (pmu_mode_config B D R P cfg v).hw.mem ⟨Block.pmu, x⟩ = v.hw.mem ⟨Block.pmu, x⟩ := by
  unfold pmu_mode_config
  split_ifs <;>
    simp [pmu_cfg_armpd, pmu_cfg_armoff, pmu_cfg_armoff_logoff, pmu_cfg_armoff_pmuoff, writel_mem]

theorem pmu_mode_config_vars (B : Board) (D : Defs) (R : RegDefs) (P : CfgDefs) (cfg : Nat)
    (v : PmuVars) :
    (pmu_mode_config B D R P cfg v).pmu1_wkup_con = v.pmu1_wkup_con ∧
      (pmu_mode_config B D R P cfg v).clk_freq_khz = v.clk_freq_khz := by
  unfold pmu_mode_config
  split_ifs <;>
    simp [pmu_cfg_armpd, pmu_cfg_armoff, pmu_cfg_armoff_logoff, pmu_cfg_armoff_pmuoff]

theorem pmu_lp_pr_config_mem_pmu (B : Board) (R : RegDefs) (P : CfgDefs) (cfg : Nat)
    (v : PmuVars) (x : Nat) :
    (pmu_lp_pr_config B R P cfg v).hw.mem ⟨Block.pmu, x⟩ = v.hw.mem ⟨Block.pmu, x⟩ := by
  unfold pmu_lp_pr_config
  split_ifs <;> simp [writel_mem]

theorem pmu_lp_pr_config_vars (B : Board) (R : RegDefs) (P : CfgDefs) (cfg : Nat)
    (v : PmuVars) :
    (pmu_lp_pr_config B R P cfg v).pmu1_wkup_con = v.pmu1_wkup_con ∧
      (pmu_lp_pr_config B R P cfg v).clk_freq_khz = v.clk_freq_khz := by
  unfold pmu_lp_pr_config
  split_ifs <;> simp

theorem pmu_os_reg_config_mem_pmu (B : Board) (P : CfgDefs) (s : Hw) (x : Nat) :
    (pmu_os_reg_config B P s).mem ⟨Block.pmu, x⟩ = s.mem ⟨Block.pmu, x⟩ := by
  unfold pmu_os_reg_config
  split_ifs <;> simp [writel_mem]

theorem pmu_sleep_config_write_mem_other (B : Board) (D : Defs) (R : RegDefs) (P : CfgDefs)
    (v : PmuVars) (x : Nat) (h : x ∉ pmuWriteOffsets D R P) :
    (pmu_sleep_config_write B D R P v).mem ⟨Block.pmu, x⟩ = v.hw.mem ⟨Block.pmu, x⟩ := by
  simp only [pmuWriteOffsets, List.mem_cons, List.mem_singleton, not_or, List.not_mem_nil,
    not_false_eq_true, and_true] at h
  obtain ⟨h1, h2, h3, h4, h5, h6, h7, h8, h9, h10, h11, h12, h13, h14, h15, h16, h17, h18,
    h19, h20, h21, h22, h23, h24⟩ := h
  simp only [pmu_sleep_config_write, writel_mem, Addr.mk.injEq, true_and, h1, h2, h3, h4, h5,
    h6, h7, h8, h9, h10, h11, h12, h13, h14, h15, h16, h17, h18, h19, h20, h21, h22, h23, h24,
    if_false]

theorem pmu_sleep_config_write_mem_int_con (B : Board) (D : Defs) (R : RegDefs) (P : CfgDefs)
    (v : PmuVars)
    (hIs : ∀ m w, B.wrv ⟨Block.pmu, D.RV1103B_PMU1_WAKEUP_INT_CON⟩ m w = w)
    (h1 : D.RV1103B_PMU1_WAKEUP_INT_CON ≠ R.RV1103B_PMU1_PWR_CON)
    (h2 : D.RV1103B_PMU1_WAKEUP_INT_CON ≠ R.RV1103B_PMU0_PWR_CON) :
    (pmu_sleep_config_write B D R P v).mem ⟨Block.pmu, D.RV1103B_PMU1_WAKEUP_INT_CON⟩
      = v.pmu1_wkup_con % 2 ^ 32 := by
  simp only [pmu_sleep_config_write, writel_mem, Addr.mk.injEq, true_and, h1, h2, if_false,
    if_true, hIs]

theorem pmu_sleep_config_init_timeout (B : Board) (D : Defs) (R : RegDefs) (P : CfgDefs)
    (slp_cfg : rk_sleep_config) (ddr_data : rv1103b_sleep_ddr_data) (s : Hw)
    (hTO : slp_cfg.mode_config &&& P.RKPM_SLP_TIME_OUT_WKUP ≠ 0)
    (hTs : ∀ m w, B.wrv ⟨Block.pmu, D.RV1103B_PMU1_WAKEUP_TIMEOUT⟩ m w = w) :
    (pmu_sleep_config_init B D R P slp_cfg ddr_data s).2.hw.mem
        ⟨Block.pmu, D.RV1103B_PMU1_WAKEUP_TIMEOUT⟩
      = (if slp_cfg.mode_config &&& D.RKPM_SLP_PMU_PMUALIVE_32K ≠ 0 then 32000 else 24000000) ∧
    (pmu_sleep_config_init B D R P slp_cfg ddr_data s).2.pmu1_wkup_con.testBit
        D.RV1103B_PMU_WAKEUP_TIMEOUT = true ∧
    (pmu_sleep_config_init B D R P slp_cfg ddr_data s).1.entered_pmu_fsm
      = ddr_data.entered_pmu_fsm := by
  refine ⟨?_, ?_, ?_⟩
  · simp only [pmu_sleep_config_init, if_pos hTO, writel_mem_same, hTs]
    split_ifs <;> rfl
  · simp only [pmu_sleep_config_init, if_pos hTO, Nat.testBit_or, BIT, Nat.one_shiftLeft,
      Nat.testBit_two_pow_self, Bool.or_true]
  · simp only [pmu_sleep_config_init]

theorem pmu_sleep_config_regs_facts (B : Board) (D : Defs) (R : RegDefs) (P : CfgDefs)
    (slp_cfg : rk_sleep_config) (ddr_data : rv1103b_sleep_ddr_data) (s : Hw)
    (hTO : slp_cfg.mode_config &&& P.RKPM_SLP_TIME_OUT_WKUP ≠ 0)
    (hTs : ∀ m w, B.wrv ⟨Block.pmu, D.RV1103B_PMU1_WAKEUP_TIMEOUT⟩ m w = w)
    (hIs : ∀ m w, B.wrv ⟨Block.pmu, D.RV1103B_PMU1_WAKEUP_INT_CON⟩ m w = w)
    (hT : D.RV1103B_PMU_WAKEUP_TIMEOUT < 32)
    (hoff : D.RV1103B_PMU1_WAKEUP_TIMEOUT ∉ pmuWriteOffsets D R P)
    (h1 : D.RV1103B_PMU1_WAKEUP_INT_CON ≠ R.RV1103B_PMU1_PWR_CON)
    (h2 : D.RV1103B_PMU1_WAKEUP_INT_CON ≠ R.RV1103B_PMU0_PWR_CON) :
    (pmu_sleep_config_regs B D R P slp_cfg ddr_data s).2.mem
        ⟨Block.pmu, D.RV1103B_PMU1_WAKEUP_TIMEOUT⟩
      = (if slp_cfg.mode_config &&& D.RKPM_SLP_PMU_PMUALIVE_32K ≠ 0 then 32000 else 24000000) ∧
    (pmu_sleep_config_regs B D R P slp_cfg ddr_data s).2.mem
        ⟨Block.pmu, D.RV1103B_PMU1_WAKEUP_INT_CON⟩ < 2 ^ 32 ∧
    ((pmu_sleep_config_regs B D R P slp_cfg ddr_data s).2.mem
        ⟨Block.pmu, D.RV1103B_PMU1_WAKEUP_INT_CON⟩).testBit D.RV1103B_PMU_WAKEUP_TIMEOUT = true ∧
    (pmu_sleep_config_regs B D R P slp_cfg ddr_data s).1.entered_pmu_fsm
      = ddr_data.entered_pmu_fsm := by
  have hi := pmu_sleep_config_init_timeout B D R P slp_cfg ddr_data s hTO hTs
  refine ⟨?_, ?_, ?_, hi.2.2⟩
  · simp only [pmu_sleep_config_regs]
    rw [pmu_os_reg_config_mem_pmu, pmu_sleep_config_write_mem_other _ _ _ _ _ _ hoff,
      pmu_lp_pr_config_mem_pmu, pmu_mode_config_mem_pmu]
    exact hi.1
  · simp only [pmu_sleep_config_regs]
    rw [pmu_os_reg_config_mem_pmu, pmu_sleep_config_write_mem_int_con _ _ _ _ _ hIs h1 h2]
    exact Nat.mod_lt _ (by norm_num)
  · simp only [pmu_sleep_config_regs]
    rw [pmu_os_reg_config_mem_pmu, pmu_sleep_config_write_mem_int_con _ _ _ _ _ hIs h1 h2,
      Nat.testBit_mod_two_pow, (pmu_lp_pr_config_vars _ _ _ _ _).1,
      (pmu_mode_config_vars _ _ _ _ _ _).1, hi.2.1]
    simp [hT]

/-- C27: with `RKPM_SLP_TIME_OUT_WKUP` set in `mode_config` and
`entered_pmu_fsm == 0`, on hardware where `PMU1_WAKEUP_TIMEOUT` and
`PMU1_WAKEUP_INT_CON` read back the value written to them (and share their
offset with no other register that `pmu_sleep_config()` writes later),
`pmu_sleep_config()` ends with the call
`rk_hptimer_v2_config_sleep_timeout_int(hptimer_base, 24000000)`, whether or
not `RKPM_SLP_PMU_PMUALIVE_32K` is set, and the value left in
`PMU1_WAKEUP_INT_CON` has the generic-timeout bit clear and the HPTimer-wakeup
bit set. -/
theorem pmu_sleep_config_timeout_delta (B : Board) (D : Defs) (R : RegDefs) (P : CfgDefs)
    (fuel : Nat) (slp_cfg : rk_sleep_config) (ddr_data : rv1103b_sleep_ddr_data) (s : Hw)
    (hTO : slp_cfg.mode_config &&& P.RKPM_SLP_TIME_OUT_WKUP ≠ 0)
    (hent : ddr_data.entered_pmu_fsm = 0)
    (hTs : ∀ m w, B.wrv ⟨Block.pmu, D.RV1103B_PMU1_WAKEUP_TIMEOUT⟩ m w = w)
    (hTr : ∀ t m, B.rdv ⟨Block.pmu, D.RV1103B_PMU1_WAKEUP_TIMEOUT⟩ t m = m)
    (hIs : ∀ m w, B.wrv ⟨Block.pmu, D.RV1103B_PMU1_WAKEUP_INT_CON⟩ m w = w)
    (hIr : ∀ t m, B.rdv ⟨Block.pmu, D.RV1103B_PMU1_WAKEUP_INT_CON⟩ t m = m)
    (hT : D.RV1103B_PMU_WAKEUP_TIMEOUT < 32) (hH : D.RV1103B_PMU_WAKEUP_HPTIMER < 32)
    (hTH : D.RV1103B_PMU_WAKEUP_TIMEOUT ≠ D.RV1103B_PMU_WAKEUP_HPTIMER)
    (hoff : D.RV1103B_PMU1_WAKEUP_TIMEOUT ∉ pmuWriteOffsets D R P)
    (h1 : D.RV1103B_PMU1_WAKEUP_INT_CON ≠ R.RV1103B_PMU1_PWR_CON)
    (h2 : D.RV1103B_PMU1_WAKEUP_INT_CON ≠ R.RV1103B_PMU0_PWR_CON) :
    pmu_sleep_config B D R P fuel slp_cfg ddr_data s
        = (rk_hptimer_v2_config_sleep_timeout_int B Block.hptimer fuel 24000000
            (afterWkupSwap B D (pmu_sleep_config_regs B D R P slp_cfg ddr_data s).2)).map
          (fun s1 => ((pmu_sleep_config_regs B D R P slp_cfg ddr_data s).1, s1)) ∧
      ∀ r, pmu_sleep_config B D R P fuel slp_cfg ddr_data s = some r →
        (r.2.mem ⟨Block.pmu, D.RV1103B_PMU1_WAKEUP_INT_CON⟩).testBit
            D.RV1103B_PMU_WAKEUP_TIMEOUT = false ∧
          (r.2.mem ⟨Block.pmu, D.RV1103B_PMU1_WAKEUP_INT_CON⟩).testBit
            D.RV1103B_PMU_WAKEUP_HPTIMER = true := by
  obtain ⟨fT, fI, fB, fE⟩ :=
    pmu_sleep_config_regs_facts B D R P slp_cfg ddr_data s hTO hTs hIs hT hoff h1 h2
  have hne : D.RV1103B_PMU1_WAKEUP_TIMEOUT ≠ D.RV1103B_PMU1_WAKEUP_INT_CON := by
    intro h
    apply hoff
    rw [h]
    simp [pmuWriteOffsets]
  have hrd : (readl B ⟨Block.pmu, D.RV1103B_PMU1_WAKEUP_INT_CON⟩
      (pmu_sleep_config_regs B D R P slp_cfg ddr_data s).2).1
      = (pmu_sleep_config_regs B D R P slp_cfg ddr_data s).2.mem
          ⟨Block.pmu, D.RV1103B_PMU1_WAKEUP_INT_CON⟩ := by
    rw [readl_val, hIr, Nat.mod_eq_of_lt fI]
  have hbit : (readl B ⟨Block.pmu, D.RV1103B_PMU1_WAKEUP_INT_CON⟩
      (pmu_sleep_config_regs B D R P slp_cfg ddr_data s).2).1
        &&& BIT D.RV1103B_PMU_WAKEUP_TIMEOUT ≠ 0 := by
    rw [hrd]
    exact and_BIT_ne_zero _ _ fB
  have hdelta : wkup_delta_cnt D slp_cfg
      (readl B ⟨Block.pmu, D.RV1103B_PMU1_WAKEUP_TIMEOUT⟩
        (writel B (wkup_swap D (readl B ⟨Block.pmu, D.RV1103B_PMU1_WAKEUP_INT_CON⟩
            (pmu_sleep_config_regs B D R P slp_cfg ddr_data s).2).1)
          ⟨Block.pmu, D.RV1103B_PMU1_WAKEUP_INT_CON⟩
          (readl B ⟨Block.pmu, D.RV1103B_PMU1_WAKEUP_INT_CON⟩
            (pmu_sleep_config_regs B D R P slp_cfg ddr_data s).2).2)).1 = 24000000 := by
    rw [readl_val, hTr, writel_mem_other _ _ _ _ _ (by simp [hne]), readl_mem, fT]
    unfold wkup_delta_cnt
    split_ifs <;> rfl
  have heq : pmu_sleep_config B D R P fuel slp_cfg ddr_data s
        = (rk_hptimer_v2_config_sleep_timeout_int B Block.hptimer fuel 24000000
            (afterWkupSwap B D (pmu_sleep_config_regs B D R P slp_cfg ddr_data s).2)).map
          (fun s1 => ((pmu_sleep_config_regs B D R P slp_cfg ddr_data s).1, s1)) := by
    simp only [pmu_sleep_config, suspend_workaround_timeout_wkup, fE, hent, ne_eq,
      not_true_eq_false, if_false, hbit, hdelta, afterWkupSwap]
    cases rk_hptimer_v2_config_sleep_timeout_int B Block.hptimer fuel 24000000 _ <;> rfl
  refine ⟨heq, ?_⟩
  intro r hr
  rw [heq] at hr
  cases hc : rk_hptimer_v2_config_sleep_timeout_int B Block.hptimer fuel 24000000
      (afterWkupSwap B D (pmu_sleep_config_regs B D R P slp_cfg ddr_data s).2) with
  | none => rw [hc] at hr; cases hr
  | some s1 =>
    rw [hc] at hr
    simp only [Option.map_some', Option.some.injEq] at hr
    subst hr
    have hm := config_sleep_timeout_int_mem_other B Block.hptimer fuel 24000000 _ s1 hc
      ⟨Block.pmu, D.RV1103B_PMU1_WAKEUP_INT_CON⟩ (by simp)
    have hsw := wkup_swap_bits D _ fI hT hH hTH
    simp only [hm, afterWkupSwap, readl_mem, writel_mem_same, hIs, hrd,
      Nat.mod_eq_of_lt hsw.1]
    exact ⟨hsw.2.1, hsw.2.2.1⟩

/-- The theorem at the sleep configuration with `RKPM_SLP_TIME_OUT_WKUP` and
`RKPM_SLP_PMU_PMUALIVE_32K` set on a board whose registers are plain storage:
`pmu_sleep_config` returns and the two load registers of the HPTimer receive
the words of 24,000,000. -/
theorem pmu_sleep_config_timeout_delta_witness :
    ((pmu_sleep_config (regfileBoard (fun _ => false)) exampleDefs exampleRegDefs exampleCfgDefs 1
        (exampleCfg 0x1200) bootDdrData bootHw).map
        (fun r => (writesOf (r.2.log)).filter (fun w => decide (w.1.base = Block.hptimer))))
      = some [(⟨Block.hptimer, TIMER_HP_LOAD_32K_COUNT0⟩, 24000000),
              (⟨Block.hptimer, TIMER_HP_LOAD_32K_COUNT1⟩, 0),
              (⟨Block.hptimer, TIMER_HP_INT_EN⟩, 8)] :=
  (congrArg (Option.map
      (fun r => (writesOf (r.2.log)).filter (fun w => decide (w.1.base = Block.hptimer))))
    (pmu_sleep_config_timeout_delta (regfileBoard (fun _ => false)) exampleDefs exampleRegDefs
      exampleCfgDefs 1 (exampleCfg 0x1200) bootDdrData bootHw (by decide) rfl
      (fun _ _ => rfl) (fun _ _ => rfl) (fun _ _ => rfl) (fun _ _ => rfl) (by decide)
      (by decide) (by decide) (by decide) (by decide) (by decide)).1).trans (by decide)

/-! ### C28: the power mode programmed by `pmu_sleep_config` -/

theorem pd_pmu1_regs_in_trace (D : Defs) (config : Option rk_sleep_config)
    (slp_cfg : rk_sleep_config) (hpmode : Nat)
    (h : (config.getD slp_cfg).mode_config &&& D.RKPM_SLP_ARMOFF_PMUOFF ≠ 0) :
    Call.pd_pmu1_regs_save ∈ phasesBeforeWfi (rv1103b_suspend_enter D config slp_cfg hpmode).calls ∧
      Call.pd_pmu1_regs_restore ∈
        phasesAfterWfi (rv1103b_suspend_enter D config slp_cfg hpmode).calls := by
  cases config with
  | none =>
    simp only [Option.getD] at h
    have hor := and_or_ne_zero slp_cfg.mode_config D.RKPM_SLP_ARMOFF_LOGOFF
      D.RKPM_SLP_ARMOFF_PMUOFF
    unfold rv1103b_suspend_enter
    simp only []
    split_ifs <;> decide
  | some c =>
    simp only [Option.getD] at h
    have hor := and_or_ne_zero c.mode_config D.RKPM_SLP_ARMOFF_LOGOFF D.RKPM_SLP_ARMOFF_PMUOFF
    unfold rv1103b_suspend_enter
    simp only []
    split_ifs <;> decide

/-! ### Diagnostics sent through the debug UART -/

/-- Whenever the wait of `uart_wrtie_byte` ends, it has made reads of the status
register and nothing else. -/
theorem uart_wait_some (B : Board) :
    ∀ fuel s s1, uart_wait B fuel s = some s1 →
      ∃ n, s1 = afterReads B ⟨Block.uartdbg, 0x14⟩ n s := by
  intro fuel
  induction fuel with
  | zero => intro s s1 h; simp [uart_wait] at h
  | succ f ih =>
    intro s s1 h
    have hr : readl B ⟨Block.uartdbg, 0x14⟩ s
        = (pollVal B ⟨Block.uartdbg, 0x14⟩ s 0, afterReads B ⟨Block.uartdbg, 0x14⟩ 1 s) := by
      have h := readl_afterReads B ⟨Block.uartdbg, 0x14⟩ 0 s
      rwa [afterReads_zero] at h
    rw [uart_wait, hr] at h
    dsimp only at h
    split_ifs at h with h0
    · obtain ⟨n, hn⟩ := ih _ _ h
      refine ⟨n + 1, ?_⟩
      rw [hn]
      simp only [afterReads, pollVal, List.range_succ_eq_map, List.map_cons, List.map_map,
        List.range_zero, List.map_nil, List.append_assoc, List.cons_append, List.nil_append,
        Nat.add_zero]
      refine congrArg₂ (fun t l => ({ mem := s.mem, time := t, log := s.log ++ l } : Hw))
        (by omega) ?_
      congr 1
      apply List.map_congr_left
      intro j _
      simp only [Function.comp, Nat.add_assoc, Nat.add_comm 1 j]
    · exact ⟨1, (Option.some.inj h).symm⟩

/-- What a run of `rkpm_printch` calls leaves behind, whenever it returns: every
register other than the transmit register of the debug UART holds what it held,
and the writes made are those of the bytes, in order. -/
theorem rkpm_printchs_some (B : Board) (fuel : Nat) :
    ∀ (cs : List Int) (s s1 : Hw), rkpm_printchs B fuel cs s = some s1 →
      (∀ a, a ≠ (⟨Block.uartdbg, 0x0⟩ : Addr) → s1.mem a = s.mem a) ∧
      ∃ l, s1.log = s.log ++ l ∧ writesOf l = uartWrites cs := by
  have hbyte : ∀ (byte : Int) (s s1 : Hw), uart_wrtie_byte B fuel byte s = some s1 →
      (∀ a, a ≠ (⟨Block.uartdbg, 0x0⟩ : Addr) → s1.mem a = s.mem a) ∧
      ∃ l, s1.log = s.log ++ l ∧ writesOf l = [(⟨Block.uartdbg, 0x0⟩, (byte % 256).toNat)] := by
    intro byte s s1 h
    obtain ⟨n, hn⟩ := uart_wait_some B fuel _ _ h
    have hlt : (byte % 256).toNat % 2 ^ 32 = (byte % 256).toNat := by
      have h1 : byte % 256 < 256 := Int.emod_lt_of_pos _ (by norm_num)
      have h2 : 0 ≤ byte % 256 := Int.emod_nonneg _ (by norm_num)
      apply Nat.mod_eq_of_lt
      omega
    subst hn
    refine ⟨fun a ha => ?_, ?_⟩
    · simp only [afterReads]
      exact writel_mem_other B _ _ a s ha
    · refine ⟨[Ev.wr ⟨Block.uartdbg, 0x0⟩ ((byte % 256).toNat % 2 ^ 32)]
        ++ (List.range n).map (fun j => Ev.rd ⟨Block.uartdbg, 0x14⟩
          (pollVal B ⟨Block.uartdbg, 0x14⟩ (writel B (byte % 256).toNat ⟨Block.uartdbg, 0x0⟩ s) j)),
        ?_, ?_⟩
      · simp [afterReads]
      · rw [writesOf_append, writesOf_map_rd, hlt]
        rfl
  have hch : ∀ (c : Int) (s s1 : Hw), rkpm_printch B fuel c s = some s1 →
      (∀ a, a ≠ (⟨Block.uartdbg, 0x0⟩ : Addr) → s1.mem a = s.mem a) ∧
      ∃ l, s1.log = s.log ++ l ∧ writesOf l = uartWrites [c] := by
    intro c s s1 h
    unfold rkpm_printch at h
    split_ifs at h with hc
    · cases h13 : uart_wrtie_byte B fuel 13 s with
      | none => rw [h13] at h; cases h
      | some s0 =>
        rw [h13] at h
        dsimp only at h
        obtain ⟨m1, l1, hl1, hw1⟩ := hbyte 13 s s0 h13
        obtain ⟨m2, l2, hl2, hw2⟩ := hbyte c s0 s1 h
        refine ⟨fun a ha => (m2 a ha).trans (m1 a ha), l1 ++ l2, ?_, ?_⟩
        · rw [hl2, hl1, List.append_assoc]
        · rw [writesOf_append, hw1, hw2, hc]
          rfl
    · obtain ⟨m1, l1, hl1, hw1⟩ := hbyte c s s1 h
      refine ⟨m1, l1, hl1, ?_⟩
      rw [hw1]
      simp [uartWrites, uartBytes, hc]
  intro cs
  induction cs with
  | nil =>
    intro s s1 h
    simp only [rkpm_printchs, Option.some.injEq] at h
    subst h
    exact ⟨fun _ _ => rfl, [], by simp, rfl⟩
  | cons c cs ih =>
    intro s s1 h
    rw [rkpm_printchs] at h
    cases hc : rkpm_printch B fuel c s with
    | none => rw [hc] at h; cases h
    | some s0 =>
      rw [hc] at h
      simp only [Option.some_bind] at h
      obtain ⟨m1, l1, hl1, hw1⟩ := hch c s s0 hc
      obtain ⟨m2, l2, hl2, hw2⟩ := ih s0 s1 h
      refine ⟨fun a ha => (m2 a ha).trans (m1 a ha), l1 ++ l2, ?_, ?_⟩
      · rw [hl2, hl1, List.append_assoc]
      · rw [writesOf_append, hw1, hw2]
        simp [uartWrites, uartBytes]

theorem rkpm_printch_eq_printchs (B : Board) (fuel : Nat) (c : Int) (s : Hw) :
    rkpm_printch B fuel c s = rkpm_printchs B fuel [c] s := by
  simp only [rkpm_printchs]
  cases rkpm_printch B fuel c s <;> rfl

theorem rkpm_printchs_append (B : Board) (fuel : Nat) :
    ∀ (cs ds : List Int) (s : Hw),
      rkpm_printchs B fuel (cs ++ ds) s
        = (rkpm_printchs B fuel cs s).bind (rkpm_printchs B fuel ds) := by
  intro cs
  induction cs with
  | nil => intro ds s; rfl
  | cons c cs ih =>
    intro ds s
    simp only [List.cons_append, rkpm_printchs]
    cases rkpm_printch B fuel c s with
    | none => rfl
    | some s0 =>
      simp only [Option.some_bind]
      exact ih ds s0

/-- Sequencing of two steps that return with enough fuel. -/
theorem returns_bind {α β : Type} (f : Nat → Option α) (g : Nat → α → Option β)
    (hf : ∃ f0 a, ∀ n, f0 ≤ n → f n = some a)
    (hg : ∀ a, ∃ g0 b, ∀ n, g0 ≤ n → g n a = some b) :
    ∃ n0 b, ∀ n, n0 ≤ n → (f n).bind (g n) = some b := by
  obtain ⟨f0, a, hfa⟩ := hf
  obtain ⟨g0, b, hgb⟩ := hg a
  refine ⟨max f0 g0, b, fun n hn => ?_⟩
  rw [hfa n (le_trans (le_max_left _ _) hn), Option.some_bind,
    hgb n (le_trans (le_max_right _ _) hn)]

/-- On hardware whose transmitter is found empty after finitely many polls,
whatever the state, `rkpm_printch` returns with enough fuel. -/
theorem rkpm_printch_returns (B : Board)
    (hhw : ∀ t : Hw, ∃ k, pollVal B ⟨Block.uartdbg, 0x14⟩ t k &&& 0x40 ≠ 0)
    (c : Int) (s : Hw) :
    ∃ fuel0 s1, ∀ fuel, fuel0 ≤ fuel → rkpm_printch B fuel c s = some s1 := by
  by_cases hc : c = 10
  · obtain ⟨f1, s1, _, hr1, _, _⟩ := uart_wrtie_byte_returns B 13 s hhw
    obtain ⟨f2, s2, _, hr2, _, _⟩ := uart_wrtie_byte_returns B c s1 hhw
    refine ⟨max f1 f2, s2, fun fuel hfuel => ?_⟩
    rw [rkpm_printch, if_pos hc, hr1 fuel (le_trans (le_max_left _ _) hfuel)]
    exact hr2 fuel (le_trans (le_max_right _ _) hfuel)
  · obtain ⟨f1, s1, _, hr1, _, _⟩ := uart_wrtie_byte_returns B c s hhw
    refine ⟨f1, s1, fun fuel hfuel => ?_⟩
    rw [rkpm_printch, if_neg hc]
    exact hr1 fuel hfuel

/-- On such hardware a run of `rkpm_printch` calls returns with enough fuel. -/
theorem rkpm_printchs_returns (B : Board)
    (hhw : ∀ t : Hw, ∃ k, pollVal B ⟨Block.uartdbg, 0x14⟩ t k &&& 0x40 ≠ 0) :
    ∀ (cs : List Int) (s : Hw),
      ∃ fuel0 s1, ∀ fuel, fuel0 ≤ fuel → rkpm_printchs B fuel cs s = some s1 := by
  intro cs
  induction cs with
  | nil => intro s; exact ⟨0, s, fun _ _ => rfl⟩
  | cons c cs ih =>
    intro s
    exact returns_bind (fun n => rkpm_printch B n c s) (fun n => rkpm_printchs B n cs)
      (rkpm_printch_returns B hhw c s) (fun a => ih a)

/-! ### C10: `rk_hptimer_v2_wait_sync` and its diagnostic -/

theorem uartWrites_append (cs ds : List Int) :
    uartWrites (cs ++ ds) = uartWrites cs ++ uartWrites ds := by
  simp [uartWrites, uartBytes]

/-- When a poll within the budget sees the interrupt, the wait prints nothing. -/
theorem wait_int_st_uart_hit (B : Board) (F : PrintFmt) (fuel : Nat) (base : Block)
    (id w : Nat) (s : Hw) (k : Nat) (hw : w < 2 ^ 64) (hk : k < w)
    (hmiss : ∀ j, j < k → pollVal B ⟨base, TIMER_HP_INTR_STATUS⟩ s j &&& BIT id = 0)
    (hhit : pollVal B ⟨base, TIMER_HP_INTR_STATUS⟩ s k &&& BIT id ≠ 0) :
    rk_hptimer_wait_int_st_uart B F fuel base id w s
      = some (0, afterReads B ⟨base, TIMER_HP_INTR_STATUS⟩ (k + 1) s) := by
  have h := poll_while_hit B ⟨base, TIMER_HP_INTR_STATUS⟩ (fun v => v &&& BIT id == 0) s k 0 w
    hw hk (fun j hj => by simpa using hmiss j hj) (by simpa using hhit)
  rw [afterReads_zero, Nat.zero_add] at h
  have hne : w - k ≠ 0 := by
    clear hw
    omega
  simp [rk_hptimer_wait_int_st_uart, h, hne]

/-- When no poll of the budget sees the interrupt, the wait goes on with the
diagnostic, sent through the debug UART. -/
theorem wait_int_st_uart_timeout (B : Board) (F : PrintFmt) (fuel : Nat) (base : Block)
    (id n : Nat) (s : Hw) (hw : n + 1 < 2 ^ 64)
    (hmiss : ∀ j, j < n + 1 → pollVal B ⟨base, TIMER_HP_INTR_STATUS⟩ s j &&& BIT id = 0) :
    rk_hptimer_wait_int_st_uart B F fuel base id (n + 1) s
      = ((rkpm_printstr B fuel "can't wait hptimer int:"
            (afterReads B ⟨base, TIMER_HP_INTR_STATUS⟩ (n + 1) s)).bind fun s1 =>
          (rkpm_printdec B F fuel id s1).bind fun s2 =>
          (rkpm_printch B fuel (charCode '-') s2).bind fun s3 =>
          (rkpm_printhex B F fuel (readl B ⟨base, TIMER_HP_INTR_STATUS⟩ s3).1
            (readl B ⟨base, TIMER_HP_INTR_STATUS⟩ s3).2).bind fun s5 =>
          (rkpm_printch B fuel (charCode '\n') s5).bind fun s6 =>
          some (-1, s6)) := by
  have h := poll_while_timeout B ⟨base, TIMER_HP_INTR_STATUS⟩ (fun v => v &&& BIT id == 0) s n 0
    hw (fun j hj => by simpa using hmiss j hj)
  rw [afterReads_zero, Nat.zero_add] at h
  simp only [rk_hptimer_wait_int_st_uart, h, if_true]

/-- What the diagnostic of `rk_hptimer_wait_int_st` leaves behind, whenever it
returns. -/
theorem wait_int_st_diag_some (B : Board) (F : PrintFmt) (fuel : Nat) (base : Block)
    (id : Nat) (s0 : Hw) (r : Int × Hw)
    (h : ((rkpm_printstr B fuel "can't wait hptimer int:" s0).bind fun s1 =>
          (rkpm_printdec B F fuel id s1).bind fun s2 =>
          (rkpm_printch B fuel (charCode '-') s2).bind fun s3 =>
          (rkpm_printhex B F fuel (readl B ⟨base, TIMER_HP_INTR_STATUS⟩ s3).1
            (readl B ⟨base, TIMER_HP_INTR_STATUS⟩ s3).2).bind fun s5 =>
          (rkpm_printch B fuel (charCode '\n') s5).bind fun s6 =>
          some ((-1 : Int), s6)) = some r) :
    r.1 = -1 ∧
    (∀ a, a ≠ (⟨Block.uartdbg, 0x0⟩ : Addr) → r.2.mem a = s0.mem a) ∧
    ∃ l1 v l2, r.2.log = s0.log ++ l1 ++ [Ev.rd ⟨base, TIMER_HP_INTR_STATUS⟩ v] ++ l2 ∧
      writesOf l1
        = uartWrites ("can't wait hptimer int:".toList.map charCode ++ F.dec id
            ++ [charCode '-']) ∧
      writesOf l2 = uartWrites (F.hex v ++ [charCode '\n']) ∧
      ∃ s3, v = (readl B ⟨base, TIMER_HP_INTR_STATUS⟩ s3).1 := by
  simp only [Option.bind_eq_some] at h
  obtain ⟨s1, h1, s2, h2, s3, h3, s5, h5, s6, h6, hr⟩ := h
  rw [rkpm_printch_eq_printchs] at h3 h6
  obtain ⟨m1, l1, hl1, hw1⟩ := rkpm_printchs_some B fuel _ _ _ h1
  obtain ⟨m2, l2, hl2, hw2⟩ := rkpm_printchs_some B fuel _ _ _ h2
  obtain ⟨m3, l3, hl3, hw3⟩ := rkpm_printchs_some B fuel _ _ _ h3
  obtain ⟨m5, l5, hl5, hw5⟩ := rkpm_printchs_some B fuel _ _ _ h5
  obtain ⟨m6, l6, hl6, hw6⟩ := rkpm_printchs_some B fuel _ _ _ h6
  simp only [Option.some.injEq] at hr
  subst hr
  refine ⟨rfl, fun a ha => ?_, l1 ++ l2 ++ l3, (readl B ⟨base, TIMER_HP_INTR_STATUS⟩ s3).1,
    l5 ++ l6, ?_, ?_, ?_, s3, rfl⟩
  · rw [m6 a ha, m5 a ha, readl_mem, m3 a ha, m2 a ha, m1 a ha]
  · simp only [hl6, hl5, readl_log, hl3, hl2, hl1, List.append_assoc, List.cons_append,
      List.nil_append]
  · rw [writesOf_append, writesOf_append, hw1, hw2, hw3, uartWrites_append, uartWrites_append]
  · rw [writesOf_append, hw5, hw6, uartWrites_append]

/-- On hardware whose transmitter is found empty after finitely many polls, the
diagnostic of `rk_hptimer_wait_int_st` returns with enough fuel. -/
theorem wait_int_st_diag_returns (B : Board) (F : PrintFmt) (base : Block) (id : Nat)
    (hhw : ∀ t : Hw, ∃ k, pollVal B ⟨Block.uartdbg, 0x14⟩ t k &&& 0x40 ≠ 0) (s0 : Hw) :
    ∃ fuel0 r, ∀ fuel, fuel0 ≤ fuel →
      ((rkpm_printstr B fuel "can't wait hptimer int:" s0).bind fun s1 =>
        (rkpm_printdec B F fuel id s1).bind fun s2 =>
        (rkpm_printch B fuel (charCode '-') s2).bind fun s3 =>
        (rkpm_printhex B F fuel (readl B ⟨base, TIMER_HP_INTR_STATUS⟩ s3).1
          (readl B ⟨base, TIMER_HP_INTR_STATUS⟩ s3).2).bind fun s5 =>
        (rkpm_printch B fuel (charCode '\n') s5).bind fun s6 =>
        some ((-1 : Int), s6)) = some r := by
  refine returns_bind (fun n => rkpm_printstr B n "can't wait hptimer int:" s0) _
    (rkpm_printchs_returns B hhw _ s0) (fun s1 => ?_)
  refine returns_bind (fun n => rkpm_printdec B F n id s1) _
    (rkpm_printchs_returns B hhw _ s1) (fun s2 => ?_)
  refine returns_bind (fun n => rkpm_printch B n (charCode '-') s2) _
    (rkpm_printch_returns B hhw _ s2) (fun s3 => ?_)
  refine returns_bind (fun n => rkpm_printhex B F n (readl B ⟨base, TIMER_HP_INTR_STATUS⟩ s3).1
      (readl B ⟨base, TIMER_HP_INTR_STATUS⟩ s3).2) _
    (rkpm_printchs_returns B hhw _ _) (fun s5 => ?_)
  refine returns_bind (fun n => rkpm_printch B n (charCode '\n') s5) _
    (rkpm_printch_returns B hhw _ s5) (fun s6 => ?_)
  exact ⟨0, _, fun _ _ => rfl⟩

theorem wait_sync_uart_hit (B : Board) (F : PrintFmt) (fuel : Nat) (base : Block) (s : Hw)
    (k : Nat) (hk : k < 1000000)
    (hmiss : ∀ j, j < k → pollVal B ⟨base, TIMER_HP_INTR_STATUS⟩ s j &&& 4 = 0)
    (hhit : pollVal B ⟨base, TIMER_HP_INTR_STATUS⟩ s k &&& 4 ≠ 0) :
    rk_hptimer_v2_wait_sync_uart B F fuel base s
      = some (0, writel B 4 ⟨base, TIMER_HP_INTR_STATUS⟩
              (afterReads B ⟨base, TIMER_HP_INTR_STATUS⟩ (k + 1) s)) := by
  have h := wait_int_st_uart_hit B F fuel base RK_HPTIMER_V2_INT_SYNC HPTIMER_WAIT_MAX_US s k
    (by norm_num [HPTIMER_WAIT_MAX_US]) (by simpa [HPTIMER_WAIT_MAX_US] using hk)
    (by simpa [BIT, RK_HPTIMER_V2_INT_SYNC] using hmiss)
    (by simpa [BIT, RK_HPTIMER_V2_INT_SYNC] using hhit)
  rw [rk_hptimer_v2_wait_sync_uart, h]
  simp [rk_hptimer_v2_clear_int_st, BIT, RK_HPTIMER_V2_INT_SYNC]

theorem wait_sync_uart_timeout (B : Board) (F : PrintFmt) (fuel : Nat) (base : Block) (s : Hw)
    (hmiss : ∀ j, j < 1000000 → pollVal B ⟨base, TIMER_HP_INTR_STATUS⟩ s j &&& 4 = 0) :
    rk_hptimer_v2_wait_sync_uart B F fuel base s
      = ((rkpm_printstr B fuel "can't wait hptimer int:"
            (afterReads B ⟨base, TIMER_HP_INTR_STATUS⟩ 1000000 s)).bind fun s1 =>
          (rkpm_printdec B F fuel 2 s1).bind fun s2 =>
          (rkpm_printch B fuel (charCode '-') s2).bind fun s3 =>
          (rkpm_printhex B F fuel (readl B ⟨base, TIMER_HP_INTR_STATUS⟩ s3).1
            (readl B ⟨base, TIMER_HP_INTR_STATUS⟩ s3).2).bind fun s5 =>
          (rkpm_printch B fuel (charCode '\n') s5).bind fun s6 =>
          some (-1, s6)) := by
  have h := wait_int_st_uart_timeout B F fuel base RK_HPTIMER_V2_INT_SYNC 999999 s (by norm_num)
    (by simpa [BIT, RK_HPTIMER_V2_INT_SYNC] using hmiss)
  have e : HPTIMER_WAIT_MAX_US = 999999 + 1 := rfl
  have e2 : RK_HPTIMER_V2_INT_SYNC = 2 := rfl
  rw [rk_hptimer_v2_wait_sync_uart, e, h, e2]
  cases hd : ((rkpm_printstr B fuel "can't wait hptimer int:"
            (afterReads B ⟨base, TIMER_HP_INTR_STATUS⟩ (999999 + 1) s)).bind fun s1 =>
          (rkpm_printdec B F fuel 2 s1).bind fun s2 =>
          (rkpm_printch B fuel (charCode '-') s2).bind fun s3 =>
          (rkpm_printhex B F fuel (readl B ⟨base, TIMER_HP_INTR_STATUS⟩ s3).1
            (readl B ⟨base, TIMER_HP_INTR_STATUS⟩ s3).2).bind fun s5 =>
          (rkpm_printch B fuel (charCode '\n') s5).bind fun s6 =>
          some ((-1 : Int), s6)) with
  | none => rfl
  | some r =>
    have h1 := (wait_int_st_diag_some B F fuel base 2 _ r hd).1
    obtain ⟨r1, r2⟩ := r
    simp only at h1
    subst h1
    rfl

/-- What `rk_hptimer_v2_wait_sync` has done when it returns after a wait in
which no poll saw the sync bit. -/
theorem wait_sync_uart_timeout_some (B : Board) (F : PrintFmt) (base : Block) (s : Hw)
    (hmiss : ∀ k, k < 1000000 → pollVal B ⟨base, TIMER_HP_INTR_STATUS⟩ s k &&& 4 = 0)
    (fuel : Nat) (r : Int × Hw)
    (hr : rk_hptimer_v2_wait_sync_uart B F fuel base s = some r) :
    r.1 = -1 ∧
    (∀ a, a ≠ (⟨Block.uartdbg, 0x0⟩ : Addr) → r.2.mem a = s.mem a) ∧
    ∃ l1 v l2,
      r.2.log = s.log
        ++ (List.range 1000000).map
            (fun j => Ev.rd ⟨base, TIMER_HP_INTR_STATUS⟩
              (pollVal B ⟨base, TIMER_HP_INTR_STATUS⟩ s j))
        ++ l1 ++ [Ev.rd ⟨base, TIMER_HP_INTR_STATUS⟩ v] ++ l2 ∧
      writesOf l1
        = uartWrites ("can't wait hptimer int:".toList.map charCode ++ F.dec 2
            ++ [charCode '-']) ∧
      writesOf l2 = uartWrites (F.hex v ++ [charCode '\n']) ∧
      writesOf (logSince s r.2)
        = uartWrites ("can't wait hptimer int:".toList.map charCode ++ F.dec 2
            ++ [charCode '-'] ++ F.hex v ++ [charCode '\n']) ∧
      ∃ s3, v = (readl B ⟨base, TIMER_HP_INTR_STATUS⟩ s3).1 := by
  rw [wait_sync_uart_timeout B F fuel base s hmiss] at hr
  obtain ⟨h1, hm, l1, v, l2, hl, hw1, hw2, hv⟩ := wait_int_st_diag_some B F fuel base 2 _ r hr
  refine ⟨h1, fun a ha => hm a ha, l1, v, l2, ?_, hw1, hw2, ?_, hv⟩
  · rw [hl]
    rfl
  · have hl2 : r.2.log = s.log ++ ((List.range 1000000).map
          (fun j => Ev.rd ⟨base, TIMER_HP_INTR_STATUS⟩
            (pollVal B ⟨base, TIMER_HP_INTR_STATUS⟩ s j))
        ++ (l1 ++ ([Ev.rd ⟨base, TIMER_HP_INTR_STATUS⟩ v] ++ l2))) := by
      rw [hl]
      simp only [afterReads, List.append_assoc]
    rw [logSince_of_append _ _ _ hl2, writesOf_append, writesOf_map_rd, writesOf_append,
      writesOf_append, hw1, hw2]
    simp only [uartWrites_append, writesOf, List.nil_append, List.append_assoc]

/-- C10, amended: `rk_hptimer_v2_wait_sync` returns 0, after writing only the
sync bit (`BIT(2) = 4`) to `INTR_STATUS`, if and only if one of its first
1,000,000 polls of `INTR_STATUS` sees bit 2 set; the accesses are then the polls
up to the first such one and that write, and nothing is printed.  Otherwise,
after exactly 1,000,000 polls, it sends its diagnostic through the debug UART:
the characters of `"can't wait hptimer int:"`, of the decimal `2` and `-`, then
one more read of `INTR_STATUS` and the characters of its value and a line feed.
Whenever it returns from there the result is -1, the writes made are exactly
those of the bytes to the transmit register of the UART, and every other
register holds what it held: no register of the timer is written.  On hardware
whose UART transmitter is found empty after finitely many polls it does return,
with enough fuel for the waits of `uart_wrtie_byte`. -/
theorem rk_hptimer_v2_wait_sync_uart_spec (B : Board) (F : PrintFmt) (base : Block) (s : Hw) :
    (∀ k, k < 1000000 →
      (∀ j, j < k → pollVal B ⟨base, TIMER_HP_INTR_STATUS⟩ s j &&& 4 = 0) →
      pollVal B ⟨base, TIMER_HP_INTR_STATUS⟩ s k &&& 4 ≠ 0 →
      ∀ fuel, rk_hptimer_v2_wait_sync_uart B F fuel base s
        = some (0, writel B 4 ⟨base, TIMER_HP_INTR_STATUS⟩
                (afterReads B ⟨base, TIMER_HP_INTR_STATUS⟩ (k + 1) s))) ∧
    (∀ fuel r, rk_hptimer_v2_wait_sync_uart B F fuel base s = some r →
      (r.1 = 0 ↔ ∃ k, k < 1000000 ∧ pollVal B ⟨base, TIMER_HP_INTR_STATUS⟩ s k &&& 4 ≠ 0)) ∧
    ((∀ k, k < 1000000 → pollVal B ⟨base, TIMER_HP_INTR_STATUS⟩ s k &&& 4 = 0) →
      (∀ fuel r, rk_hptimer_v2_wait_sync_uart B F fuel base s = some r →
        r.1 = -1 ∧
        (∀ a, a ≠ (⟨Block.uartdbg, 0x0⟩ : Addr) → r.2.mem a = s.mem a) ∧
        ∃ l1 v l2,
          r.2.log = s.log
            ++ (List.range 1000000).map
                (fun j => Ev.rd ⟨base, TIMER_HP_INTR_STATUS⟩
                  (pollVal B ⟨base, TIMER_HP_INTR_STATUS⟩ s j))
            ++ l1 ++ [Ev.rd ⟨base, TIMER_HP_INTR_STATUS⟩ v] ++ l2 ∧
          writesOf l1
            = uartWrites ("can't wait hptimer int:".toList.map charCode ++ F.dec 2
                ++ [charCode '-']) ∧
          writesOf l2 = uartWrites (F.hex v ++ [charCode '\n']) ∧
          writesOf (logSince s r.2)
            = uartWrites ("can't wait hptimer int:".toList.map charCode ++ F.dec 2
                ++ [charCode '-'] ++ F.hex v ++ [charCode '\n'])) ∧
      ((∀ t : Hw, ∃ k, pollVal B ⟨Block.uartdbg, 0x14⟩ t k &&& 0x40 ≠ 0) →
        ∃ fuel0 r, ∀ fuel, fuel0 ≤ fuel →
          rk_hptimer_v2_wait_sync_uart B F fuel base s = some r)) := by
  have hit : ∀ k, k < 1000000 →
      (∀ j, j < k → pollVal B ⟨base, TIMER_HP_INTR_STATUS⟩ s j &&& 4 = 0) →
      pollVal B ⟨base, TIMER_HP_INTR_STATUS⟩ s k &&& 4 ≠ 0 →
      ∀ fuel, rk_hptimer_v2_wait_sync_uart B F fuel base s
        = some (0, writel B 4 ⟨base, TIMER_HP_INTR_STATUS⟩
                (afterReads B ⟨base, TIMER_HP_INTR_STATUS⟩ (k + 1) s)) :=
    fun k hk hmiss hhit fuel => wait_sync_uart_hit B F fuel base s k hk hmiss hhit
  have miss : (∀ k, k < 1000000 → pollVal B ⟨base, TIMER_HP_INTR_STATUS⟩ s k &&& 4 = 0) →
      ∀ fuel r, rk_hptimer_v2_wait_sync_uart B F fuel base s = some r →
        r.1 = -1 ∧
        (∀ a, a ≠ (⟨Block.uartdbg, 0x0⟩ : Addr) → r.2.mem a = s.mem a) ∧
        ∃ l1 v l2,
          r.2.log = s.log
            ++ (List.range 1000000).map
                (fun j => Ev.rd ⟨base, TIMER_HP_INTR_STATUS⟩
                  (pollVal B ⟨base, TIMER_HP_INTR_STATUS⟩ s j))
            ++ l1 ++ [Ev.rd ⟨base, TIMER_HP_INTR_STATUS⟩ v] ++ l2 ∧
          writesOf l1
            = uartWrites ("can't wait hptimer int:".toList.map charCode ++ F.dec 2
                ++ [charCode '-']) ∧
          writesOf l2 = uartWrites (F.hex v ++ [charCode '\n']) ∧
          writesOf (logSince s r.2)
            = uartWrites ("can't wait hptimer int:".toList.map charCode ++ F.dec 2
                ++ [charCode '-'] ++ F.hex v ++ [charCode '\n']) := by
    intro hmiss fuel r hr
    obtain ⟨h1, hm, l1, v, l2, hl, hw1, hw2, hw, _⟩ :=
      wait_sync_uart_timeout_some B F base s hmiss fuel r hr
    exact ⟨h1, hm, l1, v, l2, hl, hw1, hw2, hw⟩
  refine ⟨hit, ?_, fun hmiss => ⟨miss hmiss, fun hhw => ?_⟩⟩
  · intro fuel r hr
    constructor
    · intro h0
      by_contra hne
      push_neg at hne
      have h1 := (miss (fun k hk => by
        by_contra hk0
        exact hk0 (hne k hk)) fuel r hr).1
      rw [h0] at h1
      exact absurd h1 (by decide)
    · intro hex
      have hk := Nat.find_spec hex
      have hmin : ∀ j, j < Nat.find hex →
          pollVal B ⟨base, TIMER_HP_INTR_STATUS⟩ s j &&& 4 = 0 := by
        intro j hj
        by_contra hne
        exact Nat.find_min hex hj ⟨lt_trans hj hk.1, hne⟩
      rw [hit (Nat.find hex) hk.1 hmin hk.2 fuel] at hr
      rw [← Option.some.inj hr]
  · obtain ⟨f0, r, hr⟩ := wait_int_st_diag_returns B F base 2 hhw
      (afterReads B ⟨base, TIMER_HP_INTR_STATUS⟩ 1000000 s)
    refine ⟨f0, r, fun fuel hf => ?_⟩
    rw [wait_sync_uart_timeout B F fuel base s hmiss]
    exact hr fuel hf

/-- The claim as first worded fails where it says that no register is written
when the wait times out: on a board on which every register reads `0x40` (the
sync bit is never seen, the UART transmitter is always empty)
`rk_hptimer_v2_wait_sync` returns -1 after writing the 31 bytes of
`can't wait hptimer int:2-0x40`, carriage return and line feed to the transmit
register of the debug UART. -/
theorem rk_hptimer_v2_wait_sync_uart_counterexample :
    (∀ k, k < 1000000 →
      pollVal (constBoard 0x40) ⟨Block.hptimer, TIMER_HP_INTR_STATUS⟩ bootHw k &&& 4 = 0) ∧
    ∃ fuel r,
      rk_hptimer_v2_wait_sync_uart (constBoard 0x40) exampleFmt fuel Block.hptimer bootHw
        = some r ∧
      r.1 = -1 ∧
      (writesOf (logSince bootHw r.2)).map Prod.fst
        = List.replicate 31 (⟨Block.uartdbg, 0x0⟩ : Addr) ∧
      (writesOf (logSince bootHw r.2)).map Prod.snd
        = [99, 97, 110, 39, 116, 32, 119, 97, 105, 116, 32, 104, 112, 116, 105, 109, 101, 114,
           32, 105, 110, 116, 58, 50, 45, 48, 120, 52, 48, 13, 10] := by
  have hmiss : ∀ k, k < 1000000 →
      pollVal (constBoard 0x40) ⟨Block.hptimer, TIMER_HP_INTR_STATUS⟩ bootHw k &&& 4 = 0 :=
    fun k _ => by simp only [pollVal, constBoard]; decide
  have hhw : ∀ t : Hw, ∃ k, pollVal (constBoard 0x40) ⟨Block.uartdbg, 0x14⟩ t k &&& 0x40 ≠ 0 :=
    fun t => ⟨0, by simp [pollVal, constBoard]⟩
  obtain ⟨f0, r, hr⟩ := wait_int_st_diag_returns (constBoard 0x40) exampleFmt Block.hptimer 2 hhw
    (afterReads (constBoard 0x40) ⟨Block.hptimer, TIMER_HP_INTR_STATUS⟩ 1000000 bootHw)
  have hr0 := hr f0 (le_refl _)
  rw [← wait_sync_uart_timeout (constBoard 0x40) exampleFmt f0 Block.hptimer bootHw hmiss] at hr0
  obtain ⟨h1, _, l1, v, l2, _, _, _, hw, s3, hv⟩ :=
    wait_sync_uart_timeout_some (constBoard 0x40) exampleFmt Block.hptimer bootHw hmiss f0 r hr0
  have hv40 : v = 0x40 := by
    rw [hv]
    simp [readl, constBoard]
  subst hv40
  refine ⟨hmiss, f0, r, hr0, h1, ?_, ?_⟩
  · rw [hw]
    decide
  · rw [hw]
    decide

/-- C10 on two boards.  With every register reading 4 the first poll sees the
sync bit: the result is 0 after one read and the write of 4, with any fuel.
With every register reading `0x40` the wait times out and, the UART transmitter
being always empty, the function returns with enough fuel. -/
theorem rk_hptimer_v2_wait_sync_uart_witness :
    (∀ fuel, rk_hptimer_v2_wait_sync_uart (constBoard 4) exampleFmt fuel Block.hptimer bootHw
      = some (0, writel (constBoard 4) 4 ⟨Block.hptimer, TIMER_HP_INTR_STATUS⟩
              (afterReads (constBoard 4) ⟨Block.hptimer, TIMER_HP_INTR_STATUS⟩ (0 + 1) bootHw))) ∧
    (∃ fuel0 r, ∀ fuel, fuel0 ≤ fuel →
      rk_hptimer_v2_wait_sync_uart (constBoard 0x40) exampleFmt fuel Block.hptimer bootHw
        = some r) :=
  ⟨(rk_hptimer_v2_wait_sync_uart_spec (constBoard 4) exampleFmt Block.hptimer bootHw).1 0
      (by decide) (fun j hj => absurd hj (Nat.not_lt_zero j)) (by decide),
   ((rk_hptimer_v2_wait_sync_uart_spec (constBoard 0x40) exampleFmt Block.hptimer bootHw).2.2
      (fun k _ => by simp only [pollVal, constBoard]; decide)).2
      (fun t => ⟨0, by simp [pollVal, constBoard]⟩)⟩

/-! ### C26: `rk_hptimer_v2_do_soft_adjust_no_wait` and its diagnostic -/

/-- As long as the wait for the valid latch succeeds nothing is printed, and the
soft adjust is the one computed without the UART. -/
theorem do_soft_adjust_no_wait_uart_of_ok (B : Board) (F : PrintFmt) (fuel : Nat)
    (base : Block) (hf lf : Nat) (s : Hw)
    (hok : (rk_hptimer_wait_begin_end_valid B base HPTIMER_WAIT_MAX_US s).1 = 0) :
    rk_hptimer_get_soft_adjust_delt_cnt_uart B F fuel base hf lf s
        = some (rk_hptimer_get_soft_adjust_delt_cnt B base hf lf s) ∧
      rk_hptimer_v2_do_soft_adjust_no_wait_uart B F fuel base hf lf s
        = some (rk_hptimer_v2_do_soft_adjust_no_wait B base hf lf s) := by
  have hw : rk_hptimer_wait_begin_end_valid_uart B F fuel base HPTIMER_WAIT_MAX_US s
      = some (rk_hptimer_wait_begin_end_valid B base HPTIMER_WAIT_MAX_US s) := by
    unfold rk_hptimer_wait_begin_end_valid at hok ⊢
    unfold rk_hptimer_wait_begin_end_valid_uart rk_hptimer_wait_record_valid_uart
    unfold rk_hptimer_wait_record_valid at hok ⊢
    dsimp only at hok ⊢
    split_ifs at hok ⊢ with h0
    · simp at hok
    · rfl
  have hg : rk_hptimer_get_soft_adjust_delt_cnt_uart B F fuel base hf lf s
      = some (rk_hptimer_get_soft_adjust_delt_cnt B base hf lf s) := by
    unfold rk_hptimer_get_soft_adjust_delt_cnt_uart rk_hptimer_get_soft_adjust_delt_cnt
    rw [hw, Option.some_bind]
    dsimp only
    rw [if_neg (by simp [hok]), if_neg (by simp [hok])]
  refine ⟨hg, ?_⟩
  unfold rk_hptimer_v2_do_soft_adjust_no_wait_uart rk_hptimer_v2_do_soft_adjust_no_wait
  rw [hg, Option.some_bind]

/-- When no poll of the budget shows the latch, the soft adjust is the
diagnostic, sent through the debug UART, and nothing else. -/
theorem do_soft_adjust_no_wait_uart_timeout (B : Board) (F : PrintFmt) (fuel : Nat)
    (base : Block) (hf lf : Nat) (s : Hw)
    (hmiss : ∀ j, j < 1000000 → pollVal B ⟨base, TIMER_HP_BEGIN_END_VALID⟩ s j &&& 3 ≠ 3) :
    rk_hptimer_get_soft_adjust_delt_cnt_uart B F fuel base hf lf s
      = ((rkpm_printstr B fuel "can't wait hptimer begin_end valid:"
            (afterReads B ⟨base, TIMER_HP_BEGIN_END_VALID⟩ 1000000 s)).bind fun s1 =>
          (rkpm_printhex B F fuel (readl B ⟨base, TIMER_HP_BEGIN_END_VALID⟩ s1).1
            (readl B ⟨base, TIMER_HP_BEGIN_END_VALID⟩ s1).2).bind fun s3 =>
          (rkpm_printch B fuel (charCode '\n') s3).bind fun s4 =>
          some (0, s4)) ∧
    rk_hptimer_v2_do_soft_adjust_no_wait_uart B F fuel base hf lf s
      = ((rkpm_printstr B fuel "can't wait hptimer begin_end valid:"
            (afterReads B ⟨base, TIMER_HP_BEGIN_END_VALID⟩ 1000000 s)).bind fun s1 =>
          (rkpm_printhex B F fuel (readl B ⟨base, TIMER_HP_BEGIN_END_VALID⟩ s1).1
            (readl B ⟨base, TIMER_HP_BEGIN_END_VALID⟩ s1).2).bind fun s3 =>
          rkpm_printch B fuel (charCode '\n') s3) := by
  have h := poll_while_timeout B ⟨base, TIMER_HP_BEGIN_END_VALID⟩ (fun v => v &&& 3 != 3) s
    999999 0 (by norm_num) (fun j hj => by simpa using hmiss j hj)
  rw [afterReads_zero, Nat.zero_add] at h
  have hmsk : BIT rk_hptimer_valid_t24_32_begin ||| BIT rk_hptimer_valid_t32_24_end = 3 := by
    decide
  have e : HPTIMER_WAIT_MAX_US = 999999 + 1 := rfl
  have hg : rk_hptimer_get_soft_adjust_delt_cnt_uart B F fuel base hf lf s
      = ((rkpm_printstr B fuel "can't wait hptimer begin_end valid:"
            (afterReads B ⟨base, TIMER_HP_BEGIN_END_VALID⟩ 1000000 s)).bind fun s1 =>
          (rkpm_printhex B F fuel (readl B ⟨base, TIMER_HP_BEGIN_END_VALID⟩ s1).1
            (readl B ⟨base, TIMER_HP_BEGIN_END_VALID⟩ s1).2).bind fun s3 =>
          (rkpm_printch B fuel (charCode '\n') s3).bind fun s4 =>
          some (0, s4)) := by
    simp only [rk_hptimer_get_soft_adjust_delt_cnt_uart, rk_hptimer_wait_begin_end_valid_uart,
      rk_hptimer_wait_record_valid_uart, hmsk, e, h, if_true, Option.bind_assoc,
      Option.some_bind]
    simp
  refine ⟨hg, ?_⟩
  simp only [rk_hptimer_v2_do_soft_adjust_no_wait_uart, hg, Option.bind_assoc, Option.some_bind,
    rk_hptimer_soft_adjust_req, if_true]
  congr 1
  funext s1
  congr 1
  funext s3
  cases rkpm_printch B fuel (charCode '\n') s3 <;> rfl

/-- What the diagnostic of `rk_hptimer_wait_record_valid` leaves behind, whenever
it returns. -/
theorem wait_record_valid_diag_some (B : Board) (F : PrintFmt) (fuel : Nat) (base : Block)
    (s0 r : Hw)
    (h : ((rkpm_printstr B fuel "can't wait hptimer begin_end valid:" s0).bind fun s1 =>
          (rkpm_printhex B F fuel (readl B ⟨base, TIMER_HP_BEGIN_END_VALID⟩ s1).1
            (readl B ⟨base, TIMER_HP_BEGIN_END_VALID⟩ s1).2).bind fun s3 =>
          rkpm_printch B fuel (charCode '\n') s3) = some r) :
    (∀ a, a ≠ (⟨Block.uartdbg, 0x0⟩ : Addr) → r.mem a = s0.mem a) ∧
    ∃ l1 v l2, r.log = s0.log ++ l1 ++ [Ev.rd ⟨base, TIMER_HP_BEGIN_END_VALID⟩ v] ++ l2 ∧
      writesOf l1 = uartWrites ("can't wait hptimer begin_end valid:".toList.map charCode) ∧
      writesOf l2 = uartWrites (F.hex v ++ [charCode '\n']) ∧
      ∃ s1, v = (readl B ⟨base, TIMER_HP_BEGIN_END_VALID⟩ s1).1 := by
  simp only [Option.bind_eq_some] at h
  obtain ⟨s1, h1, s3, h3, h4⟩ := h
  rw [rkpm_printch_eq_printchs] at h4
  obtain ⟨m1, l1, hl1, hw1⟩ := rkpm_printchs_some B fuel _ _ _ h1
  obtain ⟨m3, l3, hl3, hw3⟩ := rkpm_printchs_some B fuel _ _ _ h3
  obtain ⟨m4, l4, hl4, hw4⟩ := rkpm_printchs_some B fuel _ _ _ h4
  refine ⟨fun a ha => ?_, l1, (readl B ⟨base, TIMER_HP_BEGIN_END_VALID⟩ s1).1, l3 ++ l4,
    ?_, hw1, ?_, s1, rfl⟩
  · rw [m4 a ha, m3 a ha, readl_mem, m1 a ha]
  · simp only [hl4, hl3, readl_log, hl1, List.append_assoc, List.cons_append, List.nil_append]
  · rw [writesOf_append, hw3, hw4, uartWrites_append]

/-- On hardware whose transmitter is found empty after finitely many polls, the
diagnostic of `rk_hptimer_wait_record_valid` returns with enough fuel. -/
theorem wait_record_valid_diag_returns (B : Board) (F : PrintFmt) (base : Block)
    (hhw : ∀ t : Hw, ∃ k, pollVal B ⟨Block.uartdbg, 0x14⟩ t k &&& 0x40 ≠ 0) (s0 : Hw) :
    ∃ fuel0 r, ∀ fuel, fuel0 ≤ fuel →
      ((rkpm_printstr B fuel "can't wait hptimer begin_end valid:" s0).bind fun s1 =>
        (rkpm_printhex B F fuel (readl B ⟨base, TIMER_HP_BEGIN_END_VALID⟩ s1).1
          (readl B ⟨base, TIMER_HP_BEGIN_END_VALID⟩ s1).2).bind fun s3 =>
        rkpm_printch B fuel (charCode '\n') s3) = some r := by
  refine returns_bind (fun n => rkpm_printstr B n "can't wait hptimer begin_end valid:" s0) _
    (rkpm_printchs_returns B hhw _ s0) (fun s1 => ?_)
  refine returns_bind (fun n => rkpm_printhex B F n (readl B ⟨base, TIMER_HP_BEGIN_END_VALID⟩ s1).1
      (readl B ⟨base, TIMER_HP_BEGIN_END_VALID⟩ s1).2) _
    (rkpm_printchs_returns B hhw _ _) (fun s3 => ?_)
  exact rkpm_printch_returns B hhw _ s3

/-- What `rk_hptimer_v2_do_soft_adjust_no_wait` has done when it returns after a
wait in which no poll showed the latch. -/
theorem do_soft_adjust_no_wait_uart_timeout_some (B : Board) (F : PrintFmt) (base : Block)
    (hf lf : Nat) (s : Hw)
    (hmiss : ∀ j, j < 1000000 → pollVal B ⟨base, TIMER_HP_BEGIN_END_VALID⟩ s j &&& 3 ≠ 3)
    (fuel : Nat) (r : Hw)
    (hr : rk_hptimer_v2_do_soft_adjust_no_wait_uart B F fuel base hf lf s = some r) :
    (∀ a, a ≠ (⟨Block.uartdbg, 0x0⟩ : Addr) → r.mem a = s.mem a) ∧
    ∃ l1 v l2,
      r.log = s.log
        ++ (List.range 1000000).map
            (fun j => Ev.rd ⟨base, TIMER_HP_BEGIN_END_VALID⟩
              (pollVal B ⟨base, TIMER_HP_BEGIN_END_VALID⟩ s j))
        ++ l1 ++ [Ev.rd ⟨base, TIMER_HP_BEGIN_END_VALID⟩ v] ++ l2 ∧
      writesOf l1 = uartWrites ("can't wait hptimer begin_end valid:".toList.map charCode) ∧
      writesOf l2 = uartWrites (F.hex v ++ [charCode '\n']) ∧
      writesOf (logSince s r)
        = uartWrites ("can't wait hptimer begin_end valid:".toList.map charCode ++ F.hex v
            ++ [charCode '\n']) ∧
      ∃ s1, v = (readl B ⟨base, TIMER_HP_BEGIN_END_VALID⟩ s1).1 := by
  rw [(do_soft_adjust_no_wait_uart_timeout B F fuel base hf lf s hmiss).2] at hr
  obtain ⟨hm, l1, v, l2, hl, hw1, hw2, hv⟩ := wait_record_valid_diag_some B F fuel base _ r hr
  refine ⟨fun a ha => hm a ha, l1, v, l2, ?_, hw1, hw2, ?_, hv⟩
  · rw [hl]
    rfl
  · have hl2 : r.log = s.log ++ ((List.range 1000000).map
          (fun j => Ev.rd ⟨base, TIMER_HP_BEGIN_END_VALID⟩
            (pollVal B ⟨base, TIMER_HP_BEGIN_END_VALID⟩ s j))
        ++ (l1 ++ ([Ev.rd ⟨base, TIMER_HP_BEGIN_END_VALID⟩ v] ++ l2))) := by
      rw [hl]
      simp only [afterReads, List.append_assoc]
    rw [logSince_of_append _ _ _ hl2, writesOf_append, writesOf_map_rd, writesOf_append,
      writesOf_append, hw1, hw2]
    simp only [uartWrites_append, writesOf, List.nil_append, List.append_assoc]

/-- C26, amended: if none of the 1,000,000 polls of `BEGIN_END_VALID` shows
bits 0 and 1 both set, the delta computed by
`rk_hptimer_v2_do_soft_adjust_no_wait` is 0 and no register of the timer is
written: the valid latch is not cleared, the delta registers are not written and
no sync request is issued.  What the function does write is its diagnostic, sent
through the debug UART: the characters of
`"can't wait hptimer begin_end valid:"`, then, after one more read of
`BEGIN_END_VALID`, the characters of its value and a line feed; every register
other than the transmit register of the UART holds what it held, and on hardware
whose UART transmitter is found empty after finitely many polls the function
returns, with enough fuel for the waits of `uart_wrtie_byte`.  Conversely, if a
poll shows the latch and `2 <= lf` (a 32-bit value), the function returns with
any fuel, the delta is at least 2 and the writes are: 3 to `BEGIN_END_VALID`,
the two halves of the delta to the delta registers, and the software sync
request. -/
theorem rk_hptimer_v2_do_soft_adjust_no_wait_uart_spec (B : Board) (F : PrintFmt)
    (base : Block) (hf lf : Nat) (s : Hw) :
    ((∀ j, j < 1000000 → pollVal B ⟨base, TIMER_HP_BEGIN_END_VALID⟩ s j &&& 3 ≠ 3) →
      (∀ fuel d, rk_hptimer_get_soft_adjust_delt_cnt_uart B F fuel base hf lf s = some d →
        d.1 = 0) ∧
      (∀ fuel r, rk_hptimer_v2_do_soft_adjust_no_wait_uart B F fuel base hf lf s = some r →
        (∀ a, a ≠ (⟨Block.uartdbg, 0x0⟩ : Addr) → r.mem a = s.mem a) ∧
        ∃ l1 v l2,
          r.log = s.log
            ++ (List.range 1000000).map
                (fun j => Ev.rd ⟨base, TIMER_HP_BEGIN_END_VALID⟩
                  (pollVal B ⟨base, TIMER_HP_BEGIN_END_VALID⟩ s j))
            ++ l1 ++ [Ev.rd ⟨base, TIMER_HP_BEGIN_END_VALID⟩ v] ++ l2 ∧
          writesOf l1
            = uartWrites ("can't wait hptimer begin_end valid:".toList.map charCode) ∧
          writesOf l2 = uartWrites (F.hex v ++ [charCode '\n']) ∧
          writesOf (logSince s r)
            = uartWrites ("can't wait hptimer begin_end valid:".toList.map charCode ++ F.hex v
                ++ [charCode '\n'])) ∧
      ((∀ t : Hw, ∃ k, pollVal B ⟨Block.uartdbg, 0x14⟩ t k &&& 0x40 ≠ 0) →
        ∃ fuel0 r, ∀ fuel, fuel0 ≤ fuel →
          rk_hptimer_v2_do_soft_adjust_no_wait_uart B F fuel base hf lf s = some r)) ∧
    (∀ k, k < 1000000 →
      (∀ j, j < k → pollVal B ⟨base, TIMER_HP_BEGIN_END_VALID⟩ s j &&& 3 ≠ 3) →
      pollVal B ⟨base, TIMER_HP_BEGIN_END_VALID⟩ s k &&& 3 = 3 →
      2 ≤ lf → lf < 2 ^ 32 →
      ∀ fuel, ∃ d r,
        rk_hptimer_get_soft_adjust_delt_cnt_uart B F fuel base hf lf s = some d ∧
        2 ≤ d.1 ∧
        rk_hptimer_v2_do_soft_adjust_no_wait_uart B F fuel base hf lf s = some r ∧
        writesOf (logSince s r)
          = [(⟨base, TIMER_HP_BEGIN_END_VALID⟩, 3),
             (⟨base, TIMER_HP_T24_DELAT_COUNT0⟩, d.1 % 2 ^ 32),
             (⟨base, TIMER_HP_T24_DELAT_COUNT1⟩, d.1 / 2 ^ 32),
             (⟨base, TIMER_HP_SYNC_REQ⟩, 0x10001)]) := by
  constructor
  · intro hmiss
    refine ⟨fun fuel d hd => ?_, fun fuel r hr => ?_, fun hhw => ?_⟩
    · rw [(do_soft_adjust_no_wait_uart_timeout B F fuel base hf lf s hmiss).1] at hd
      simp only [Option.bind_eq_some] at hd
      obtain ⟨s1, _, s3, _, s4, _, h⟩ := hd
      rw [← Option.some.inj h]
    · obtain ⟨hm, l1, v, l2, hl, hw1, hw2, hw, _⟩ :=
        do_soft_adjust_no_wait_uart_timeout_some B F base hf lf s hmiss fuel r hr
      exact ⟨hm, l1, v, l2, hl, hw1, hw2, hw⟩
    · obtain ⟨f0, r, hr⟩ := wait_record_valid_diag_returns B F base hhw
        (afterReads B ⟨base, TIMER_HP_BEGIN_END_VALID⟩ 1000000 s)
      refine ⟨f0, r, fun fuel hfuel => ?_⟩
      rw [(do_soft_adjust_no_wait_uart_timeout B F fuel base hf lf s hmiss).2]
      exact hr fuel hfuel
  · intro k hk hmiss hhit h2 hlf fuel
    have hmsk : BIT rk_hptimer_valid_t24_32_begin ||| BIT rk_hptimer_valid_t32_24_end = 3 := by
      decide
    have hok : (rk_hptimer_wait_begin_end_valid B base HPTIMER_WAIT_MAX_US s).1 = 0 := by
      rw [rk_hptimer_wait_begin_end_valid, hmsk,
        wait_record_valid_hit B base 3 HPTIMER_WAIT_MAX_US s k
          (by norm_num [HPTIMER_WAIT_MAX_US]) (by simpa [HPTIMER_WAIT_MAX_US] using hk) hmiss hhit]
    obtain ⟨hg, hdo⟩ := do_soft_adjust_no_wait_uart_of_ok B F fuel base hf lf s hok
    obtain ⟨d, l, hd, ⟨b, e, hde⟩, hl, hw⟩ :=
      get_soft_adjust_delt_cnt_hit B base hf lf s k hk hmiss hhit
    have hb := soft_adjust_delta_ge_two hf lf b e h2 hlf
    rw [← hde] at hb
    have hne : d ≠ 0 := by omega
    have hh := load_halves d hb.2
    have hsw : BITS_WITH_WMASK 1 0x1 rk_hptimer_req_sw_sync % 2 ^ 32 = 0x10001 := by decide
    refine ⟨_, _, hg, ?_, hdo, ?_⟩
    · rw [hd]
      exact hb.1
    · rw [hd]
      have hlog : (rk_hptimer_v2_do_soft_adjust_no_wait B base hf lf s).log
          = s.log ++ (l ++ [Ev.wr ⟨base, TIMER_HP_T24_DELAT_COUNT0⟩ (d % 2 ^ 32),
              Ev.wr ⟨base, TIMER_HP_T24_DELAT_COUNT1⟩ (d / 2 ^ 32),
              Ev.wr ⟨base, TIMER_HP_SYNC_REQ⟩ 0x10001]) := by
        simp only [rk_hptimer_v2_do_soft_adjust_no_wait, rk_hptimer_soft_adjust_req, hd, hne,
          if_false, writel_log, hl, hh.1, hh.2, hsw, List.append_assoc, List.cons_append,
          List.nil_append]
      rw [logSince_of_append _ _ _ hlog, writesOf_append, hw]
      rfl

/-- The claim as first worded fails where it says that no register at all is
written when the latch is never seen: on a board on which every register reads
`0x40` (the latch is never valid, the UART transmitter is always empty)
`rk_hptimer_v2_do_soft_adjust_no_wait` returns after writing the 41 bytes of
`can't wait hptimer begin_end valid:0x40`, carriage return and line feed to the
transmit register of the debug UART. -/
theorem rk_hptimer_v2_do_soft_adjust_no_wait_uart_counterexample :
    (∀ j, j < 1000000 →
      pollVal (constBoard 0x40) ⟨Block.hptimer, TIMER_HP_BEGIN_END_VALID⟩ bootHw j &&& 3 ≠ 3) ∧
    ∃ fuel r,
      rk_hptimer_v2_do_soft_adjust_no_wait_uart (constBoard 0x40) exampleFmt fuel Block.hptimer
        24000000 32768 bootHw = some r ∧
      (writesOf (logSince bootHw r)).map Prod.fst
        = List.replicate 41 (⟨Block.uartdbg, 0x0⟩ : Addr) ∧
      (writesOf (logSince bootHw r)).map Prod.snd
        = [99, 97, 110, 39, 116, 32, 119, 97, 105, 116, 32, 104, 112, 116, 105, 109, 101, 114,
           32, 98, 101, 103, 105, 110, 95, 101, 110, 100, 32, 118, 97, 108, 105, 100, 58, 48,
           120, 52, 48, 13, 10] := by
  have hmiss : ∀ j, j < 1000000 →
      pollVal (constBoard 0x40) ⟨Block.hptimer, TIMER_HP_BEGIN_END_VALID⟩ bootHw j &&& 3 ≠ 3 :=
    fun j _ => by simp only [pollVal, constBoard]; decide
  have hhw : ∀ t : Hw, ∃ k, pollVal (constBoard 0x40) ⟨Block.uartdbg, 0x14⟩ t k &&& 0x40 ≠ 0 :=
    fun t => ⟨0, by simp [pollVal, constBoard]⟩
  obtain ⟨f0, r, hr⟩ := wait_record_valid_diag_returns (constBoard 0x40) exampleFmt Block.hptimer
    hhw (afterReads (constBoard 0x40) ⟨Block.hptimer, TIMER_HP_BEGIN_END_VALID⟩ 1000000 bootHw)
  have hr0 := hr f0 (le_refl _)
  rw [← (do_soft_adjust_no_wait_uart_timeout (constBoard 0x40) exampleFmt f0 Block.hptimer
    24000000 32768 bootHw hmiss).2] at hr0
  obtain ⟨_, l1, v, l2, _, _, _, hw, s1, hv⟩ :=
    do_soft_adjust_no_wait_uart_timeout_some (constBoard 0x40) exampleFmt Block.hptimer
      24000000 32768 bootHw hmiss f0 r hr0
  have hv40 : v = 0x40 := by
    rw [hv]
    simp [readl, constBoard]
  subst hv40
  refine ⟨hmiss, f0, r, hr0, ?_, ?_⟩
  · rw [hw]
    decide
  · rw [hw]
    decide

/-- C26 on two boards.  With every register reading `0x40` the latch is never
valid and the UART transmitter is always empty: the function returns with enough
fuel.  With every register reading 3 the first poll shows the latch: the delta
is at least 2 and the four writes are made, with any fuel. -/
theorem rk_hptimer_v2_do_soft_adjust_no_wait_uart_witness :
    (∃ fuel0 r, ∀ fuel, fuel0 ≤ fuel →
      rk_hptimer_v2_do_soft_adjust_no_wait_uart (constBoard 0x40) exampleFmt fuel Block.hptimer
        24000000 32768 bootHw = some r) ∧
    (∃ d r,
      rk_hptimer_get_soft_adjust_delt_cnt_uart (constBoard 3) exampleFmt 0 Block.hptimer
        24000000 32768 bootHw = some d ∧
      2 ≤ d.1 ∧
      rk_hptimer_v2_do_soft_adjust_no_wait_uart (constBoard 3) exampleFmt 0 Block.hptimer
        24000000 32768 bootHw = some r ∧
      writesOf (logSince bootHw r)
        = [(⟨Block.hptimer, TIMER_HP_BEGIN_END_VALID⟩, 3),
           (⟨Block.hptimer, TIMER_HP_T24_DELAT_COUNT0⟩, d.1 % 2 ^ 32),
           (⟨Block.hptimer, TIMER_HP_T24_DELAT_COUNT1⟩, d.1 / 2 ^ 32),
           (⟨Block.hptimer, TIMER_HP_SYNC_REQ⟩, 0x10001)]) :=
  ⟨((rk_hptimer_v2_do_soft_adjust_no_wait_uart_spec (constBoard 0x40) exampleFmt Block.hptimer
      24000000 32768 bootHw).1
      (fun j _ => by simp only [pollVal, constBoard]; decide)).2.2
      (fun t => ⟨0, by simp [pollVal, constBoard]⟩),
   (rk_hptimer_v2_do_soft_adjust_no_wait_uart_spec (constBoard 3) exampleFmt Block.hptimer
      24000000 32768 bootHw).2 0 (by decide) (fun j hj => absurd hj (Nat.not_lt_zero j))
      (by decide) (by decide) (by decide) 0⟩

theorem writesOf_map_wr (l : List (Addr × Nat)) :
    writesOf (l.map (fun w => Ev.wr w.1 w.2)) = l := by
  induction l with
  | nil => rfl
  | cons x l ih => simp [writesOf, ih]

theorem readsOf_map_wr (l : List (Addr × Nat)) :
    readsOf (l.map (fun w => Ev.wr w.1 w.2)) = [] := by
  induction l with
  | nil => rfl
  | cons x l ih => simpa [readsOf] using ih

/-- The accesses of the power-mode chain are the writes of the first mode whose
flag is set. -/
theorem pmu_mode_config_log (B : Board) (D : Defs) (R : RegDefs) (P : CfgDefs) (cfg : Nat)
    (v : PmuVars) :
    (pmu_mode_config B D R P cfg v).hw.log
      = v.hw.log ++ (modeGrfWrites R P (firstPowerMode D cfg)).map (fun w => Ev.wr w.1 w.2) := by
  have h2 : BITS_WITH_WMASK 2 0x3 10 % 2 ^ 32 = 0x0c000800 := by decide
  have h0 : BITS_WITH_WMASK 0 0x3 10 % 2 ^ 32 = 0x0c000000 := by decide
  unfold pmu_mode_config firstPowerMode
  split_ifs with h1 h2' h3 h4 <;>
    simp_all [List.find?_cons, PowerMode.flag, modeGrfWrites, pmu_cfg_armpd, pmu_cfg_armoff,
      pmu_cfg_armoff_logoff, pmu_cfg_armoff_pmuoff]

/-- The local variables after the power-mode chain. -/
theorem pmu_mode_config_words (B : Board) (D : Defs) (R : RegDefs) (P : CfgDefs) (cfg : Nat)
    (v : PmuVars) :
    (pmu_mode_config B D R P cfg v).pmu1_pwr_con
        = modePwrCon P (firstPowerMode D cfg) v.pmu1_pwr_con ∧
    (pmu_mode_config B D R P cfg v).pmu0_pwr_con
        = modePmu0PwrCon P (firstPowerMode D cfg) v.pmu0_pwr_con ∧
    (pmu_mode_config B D R P cfg v).pmu1_cru_con0
        = modeCruCon0 P (firstPowerMode D cfg) v.pmu1_cru_con0 ∧
    (pmu_mode_config B D R P cfg v).pmu1_ddr_con
        = modeDdrCon P (firstPowerMode D cfg) v.pmu1_ddr_con ∧
    (pmu_mode_config B D R P cfg v).clk_freq_khz = v.clk_freq_khz ∧
    (pmu_mode_config B D R P cfg v).pmu1_wkup_con = v.pmu1_wkup_con ∧
    (pmu_mode_config B D R P cfg v).pmu1_scu_con = v.pmu1_scu_con ∧
    (pmu_mode_config B D R P cfg v).pmu2_bus_idle_con = v.pmu2_bus_idle_con ∧
    (pmu_mode_config B D R P cfg v).pmu1_cru_con1 = v.pmu1_cru_con1 ∧
    (pmu_mode_config B D R P cfg v).pmu1_pll_con = v.pmu1_pll_con := by
  unfold pmu_mode_config firstPowerMode
  split_ifs with h1 h2 h3 h4 <;>
    simp_all [List.find?_cons, PowerMode.flag, modePwrCon, modePmu0PwrCon, modeCruCon0,
      modeDdrCon, pmu_cfg_armpd, pmu_cfg_armoff, pmu_cfg_armoff_logoff, pmu_cfg_armoff_pmuoff]

/-- The writes of the block from `pmu count` to `PMU0_PWR_CON`, for any values
of the local variables. -/
theorem pmu_sleep_config_write_writes (B : Board) (D : Defs) (R : RegDefs) (P : CfgDefs)
    (v : PmuVars) :
    writesOf (logSince v.hw (pmu_sleep_config_write B D R P v))
      = [(⟨Block.pmu, P.RV1103B_PMU1_OSC_STABLE_CNT⟩, v.clk_freq_khz * 4 % 2 ^ 32),
         (⟨Block.pmu, P.RV1103B_PMU1_PMIC_STABLE_CNT⟩, v.clk_freq_khz * 6 % 2 ^ 32),
         (⟨Block.pmu, P.RV1103B_PMU1_SLEEP_CNT⟩, v.clk_freq_khz * 15 % 2 ^ 32),
         (⟨Block.pmu, P.RV1103B_PMU1_WAKEUP_RST_CLR_CNT⟩, 0),
         (⟨Block.pmu, P.RV1103B_PMU1_PLL_LOCK_CNT⟩, 1200),
         (⟨Block.pmu, P.RV1103B_PMU1_PWM_SWITCH_CNT⟩, 48000),
         (⟨Block.pmu, P.RV1103B_PMU2_SCU_STABLE_CNT⟩, 0),
         (⟨Block.pmu, P.RV1103B_PMU2_SCU_PWRUP_CNT⟩, 0),
         (⟨Block.pmu, P.RV1103B_PMU2_SCU_PWRDN_CNT⟩, 0),
         (⟨Block.pmu, P.RV1103B_PMU2_SCU_VOLUP_CNT⟩, 0),
         (⟨Block.pmu, P.RV1103B_PMU2_SCU_VOLDN_CNT⟩, 0),
         (⟨Block.pmu, R.RV1103B_PMU1_INT_MASK_CON⟩, 0x00010001),
         (⟨Block.pmu, R.RV1103B_PMU2_SCU_PWR_CON⟩, WITH_16BITS_WMSK v.pmu1_scu_con % 2 ^ 32),
         (⟨Block.pmu, R.RV1103B_PMU2_CLUSTER_IDLE_CON⟩, 0x003f003f),
         (⟨Block.pmu, R.RV1103B_PMU2_CPU_AUTO_PWR_CON⟩,
           (0xffff0000 ||| BIT P.RV1103B_CPU_AUTO_INT_MSK) % 2 ^ 32),
         (⟨Block.pmu, R.RV1103B_PMU2_SCU_AUTO_PWR_CON⟩,
           (0xffff0000 ||| BIT P.RV1103B_SCU_AUTO_INT_MSK) % 2 ^ 32),
         (⟨Block.pmu, R.RV1103B_PMU1_CRU_PWR_CON 0⟩, WITH_16BITS_WMSK v.pmu1_cru_con0 % 2 ^ 32),
         (⟨Block.pmu, R.RV1103B_PMU1_CRU_PWR_CON 1⟩, WITH_16BITS_WMSK v.pmu1_cru_con1 % 2 ^ 32),
         (⟨Block.pmu, R.RV1103B_PMU2_BUS_IDLE_CON⟩,
           WITH_16BITS_WMSK v.pmu2_bus_idle_con % 2 ^ 32),
         (⟨Block.pmu, R.RV1103B_PMU1_DDR_PWR_CON⟩, WITH_16BITS_WMSK v.pmu1_ddr_con % 2 ^ 32),
         (⟨Block.pmu, R.RV1103B_PMU1_PLLPD_CON⟩, WITH_16BITS_WMSK v.pmu1_pll_con % 2 ^ 32),
         (⟨Block.pmu, D.RV1103B_PMU1_WAKEUP_INT_CON⟩, v.pmu1_wkup_con % 2 ^ 32),
         (⟨Block.pmu, R.RV1103B_PMU1_PWR_CON⟩, WITH_16BITS_WMSK v.pmu1_pwr_con % 2 ^ 32),
         (⟨Block.pmu, R.RV1103B_PMU0_PWR_CON⟩, WITH_16BITS_WMSK v.pmu0_pwr_con % 2 ^ 32)] := by
  have h : (pmu_sleep_config_write B D R P v).log = v.hw.log ++
      ((pmu_sleep_config_write B D R P v).log.drop v.hw.log.length) := by
    simp only [pmu_sleep_config_write, writel_log, List.append_assoc, List.drop_left,
      List.cons_append, List.nil_append]
  rw [logSince_of_append _ _ _ h]
  simp only [pmu_sleep_config_write, writel_log, List.append_assoc, List.drop_left,
    List.cons_append, List.nil_append, writesOf]
  rfl

/-- The four mode-dependent words when `pmu_sleep_config()` reaches the comment
`pmu count`: the initial word, through the programming of the first power mode,
and for `PMU1_PWR_CON` through the `RKPM_SLP_LP_PR` block. -/
theorem pmu_sleep_config_vars_words (B : Board) (D : Defs) (R : RegDefs) (P : CfgDefs)
    (slp_cfg : rk_sleep_config) (ddr_data : rv1103b_sleep_ddr_data) (s : Hw) :
    (pmu_sleep_config_vars B D R P slp_cfg ddr_data s).pmu1_pwr_con
      = (if slp_cfg.mode_config &&& P.RKPM_SLP_LP_PR ≠ 0 then
          modePwrCon P (firstPowerMode D slp_cfg.mode_config)
              (BIT P.RV1103B_PMU_PWRMODE1_EN ||| BIT P.RV1103B_PMU_PDPMU1_BYPASS
                ||| BIT P.RV1103B_PMU_SLP_CNT_EN)
            &&& (0xffffffff ^^^ BIT P.RV1103B_PMU_DDR_BYPASS)
        else
          modePwrCon P (firstPowerMode D slp_cfg.mode_config)
            (BIT P.RV1103B_PMU_PWRMODE1_EN ||| BIT P.RV1103B_PMU_PDPMU1_BYPASS
              ||| BIT P.RV1103B_PMU_SLP_CNT_EN)) ∧
    (pmu_sleep_config_vars B D R P slp_cfg ddr_data s).pmu0_pwr_con
      = modePmu0PwrCon P (firstPowerMode D slp_cfg.mode_config) 0 ∧
    (pmu_sleep_config_vars B D R P slp_cfg ddr_data s).pmu1_cru_con0
      = modeCruCon0 P (firstPowerMode D slp_cfg.mode_config)
          (pmu_sleep_config_init B D R P slp_cfg ddr_data s).2.pmu1_cru_con0 ∧
    (pmu_sleep_config_vars B D R P slp_cfg ddr_data s).pmu1_ddr_con
      = modeDdrCon P (firstPowerMode D slp_cfg.mode_config)
          (BIT P.RV1103B_PMU_DDR_SREF_C ||| BIT P.RV1103B_PMU_DDR_SREF_A
            ||| BIT P.RV1103B_PMU_DDRIO_RETON_ENTER ||| BIT P.RV1103B_PMU_DDRIO_RSTIOV_ENTER
            ||| BIT P.RV1103B_PMU_DDRCTL_A_AUTO_GATING ||| BIT P.RV1103B_PMU_DDRCTL_C_AUTO_GATING
            ||| BIT P.RV1103B_PMU_DDRPHY_AUTO_GATING ||| BIT P.RV1103B_PMU_DDRIO_HZ_ENTER) := by
  obtain ⟨h1, h2, h3, h4, _⟩ := pmu_mode_config_words B D R P slp_cfg.mode_config
    (pmu_sleep_config_init B D R P slp_cfg ddr_data s).2
  have hi : (pmu_sleep_config_init B D R P slp_cfg ddr_data s).2.pmu1_pwr_con
        = BIT P.RV1103B_PMU_PWRMODE1_EN ||| BIT P.RV1103B_PMU_PDPMU1_BYPASS
          ||| BIT P.RV1103B_PMU_SLP_CNT_EN ∧
      (pmu_sleep_config_init B D R P slp_cfg ddr_data s).2.pmu0_pwr_con = 0 ∧
      (pmu_sleep_config_init B D R P slp_cfg ddr_data s).2.pmu1_ddr_con
        = BIT P.RV1103B_PMU_DDR_SREF_C ||| BIT P.RV1103B_PMU_DDR_SREF_A
            ||| BIT P.RV1103B_PMU_DDRIO_RETON_ENTER ||| BIT P.RV1103B_PMU_DDRIO_RSTIOV_ENTER
            ||| BIT P.RV1103B_PMU_DDRCTL_A_AUTO_GATING ||| BIT P.RV1103B_PMU_DDRCTL_C_AUTO_GATING
            ||| BIT P.RV1103B_PMU_DDRPHY_AUTO_GATING ||| BIT P.RV1103B_PMU_DDRIO_HZ_ENTER := by
    simp only [pmu_sleep_config_init, Nat.or_zero, and_self]
  rw [hi.1] at h1
  rw [hi.2.1] at h2
  rw [hi.2.2] at h4
  unfold pmu_sleep_config_vars pmu_lp_pr_config
  split_ifs with hlp
  · exact ⟨by simp only [h1, Nat.or_zero], h2, h3, h4⟩
  · exact ⟨h1, h2, h3, h4⟩

/-- When `ARMOFF_LOGOFF` is set the first power mode is never `ARMOFF_PMUOFF`;
it is `ARMOFF_LOGOFF` unless `ARMPD` or `ARMOFF` comes first. -/
theorem firstPowerMode_logoff (D : Defs) (cfg : Nat)
    (hLOG : cfg &&& D.RKPM_SLP_ARMOFF_LOGOFF ≠ 0) :
    (firstPowerMode D cfg = some PowerMode.armpd ∨ firstPowerMode D cfg = some PowerMode.armoff
      ∨ firstPowerMode D cfg = some PowerMode.armoff_logoff) ∧
    (cfg &&& D.RKPM_SLP_ARMPD = 0 → cfg &&& D.RKPM_SLP_ARMOFF = 0 →
      firstPowerMode D cfg = some PowerMode.armoff_logoff) := by
  unfold firstPowerMode
  by_cases h1 : cfg &&& D.RKPM_SLP_ARMPD = 0 <;> by_cases h2 : cfg &&& D.RKPM_SLP_ARMOFF = 0 <;>
    simp [List.find?_cons, PowerMode.flag, h1, h2, hLOG]

/-- C28: `pmu_sleep_config()` applies the programming of exactly the first power
mode, in the order `ARMPD`, `ARMOFF`, `ARMOFF_LOGOFF`, `ARMOFF_PMUOFF`, whose
flag is set in `mode_config`, and of none when no such flag is set.  The chain
makes the GRF writes of that mode and no other access, and changes the words
for `PMU1_PWR_CON`, `PMU0_PWR_CON`, `PMU1_CRU_PWR_CON(0)` and `PMU1_DDR_PWR_CON`
as that mode says, leaving the other local variables alone; these words are
what the function then writes to the PMU.  In particular, when `ARMOFF_LOGOFF`
and `ARMOFF_PMUOFF` are both set, the mode applied is not `ARMOFF_PMUOFF` (it is
`ARMOFF_LOGOFF` unless `ARMPD` or `ARMOFF` is set as well): `PMU0_PWR_CON`
receives `0xffff0000`, no mode bit, and `PDPMU1_BYPASS` is still set in the word
written to `PMU1_PWR_CON`; yet `rv1103b_suspend_enter` calls `pd_pmu1_regs_save`
before the CPU retirement and `pd_pmu1_regs_restore` after it. -/
theorem pmu_sleep_config_power_mode (B : Board) (D : Defs) (R : RegDefs) (P : CfgDefs)
    (slp_cfg old : rk_sleep_config) (ddr_data : rv1103b_sleep_ddr_data) (s : Hw)
    (hpmode : Nat) (v : PmuVars) :
    (writesOf (logSince v.hw (pmu_mode_config B D R P slp_cfg.mode_config v).hw)
        = modeGrfWrites R P (firstPowerMode D slp_cfg.mode_config) ∧
      readsOf (logSince v.hw (pmu_mode_config B D R P slp_cfg.mode_config v).hw) = [] ∧
      (pmu_mode_config B D R P slp_cfg.mode_config v).pmu1_pwr_con
        = modePwrCon P (firstPowerMode D slp_cfg.mode_config) v.pmu1_pwr_con ∧
      (pmu_mode_config B D R P slp_cfg.mode_config v).pmu0_pwr_con
        = modePmu0PwrCon P (firstPowerMode D slp_cfg.mode_config) v.pmu0_pwr_con ∧
      (pmu_mode_config B D R P slp_cfg.mode_config v).pmu1_cru_con0
        = modeCruCon0 P (firstPowerMode D slp_cfg.mode_config) v.pmu1_cru_con0 ∧
      (pmu_mode_config B D R P slp_cfg.mode_config v).pmu1_ddr_con
        = modeDdrCon P (firstPowerMode D slp_cfg.mode_config) v.pmu1_ddr_con ∧
      (pmu_mode_config B D R P slp_cfg.mode_config v).clk_freq_khz = v.clk_freq_khz ∧
      (pmu_mode_config B D R P slp_cfg.mode_config v).pmu1_wkup_con = v.pmu1_wkup_con ∧
      (pmu_mode_config B D R P slp_cfg.mode_config v).pmu1_scu_con = v.pmu1_scu_con ∧
      (pmu_mode_config B D R P slp_cfg.mode_config v).pmu2_bus_idle_con = v.pmu2_bus_idle_con ∧
      (pmu_mode_config B D R P slp_cfg.mode_config v).pmu1_cru_con1 = v.pmu1_cru_con1 ∧
      (pmu_mode_config B D R P slp_cfg.mode_config v).pmu1_pll_con = v.pmu1_pll_con) ∧
    ((pmu_sleep_config_regs B D R P slp_cfg ddr_data s).2
        = pmu_os_reg_config B P
            (pmu_sleep_config_write B D R P (pmu_sleep_config_vars B D R P slp_cfg ddr_data s)) ∧
      (writesOf (logSince (pmu_sleep_config_vars B D R P slp_cfg ddr_data s).hw
          (pmu_sleep_config_write B D R P
            (pmu_sleep_config_vars B D R P slp_cfg ddr_data s)))).drop 16
        = [(⟨Block.pmu, R.RV1103B_PMU1_CRU_PWR_CON 0⟩,
             WITH_16BITS_WMSK (modeCruCon0 P (firstPowerMode D slp_cfg.mode_config)
               (pmu_sleep_config_init B D R P slp_cfg ddr_data s).2.pmu1_cru_con0) % 2 ^ 32),
           (⟨Block.pmu, R.RV1103B_PMU1_CRU_PWR_CON 1⟩,
             WITH_16BITS_WMSK
               (pmu_sleep_config_vars B D R P slp_cfg ddr_data s).pmu1_cru_con1 % 2 ^ 32),
           (⟨Block.pmu, R.RV1103B_PMU2_BUS_IDLE_CON⟩,
             WITH_16BITS_WMSK
               (pmu_sleep_config_vars B D R P slp_cfg ddr_data s).pmu2_bus_idle_con % 2 ^ 32),
           (⟨Block.pmu, R.RV1103B_PMU1_DDR_PWR_CON⟩,
             WITH_16BITS_WMSK (modeDdrCon P (firstPowerMode D slp_cfg.mode_config)
               (BIT P.RV1103B_PMU_DDR_SREF_C ||| BIT P.RV1103B_PMU_DDR_SREF_A
                 ||| BIT P.RV1103B_PMU_DDRIO_RETON_ENTER ||| BIT P.RV1103B_PMU_DDRIO_RSTIOV_ENTER
                 ||| BIT P.RV1103B_PMU_DDRCTL_A_AUTO_GATING
                 ||| BIT P.RV1103B_PMU_DDRCTL_C_AUTO_GATING
                 ||| BIT P.RV1103B_PMU_DDRPHY_AUTO_GATING ||| BIT P.RV1103B_PMU_DDRIO_HZ_ENTER))
               % 2 ^ 32),
           (⟨Block.pmu, R.RV1103B_PMU1_PLLPD_CON⟩,
             WITH_16BITS_WMSK
               (pmu_sleep_config_vars B D R P slp_cfg ddr_data s).pmu1_pll_con % 2 ^ 32),
           (⟨Block.pmu, D.RV1103B_PMU1_WAKEUP_INT_CON⟩,
             (pmu_sleep_config_vars B D R P slp_cfg ddr_data s).pmu1_wkup_con % 2 ^ 32),
           (⟨Block.pmu, R.RV1103B_PMU1_PWR_CON⟩,
             WITH_16BITS_WMSK
               (if slp_cfg.mode_config &&& P.RKPM_SLP_LP_PR ≠ 0 then
                  modePwrCon P (firstPowerMode D slp_cfg.mode_config)
                      (BIT P.RV1103B_PMU_PWRMODE1_EN ||| BIT P.RV1103B_PMU_PDPMU1_BYPASS
                        ||| BIT P.RV1103B_PMU_SLP_CNT_EN)
                    &&& (0xffffffff ^^^ BIT P.RV1103B_PMU_DDR_BYPASS)
                else
                  modePwrCon P (firstPowerMode D slp_cfg.mode_config)
                    (BIT P.RV1103B_PMU_PWRMODE1_EN ||| BIT P.RV1103B_PMU_PDPMU1_BYPASS
                      ||| BIT P.RV1103B_PMU_SLP_CNT_EN)) % 2 ^ 32),
           (⟨Block.pmu, R.RV1103B_PMU0_PWR_CON⟩,
             WITH_16BITS_WMSK (modePmu0PwrCon P (firstPowerMode D slp_cfg.mode_config) 0)
               % 2 ^ 32)]) ∧
    (slp_cfg.mode_config &&& D.RKPM_SLP_ARMOFF_LOGOFF ≠ 0 →
      slp_cfg.mode_config &&& D.RKPM_SLP_ARMOFF_PMUOFF ≠ 0 →
      P.RV1103B_PMU_PDPMU1_BYPASS < 32 →
      P.RV1103B_PMU_PDPMU1_BYPASS ≠ P.RV1103B_PMU_SLP_CNT_EN →
      P.RV1103B_PMU_PDPMU1_BYPASS ≠ P.RV1103B_PMU_DDR_BYPASS →
        firstPowerMode D slp_cfg.mode_config ≠ some PowerMode.armoff_pmuoff ∧
        (slp_cfg.mode_config &&& D.RKPM_SLP_ARMPD = 0 →
          slp_cfg.mode_config &&& D.RKPM_SLP_ARMOFF = 0 →
          firstPowerMode D slp_cfg.mode_config = some PowerMode.armoff_logoff) ∧
        WITH_16BITS_WMSK (modePmu0PwrCon P (firstPowerMode D slp_cfg.mode_config) 0) % 2 ^ 32
          = 0xffff0000 ∧
        (pmu_sleep_config_vars B D R P slp_cfg ddr_data s).pmu1_pwr_con.testBit
          P.RV1103B_PMU_PDPMU1_BYPASS = true ∧
        Call.pd_pmu1_regs_save ∈
          phasesBeforeWfi (rv1103b_suspend_enter D (some slp_cfg) old hpmode).calls ∧
        Call.pd_pmu1_regs_restore ∈
          phasesAfterWfi (rv1103b_suspend_enter D (some slp_cfg) old hpmode).calls) := by
  obtain ⟨w1, w0, wc, wd⟩ := pmu_sleep_config_vars_words B D R P slp_cfg ddr_data s
  refine ⟨⟨?_, ?_, pmu_mode_config_words B D R P slp_cfg.mode_config v⟩, ⟨rfl, ?_⟩, ?_⟩
  · rw [logSince_of_append _ _ _ (pmu_mode_config_log B D R P slp_cfg.mode_config v),
      writesOf_map_wr]
  · rw [logSince_of_append _ _ _ (pmu_mode_config_log B D R P slp_cfg.mode_config v),
      readsOf_map_wr]
  · rw [pmu_sleep_config_write_writes, w1, w0, wc, wd]
    rfl
  · intro hLOG hPMU hb hne1 hne2
    obtain ⟨hcases, hlog⟩ := firstPowerMode_logoff D slp_cfg.mode_config hLOG
    have h32 : (0xffffffff : Nat).testBit P.RV1103B_PMU_PDPMU1_BYPASS = true := by
      rw [show (0xffffffff : Nat) = 2 ^ 32 - 1 by norm_num, Nat.testBit_two_pow_sub_one]
      simpa using hb
    have hbit1 : (2 ^ P.RV1103B_PMU_SLP_CNT_EN).testBit P.RV1103B_PMU_PDPMU1_BYPASS = false := by
      rw [Nat.testBit_two_pow]
      simpa using fun h => hne1 h.symm
    have hbit2 : (2 ^ P.RV1103B_PMU_DDR_BYPASS).testBit P.RV1103B_PMU_PDPMU1_BYPASS = false := by
      rw [Nat.testBit_two_pow]
      simpa using fun h => hne2 h.symm
    have hpwr : (modePwrCon P (firstPowerMode D slp_cfg.mode_config)
        (BIT P.RV1103B_PMU_PWRMODE1_EN ||| BIT P.RV1103B_PMU_PDPMU1_BYPASS
          ||| BIT P.RV1103B_PMU_SLP_CNT_EN)).testBit P.RV1103B_PMU_PDPMU1_BYPASS = true := by
      rcases hcases with h | h | h <;> rw [h] <;>
        simp [modePwrCon, Nat.testBit_and, Nat.testBit_or, Nat.testBit_xor, BIT,
          Nat.one_shiftLeft, Nat.testBit_two_pow_self, h32, hbit1]
    refine ⟨?_, hlog, ?_, ?_, pd_pmu1_regs_in_trace D (some slp_cfg) old hpmode hPMU⟩
    · rcases hcases with h | h | h <;> rw [h] <;> simp
    · rcases hcases with h | h | h <;> rw [h] <;> simp [modePmu0PwrCon, WITH_16BITS_WMSK]
    · rw [w1]
      split_ifs
      · rw [Nat.testBit_and, hpwr, Nat.testBit_xor, h32, BIT, Nat.one_shiftLeft, hbit2]
        rfl
      · exact hpwr

/-- The theorem at `mode_config = ARMOFF_LOGOFF | ARMOFF_PMUOFF` on a board
whose registers are plain storage: the mode applied is `ARMOFF_LOGOFF`, whose
`PMUGRF_SOC_CON6` word is `0xffffffff`; `PMU1_PWR_CON` receives `0xffff0481`
(bit 7, `PDPMU1_BYPASS`, set) and `PMU0_PWR_CON` receives `0xffff0000`, while
the PMU-subdomain regions are saved and restored. -/
theorem pmu_sleep_config_power_mode_witness :
    firstPowerMode exampleDefs 0xc = some PowerMode.armoff_logoff ∧
    (pmu_sleep_config_vars (regfileBoard (fun _ => false)) exampleDefs exampleRegDefs
      exampleCfgDefs (exampleCfg 0xc) bootDdrData bootHw).pmu1_pwr_con.testBit 7 = true ∧
    Call.pd_pmu1_regs_save ∈
      phasesBeforeWfi (rv1103b_suspend_enter exampleDefs (some (exampleCfg 0xc)) (exampleCfg 0)
        0).calls ∧
    Call.pd_pmu1_regs_restore ∈
      phasesAfterWfi (rv1103b_suspend_enter exampleDefs (some (exampleCfg 0xc)) (exampleCfg 0)
        0).calls ∧
    writesOf (logSince bootHw
        (pmu_sleep_config_regs (regfileBoard (fun _ => false)) exampleDefs exampleRegDefs
          exampleCfgDefs (exampleCfg 0xc) bootDdrData bootHw).2)
      = [(⟨Block.pmugrf, 16⟩, 0xffff3fff), (⟨Block.pmugrf, 20⟩, 0x007f007e),
         (⟨Block.pmugrf, 24⟩, 0xffffffff), (⟨Block.pmusgrf, 4⟩, 0x0c000000),
         (⟨Block.pmu, 304⟩, 96000), (⟨Block.pmu, 308⟩, 144000), (⟨Block.pmu, 312⟩, 360000),
         (⟨Block.pmu, 316⟩, 0), (⟨Block.pmu, 320⟩, 1200), (⟨Block.pmu, 324⟩, 48000),
         (⟨Block.pmu, 544⟩, 0), (⟨Block.pmu, 548⟩, 0), (⟨Block.pmu, 552⟩, 0),
         (⟨Block.pmu, 556⟩, 0), (⟨Block.pmu, 560⟩, 0), (⟨Block.pmu, 268⟩, 0x00010001),
         (⟨Block.pmu, 512⟩, 4294901887), (⟨Block.pmu, 516⟩, 0x003f003f),
         (⟨Block.pmu, 520⟩, 4294901761), (⟨Block.pmu, 524⟩, 4294901761),
         (⟨Block.pmu, 272⟩, 4294901903), (⟨Block.pmu, 276⟩, 0xffff0000),
         (⟨Block.pmu, 528⟩, 4294901823), (⟨Block.pmu, 280⟩, 4294902743),
         (⟨Block.pmu, 284⟩, 4294901763), (⟨Block.pmu, 256⟩, 0),
         (⟨Block.pmu, 288⟩, 0xffff0481), (⟨Block.pmu, 0⟩, 0xffff0000),
         (⟨Block.pmugrf, 548⟩, 0x100000)] :=
  have h := (pmu_sleep_config_power_mode (regfileBoard (fun _ => false)) exampleDefs
    exampleRegDefs exampleCfgDefs (exampleCfg 0xc) (exampleCfg 0) bootDdrData bootHw 0
    (pmu_sleep_config_init (regfileBoard (fun _ => false)) exampleDefs exampleRegDefs
      exampleCfgDefs (exampleCfg 0xc) bootDdrData bootHw).2).2.2
    (by decide) (by decide) (by decide) (by decide) (by decide)
  ⟨h.2.1 (by decide) (by decide), h.2.2.2.1, h.2.2.2.2.1, h.2.2.2.2.2, by decide⟩

/-! ### C11: the wait for the PLL lock runs out -/

theorem returns_some {α : Type} (a : α) : ∃ n0 b, ∀ n : Nat, n0 ≤ n → some a = some b :=
  ⟨0, a, fun _ _ => rfl⟩

theorem returns_ite {α : Type} (c : Prop) [Decidable c] (f g : Nat → Option α)
    (hf : ∃ n0 b, ∀ n, n0 ≤ n → f n = some b) (hg : ∃ n0 b, ∀ n, n0 ≤ n → g n = some b) :
    ∃ n0 b, ∀ n, n0 ≤ n → (if c then f n else g n) = some b := by
  by_cases h : c
  · simpa [h] using hf
  · simpa [h] using hg

/-- On hardware whose transmitter is found empty after finitely many polls,
whatever the state, `rk_hptimer_v2_wait_sync` returns with enough fuel, whether
or not the sync bit is seen. -/
theorem wait_sync_uart_returns (B : Board) (F : PrintFmt) (base : Block)
    (hhw : ∀ t : Hw, ∃ k, pollVal B ⟨Block.uartdbg, 0x14⟩ t k &&& 0x40 ≠ 0) (s : Hw) :
    ∃ fuel0 r, ∀ fuel, fuel0 ≤ fuel →
      rk_hptimer_v2_wait_sync_uart B F fuel base s = some r := by
  by_cases hex : ∃ k, k < 1000000 ∧ pollVal B ⟨base, TIMER_HP_INTR_STATUS⟩ s k &&& 4 ≠ 0
  · have hk := Nat.find_spec hex
    have hmin : ∀ j, j < Nat.find hex →
        pollVal B ⟨base, TIMER_HP_INTR_STATUS⟩ s j &&& 4 = 0 := by
      intro j hj
      by_contra hne
      exact Nat.find_min hex hj ⟨lt_trans hj hk.1, hne⟩
    exact ⟨0, _, fun fuel _ => wait_sync_uart_hit B F fuel base s _ hk.1 hmin hk.2⟩
  · have hmiss : ∀ k, k < 1000000 → pollVal B ⟨base, TIMER_HP_INTR_STATUS⟩ s k &&& 4 = 0 := by
      intro k hk
      by_contra hne
      exact hex ⟨k, hk, hne⟩
    obtain ⟨f0, r, hr⟩ := wait_int_st_diag_returns B F base 2 hhw
      (afterReads B ⟨base, TIMER_HP_INTR_STATUS⟩ 1000000 s)
    refine ⟨f0, r, fun fuel hf => ?_⟩
    rw [wait_sync_uart_timeout B F fuel base s hmiss]
    exact hr fuel hf

/-- On such hardware `pm_pll_wait_lock` returns with enough fuel, whatever the
PLL does. -/
theorem pm_pll_wait_lock_uart_returns (B : Board) (R : RegDefs) (F : PrintFmt)
    (hhw : ∀ t : Hw, ∃ k, pollVal B ⟨Block.uartdbg, 0x14⟩ t k &&& 0x40 ≠ 0)
    (pll_id : Nat) (s : Hw) :
    ∃ fuel0 s1, ∀ fuel, fuel0 ≤ fuel → pm_pll_wait_lock_uart B R F fuel pll_id s = some s1 := by
  unfold pm_pll_wait_lock_uart
  dsimp only
  refine returns_ite _ _ _ (returns_some _) (returns_ite _ _ _ ?_ (returns_some _))
  refine returns_bind (fun n => rkpm_printstr B n "Can't wait pll lock: " _) _
    (rkpm_printchs_returns B hhw _ _) (fun s1 => ?_)
  refine returns_bind (fun n => rkpm_printhex B F n pll_id s1) _
    (rkpm_printchs_returns B hhw _ _) (fun s2 => ?_)
  exact rkpm_printch_returns B hhw _ s2

theorem vd_log_regs_restore_head_returns (B : Board) (X : Externs)
    (hhw : ∀ t : Hw, ∃ k, pollVal B ⟨Block.uartdbg, 0x14⟩ t k &&& 0x40 ≠ 0)
    (M : RegionMem) (s : Hw) :
    ∃ fuel0 s1, ∀ fuel, fuel0 ≤ fuel → vd_log_regs_restore_head B X fuel M s = some s1 := by
  unfold vd_log_regs_restore_head
  refine returns_bind (fun n => rkpm_printch B n (charCode 'a') s) _
    (rkpm_printch_returns B hhw _ _) (fun s => ?_)
  refine returns_bind (fun n => rkpm_printch B n (charCode 'b') _) _
    (rkpm_printch_returns B hhw _ _) (fun s => ?_)
  refine returns_bind (fun n => rkpm_printch B n (charCode 'c') _) _
    (rkpm_printch_returns B hhw _ _) (fun s => ?_)
  refine returns_bind (fun n => rkpm_printch B n (charCode 'd') _) _
    (rkpm_printch_returns B hhw _ _) (fun s => ?_)
  exact rkpm_printch_returns B hhw _ _

theorem vd_log_regs_restore_tail_returns (B : Board) (R : RegDefs)
    (hhw : ∀ t : Hw, ∃ k, pollVal B ⟨Block.uartdbg, 0x14⟩ t k &&& 0x40 ≠ 0)
    (cru_mode : Nat) (s : Hw) :
    ∃ fuel0 s1, ∀ fuel, fuel0 ≤ fuel → vd_log_regs_restore_tail B R fuel cru_mode s = some s1 := by
  unfold vd_log_regs_restore_tail
  refine returns_bind (fun n => rkpm_printch B n (charCode 'f') _) _
    (rkpm_printch_returns B hhw _ _) (fun s => ?_)
  exact returns_some _

theorem vd_log_regs_restore_returns (B : Board) (R : RegDefs) (X : Externs) (F : PrintFmt)
    (hhw : ∀ t : Hw, ∃ k, pollVal B ⟨Block.uartdbg, 0x14⟩ t k &&& 0x40 ≠ 0)
    (M : RegionMem) (cru_mode : Nat) (s : Hw) :
    ∃ fuel0 s1, ∀ fuel, fuel0 ≤ fuel →
      vd_log_regs_restore B R X F fuel M cru_mode s = some s1 := by
  unfold vd_log_regs_restore
  refine returns_bind (fun n => vd_log_regs_restore_head B X n M s) _
    (vd_log_regs_restore_head_returns B X hhw M s) (fun s => ?_)
  refine returns_bind (fun n => pm_pll_wait_lock_uart B R F n R.RV1103B_GPLL_ID s) _
    (pm_pll_wait_lock_uart_returns B R F hhw _ s) (fun s => ?_)
  exact vd_log_regs_restore_tail_returns B R hhw cru_mode s

theorem vd_core_regs_restore_returns (B : Board) (X : Externs)
    (hhw : ∀ t : Hw, ∃ k, pollVal B ⟨Block.uartdbg, 0x14⟩ t k &&& 0x40 ≠ 0)
    (M : RegionMem) (s : Hw) :
    ∃ fuel0 s1, ∀ fuel, fuel0 ≤ fuel → vd_core_regs_restore B X fuel M s = some s1 := by
  unfold vd_core_regs_restore
  dsimp only
  refine returns_bind (fun n => rkpm_printch B n (charCode 'a') _) _
    (rkpm_printch_returns B hhw _ _) (fun s => ?_)
  refine returns_bind (fun n => rkpm_printch B n (charCode 'b') _) _
    (rkpm_printch_returns B hhw _ _) (fun s => ?_)
  refine returns_bind (fun n => rkpm_printch B n (charCode 'c') _) _
    (rkpm_printch_returns B hhw _ _) (fun s => ?_)
  refine returns_bind (fun n => rkpm_printch B n (charCode 'd') _) _
    (rkpm_printch_returns B hhw _ _) (fun s => ?_)
  refine returns_bind (fun n => rkpm_printch B n (charCode 'e') _) _
    (rkpm_printch_returns B hhw _ _) (fun s => ?_)
  exact rkpm_printch_returns B hhw _ _

theorem soc_sleep_restore_returns (B : Board) (D : Defs) (R : RegDefs) (P : CfgDefs)
    (Q : ResumeDefs)
    (hhw : ∀ t : Hw, ∃ k, pollVal B ⟨Block.uartdbg, 0x14⟩ t k &&& 0x40 ≠ 0)
    (slp_cfg : rk_sleep_config) (ddr_data : rv1103b_sleep_ddr_data) (s : Hw) :
    ∃ fuel0 r, ∀ fuel, fuel0 ≤ fuel →
      soc_sleep_restore B D R P Q fuel slp_cfg ddr_data s = some r := by
  unfold soc_sleep_restore
  refine returns_bind (fun n => rkpm_printch B n (charCode 'd') _) _
    (rkpm_printch_returns B hhw _ _) (fun s => ?_)
  dsimp only
  refine returns_bind (fun n => rkpm_printch B n (charCode 'c') _) _
    (rkpm_printch_returns B hhw _ _) (fun s1 => ?_)
  refine returns_bind (fun n => rkpm_printch B n (charCode 'b') _) _
    (rkpm_printch_returns B hhw _ _) (fun s2 => ?_)
  refine returns_bind (fun n => rkpm_printch B n (charCode 'a') _) _
    (rkpm_printch_returns B hhw _ _) (fun s3 => ?_)
  exact returns_some _

theorem rv1103b_dbg_pmu_wkup_src_returns (B : Board) (D : Defs) (Q : ResumeDefs) (F : PrintFmt)
    (hhw : ∀ t : Hw, ∃ k, pollVal B ⟨Block.uartdbg, 0x14⟩ t k &&& 0x40 ≠ 0)
    (ddr_data : rv1103b_sleep_ddr_data) (s : Hw) :
    ∃ fuel0 s1, ∀ fuel, fuel0 ≤ fuel →
      rv1103b_dbg_pmu_wkup_src B D Q F fuel ddr_data s = some s1 := by
  have hstr : ∀ (c : Prop) [Decidable c] (str : String) (t : Hw),
      ∃ n0 b, ∀ n, n0 ≤ n → (if c then rkpm_printstr B n str t else some t) = some b :=
    fun c _ str t => returns_ite c _ _ (rkpm_printchs_returns B hhw _ t) (returns_some t)
  unfold rv1103b_dbg_pmu_wkup_src andThen
  dsimp only
  refine returns_bind (fun n => rkpm_printstr B n "wake up status:" s) _
    (rkpm_printchs_returns B hhw _ _) (fun s => ?_)
  refine returns_bind (fun n => rkpm_printhex B F n _ s) _
    (rkpm_printchs_returns B hhw _ _) (fun s => ?_)
  refine returns_bind (fun n => rkpm_printch B n (charCode '\n') s) _
    (rkpm_printch_returns B hhw _ _) (fun s => ?_)
  refine returns_bind _ _ (hstr _ _ s) (fun s => ?_)
  refine returns_bind _ _ (returns_ite _ _ _ ?_ (returns_some s)) (fun s => ?_)
  · refine returns_bind (fun n => rkpm_printstr B n "GPIO0 wakeup:" s) _
      (rkpm_printchs_returns B hhw _ _) (fun s => ?_)
    refine returns_bind (fun n => rkpm_printhex B F n _ s) _
      (rkpm_printchs_returns B hhw _ _) (fun s => ?_)
    exact rkpm_printch_returns B hhw _ s
  refine returns_bind _ _ (hstr _ _ s) (fun s => ?_)
  refine returns_bind _ _ (hstr _ _ s) (fun s => ?_)
  refine returns_bind _ _ (hstr _ _ s) (fun s => ?_)
  refine returns_bind _ _ (hstr _ _ s) (fun s => ?_)
  refine returns_bind _ _ (hstr _ _ s) (fun s => ?_)
  refine returns_bind _ _ (hstr _ _ s) (fun s => ?_)
  refine returns_bind _ _ (hstr _ _ s) (fun s => ?_)
  refine returns_bind _ _ (hstr _ _ s) (fun s => ?_)
  refine returns_bind _ _ (hstr _ _ s) (fun s => ?_)
  refine returns_bind _ _ (hstr _ _ s) (fun s => ?_)
  exact rkpm_printch_returns B hhw _ s

theorem pd_pmu1_regs_restore_returns (B : Board)
    (hhw : ∀ t : Hw, ∃ k, pollVal B ⟨Block.uartdbg, 0x14⟩ t k &&& 0x40 ≠ 0)
    (M : RegionMem) (s : Hw) :
    ∃ fuel0 s1, ∀ fuel, fuel0 ≤ fuel → pd_pmu1_regs_restore B fuel M s = some s1 := by
  unfold pd_pmu1_regs_restore
  refine returns_bind (fun n => rkpm_printch B n (charCode 'a') s) _
    (rkpm_printch_returns B hhw _ _) (fun s => ?_)
  exact rkpm_printch_returns B hhw _ _

/-- On such hardware `rk_hptimer_v2_do_soft_adjust_no_wait` returns with enough
fuel, whether or not the valid latch is seen. -/
theorem do_soft_adjust_no_wait_uart_returns (B : Board) (F : PrintFmt) (base : Block)
    (hhw : ∀ t : Hw, ∃ k, pollVal B ⟨Block.uartdbg, 0x14⟩ t k &&& 0x40 ≠ 0)
    (hf lf : Nat) (s : Hw) :
    ∃ fuel0 r, ∀ fuel, fuel0 ≤ fuel →
      rk_hptimer_v2_do_soft_adjust_no_wait_uart B F fuel base hf lf s = some r := by
  unfold rk_hptimer_v2_do_soft_adjust_no_wait_uart rk_hptimer_get_soft_adjust_delt_cnt_uart
    rk_hptimer_wait_begin_end_valid_uart rk_hptimer_wait_record_valid_uart
  dsimp only
  refine returns_bind _ _ (returns_bind _ _ (returns_ite _ _ _ ?_ (returns_some _))
    (fun w => returns_ite _ _ _ (returns_some _) (returns_some _))) (fun d => returns_some _)
  refine returns_bind (fun n => rkpm_printstr B n "can't wait hptimer begin_end valid:" _) _
    (rkpm_printchs_returns B hhw _ _) (fun s1 => ?_)
  refine returns_bind (fun n => rkpm_printhex B F n _ _) _
    (rkpm_printchs_returns B hhw _ _) (fun s3 => ?_)
  refine returns_bind (fun n => rkpm_printch B n (charCode '\n') s3) _
    (rkpm_printch_returns B hhw _ _) (fun s4 => ?_)
  exact returns_some _

theorem hptimer_resume_uart_returns (B : Board) (D : Defs) (P : CfgDefs) (F : PrintFmt)
    (hhw : ∀ t : Hw, ∃ k, pollVal B ⟨Block.uartdbg, 0x14⟩ t k &&& 0x40 ≠ 0)
    (slp_cfg : rk_sleep_config) (s : Hw) :
    ∃ fuel0 s1, ∀ fuel, fuel0 ≤ fuel →
      hptimer_resume_uart B D P F fuel slp_cfg s = some s1 := by
  unfold hptimer_resume_uart
  dsimp only
  exact returns_ite _ _ _ (returns_ite _ _ _ (returns_some _)
    (returns_ite _ _ _ (do_soft_adjust_no_wait_uart_returns B F Block.hptimer hhw _ _ _)
      (returns_some _))) (returns_some _)

/-- On hardware whose UART transmitter is found empty after finitely many polls,
whatever the state, the resume path returns with enough fuel, whatever the PLL
and the timer do. -/
theorem rv1103b_suspend_enter_resume_returns (B : Board) (D : Defs) (R : RegDefs) (P : CfgDefs)
    (Q : ResumeDefs) (X : Externs) (F : PrintFmt)
    (hhw : ∀ t : Hw, ∃ k, pollVal B ⟨Block.uartdbg, 0x14⟩ t k &&& 0x40 ≠ 0)
    (M : RegionMem) (cru_mode : Nat) (slp_cfg : rk_sleep_config)
    (ddr_data : rv1103b_sleep_ddr_data) (s : Hw) :
    ∃ fuel0 r, ∀ fuel, fuel0 ≤ fuel →
      rv1103b_suspend_enter_resume B D R P Q X F fuel M cru_mode slp_cfg ddr_data s
        = some r := by
  unfold rv1103b_suspend_enter_resume andThen
  refine returns_bind (fun n => hptimer_resume_uart B D P F n slp_cfg s) _
    (hptimer_resume_uart_returns B D P F hhw slp_cfg s) (fun s => ?_)
  refine returns_bind (fun n => rkpm_printch B n (charCode '6') s) _
    (rkpm_printch_returns B hhw _ _) (fun s => ?_)
  refine returns_bind _ _ (returns_ite _ _ _
    (pd_pmu1_regs_restore_returns B hhw M s) (returns_some s)) (fun s => ?_)
  refine returns_bind (fun n => rkpm_printch B n (charCode '5') s) _
    (rkpm_printch_returns B hhw _ _) (fun s => ?_)
  refine returns_bind _ _ (returns_ite _ _ _
    (vd_log_regs_restore_returns B R X F hhw M cru_mode s) (returns_some s)) (fun s => ?_)
  refine returns_bind (fun n => rkpm_printch B n (charCode '4') s) _
    (rkpm_printch_returns B hhw _ _) (fun s => ?_)
  refine returns_bind (fun n => vd_core_regs_restore B X n M s) _
    (vd_core_regs_restore_returns B X hhw M s) (fun s => ?_)
  refine returns_bind (fun n => rkpm_printch B n (charCode '3') s) _
    (rkpm_printch_returns B hhw _ _) (fun s => ?_)
  refine returns_bind (fun n => rkpm_printch B n (charCode '2') _) _
    (rkpm_printch_returns B hhw _ _) (fun s => ?_)
  refine returns_bind (fun n => rkpm_printch B n (charCode '1') _) _
    (rkpm_printch_returns B hhw _ _) (fun s => ?_)
  refine returns_bind (fun n => soc_sleep_restore B D R P Q n slp_cfg ddr_data s) _
    (soc_sleep_restore_returns B D R P Q hhw slp_cfg ddr_data s) (fun r => ?_)
  refine returns_bind (fun n => rkpm_printch B n (charCode '0') r.2) _
    (rkpm_printch_returns B hhw _ _) (fun s => ?_)
  dsimp only
  refine returns_bind _ _ (returns_ite _ _ _ ?_ (returns_some _)) (fun s => ?_)
  · exact returns_bind (fun n => rk_hptimer_v2_wait_sync_uart B F n Block.hptimer _) _
      (wait_sync_uart_returns B F Block.hptimer hhw _) (fun w => returns_some _)
  refine returns_bind (fun n => rkpm_printch B n (charCode '-') _) _
    (rkpm_printch_returns B hhw _ _) (fun s => ?_)
  refine returns_bind (fun n => rv1103b_dbg_irq_finish B D Q F n r.1 _) _
    (rv1103b_dbg_pmu_wkup_src_returns B D Q F hhw r.1 _) (fun s => ?_)
  refine returns_bind (fun n => rkpm_printstr B n "exit sleep\n" _) _
    (rkpm_printchs_returns B hhw _ _) (fun s => ?_)
  exact returns_some _

/-- When the PLL is not powered down and none of the 600001 polls shows the
lock bit, `pm_pll_wait_lock` goes on, after them, with its diagnostic, sent
through the debug UART. -/
theorem pm_pll_wait_lock_uart_exhaust (B : Board) (R : RegDefs) (F : PrintFmt) (fuel : Nat)
    (pll_id : Nat) (s : Hw)
    (hpd : pollVal B ⟨Block.cru, R.RV1103B_CRU_PLL_CON pll_id 1⟩ s 0
      &&& R.CRU_PLLCON1_PWRDOWN = 0)
    (hlock : ∀ j, j < 600001 →
      pollVal B ⟨Block.cru, R.RV1103B_CRU_PLL_CON pll_id 1⟩ s (j + 1)
        &&& R.CRU_PLLCON1_LOCK_STATUS = 0) :
    pm_pll_wait_lock_uart B R F fuel pll_id s
      = ((rkpm_printstr B fuel "Can't wait pll lock: "
            (afterReads B ⟨Block.cru, R.RV1103B_CRU_PLL_CON pll_id 1⟩ 600002 s)).bind fun s1 =>
          (rkpm_printhex B F fuel pll_id s1).bind fun s2 =>
          rkpm_printch B fuel (charCode '\n') s2) := by
  have hr : readl B ⟨Block.cru, R.RV1103B_CRU_PLL_CON pll_id 1⟩ s
      = (pollVal B ⟨Block.cru, R.RV1103B_CRU_PLL_CON pll_id 1⟩ s 0,
          afterReads B ⟨Block.cru, R.RV1103B_CRU_PLL_CON pll_id 1⟩ 1 s) := by
    have h := readl_afterReads B ⟨Block.cru, R.RV1103B_CRU_PLL_CON pll_id 1⟩ 0 s
    rwa [afterReads_zero] at h
  have hloop := pll_wait_loop_exhaust B ⟨Block.cru, R.RV1103B_CRU_PLL_CON pll_id 1⟩
    R.CRU_PLLCON1_LOCK_STATUS s 600000 1 (fun j hj => by
      rw [Nat.add_comm]
      exact hlock j hj)
  have hcast : ((PLL_LOCKED_TIMEOUT : Nat) : Int) = ((600000 : Nat) : Int) := rfl
  unfold pm_pll_wait_lock_uart
  dsimp only
  rw [hr]
  dsimp only
  rw [if_neg (by simp [hpd]), hcast, hloop]
  dsimp only
  rw [if_pos (by decide)]

/-- What the diagnostic of `pm_pll_wait_lock` leaves behind, whenever it
returns. -/
theorem pm_pll_wait_lock_diag_some (B : Board) (F : PrintFmt) (fuel : Nat) (pll_id : Nat)
    (s0 r : Hw)
    (h : ((rkpm_printstr B fuel "Can't wait pll lock: " s0).bind fun s1 =>
          (rkpm_printhex B F fuel pll_id s1).bind fun s2 =>
          rkpm_printch B fuel (charCode '\n') s2) = some r) :
    (∀ a, a ≠ (⟨Block.uartdbg, 0x0⟩ : Addr) → r.mem a = s0.mem a) ∧
    ∃ l, r.log = s0.log ++ l ∧
      writesOf l = uartWrites ("Can't wait pll lock: ".toList.map charCode ++ F.hex pll_id
        ++ [charCode '\n']) := by
  simp only [Option.bind_eq_some] at h
  obtain ⟨s1, h1, s2, h2, h3⟩ := h
  rw [rkpm_printch_eq_printchs] at h3
  obtain ⟨m1, l1, hl1, hw1⟩ := rkpm_printchs_some B fuel _ _ _ h1
  obtain ⟨m2, l2, hl2, hw2⟩ := rkpm_printchs_some B fuel _ _ _ h2
  obtain ⟨m3, l3, hl3, hw3⟩ := rkpm_printchs_some B fuel _ _ _ h3
  refine ⟨fun a ha => ?_, l1 ++ l2 ++ l3, ?_, ?_⟩
  · rw [m3 a ha, m2 a ha, m1 a ha]
  · simp only [hl3, hl2, hl1, List.append_assoc]
  · rw [writesOf_append, writesOf_append, hw1, hw2, hw3, uartWrites_append, uartWrites_append]

theorem log_prefix_writel (B : Board) (v : Nat) (a : Addr) (s : Hw) :
    s.log <+: (writel B v a s).log := by
  rw [writel_log]
  exact List.prefix_append _ _

theorem log_prefix_readl (B : Board) (a : Addr) (s : Hw) : s.log <+: (readl B a s).2.log := by
  rw [readl_log]
  exact List.prefix_append _ _

/-- The last part of `vd_log_regs_restore` starts with the write-back of the
clock mode word. -/
theorem vd_log_regs_restore_tail_first (B : Board) (R : RegDefs) (fuel : Nat) (cru_mode : Nat)
    (s s1 : Hw) (h : vd_log_regs_restore_tail B R fuel cru_mode s = some s1) :
    ∃ l, s1.log = s.log ++ Ev.wr ⟨Block.cru, 0x280⟩ (WITH_16BITS_WMSK cru_mode % 2 ^ 32) :: l := by
  unfold vd_log_regs_restore_tail at h
  simp only [Option.bind_eq_some] at h
  obtain ⟨t, ht, hs1⟩ := h
  rw [rkpm_printch_eq_printchs] at ht
  obtain ⟨_, lf, hlf, _⟩ := rkpm_printchs_some B fuel _ _ _ ht
  have hp : t.log <+: s1.log := by
    rw [← Option.some.inj hs1]
    split_ifs
    · exact ((((((log_prefix_writel B _ _ _).trans (log_prefix_writel B _ _ _)).trans
        (log_prefix_writel B _ _ _)).trans (log_prefix_readl B _ _)).trans
        (log_prefix_writel B _ _ _)).trans (log_prefix_readl B _ _)).trans
        (log_prefix_writel B _ _ _)
    · exact (((((log_prefix_writel B _ _ _).trans (log_prefix_writel B _ _ _)).trans
        (log_prefix_writel B _ _ _)).trans (log_prefix_readl B _ _)).trans
        (log_prefix_writel B _ _ _)).trans (log_prefix_readl B _ _)
    · exact (((((log_prefix_writel B _ _ _).trans (log_prefix_writel B _ _ _)).trans
        (log_prefix_writel B _ _ _)).trans (log_prefix_readl B _ _)).trans
        (log_prefix_readl B _ _)).trans (log_prefix_writel B _ _ _)
    · exact ((((log_prefix_writel B _ _ _).trans (log_prefix_writel B _ _ _)).trans
        (log_prefix_writel B _ _ _)).trans (log_prefix_readl B _ _)).trans
        (log_prefix_readl B _ _)
  obtain ⟨l, hl⟩ := hp
  refine ⟨lf ++ l, ?_⟩
  rw [← hl, hlf, writel_log]
  simp only [List.append_assoc, List.cons_append, List.nil_append]

/-- C11: the resume path of `rv1103b_suspend_enter` when the wait for the GPLL
lock runs out, with `ARMOFF_LOGOFF` or `ARMOFF_PMUOFF` set so that
`vd_log_regs_restore` is called.  On hardware whose UART transmitter is found
empty after finitely many polls, whatever the state, `pm_pll_wait_lock` returns
from every state and the resume path returns, with enough fuel for the waits of
`uart_wrtie_byte`.  Whenever the resume path returns, the value returned is 0
and every statement from `hptimer_resume()` to `return 0` has run, each from the
state left by the one before: `pm_pll_wait_lock(RV1103B_GPLL_ID)` has returned
in the state `sw`, the rest of `vd_log_regs_restore` starts there with the write
of the saved clock mode word to `cru_base + 0x280`, and `vd_core_regs_restore`,
`gpio_restore`, `soc_sleep_restore` and `clock_resume` follow.  If the PLL is not
powered down and none of the 600001 polls of the loop sees the lock bit, what
`pm_pll_wait_lock` has done is exactly 600002 reads of the PLL register and then
its diagnostic, `"Can't wait pll lock: "`, the PLL number and a line feed, sent
through the debug UART, with no other register written. -/
theorem pm_pll_wait_lock_exhausted_resume (B : Board) (D : Defs) (R : RegDefs) (P : CfgDefs)
    (Q : ResumeDefs) (X : Externs) (F : PrintFmt) (M : RegionMem) (cru_mode : Nat)
    (slp_cfg : rk_sleep_config) (ddr_data : rv1103b_sleep_ddr_data) (s : Hw)
    (hmode : slp_cfg.mode_config
      &&& (D.RKPM_SLP_ARMOFF_LOGOFF ||| D.RKPM_SLP_ARMOFF_PMUOFF) ≠ 0) :
    ((∀ t : Hw, ∃ k, pollVal B ⟨Block.uartdbg, 0x14⟩ t k &&& 0x40 ≠ 0) →
      (∀ pll_id t, ∃ fuel0 sw, ∀ fuel, fuel0 ≤ fuel →
        pm_pll_wait_lock_uart B R F fuel pll_id t = some sw) ∧
      (∃ fuel0 r, ∀ fuel, fuel0 ≤ fuel →
        rv1103b_suspend_enter_resume B D R P Q X F fuel M cru_mode slp_cfg ddr_data s
          = some r)) ∧
    (∀ fuel r,
      rv1103b_suspend_enter_resume B D R P Q X F fuel M cru_mode slp_cfg ddr_data s = some r →
      r.1 = 0 ∧
      ∃ sh c6 sp c5 se sw s1 c4 s2 c3 c2 c1 r4 c0 sm cm sf sx,
        hptimer_resume_uart B D P F fuel slp_cfg s = some sh ∧
        rkpm_printch B fuel (charCode '6') sh = some c6 ∧
        (if slp_cfg.mode_config &&& D.RKPM_SLP_ARMOFF_PMUOFF ≠ 0 then
          pd_pmu1_regs_restore B fuel M c6 else some c6) = some sp ∧
        rkpm_printch B fuel (charCode '5') sp = some c5 ∧
        vd_log_regs_restore_head B X fuel M c5 = some se ∧
        pm_pll_wait_lock_uart B R F fuel R.RV1103B_GPLL_ID se = some sw ∧
        ((pollVal B ⟨Block.cru, R.RV1103B_CRU_PLL_CON R.RV1103B_GPLL_ID 1⟩ se 0
              &&& R.CRU_PLLCON1_PWRDOWN = 0 ∧
            ∀ j, j < 600001 →
              pollVal B ⟨Block.cru, R.RV1103B_CRU_PLL_CON R.RV1103B_GPLL_ID 1⟩ se (j + 1)
                &&& R.CRU_PLLCON1_LOCK_STATUS = 0) →
          (∀ a, a ≠ (⟨Block.uartdbg, 0x0⟩ : Addr) → sw.mem a = se.mem a) ∧
          ∃ l, sw.log = se.log
              ++ (List.range 600002).map
                  (fun j => Ev.rd ⟨Block.cru, R.RV1103B_CRU_PLL_CON R.RV1103B_GPLL_ID 1⟩
                    (pollVal B ⟨Block.cru, R.RV1103B_CRU_PLL_CON R.RV1103B_GPLL_ID 1⟩ se j))
              ++ l ∧
            writesOf l = uartWrites ("Can't wait pll lock: ".toList.map charCode
              ++ F.hex R.RV1103B_GPLL_ID ++ [charCode '\n'])) ∧
        vd_log_regs_restore_tail B R fuel cru_mode sw = some s1 ∧
        (∃ l, s1.log = sw.log
          ++ Ev.wr ⟨Block.cru, 0x280⟩ (WITH_16BITS_WMSK cru_mode % 2 ^ 32) :: l) ∧
        rkpm_printch B fuel (charCode '4') s1 = some c4 ∧
        vd_core_regs_restore B X fuel M c4 = some s2 ∧
        rkpm_printch B fuel (charCode '3') s2 = some c3 ∧
        rkpm_printch B fuel (charCode '2')
          (gpio_restore B Q ddr_data (rkpm_regs_rgn_dump c3)) = some c2 ∧
        rkpm_printch B fuel (charCode '1') (plls_resume c2) = some c1 ∧
        soc_sleep_restore B D R P Q fuel slp_cfg ddr_data c1 = some r4 ∧
        rkpm_printch B fuel (charCode '0') r4.2 = some c0 ∧
        (if (rk_hptimer_get_mode B Block.hptimer c0).1 ≠ RK_HPTIMER_NORM_MODE
            ∧ slp_cfg.mode_config &&& D.RKPM_SLP_PMU_PMUALIVE_32K ≠ 0 then
          (rk_hptimer_v2_wait_sync_uart B F fuel Block.hptimer
            (rk_hptimer_get_mode B Block.hptimer c0).2).bind fun w => some w.2
         else some (rk_hptimer_get_mode B Block.hptimer c0).2) = some sm ∧
        rkpm_printch B fuel (charCode '-') (clock_resume B D r4.1 sm) = some cm ∧
        rv1103b_dbg_irq_finish B D Q F fuel r4.1 (X.fiq_glue_resume cm) = some sf ∧
        rkpm_printstr B fuel "exit sleep\n" (X.local_fiq_enable sf) = some sx ∧
        r = (0, r4.1, sx)) := by
  refine ⟨fun hhw => ⟨fun pll_id t => pm_pll_wait_lock_uart_returns B R F hhw pll_id t,
    rv1103b_suspend_enter_resume_returns B D R P Q X F hhw M cru_mode slp_cfg ddr_data s⟩, ?_⟩
  intro fuel r h
  unfold rv1103b_suspend_enter_resume andThen at h
  simp only [if_pos hmode] at h
  simp only [Option.bind_eq_some] at h
  obtain ⟨sh, hsh, c6, hc6, sp, hsp, c5, hc5, s1, hv, c4, hc4, s2, hs2, c3, hc3, c2, hc2,
    c1, hc1, r4, hr4, c0, hc0, sm, hsm, cm, hcm, sf, hsf, sx, hsx, hr⟩ := h
  unfold vd_log_regs_restore at hv
  simp only [Option.bind_eq_some] at hv
  obtain ⟨se, hse, sw, hsw, htail⟩ := hv
  have hr0 : r = (0, r4.1, sx) := (Option.some.inj hr).symm
  refine ⟨by rw [hr0], sh, c6, sp, c5, se, sw, s1, c4, s2, c3, c2, c1, r4, c0, sm, cm, sf, sx,
    hsh, hc6, hsp, hc5, hse, hsw, ?_, htail,
    vd_log_regs_restore_tail_first B R fuel cru_mode sw s1 htail,
    hc4, hs2, hc3, hc2, hc1, hr4, hc0, hsm, hcm, hsf, hsx, hr0⟩
  rintro ⟨hpd, hlock⟩
  rw [pm_pll_wait_lock_uart_exhaust B R F fuel _ se hpd hlock] at hsw
  obtain ⟨hm, l, hl, hw⟩ := pm_pll_wait_lock_diag_some B F fuel _ _ sw hsw
  exact ⟨fun a ha => hm a ha, l, hl, hw⟩

/-- C11 on a board on which every register reads `0x40`: the UART transmitter is
always empty, the GPLL is never powered down and never locked, and the mode is
`ARMOFF_LOGOFF`.  The resume path returns with enough fuel, the value returned
is 0, and `pm_pll_wait_lock` has made its 600002 reads of `0x40` and sent its
diagnostic. -/
theorem pm_pll_wait_lock_exhausted_resume_witness :
    (∃ fuel0 r, ∀ fuel, fuel0 ≤ fuel →
      rv1103b_suspend_enter_resume (constBoard 0x40) exampleDefs exampleRegDefs exampleCfgDefs
        exampleResumeDefs exampleExterns exampleFmt fuel emptyRegionMem 0x3
        (exampleCfg 0x4) bootDdrData bootHw = some r) ∧
    (∀ fuel r,
      rv1103b_suspend_enter_resume (constBoard 0x40) exampleDefs exampleRegDefs exampleCfgDefs
        exampleResumeDefs exampleExterns exampleFmt fuel emptyRegionMem 0x3
        (exampleCfg 0x4) bootDdrData bootHw = some r →
      r.1 = 0 ∧
      ∃ se sw l,
        pm_pll_wait_lock_uart (constBoard 0x40) exampleRegDefs exampleFmt fuel 0 se = some sw ∧
        sw.log = se.log
          ++ (List.range 600002).map (fun _ => Ev.rd ⟨Block.cru, 0x4⟩ 0x40) ++ l ∧
        writesOf l = uartWrites ("Can't wait pll lock: 0x0\n".toList.map charCode) ∧
        ∃ s1 l1, vd_log_regs_restore_tail (constBoard 0x40) exampleRegDefs fuel 0x3 sw = some s1 ∧
          s1.log = sw.log ++ Ev.wr ⟨Block.cru, 0x280⟩ 0xffff0003 :: l1) :=
  ⟨((pm_pll_wait_lock_exhausted_resume (constBoard 0x40) exampleDefs exampleRegDefs
      exampleCfgDefs exampleResumeDefs exampleExterns exampleFmt emptyRegionMem 0x3
      (exampleCfg 0x4) bootDdrData bootHw (by decide)).1
      (fun _ => ⟨0, by simp only [pollVal, constBoard]; decide⟩)).2,
   fun fuel r h => by
    obtain ⟨h0, _, _, _, _, se, sw, s1, _, _, _, _, _, _, _, _, _, _, _, _, _, _, _, _, hsw,
      hex, htail, ⟨l1, hl1⟩, _⟩ :=
      (pm_pll_wait_lock_exhausted_resume (constBoard 0x40) exampleDefs exampleRegDefs
        exampleCfgDefs exampleResumeDefs exampleExterns exampleFmt emptyRegionMem 0x3
        (exampleCfg 0x4) bootDdrData bootHw (by decide)).2 fuel r h
    obtain ⟨_, l, hl, hw⟩ := hex
      ⟨by simp only [pollVal, constBoard]; decide,
       fun j _ => by simp only [pollVal, constBoard]; decide⟩
    exact ⟨h0, se, sw, l, hsw, hl, hw, s1, l1, htail, hl1⟩⟩

end Rv1103b
